import Mathlib

/-!
# Graphics pipeline lookup, creation and background compilation (dxvk_graphics.cpp)

A shallow embedding of `DxvkGraphicsPipeline` from `src/dxvk/dxvk_graphics.cpp`.

* Handles, masks and enum values are natural numbers; `VK_NULL_HANDLE` is `0`.
* The C++ object is split into its constant members (`DxvkGraphicsPipeline`) and
  everything a call can change (`PipelineData`): the two instance containers and the
  observable state of the collaborators (worker queue, state cache, driver call log,
  statistics counter, error log).
* The Vulkan driver is an arbitrary function of the number of earlier driver calls
  and of the request, so that every compile or link may succeed or fail freely.
* Instance pointers are positions in `m_pipelines`, which is modelled as growing at its
  end so that positions stay valid; `findInstance` takes the first match in list order.
* The headers of the repository are not among the sources. What the source takes from
  them is either a parameter (`HeaderDecls`) or a definition whose documentation says
  that it is modelled from the specification.
-/

namespace dxvk

/-! ## Vulkan values -/

abbrev VkPipeline := Nat
abbrev VkResult := Int
abbrev VkFormat := Nat

def VK_NULL_HANDLE : VkPipeline := 0
def VK_SUCCESS : VkResult := 0
def VK_FORMAT_UNDEFINED : VkFormat := 0
def VK_POLYGON_MODE_FILL : Nat := 0
def VK_POLYGON_MODE_LINE : Nat := 1
def VK_CONSERVATIVE_RASTERIZATION_MODE_DISABLED_EXT : Nat := 0
def VK_CONSERVATIVE_RASTERIZATION_MODE_UNDERESTIMATE_EXT : Nat := 2
def VK_SAMPLE_COUNT_1_BIT : Nat := 1
def VK_PRIMITIVE_TOPOLOGY_TRIANGLE_LIST : Nat := 3
def VK_PRIMITIVE_TOPOLOGY_PATCH_LIST : Nat := 10
def VK_PRIMITIVE_TOPOLOGY_MAX_ENUM : Nat := 0x7FFFFFFF
def VK_PIPELINE_CREATE_FAIL_ON_PIPELINE_COMPILE_REQUIRED_BIT : Nat := 0x100
def VK_FORMAT_FEATURE_VERTEX_BUFFER_BIT : Nat := 0x40
def VK_FORMAT_FEATURE_COLOR_ATTACHMENT_BIT : Nat := 0x80
def VK_FORMAT_FEATURE_DEPTH_STENCIL_ATTACHMENT_BIT : Nat := 0x200
def VK_SHADER_STAGE_VERTEX_BIT : Nat := 0x1
def VK_SHADER_STAGE_TESSELLATION_CONTROL_BIT : Nat := 0x2
def VK_SHADER_STAGE_TESSELLATION_EVALUATION_BIT : Nat := 0x4
def VK_SHADER_STAGE_GEOMETRY_BIT : Nat := 0x8
def VK_SHADER_STAGE_FRAGMENT_BIT : Nat := 0x10
def VK_TRUE : Nat := 1
def VK_FALSE : Nat := 0
def VK_COLOR_COMPONENT_R_BIT : Nat := 0x1
def VK_COLOR_COMPONENT_G_BIT : Nat := 0x2
def VK_COLOR_COMPONENT_B_BIT : Nat := 0x4
def VK_COLOR_COMPONENT_A_BIT : Nat := 0x8
def VK_BLEND_FACTOR_ZERO : Nat := 0
def VK_BLEND_FACTOR_ONE : Nat := 1
def VK_BLEND_FACTOR_SRC_COLOR : Nat := 2
def VK_BLEND_FACTOR_ONE_MINUS_SRC_COLOR : Nat := 3
def VK_BLEND_FACTOR_SRC_ALPHA : Nat := 6
def VK_BLEND_FACTOR_ONE_MINUS_SRC_ALPHA : Nat := 7
def VK_BLEND_OP_ADD : Nat := 0
def VK_BLEND_OP_SUBTRACT : Nat := 1
def VK_IMAGE_ASPECT_COLOR_BIT : Nat := 0x1
def VK_IMAGE_ASPECT_DEPTH_BIT : Nat := 0x2
def VK_IMAGE_ASPECT_STENCIL_BIT : Nat := 0x4
def VK_PIPELINE_STAGE_DRAW_INDIRECT_BIT : Nat := 0x2
def VK_PIPELINE_STAGE_VERTEX_INPUT_BIT : Nat := 0x4
def VK_PIPELINE_STAGE_TRANSFORM_FEEDBACK_BIT_EXT : Nat := 0x01000000
def VK_ACCESS_VERTEX_ATTRIBUTE_READ_BIT : Nat := 0x4
def VK_ACCESS_SHADER_WRITE_BIT : Nat := 0x40
def VK_ACCESS_TRANSFORM_FEEDBACK_WRITE_BIT_EXT : Nat := 0x02000000
def VK_ACCESS_TRANSFORM_FEEDBACK_COUNTER_READ_BIT_EXT : Nat := 0x04000000
def VK_ACCESS_TRANSFORM_FEEDBACK_COUNTER_WRITE_BIT_EXT : Nat := 0x08000000
def VK_DYNAMIC_STATE_DEPTH_BIAS : Nat := 3
def VK_DYNAMIC_STATE_BLEND_CONSTANTS : Nat := 4
def VK_DYNAMIC_STATE_DEPTH_BOUNDS : Nat := 5
def VK_DYNAMIC_STATE_STENCIL_REFERENCE : Nat := 8
def VK_DYNAMIC_STATE_CULL_MODE : Nat := 1000267000
def VK_DYNAMIC_STATE_FRONT_FACE : Nat := 1000267001
def VK_DYNAMIC_STATE_VIEWPORT_WITH_COUNT : Nat := 1000267003
def VK_DYNAMIC_STATE_SCISSOR_WITH_COUNT : Nat := 1000267004
def VK_DYNAMIC_STATE_VERTEX_INPUT_BINDING_STRIDE : Nat := 1000267005

/-- Modelled from the spec: the hard limit `MaxNumRenderTargets` that the source uses as a
loop bound; it is declared in `dxvk_limits.h`, which is not among the sources. -/
def MaxNumRenderTargets : Nat := 8

/-- Modelled from the spec: the hard limit `DxvkLimits::MaxNumVertexAttributes`, declared
in `dxvk_limits.h`, which is not among the sources. -/
def MaxNumVertexAttributes : Nat := 32

/-- Modelled from the spec: the hard limit `DxvkLimits::MaxNumVertexBindings`, declared
in `dxvk_limits.h`, which is not among the sources. -/
def MaxNumVertexBindings : Nat := 32

/-- The C++ expression `1u << n` in 32-bit unsigned arithmetic. -/
def bit32 (n : Nat) : Nat := (1 <<< n) % 2 ^ 32

inductive Tristate where
  | Auto
  | False
  | True
  deriving DecidableEq, Repr

inductive DxvkGraphicsPipelineType where
  | BasePipeline
  | FastPipeline
  deriving DecidableEq, Repr

/-! ## The pipeline state vector -/

structure DxvkIaInfo where
  primitiveTopology : Nat := VK_PRIMITIVE_TOPOLOGY_TRIANGLE_LIST
  primitiveRestart : Bool := false
  patchVertexCount : Nat := 0
  deriving DecidableEq, Repr

structure DxvkIlInfo where
  attributeCount : Nat := 0
  bindingCount : Nat := 0
  deriving DecidableEq, Repr

structure DxvkIlAttribute where
  location : Nat := 0
  binding : Nat := 0
  format : VkFormat := 0
  offset : Nat := 0
  deriving DecidableEq, Repr

structure DxvkIlBinding where
  binding : Nat := 0
  stride : Nat := 0
  inputRate : Nat := 0
  divisor : Nat := 0
  deriving DecidableEq, Repr

structure DxvkRsInfo where
  depthClipEnable : Bool := false
  depthBiasEnable : Bool := false
  polygonMode : Nat := VK_POLYGON_MODE_FILL
  conservativeMode : Nat := VK_CONSERVATIVE_RASTERIZATION_MODE_DISABLED_EXT
  sampleCount : Nat := 0
  deriving DecidableEq, Repr

structure DxvkMsInfo where
  sampleCount : Nat := 0
  sampleMask : Nat := 0
  enableAlphaToCoverage : Bool := false
  deriving DecidableEq, Repr

structure DxvkDsInfo where
  enableDepthTest : Bool := false
  enableDepthWrite : Bool := false
  enableDepthBoundsTest : Bool := false
  enableStencilTest : Bool := false
  depthCompareOp : Nat := 0
  deriving DecidableEq, Repr

structure DxvkOmInfo where
  enableLogicOp : Bool := false
  logicOp : Nat := 0
  deriving DecidableEq, Repr

structure DxvkOmAttachmentBlend where
  blendEnable : Bool := false
  srcColorBlendFactor : Nat := 0
  dstColorBlendFactor : Nat := 0
  colorBlendOp : Nat := 0
  srcAlphaBlendFactor : Nat := 0
  dstAlphaBlendFactor : Nat := 0
  alphaBlendOp : Nat := 0
  colorWriteMask : Nat := 0
  deriving DecidableEq, Repr

structure DxvkOmAttachmentSwizzle where
  rIndex : Nat := 0
  gIndex : Nat := 1
  bIndex : Nat := 2
  aIndex : Nat := 3
  deriving DecidableEq, Repr

structure DxvkRtInfo where
  colorFormats : List VkFormat := []
  depthStencilFormat : VkFormat := 0
  depthStencilReadOnlyAspects : Nat := 0
  deriving DecidableEq, Repr

/-- The state vector `DxvkGraphicsPipelineStateInfo`. The fixed-size C arrays are lists
read with a default element, so an entry that is not listed reads as zero-initialised. -/
structure DxvkGraphicsPipelineStateInfo where
  ia : DxvkIaInfo := {}
  il : DxvkIlInfo := {}
  rs : DxvkRsInfo := {}
  ms : DxvkMsInfo := {}
  ds : DxvkDsInfo := {}
  om : DxvkOmInfo := {}
  rt : DxvkRtInfo := {}
  omBlend : List DxvkOmAttachmentBlend := []
  omSwizzle : List DxvkOmAttachmentSwizzle := []
  ilAttributes : List DxvkIlAttribute := []
  ilBindings : List DxvkIlBinding := []
  specConstants : List Nat := []
  deriving DecidableEq, Repr

namespace DxvkGraphicsPipelineStateInfo

/-- The element `state.omBlend[i]`. -/
def omBlendAt (state : DxvkGraphicsPipelineStateInfo) (i : Nat) : DxvkOmAttachmentBlend :=
  state.omBlend.getD i {}

/-- The element `state.omSwizzle[i]`; a zero-initialised swizzle has all indices 0. -/
def omSwizzleAt (state : DxvkGraphicsPipelineStateInfo) (i : Nat) : DxvkOmAttachmentSwizzle :=
  state.omSwizzle.getD i { rIndex := 0, gIndex := 0, bIndex := 0, aIndex := 0 }

/-- The element `state.ilAttributes[i]`. -/
def ilAttributeAt (state : DxvkGraphicsPipelineStateInfo) (i : Nat) : DxvkIlAttribute :=
  state.ilAttributes.getD i {}

/-- The element `state.ilBindings[i]`. -/
def ilBindingAt (state : DxvkGraphicsPipelineStateInfo) (i : Nat) : DxvkIlBinding :=
  state.ilBindings.getD i {}

/-- The call `state.rt.getColorFormat(i)`. -/
def getColorFormat (state : DxvkGraphicsPipelineStateInfo) (i : Nat) : VkFormat :=
  state.rt.colorFormats.getD i VK_FORMAT_UNDEFINED

end DxvkGraphicsPipelineStateInfo

/-! ## Shaders, device and the constant members of the pipeline -/

/-- What the pipeline reads from a `DxvkShader`: `info()`, `flags()` and `getShaderKey()`. -/
structure DxvkShader where
  stage : Nat := VK_SHADER_STAGE_VERTEX_BIT
  inputMask : Nat := 0
  outputMask : Nat := 0
  xfbRasterizedStream : Int := 0
  hasTransformFeedback : Bool := false
  hasSampleRateShading : Bool := false
  shaderKey : Nat := 0
  deriving DecidableEq, Repr

/-- The shader bundle `DxvkGraphicsPipelineShaders`; the vertex shader is required, the
other stages may be absent. -/
structure DxvkGraphicsPipelineShaders where
  vs : DxvkShader := {}
  tcs : Option DxvkShader := none
  tes : Option DxvkShader := none
  gs : Option DxvkShader := none
  fs : Option DxvkShader := none
  deriving DecidableEq, Repr

/-- Modelled from the spec: `DxvkGraphicsPipelineShaders::validate()` is declared in
`dxvk_graphics.h`, which is not among the sources; the spec says it checks that
"shader-stage types match their slots". -/
def DxvkGraphicsPipelineShaders.validate (sh : DxvkGraphicsPipelineShaders) : Bool :=
  sh.vs.stage == VK_SHADER_STAGE_VERTEX_BIT
    && sh.tcs.all (fun x => x.stage == VK_SHADER_STAGE_TESSELLATION_CONTROL_BIT)
    && sh.tes.all (fun x => x.stage == VK_SHADER_STAGE_TESSELLATION_EVALUATION_BIT)
    && sh.gs.all (fun x => x.stage == VK_SHADER_STAGE_GEOMETRY_BIT)
    && sh.fs.all (fun x => x.stage == VK_SHADER_STAGE_FRAGMENT_BIT)

structure VkFormatProperties where
  linearTilingFeatures : Nat := 0
  optimalTilingFeatures : Nat := 0
  bufferFeatures : Nat := 0
  deriving DecidableEq, Repr

/-- What the pipeline reads from `DxvkDevice`: the configuration, feature, extension and
property bits and the adapter's format properties. -/
structure DxvkDevice where
  enableGraphicsPipelineLibrary : Tristate := Tristate.Auto
  canUsePipelineCacheControl : Bool := false
  extConservativeRasterization : Bool := false
  primitiveUnderestimation : Bool := false
  depthBounds : Bool := false
  depthClipEnable : Bool := false
  vertexAttributeInstanceRateDivisor : Bool := false
  formatProperties : VkFormat → VkFormatProperties := fun _ => {}

/-- A pre-compiled shader pipeline library (`DxvkShaderPipelineLibrary`); only its
presence and its module identifier matter here. -/
structure DxvkShaderPipelineLibrary where
  moduleIdentifier : Nat := 0
  deriving DecidableEq, Repr

/-- The pipeline manager as far as `createInstance` uses it. The two library lookups are
given the state vector: building the VertexInput and FragmentOutput sub-vectors from
device, state and shader and deduplicating libraries by sub-vector equality is folded
into these two functions; the result is the library pointer. -/
structure DxvkPipelineManager where
  createVertexInputLibrary : DxvkGraphicsPipelineStateInfo → Nat := fun _ => 0
  createFragmentOutputLibrary : DxvkGraphicsPipelineStateInfo → Nat := fun _ => 0

/-- What the source reads from a `DxvkFormatInfo`. -/
structure DxvkFormatInfo where
  componentMask : Nat := 0
  aspectMask : Nat := 0
  deriving DecidableEq, Repr

/-- The barrier descriptor `DxvkGlobalPipelineBarrier`. -/
structure DxvkGlobalPipelineBarrier where
  stages : Nat := 0
  access : Nat := 0
  deriving DecidableEq, Repr

/-- What the pipeline reads from the binding layout `DxvkBindingLayoutObjects`: its
global barrier. -/
structure DxvkBindingLayoutObjects where
  globalBarrier : DxvkGlobalPipelineBarrier := {}
  deriving DecidableEq, Repr

/-- Declarations the source relies on whose bodies are in headers that are not among the
sources (`dxvk_graphics_state.h`, `dxvk_graphics.h`, `dxvk_format.h`, `util_misc.h`);
they are parameters of the development.

* `useDualSourceBlending` is the method `state.useDualSourceBlending()`.
* `instanceIsCompiling state baseHandle fastHandle` is the value of `isCompiling` that
  the constructor `DxvkGraphicsPipelineInstance(state, baseHandle, fastHandle)` gives a
  new instance.
* `useDynamicVertexStrides`, `useDynamicDepthBias`, `useDynamicDepthBounds`,
  `useDynamicBlendConstants` and `useDynamicStencilRef` are the methods of these names
  of the state vector.
* `lookupFormatInfo format` is the function of this name; `none` is its null result.
* `remapComponentMask mask swizzle` is `util::remapComponentMask(mask, swizzle.mapping())`.
* `remapAlphaToColorBlendFactor` is `util::remapAlphaToColorBlendFactor`. -/
structure HeaderDecls where
  useDualSourceBlending : DxvkGraphicsPipelineStateInfo → Bool
  instanceIsCompiling : DxvkGraphicsPipelineStateInfo → VkPipeline → VkPipeline → Bool
  useDynamicVertexStrides : DxvkGraphicsPipelineStateInfo → Bool
  useDynamicDepthBias : DxvkGraphicsPipelineStateInfo → Bool
  useDynamicDepthBounds : DxvkGraphicsPipelineStateInfo → Bool
  useDynamicBlendConstants : DxvkGraphicsPipelineStateInfo → Bool
  useDynamicStencilRef : DxvkGraphicsPipelineStateInfo → Bool
  lookupFormatInfo : VkFormat → Option DxvkFormatInfo
  remapComponentMask : Nat → DxvkOmAttachmentSwizzle → Nat
  remapAlphaToColorBlendFactor : Nat → Nat

/-- The constant members of a `DxvkGraphicsPipeline` object (set by the constructor and
never written afterwards), together with the header declarations. -/
structure DxvkGraphicsPipeline where
  m_device : DxvkDevice := {}
  m_manager : DxvkPipelineManager := {}
  m_shaders : DxvkGraphicsPipelineShaders := {}
  m_bindings : DxvkBindingLayoutObjects := {}
  m_vsLibrary : Option DxvkShaderPipelineLibrary := none
  m_fsLibrary : Option DxvkShaderPipelineLibrary := none
  hdr : HeaderDecls

/-- The member `m_fsOut`, set in the constructor: the fragment shader's output mask, or 0
without a fragment shader. -/
def DxvkGraphicsPipeline.m_fsOut (this : DxvkGraphicsPipeline) : Nat :=
  match this.m_shaders.fs with
  | some fs => fs.outputMask
  | none => 0

/-- The member `m_barrier` as the constructor leaves it: the global barrier of the
binding layout, with the transform-feedback stages and accesses added when the geometry
shader has the flag `HasTransformFeedback`. -/
def DxvkGraphicsPipeline.m_barrier (this : DxvkGraphicsPipeline) :
    DxvkGlobalPipelineBarrier :=
  let m_barrier := this.m_bindings.globalBarrier
  match this.m_shaders.gs with
  | some gs =>
    if gs.hasTransformFeedback then
      { stages := m_barrier.stages ||| (VK_PIPELINE_STAGE_DRAW_INDIRECT_BIT
          ||| VK_PIPELINE_STAGE_TRANSFORM_FEEDBACK_BIT_EXT)
        access := m_barrier.access ||| (VK_ACCESS_TRANSFORM_FEEDBACK_COUNTER_READ_BIT_EXT
          ||| VK_ACCESS_TRANSFORM_FEEDBACK_COUNTER_WRITE_BIT_EXT
          ||| VK_ACCESS_TRANSFORM_FEEDBACK_WRITE_BIT_EXT) }
    else m_barrier
  | none => m_barrier

/-- The flags `DxvkGraphicsPipelineFlag` of the member `m_flags`. -/
structure DxvkGraphicsPipelineFlags where
  HasTransformFeedback : Bool := false
  HasRasterizerDiscard : Bool := false
  HasStorageDescriptors : Bool := false
  deriving DecidableEq, Repr

/-- The member `m_flags` as the constructor leaves it. -/
def DxvkGraphicsPipeline.m_flags (this : DxvkGraphicsPipeline) : DxvkGraphicsPipelineFlags :=
  { HasTransformFeedback :=
      match this.m_shaders.gs with
      | some gs => gs.hasTransformFeedback
      | none => false
    HasRasterizerDiscard :=
      match this.m_shaders.gs with
      | some gs => decide (gs.xfbRasterizedStream < 0)
      | none => false
    HasStorageDescriptors := this.m_barrier.access &&& VK_ACCESS_SHADER_WRITE_BIT != 0 }

/-! ## Instances and everything a call can change -/

structure DxvkGraphicsPipelineInstance where
  state : DxvkGraphicsPipelineStateInfo := {}
  baseHandle : VkPipeline := VK_NULL_HANDLE
  fastHandle : VkPipeline := VK_NULL_HANDLE
  isCompiling : Bool := false
  deriving DecidableEq, Repr

structure DxvkShaderPipelineLibraryCompileArgs where
  depthClipEnable : Bool := true
  deriving DecidableEq, Repr

structure DxvkGraphicsPipelineBaseInstanceKey where
  viLibrary : Nat := 0
  foLibrary : Nat := 0
  args : DxvkShaderPipelineLibraryCompileArgs := {}
  deriving DecidableEq, Repr

structure DxvkGraphicsPipelineBaseInstance where
  key : DxvkGraphicsPipelineBaseInstanceKey := {}
  handle : VkPipeline := VK_NULL_HANDLE
  deriving DecidableEq, Repr

structure DxvkStateCacheKey where
  vs : Nat := 0
  tcs : Nat := 0
  tes : Nat := 0
  gs : Nat := 0
  fs : Nat := 0
  deriving DecidableEq, Repr

/-- A request to `vkCreateGraphicsPipelines`: a monolithic (optimized) compile of a state
with the given create flags, or the link of a base pipeline from the libraries of a key. -/
inductive DriverCall where
  | optimized (state : DxvkGraphicsPipelineStateInfo) (flags : Nat)
  | link (key : DxvkGraphicsPipelineBaseInstanceKey)
  deriving DecidableEq, Repr

/-- The driver: the result code and the handle it writes, for the request that is made
after the given number of earlier requests. No assumption is made about it. -/
abbrev Driver := Nat → DriverCall → VkResult × VkPipeline

/-- Everything a call on the pipeline can change: the containers `m_pipelines` and
`m_basePipelines`, the jobs handed to `m_workers`, the entries handed to `m_stateCache`,
the requests made to the driver, `m_stats->numGraphicsPipelines`, and the states dumped
by `logPipelineState` at error level. -/
structure PipelineData where
  m_pipelines : List DxvkGraphicsPipelineInstance := []
  m_basePipelines : List DxvkGraphicsPipelineBaseInstance := []
  workerQueue : List DxvkGraphicsPipelineStateInfo := []
  stateCache : List (DxvkStateCacheKey × DxvkGraphicsPipelineStateInfo) := []
  driverCalls : List DriverCall := []
  numGraphicsPipelines : Nat := 0
  errorLog : List DxvkGraphicsPipelineStateInfo := []
  deriving DecidableEq, Repr

/-! ## Validation and base-pipeline eligibility -/

/-- The attribute loop of `validatePipelineState` (untrusted part), run over the declared
attributes with the location mask collected so far: it fails on a location that is
already in the mask, on a binding that is not in the binding mask, and on a format
without vertex-buffer support. -/
def validateAttributes (device : DxvkDevice) (ilBindingMask : Nat) :
    List DxvkIlAttribute → Nat → Bool
  | [], _ => true
  | attr :: rest, ilLocationMask =>
    if ilLocationMask &&& bit32 attr.location != 0 then false
    else if ilBindingMask &&& bit32 attr.binding == 0 then false
    else if (device.formatProperties attr.format).bufferFeatures
        &&& VK_FORMAT_FEATURE_VERTEX_BUFFER_BIT == 0 then false
    else validateAttributes device ilBindingMask rest (ilLocationMask ||| bit32 attr.location)

/-- The method `DxvkGraphicsPipeline::validatePipelineState(state, trusted)`. -/
def validatePipelineState (this : DxvkGraphicsPipeline)
    (state : DxvkGraphicsPipelineStateInfo) (trusted : Bool) : Bool :=
  let hasPatches := state.ia.primitiveTopology == VK_PRIMITIVE_TOPOLOGY_PATCH_LIST
  let hasTcs := this.m_shaders.tcs.isSome
  let hasTes := this.m_shaders.tes.isSome
  if hasPatches != hasTcs || hasPatches != hasTes then false
  else if state.ia.primitiveTopology == VK_PRIMITIVE_TOPOLOGY_MAX_ENUM then false
  else if decide (state.il.attributeCount > MaxNumVertexAttributes)
      || decide (state.il.bindingCount > MaxNumVertexBindings) then false
  else if trusted then true
  else if !this.m_shaders.validate then false
  else
    let ilBindingMask := (List.range state.il.bindingCount).foldl
      (fun mask i => mask ||| bit32 (state.ilBindingAt i).binding) 0
    let attributes := (List.range state.il.attributeCount).map state.ilAttributeAt
    if !validateAttributes this.m_device ilBindingMask attributes 0 then false
    else if state.rs.conservativeMode != VK_CONSERVATIVE_RASTERIZATION_MODE_DISABLED_EXT
        && (!this.m_device.extConservativeRasterization
          || (state.rs.conservativeMode == VK_CONSERVATIVE_RASTERIZATION_MODE_UNDERESTIMATE_EXT
              && !this.m_device.primitiveUnderestimation)) then false
    else if state.ds.enableDepthBoundsTest && !this.m_device.depthBounds then false
    else if state.rt.depthStencilFormat != 0
        && (this.m_device.formatProperties state.rt.depthStencilFormat).optimalTilingFeatures
            &&& VK_FORMAT_FEATURE_DEPTH_STENCIL_ATTACHMENT_BIT == 0 then false
    else (List.range MaxNumRenderTargets).all fun i =>
      let colorFormat := state.getColorFormat i
      !(colorFormat != 0
        && (this.m_device.formatProperties colorFormat).optimalTilingFeatures
            &&& VK_FORMAT_FEATURE_COLOR_ATTACHMENT_BIT == 0)

/-- The method `DxvkGraphicsPipeline::writesRenderTarget(state, target)`. -/
def writesRenderTarget (this : DxvkGraphicsPipeline)
    (state : DxvkGraphicsPipelineStateInfo) (target : Nat) : Bool :=
  if this.m_fsOut &&& bit32 target == 0 then false
  else if (state.omBlendAt target).colorWriteMask == 0 then false
  else state.getColorFormat target != VK_FORMAT_UNDEFINED

/-- Modelled from the spec: `util::isIdentityMapping(swizzle.mapping())`; both functions
are declared in headers that are not among the sources. The spec calls the swizzle "the
identity mapping": every component is taken from its own source index. -/
def isIdentityMapping (swizzle : DxvkOmAttachmentSwizzle) : Bool :=
  swizzle.rIndex == 0 && swizzle.gIndex == 1 && swizzle.bIndex == 2 && swizzle.aIndex == 3

/-- The fragment-shader block of `canCreateBasePipeline`: `true` when one of its three
early `return false` statements is taken. -/
def fragmentShaderBlocksBasePipeline (this : DxvkGraphicsPipeline)
    (state : DxvkGraphicsPipelineStateInfo) (fs : DxvkShader) : Bool :=
  let vsIoMask := this.m_shaders.vs.outputMask
  let fsIoMask := fs.inputMask
  if vsIoMask &&& fsIoMask != fsIoMask then true
  else if this.hdr.useDualSourceBlending state then true
  else if fs.hasSampleRateShading
      && (state.ms.sampleCount != VK_SAMPLE_COUNT_1_BIT
          || state.ms.sampleMask == 0
          || state.ms.enableAlphaToCoverage) then true
  else false

/-- The method `DxvkGraphicsPipeline::canCreateBasePipeline(state)`. -/
def canCreateBasePipeline (this : DxvkGraphicsPipeline)
    (state : DxvkGraphicsPipelineStateInfo) : Bool :=
  if this.m_vsLibrary.isNone || this.m_fsLibrary.isNone then false
  else if state.rs.polygonMode != VK_POLYGON_MODE_FILL
      || state.rs.conservativeMode != VK_CONSERVATIVE_RASTERIZATION_MODE_DISABLED_EXT then false
  else if (match this.m_shaders.fs with
      | some fs => fragmentShaderBlocksBasePipeline this state fs
      | none => false) then false
  else (List.range MaxNumRenderTargets).all fun i =>
    !(writesRenderTarget this state i && !isIdentityMapping (state.omSwizzleAt i))

/-! ## Lookup, creation and compilation -/

/-- The method `DxvkGraphicsPipeline::findInstance(state)`: the first instance of
`m_pipelines` whose state equals `state`, as a position, or `none` for `nullptr`. -/
def findInstance (w : PipelineData) (state : DxvkGraphicsPipelineStateInfo) : Option Nat :=
  w.m_pipelines.findIdx? fun inst => inst.state == state

/-- Dereferences an instance pointer. -/
def instanceAt (w : PipelineData) (ptr : Nat) : DxvkGraphicsPipelineInstance :=
  w.m_pipelines.getD ptr {}

/-- The call `logPipelineState(LogLevel::Error, state)`. -/
def logPipelineState (w : PipelineData) (state : DxvkGraphicsPipelineStateInfo) :
    PipelineData :=
  { w with errorLog := w.errorLog ++ [state] }

/-- The method `DxvkGraphicsPipeline::createOptimizedPipeline(state, flags)`: one request
to the driver; any result other than `VK_SUCCESS` gives `VK_NULL_HANDLE`. -/
def createOptimizedPipeline (drv : Driver) (w : PipelineData)
    (state : DxvkGraphicsPipelineStateInfo) (flags : Nat) : VkPipeline × PipelineData :=
  let request := DriverCall.optimized state flags
  let answer := drv w.driverCalls.length request
  let w1 := { w with driverCalls := w.driverCalls ++ [request] }
  if answer.1 != VK_SUCCESS then (VK_NULL_HANDLE, w1) else (answer.2, w1)

/-- The method `DxvkGraphicsPipeline::createBasePipeline(key)`: one link request to the
driver; the handle the driver wrote is returned whatever the result code is. -/
def createBasePipeline (drv : Driver) (w : PipelineData)
    (key : DxvkGraphicsPipelineBaseInstanceKey) : VkPipeline × PipelineData :=
  let request := DriverCall.link key
  let answer := drv w.driverCalls.length request
  (answer.2, { w with driverCalls := w.driverCalls ++ [request] })

/-- The method `DxvkGraphicsPipeline::createBaseInstance(key)`: the base instance with
this key if there is one, else a newly linked one that is added to `m_basePipelines`. -/
def createBaseInstance (drv : Driver) (w : PipelineData)
    (key : DxvkGraphicsPipelineBaseInstanceKey) :
    DxvkGraphicsPipelineBaseInstance × PipelineData :=
  match w.m_basePipelines.find? fun inst => inst.key == key with
  | some inst => (inst, w)
  | none =>
    let r := createBasePipeline drv w key
    let inst : DxvkGraphicsPipelineBaseInstance := { key := key, handle := r.1 }
    (inst, { r.2 with m_basePipelines := r.2.m_basePipelines ++ [inst] })

/-- The base instance key that `createInstance` builds for a state: the two libraries
from the manager and the depth-clip argument. -/
def baseInstanceKey (this : DxvkGraphicsPipeline) (state : DxvkGraphicsPipelineStateInfo) :
    DxvkGraphicsPipelineBaseInstanceKey :=
  { viLibrary := this.m_manager.createVertexInputLibrary state
    foLibrary := this.m_manager.createFragmentOutputLibrary state
    args := { depthClipEnable := state.rs.depthClipEnable } }

/-- The two handles computed by `createInstance` before the instance is stored
(base handle, fast handle), with the data after the driver requests. -/
def createInstanceHandles (this : DxvkGraphicsPipeline) (drv : Driver) (w : PipelineData)
    (state : DxvkGraphicsPipelineStateInfo) (doCreateBasePipeline : Bool) :
    (VkPipeline × VkPipeline) × PipelineData :=
  if doCreateBasePipeline then
    let cached :=
      if this.m_device.canUsePipelineCacheControl then
        createOptimizedPipeline drv w state
          VK_PIPELINE_CREATE_FAIL_ON_PIPELINE_COMPILE_REQUIRED_BIT
      else (VK_NULL_HANDLE, w)
    if cached.1 == VK_NULL_HANDLE then
      let linked := createBaseInstance drv cached.2 (baseInstanceKey this state)
      ((linked.1.handle, cached.1), linked.2)
    else ((VK_NULL_HANDLE, cached.1), cached.2)
  else
    let compiled := createOptimizedPipeline drv w state 0
    ((VK_NULL_HANDLE, compiled.1), compiled.2)

/-- The method `DxvkGraphicsPipeline::createInstance(state, doCreateBasePipeline)`; the
result is the pointer to the instance that was added at the end of `m_pipelines`. -/
def createInstance (this : DxvkGraphicsPipeline) (drv : Driver) (w : PipelineData)
    (state : DxvkGraphicsPipelineStateInfo) (doCreateBasePipeline : Bool) :
    Nat × PipelineData :=
  let r := createInstanceHandles this drv w state doCreateBasePipeline
  let baseHandle := r.1.1
  let fastHandle := r.1.2
  let w1 :=
    if fastHandle == VK_NULL_HANDLE && baseHandle == VK_NULL_HANDLE then
      logPipelineState r.2 state
    else r.2
  let inst : DxvkGraphicsPipelineInstance :=
    { state := state, baseHandle := baseHandle, fastHandle := fastHandle
      isCompiling := this.hdr.instanceIsCompiling state baseHandle fastHandle }
  (w1.m_pipelines.length,
    { w1 with
      numGraphicsPipelines := w1.numGraphicsPipelines + 1
      m_pipelines := w1.m_pipelines ++ [inst] })

/-- The method `DxvkGraphicsPipeline::writePipelineStateToCache(state)`. -/
def writePipelineStateToCache (this : DxvkGraphicsPipeline) (w : PipelineData)
    (state : DxvkGraphicsPipelineStateInfo) : PipelineData :=
  let key : DxvkStateCacheKey :=
    { vs := this.m_shaders.vs.shaderKey
      tcs := (this.m_shaders.tcs.map (·.shaderKey)).getD 0
      tes := (this.m_shaders.tes.map (·.shaderKey)).getD 0
      gs := (this.m_shaders.gs.map (·.shaderKey)).getD 0
      fs := (this.m_shaders.fs.map (·.shaderKey)).getD 0 }
  { w with stateCache := w.stateCache ++ [(key, state)] }

/-- The call `m_workers->compileGraphicsPipeline(this, state)`: a job for a worker. -/
def enqueueCompile (w : PipelineData) (state : DxvkGraphicsPipelineStateInfo) :
    PipelineData :=
  { w with workerQueue := w.workerQueue ++ [state] }

/-- The mutex-protected block of `getPipelineHandle` (source lines 570 to 587): rescan,
and on a miss create the instance, enqueue the background compile and write the state
cache entry. The result is the instance pointer. -/
def getPipelineHandleLocked (this : DxvkGraphicsPipeline) (drv : Driver) (w : PipelineData)
    (state : DxvkGraphicsPipelineStateInfo) : Nat × PipelineData :=
  match findInstance w state with
  | some ptr => (ptr, w)
  | none =>
    let canBase := canCreateBasePipeline this state
    let r := createInstance this drv w state canBase
    let w1 :=
      if (instanceAt r.2 r.1).fastHandle == VK_NULL_HANDLE then enqueueCompile r.2 state
      else r.2
    let w2 := if !canBase then writePipelineStateToCache this w1 state else w1
    (r.1, w2)

/-- The end of `getPipelineHandle` (source lines 592 to 597): the fast handle of
the instance if it is not null, else its base handle. -/
def loadPipelineHandle (w : PipelineData) (ptr : Nat) :
    VkPipeline × DxvkGraphicsPipelineType :=
  let fastHandle := (instanceAt w ptr).fastHandle
  if fastHandle != VK_NULL_HANDLE then (fastHandle, DxvkGraphicsPipelineType.FastPipeline)
  else ((instanceAt w ptr).baseHandle, DxvkGraphicsPipelineType.BasePipeline)

/-- The method `DxvkGraphicsPipeline::getPipelineHandle(state)`. -/
def getPipelineHandle (this : DxvkGraphicsPipeline) (drv : Driver) (w : PipelineData)
    (state : DxvkGraphicsPipelineStateInfo) :
    (VkPipeline × DxvkGraphicsPipelineType) × PipelineData :=
  match findInstance w state with
  | some ptr => (loadPipelineHandle w ptr, w)
  | none =>
    if !validatePipelineState this state true then
      ((VK_NULL_HANDLE, DxvkGraphicsPipelineType.FastPipeline), w)
    else
      let r := getPipelineHandleLocked this drv w state
      (loadPipelineHandle r.2 r.1, r.2)

/-- The mutex-protected block of `compilePipeline` (source lines 620 to 624). -/
def compilePipelineLocked (this : DxvkGraphicsPipeline) (drv : Driver) (w : PipelineData)
    (state : DxvkGraphicsPipelineStateInfo) : Nat × PipelineData :=
  match findInstance w state with
  | some ptr => (ptr, w)
  | none => createInstance this drv w state false

/-- The write of `isCompiling.exchange(VK_TRUE)` on the instance behind `ptr`. -/
def setIsCompiling (w : PipelineData) (ptr : Nat) : PipelineData :=
  { w with m_pipelines :=
      w.m_pipelines.modify (fun inst => { inst with isCompiling := true }) ptr }

/-- The write of `fastHandle.store(pipeline)` on the instance behind `ptr`. -/
def storeFastHandle (w : PipelineData) (ptr : Nat) (pipeline : VkPipeline) : PipelineData :=
  { w with m_pipelines :=
      w.m_pipelines.modify (fun inst => { inst with fastHandle := pipeline }) ptr }

/-- The election `isCompiling.load() || isCompiling.exchange(VK_TRUE)` of
`compilePipeline`: the first component is `true` when the caller has to exit because the
flag was already set; otherwise the flag is set now. -/
def electCompiler (w : PipelineData) (ptr : Nat) : Bool × PipelineData :=
  if (instanceAt w ptr).isCompiling then (true, w) else (false, setIsCompiling w ptr)

/-- The end of `compilePipeline` (source lines 634 to 638): `fastHandle.store(pipeline)`
and the error log entry when the handle is null. -/
def publishFastHandle (w : PipelineData) (state : DxvkGraphicsPipelineStateInfo)
    (ptr : Nat) (pipeline : VkPipeline) : PipelineData :=
  let w1 := storeFastHandle w ptr pipeline
  if pipeline == VK_NULL_HANDLE then logPipelineState w1 state else w1

/-- The part of `compilePipeline` that follows the lookup (source lines 629 to 638):
election, optimized compile without flags, publication. -/
def compileInstance (drv : Driver) (w : PipelineData)
    (state : DxvkGraphicsPipelineStateInfo) (ptr : Nat) : PipelineData :=
  let e := electCompiler w ptr
  if e.1 then e.2
  else
    let c := createOptimizedPipeline drv e.2 state 0
    publishFastHandle c.2 state ptr c.1

/-- The method `DxvkGraphicsPipeline::compilePipeline(state)`. -/
def compilePipeline (this : DxvkGraphicsPipeline) (drv : Driver) (w : PipelineData)
    (state : DxvkGraphicsPipelineStateInfo) : PipelineData :=
  if this.m_device.enableGraphicsPipelineLibrary == Tristate.True then w
  else
    match findInstance w state with
    | some ptr => compileInstance drv w state ptr
    | none =>
      if !validatePipelineState this state false then w
      else if canCreateBasePipeline this state then w
      else
        let r := compilePipelineLocked this drv w state
        compileInstance drv r.2 state r.1

/-! ## Sequences of calls -/

/-- A call on the pipeline object: `getPipelineHandle(state)` or `compilePipeline(state)`. -/
inductive Call where
  | getHandle (state : DxvkGraphicsPipelineStateInfo)
  | compile (state : DxvkGraphicsPipelineStateInfo)
  deriving DecidableEq, Repr

/-- The data after one call that runs from start to end without interruption. -/
def Call.run (this : DxvkGraphicsPipeline) (drv : Driver) (w : PipelineData) :
    Call → PipelineData
  | Call.getHandle state => (getPipelineHandle this drv w state).2
  | Call.compile state => compilePipeline this drv w state

/-- The data after a sequence of calls, one after the other. -/
def runCalls (this : DxvkGraphicsPipeline) (drv : Driver) (calls : List Call)
    (w : PipelineData) : PipelineData :=
  calls.foldl (Call.run this drv) w

/-- The data after `n` calls of `compilePipeline(state)`. -/
def compilePipelineTimes (this : DxvkGraphicsPipeline) (drv : Driver)
    (state : DxvkGraphicsPipelineStateInfo) : Nat → PipelineData → PipelineData
  | 0, w => w
  | n + 1, w => compilePipelineTimes this drv state n (compilePipeline this drv w state)

/-- The states of the stored instances, in container order. -/
def storedStates (w : PipelineData) : List DxvkGraphicsPipelineStateInfo :=
  w.m_pipelines.map (·.state)

/-- How many driver requests so far were optimized compiles of `state` without create
flags, that is calls `createOptimizedPipeline(state, 0)`. -/
def optimizedCompileCount (w : PipelineData) (state : DxvkGraphicsPipelineStateInfo) : Nat :=
  w.driverCalls.count (DriverCall.optimized state 0)

/-! ## Interleaved calls

Each thread executes one call. A call is cut into the steps between which other threads
can run: the lock-free scan, the mutex-protected block (atomic with respect to other
mutex-protected blocks), the atomic election, the driver compile, the atomic store. -/

/-- Where a thread is inside its call. -/
inductive Thread where
  | getEnter (state : DxvkGraphicsPipelineStateInfo)
  | getLock (state : DxvkGraphicsPipelineStateInfo)
  | getLoad (state : DxvkGraphicsPipelineStateInfo) (ptr : Nat)
  | getReturn (state : DxvkGraphicsPipelineStateInfo)
      (result : VkPipeline × DxvkGraphicsPipelineType)
  | compileEnter (state : DxvkGraphicsPipelineStateInfo)
  | compileLock (state : DxvkGraphicsPipelineStateInfo)
  | compileElect (state : DxvkGraphicsPipelineStateInfo) (ptr : Nat)
  | compileBuild (state : DxvkGraphicsPipelineStateInfo) (ptr : Nat)
  | compilePublish (state : DxvkGraphicsPipelineStateInfo) (ptr : Nat) (pipeline : VkPipeline)
  | compileReturn (state : DxvkGraphicsPipelineStateInfo)
  deriving DecidableEq, Repr

/-- One step of a thread on the shared data. The steps are the pieces of
`getPipelineHandle` and `compilePipeline`, in the order of the source. -/
def Thread.step (this : DxvkGraphicsPipeline) (drv : Driver) (w : PipelineData) :
    Thread → Thread × PipelineData
  | Thread.getEnter state =>
    match findInstance w state with
    | some ptr => (Thread.getLoad state ptr, w)
    | none =>
      if !validatePipelineState this state true then
        (Thread.getReturn state (VK_NULL_HANDLE, DxvkGraphicsPipelineType.FastPipeline), w)
      else (Thread.getLock state, w)
  | Thread.getLock state =>
    let r := getPipelineHandleLocked this drv w state
    (Thread.getLoad state r.1, r.2)
  | Thread.getLoad state ptr => (Thread.getReturn state (loadPipelineHandle w ptr), w)
  | Thread.getReturn state result => (Thread.getReturn state result, w)
  | Thread.compileEnter state =>
    if this.m_device.enableGraphicsPipelineLibrary == Tristate.True then
      (Thread.compileReturn state, w)
    else
      match findInstance w state with
      | some ptr => (Thread.compileElect state ptr, w)
      | none =>
        if !validatePipelineState this state false then (Thread.compileReturn state, w)
        else if canCreateBasePipeline this state then (Thread.compileReturn state, w)
        else (Thread.compileLock state, w)
  | Thread.compileLock state =>
    let r := compilePipelineLocked this drv w state
    (Thread.compileElect state r.1, r.2)
  | Thread.compileElect state ptr =>
    let e := electCompiler w ptr
    if e.1 then (Thread.compileReturn state, e.2) else (Thread.compileBuild state ptr, e.2)
  | Thread.compileBuild state ptr =>
    let c := createOptimizedPipeline drv w state 0
    (Thread.compilePublish state ptr c.1, c.2)
  | Thread.compilePublish state ptr pipeline =>
    (Thread.compileReturn state, publishFastHandle w state ptr pipeline)
  | Thread.compileReturn state => (Thread.compileReturn state, w)

/-- The thread that starts a call. -/
def Call.enter : Call → Thread
  | Call.getHandle state => Thread.getEnter state
  | Call.compile state => Thread.compileEnter state

/-- The shared data and the threads that have entered a call so far. -/
structure System where
  data : PipelineData := {}
  threads : List Thread := []
  deriving DecidableEq, Repr

/-- What happens next: a new thread enters a call, or thread `tid` makes one step. -/
inductive Event where
  | call (c : Call)
  | step (tid : Nat)
  deriving DecidableEq, Repr

/-- The system after one event. -/
def System.next (this : DxvkGraphicsPipeline) (drv : Driver) (sys : System) : Event → System
  | Event.call c => { sys with threads := sys.threads ++ [c.enter] }
  | Event.step tid =>
    match sys.threads[tid]? with
    | none => sys
    | some t =>
      let r := t.step this drv sys.data
      { data := r.2, threads := sys.threads.set tid r.1 }

/-- The system after a schedule, starting from `sys`. -/
def System.run (this : DxvkGraphicsPipeline) (drv : Driver) (events : List Event)
    (sys : System) : System :=
  events.foldl (System.next this drv) sys

/-- A thread stepped `n` times in a row, no other thread running in between. -/
def Thread.steps (this : DxvkGraphicsPipeline) (drv : Driver) :
    Nat → Thread × PipelineData → Thread × PipelineData
  | 0, tw => tw
  | n + 1, tw => Thread.steps this drv n (tw.1.step this drv tw.2)

/-! ## The VertexInput sub-vector -/

def VK_VERTEX_INPUT_RATE_VERTEX : Nat := 0
def VK_VERTEX_INPUT_RATE_INSTANCE : Nat := 1

structure VkVertexInputBindingDescription where
  binding : Nat := 0
  stride : Nat := 0
  inputRate : Nat := 0
  deriving DecidableEq, Repr

structure VkVertexInputAttributeDescription where
  location : Nat := 0
  binding : Nat := 0
  format : VkFormat := 0
  offset : Nat := 0
  deriving DecidableEq, Repr

structure VkVertexInputBindingDivisorDescriptionEXT where
  binding : Nat := 0
  divisor : Nat := 0
  deriving DecidableEq, Repr

structure VkPipelineInputAssemblyStateCreateInfo where
  topology : Nat := 0
  primitiveRestartEnable : Bool := false
  deriving DecidableEq, Repr

/-- The counts of `VkPipelineVertexInputStateCreateInfo`; `chainsDivisorInfo` stands for
`pNext = &viDivisorInfo`. The array pointers are left out: they always point to the
arrays of the sub-vector. -/
structure VkPipelineVertexInputStateCreateInfo where
  chainsDivisorInfo : Bool := false
  vertexBindingDescriptionCount : Nat := 0
  vertexAttributeDescriptionCount : Nat := 0
  deriving DecidableEq, Repr

structure VkPipelineVertexInputDivisorStateCreateInfoEXT where
  vertexBindingDivisorCount : Nat := 0
  deriving DecidableEq, Repr

/-- The sub-vector `DxvkGraphicsPipelineVertexInputState`. The fixed-size arrays are lists
read with a zero element; the default value is the default constructor. -/
structure DxvkGraphicsPipelineVertexInputState where
  iaInfo : VkPipelineInputAssemblyStateCreateInfo := {}
  viInfo : VkPipelineVertexInputStateCreateInfo := {}
  viDivisorInfo : VkPipelineVertexInputDivisorStateCreateInfoEXT := {}
  viBindings : List VkVertexInputBindingDescription := []
  viDivisors : List VkVertexInputBindingDivisorDescriptionEXT := []
  viAttributes : List VkVertexInputAttributeDescription := []
  viUseDynamicVertexStrides : Bool := false
  deriving DecidableEq, Repr

/-- The first loop of the VertexInput constructor (source lines 31 to 34): the mask of
the binding numbers of the attributes whose location is in `attrMask`. -/
def usedBindingMask (state : DxvkGraphicsPipelineStateInfo) (attrMask : Nat) : Nat :=
  (List.range state.il.attributeCount).foldl
    (fun bindingMask i =>
      if attrMask &&& bit32 (state.ilAttributeAt i).location != 0 then
        bindingMask ||| bit32 (state.ilAttributeAt i).binding
      else bindingMask)
    0

/-- The variables that the binding loop of the VertexInput constructor writes: the local
array `viBindingMap` (zero-initialised) and the arrays `viBindings` and `viDivisors`, of
which the entries written so far are listed; `bindingCount` and
`vertexBindingDivisorCount` are their lengths. -/
structure VertexBindingLoop where
  viBindingMap : Nat → Nat := fun _ => 0
  viBindings : List VkVertexInputBindingDescription := []
  viDivisors : List VkVertexInputBindingDivisorDescriptionEXT := []

/-- The body of the binding loop of the VertexInput constructor (source lines 41 to 57)
for the binding at array index `i`. -/
def processVertexBinding (state : DxvkGraphicsPipelineStateInfo) (bindingMask : Nat)
    (loop : VertexBindingLoop) (i : Nat) : VertexBindingLoop :=
  let bindingIndex := (state.ilBindingAt i).binding
  if bindingMask &&& bit32 bindingIndex != 0 then
    let binding : VkVertexInputBindingDescription :=
      { binding := i
        stride := (state.ilBindingAt i).stride
        inputRate := (state.ilBindingAt i).inputRate }
    let loop1 : VertexBindingLoop :=
      { loop with
        viBindingMap := Function.update loop.viBindingMap bindingIndex i
        viBindings := loop.viBindings ++ [binding] }
    if (state.ilBindingAt i).inputRate == VK_VERTEX_INPUT_RATE_INSTANCE
        && (state.ilBindingAt i).divisor != 1 then
      { loop1 with viDivisors := loop1.viDivisors
          ++ [{ binding := i, divisor := (state.ilBindingAt i).divisor }] }
    else loop1
  else loop

/-- The binding loop of the VertexInput constructor (source lines 40 to 58). -/
def processVertexBindings (state : DxvkGraphicsPipelineStateInfo) (bindingMask : Nat) :
    VertexBindingLoop :=
  (List.range state.il.bindingCount).foldl (processVertexBinding state bindingMask) {}

/-- The attribute loop of the VertexInput constructor (source lines 75 to 83): the
entries written to `viAttributes`; `attrCount` is their number. -/
def processVertexAttributes (state : DxvkGraphicsPipelineStateInfo) (attrMask : Nat)
    (viBindingMap : Nat → Nat) : List VkVertexInputAttributeDescription :=
  (List.range state.il.attributeCount).foldl
    (fun viAttributes i =>
      if attrMask &&& bit32 (state.ilAttributeAt i).location != 0 then
        viAttributes ++
          [{ location := (state.ilAttributeAt i).location
             binding := viBindingMap (state.ilAttributeAt i).binding
             format := (state.ilAttributeAt i).format
             offset := (state.ilAttributeAt i).offset }]
      else viAttributes)
    []

/-- The constructor `DxvkGraphicsPipelineVertexInputState(device, state, vs)`. -/
def DxvkGraphicsPipelineVertexInputState.fromState (hdr : HeaderDecls) (device : DxvkDevice)
    (state : DxvkGraphicsPipelineStateInfo) (vs : DxvkShader) :
    DxvkGraphicsPipelineVertexInputState :=
  let attrMask := vs.inputMask
  let bindingMask := usedBindingMask state attrMask
  let loop := processVertexBindings state bindingMask
  let bindingCount := loop.viBindings.length
  let divisorCount := loop.viDivisors.length
  let viAttributes := processVertexAttributes state attrMask loop.viBindingMap
  { iaInfo :=
      { topology := state.ia.primitiveTopology
        primitiveRestartEnable := state.ia.primitiveRestart }
    viInfo :=
      { vertexBindingDescriptionCount := bindingCount
        vertexAttributeDescriptionCount := viAttributes.length
        chainsDivisorInfo := bindingCount != 0 && divisorCount != 0
          && device.vertexAttributeInstanceRateDivisor }
    viDivisorInfo := { vertexBindingDivisorCount := divisorCount }
    viBindings := loop.viBindings
    viDivisors := loop.viDivisors
    viAttributes := viAttributes
    viUseDynamicVertexStrides := hdr.useDynamicVertexStrides state }

namespace DxvkGraphicsPipelineVertexInputState

/-- The element `viBindings[i]`. -/
def bindingAt (a : DxvkGraphicsPipelineVertexInputState) (i : Nat) :
    VkVertexInputBindingDescription :=
  a.viBindings.getD i {}

/-- The element `viAttributes[i]`. -/
def attributeAt (a : DxvkGraphicsPipelineVertexInputState) (i : Nat) :
    VkVertexInputAttributeDescription :=
  a.viAttributes.getD i {}

/-- The element `viDivisors[i]`. -/
def divisorAt (a : DxvkGraphicsPipelineVertexInputState) (i : Nat) :
    VkVertexInputBindingDivisorDescriptionEXT :=
  a.viDivisors.getD i {}

/-- The method `DxvkGraphicsPipelineVertexInputState::eq(other)`. The first two loops run
while `eq` is true; the third loop has no such condition and assigns `eq` in every
iteration, as in the source. -/
def eq (a other : DxvkGraphicsPipelineVertexInputState) : Bool :=
  let eq0 := a.iaInfo.topology == other.iaInfo.topology
    && a.iaInfo.primitiveRestartEnable == other.iaInfo.primitiveRestartEnable
    && a.viInfo.vertexBindingDescriptionCount == other.viInfo.vertexBindingDescriptionCount
    && a.viInfo.vertexAttributeDescriptionCount == other.viInfo.vertexAttributeDescriptionCount
    && a.viDivisorInfo.vertexBindingDivisorCount
        == other.viDivisorInfo.vertexBindingDivisorCount
    && a.viUseDynamicVertexStrides == other.viUseDynamicVertexStrides
  let eq1 := (List.range a.viInfo.vertexBindingDescriptionCount).foldl
    (fun eq i =>
      if eq then
        (a.bindingAt i).binding == (other.bindingAt i).binding
          && (a.bindingAt i).stride == (other.bindingAt i).stride
          && (a.bindingAt i).inputRate == (other.bindingAt i).inputRate
      else eq)
    eq0
  let eq2 := (List.range a.viInfo.vertexAttributeDescriptionCount).foldl
    (fun eq i =>
      if eq then
        (a.attributeAt i).location == (other.attributeAt i).location
          && (a.attributeAt i).binding == (other.attributeAt i).binding
          && (a.attributeAt i).format == (other.attributeAt i).format
          && (a.attributeAt i).offset == (other.attributeAt i).offset
      else eq)
    eq1
  (List.range a.viDivisorInfo.vertexBindingDivisorCount).foldl
    (fun _ i =>
      (a.divisorAt i).binding == (other.divisorAt i).binding
        && (a.divisorAt i).divisor == (other.divisorAt i).divisor)
    eq2

end DxvkGraphicsPipelineVertexInputState

/-! ## Hashing -/

/-- The class `DxvkHashState` is declared in a header that is not among the sources; it
is a parameter: the value a fresh hash state holds and what `add(hash)` makes of the
held value. -/
structure DxvkHashState where
  start : Nat
  add : Nat → Nat → Nat

/-- The cast `uint32_t(x)`. -/
def u32 (x : Nat) : Nat := x % 2 ^ 32

/-- The values that `DxvkGraphicsPipelineVertexInputState::hash()` passes to
`hash.add`, in the order of the calls. -/
def DxvkGraphicsPipelineVertexInputState.hashed (a : DxvkGraphicsPipelineVertexInputState) :
    List Nat :=
  [ u32 a.iaInfo.topology
  , u32 a.iaInfo.primitiveRestartEnable.toNat
  , u32 a.viInfo.vertexBindingDescriptionCount
  , u32 a.viInfo.vertexAttributeDescriptionCount
  , u32 a.viDivisorInfo.vertexBindingDivisorCount
  , u32 a.viUseDynamicVertexStrides.toNat ]
  ++ (List.range a.viInfo.vertexBindingDescriptionCount).flatMap (fun i =>
      [ u32 (a.bindingAt i).binding
      , u32 (a.bindingAt i).stride
      , u32 (a.bindingAt i).inputRate ])
  ++ (List.range a.viInfo.vertexAttributeDescriptionCount).flatMap (fun i =>
      [ u32 (a.attributeAt i).location
      , u32 (a.attributeAt i).binding
      , u32 (a.attributeAt i).format
      , u32 (a.attributeAt i).offset ])
  ++ (List.range a.viDivisorInfo.vertexBindingDivisorCount).flatMap (fun i =>
      [ u32 (a.divisorAt i).binding
      , u32 (a.divisorAt i).divisor ])

/-- The method `DxvkGraphicsPipelineVertexInputState::hash()`. -/
def DxvkGraphicsPipelineVertexInputState.hash (h : DxvkHashState)
    (a : DxvkGraphicsPipelineVertexInputState) : Nat :=
  a.hashed.foldl h.add h.start

/-! ## The FragmentOutput sub-vector -/

/-- Whether a 32-bit pattern is a NaN of the type `float`. -/
def floatIsNaN (x : Nat) : Bool :=
  (x / 2 ^ 23) % 2 ^ 8 == 255 && x % 2 ^ 23 != 0

/-- The operator `==` on two values of the type `float`, given by their 32-bit patterns:
a NaN equals nothing, the two zeros are equal, and other values are equal when their
patterns are. -/
def floatEq (x y : Nat) : Bool :=
  !floatIsNaN x && !floatIsNaN y && (x == y || (x % 2 ^ 31 == 0 && y % 2 ^ 31 == 0))

structure VkPipelineRenderingCreateInfo where
  colorAttachmentCount : Nat := 0
  depthAttachmentFormat : VkFormat := 0
  stencilAttachmentFormat : VkFormat := 0
  deriving DecidableEq, Repr

/-- The fields of `VkPipelineColorBlendStateCreateInfo` that the sub-vector reads. A
`VkBool32` is a number; every value other than 0 counts as true. -/
structure VkPipelineColorBlendStateCreateInfo where
  logicOpEnable : Nat := 0
  logicOp : Nat := 0
  attachmentCount : Nat := 0
  deriving DecidableEq, Repr

/-- The fields of `VkPipelineMultisampleStateCreateInfo` that the sub-vector reads;
`minSampleShading` is the 32-bit pattern of the float. -/
structure VkPipelineMultisampleStateCreateInfo where
  rasterizationSamples : Nat := 0
  sampleShadingEnable : Nat := 0
  minSampleShading : Nat := 0
  alphaToCoverageEnable : Nat := 0
  alphaToOneEnable : Nat := 0
  deriving DecidableEq, Repr

structure VkPipelineColorBlendAttachmentState where
  blendEnable : Nat := 0
  srcColorBlendFactor : Nat := 0
  dstColorBlendFactor : Nat := 0
  colorBlendOp : Nat := 0
  srcAlphaBlendFactor : Nat := 0
  dstAlphaBlendFactor : Nat := 0
  alphaBlendOp : Nat := 0
  colorWriteMask : Nat := 0
  deriving DecidableEq, Repr

/-- The sub-vector `DxvkGraphicsPipelineFragmentOutputState`. The fixed-size arrays are
lists read with a zero element; the default value is the default constructor. -/
structure DxvkGraphicsPipelineFragmentOutputState where
  rtInfo : VkPipelineRenderingCreateInfo := {}
  cbInfo : VkPipelineColorBlendStateCreateInfo := {}
  msInfo : VkPipelineMultisampleStateCreateInfo := {}
  msSampleMask : Nat := 0
  cbUseDynamicBlendConstants : Nat := 0
  rtColorFormats : List VkFormat := []
  cbAttachments : List VkPipelineColorBlendAttachmentState := []
  deriving DecidableEq, Repr

namespace DxvkGraphicsPipelineFragmentOutputState

/-- The element `rtColorFormats[i]`. -/
def colorFormatAt (a : DxvkGraphicsPipelineFragmentOutputState) (i : Nat) : VkFormat :=
  a.rtColorFormats.getD i 0

/-- The element `cbAttachments[i]`. -/
def attachmentAt (a : DxvkGraphicsPipelineFragmentOutputState) (i : Nat) :
    VkPipelineColorBlendAttachmentState :=
  a.cbAttachments.getD i {}

/-- The body of the attachment loop of `eq` for the attachment `i`. -/
def attachmentEq (a other : DxvkGraphicsPipelineFragmentOutputState) (i : Nat) : Bool :=
  let eq := (a.attachmentAt i).blendEnable == (other.attachmentAt i).blendEnable
    && (a.attachmentAt i).colorWriteMask == (other.attachmentAt i).colorWriteMask
  if (a.attachmentAt i).blendEnable != 0 && eq then
    (a.attachmentAt i).srcColorBlendFactor == (other.attachmentAt i).srcColorBlendFactor
      && (a.attachmentAt i).dstColorBlendFactor == (other.attachmentAt i).dstColorBlendFactor
      && (a.attachmentAt i).colorBlendOp == (other.attachmentAt i).colorBlendOp
      && (a.attachmentAt i).srcAlphaBlendFactor == (other.attachmentAt i).srcAlphaBlendFactor
      && (a.attachmentAt i).dstAlphaBlendFactor == (other.attachmentAt i).dstAlphaBlendFactor
      && (a.attachmentAt i).alphaBlendOp == (other.attachmentAt i).alphaBlendOp
  else eq

/-- The method `DxvkGraphicsPipelineFragmentOutputState::eq(other)`; both loops run
while `eq` is true. -/
def eq (a other : DxvkGraphicsPipelineFragmentOutputState) : Bool :=
  let eq0 := a.rtInfo.colorAttachmentCount == other.rtInfo.colorAttachmentCount
    && a.rtInfo.depthAttachmentFormat == other.rtInfo.depthAttachmentFormat
    && a.rtInfo.stencilAttachmentFormat == other.rtInfo.stencilAttachmentFormat
    && a.cbInfo.logicOpEnable == other.cbInfo.logicOpEnable
    && a.cbInfo.logicOp == other.cbInfo.logicOp
    && a.cbInfo.attachmentCount == other.cbInfo.attachmentCount
    && a.msInfo.rasterizationSamples == other.msInfo.rasterizationSamples
    && a.msInfo.sampleShadingEnable == other.msInfo.sampleShadingEnable
    && floatEq a.msInfo.minSampleShading other.msInfo.minSampleShading
    && a.msInfo.alphaToCoverageEnable == other.msInfo.alphaToCoverageEnable
    && a.msInfo.alphaToOneEnable == other.msInfo.alphaToOneEnable
    && a.msSampleMask == other.msSampleMask
    && a.cbUseDynamicBlendConstants == other.cbUseDynamicBlendConstants
  let eq1 := (List.range a.rtInfo.colorAttachmentCount).foldl
    (fun eq i => if eq then a.colorFormatAt i == other.colorFormatAt i else eq)
    eq0
  (List.range a.cbInfo.attachmentCount).foldl
    (fun eq i => if eq then attachmentEq a other i else eq)
    eq1

/-- The values that `DxvkGraphicsPipelineFragmentOutputState::hash()` passes to
`hash.add`, in the order of the calls. -/
def hashed (a : DxvkGraphicsPipelineFragmentOutputState) : List Nat :=
  [ u32 a.rtInfo.colorAttachmentCount
  , u32 a.rtInfo.depthAttachmentFormat
  , u32 a.rtInfo.stencilAttachmentFormat
  , u32 a.cbInfo.logicOpEnable
  , u32 a.cbInfo.logicOp
  , u32 a.cbInfo.attachmentCount
  , u32 a.msInfo.rasterizationSamples
  , u32 a.msInfo.alphaToCoverageEnable
  , u32 a.msInfo.alphaToOneEnable
  , u32 a.msSampleMask
  , u32 a.cbUseDynamicBlendConstants ]
  ++ (List.range a.rtInfo.colorAttachmentCount).map (fun i => u32 (a.colorFormatAt i))
  ++ (List.range a.cbInfo.attachmentCount).flatMap (fun i =>
      [ u32 (a.attachmentAt i).blendEnable
      , u32 (a.attachmentAt i).colorWriteMask ]
      ++ (if (a.attachmentAt i).blendEnable != 0 then
            [ u32 (a.attachmentAt i).srcColorBlendFactor
            , u32 (a.attachmentAt i).dstColorBlendFactor
            , u32 (a.attachmentAt i).colorBlendOp
            , u32 (a.attachmentAt i).srcAlphaBlendFactor
            , u32 (a.attachmentAt i).dstAlphaBlendFactor
            , u32 (a.attachmentAt i).alphaBlendOp ]
          else []))

/-- The method `DxvkGraphicsPipelineFragmentOutputState::hash()`. -/
def hash (h : DxvkHashState) (a : DxvkGraphicsPipelineFragmentOutputState) : Nat :=
  a.hashed.foldl h.add h.start

end DxvkGraphicsPipelineFragmentOutputState

/-! ## The constructor of the FragmentOutput sub-vector -/

/-- The constant `rgbaWriteMask` of the FragmentOutput constructor. -/
def rgbaWriteMask : Nat :=
  VK_COLOR_COMPONENT_R_BIT ||| VK_COLOR_COMPONENT_G_BIT
    ||| VK_COLOR_COMPONENT_B_BIT ||| VK_COLOR_COMPONENT_A_BIT

/-- The method `state()` of `DxvkOmAttachmentBlend`, declared in the header of the state
vector: the blend state as a Vulkan structure. The fields of the model of
`DxvkOmAttachmentBlend` are the values that this method returns. -/
def DxvkOmAttachmentBlend.state (blend : DxvkOmAttachmentBlend) :
    VkPipelineColorBlendAttachmentState :=
  { blendEnable := blend.blendEnable.toNat
    srcColorBlendFactor := blend.srcColorBlendFactor
    dstColorBlendFactor := blend.dstColorBlendFactor
    colorBlendOp := blend.colorBlendOp
    srcAlphaBlendFactor := blend.srcAlphaBlendFactor
    dstAlphaBlendFactor := blend.dstAlphaBlendFactor
    alphaBlendOp := blend.alphaBlendOp
    colorWriteMask := blend.colorWriteMask }

/-- The local `fsOutputMask` of the FragmentOutput constructor (source lines 216 to
220): the output mask of the fragment shader, 0 without one, reduced to bit 0 when the
state uses dual-source blending. -/
def fsOutputMask (hdr : HeaderDecls) (state : DxvkGraphicsPipelineStateInfo)
    (fs : Option DxvkShader) : Nat :=
  let fsOutputMask :=
    match fs with
    | some fs => fs.outputMask
    | none => 0
  if hdr.useDualSourceBlending state then fsOutputMask &&& 0x1 else fsOutputMask

/-- The local `writeMask` of the FragmentOutput constructor before the test
`if (writeMask)` (source lines 238 to 248). -/
def effectiveWriteMask (hdr : HeaderDecls) (state : DxvkGraphicsPipelineStateInfo) (i : Nat)
    (formatInfo : DxvkFormatInfo) : Nat :=
  let writeMask := (state.omBlendAt i).colorWriteMask
  let writeMask :=
    if writeMask != rgbaWriteMask then
      hdr.remapComponentMask (state.omBlendAt i).colorWriteMask (state.omSwizzleAt i)
    else writeMask
  let writeMask := writeMask &&& formatInfo.componentMask
  if writeMask == formatInfo.componentMask then rgbaWriteMask else writeMask

/-- The entry `cbAttachments[i]` that the FragmentOutput constructor writes when the
write mask is not zero (source lines 251 to 262). -/
def recordAttachment (hdr : HeaderDecls) (state : DxvkGraphicsPipelineStateInfo) (i : Nat)
    (formatInfo : DxvkFormatInfo) (writeMask : Nat) : VkPipelineColorBlendAttachmentState :=
  let attachment : VkPipelineColorBlendAttachmentState :=
    { (state.omBlendAt i).state with colorWriteMask := writeMask }
  if attachment.blendEnable != 0
      && formatInfo.componentMask == VK_COLOR_COMPONENT_R_BIT
      && (state.omSwizzleAt i).rIndex == 3 then
    { attachment with
      srcColorBlendFactor := hdr.remapAlphaToColorBlendFactor attachment.srcAlphaBlendFactor
      srcAlphaBlendFactor := VK_BLEND_FACTOR_ONE
      dstColorBlendFactor := hdr.remapAlphaToColorBlendFactor attachment.dstAlphaBlendFactor
      dstAlphaBlendFactor := VK_BLEND_FACTOR_ZERO
      colorBlendOp := attachment.alphaBlendOp
      alphaBlendOp := VK_BLEND_OP_ADD }
  else attachment

/-- The variables that the render-target loop of the FragmentOutput constructor writes.
The arrays `rtColorFormats` and `cbAttachments` list the entries of the slots that the
loop has passed; an entry of `cbAttachments` that the loop does not write keeps its zero
value. -/
structure RenderTargetLoop where
  rtColorFormats : List VkFormat := []
  colorAttachmentCount : Nat := 0
  cbAttachments : List VkPipelineColorBlendAttachmentState := []
  deriving DecidableEq, Repr

/-- The body of the render-target loop of the FragmentOutput constructor (source lines
230 to 265) for the slot `i`. -/
def processRenderTarget (hdr : HeaderDecls) (state : DxvkGraphicsPipelineStateInfo)
    (fsOutputMask : Nat) (loop : RenderTargetLoop) (i : Nat) : RenderTargetLoop :=
  let format := state.getColorFormat i
  let loop1 : RenderTargetLoop :=
    { loop with rtColorFormats := loop.rtColorFormats ++ [format] }
  if format != VK_FORMAT_UNDEFINED then
    let loop2 : RenderTargetLoop := { loop1 with colorAttachmentCount := i + 1 }
    match hdr.lookupFormatInfo format with
    | some formatInfo =>
      if fsOutputMask &&& (1 <<< i) != 0 then
        let writeMask := effectiveWriteMask hdr state i formatInfo
        if writeMask != 0 then
          { loop2 with cbAttachments := loop2.cbAttachments
              ++ [recordAttachment hdr state i formatInfo writeMask] }
        else { loop2 with cbAttachments := loop2.cbAttachments ++ [{}] }
      else { loop2 with cbAttachments := loop2.cbAttachments ++ [{}] }
    | none => { loop2 with cbAttachments := loop2.cbAttachments ++ [{}] }
  else { loop1 with cbAttachments := loop1.cbAttachments ++ [{}] }

/-- The render-target loop of the FragmentOutput constructor (source lines 229 to 266). -/
def processRenderTargets (hdr : HeaderDecls) (state : DxvkGraphicsPipelineStateInfo)
    (fsOutputMask : Nat) : RenderTargetLoop :=
  (List.range MaxNumRenderTargets).foldl (processRenderTarget hdr state fsOutputMask) {}

/-- The subtraction `a - b` of 32-bit unsigned arithmetic. -/
def sub32 (a b : Nat) : Nat := (a % 2 ^ 32 + (2 ^ 32 - b % 2 ^ 32)) % 2 ^ 32

/-- The 32-bit pattern of the float `1.0f`. -/
def floatOne : Nat := 0x3F800000

/-- The constructor `DxvkGraphicsPipelineFragmentOutputState(device, state, fs)`. The
depth-stencil format is looked up without a null check in the source; a format without
format info sets neither attachment format here. -/
def DxvkGraphicsPipelineFragmentOutputState.fromState (hdr : HeaderDecls)
    (_device : DxvkDevice) (state : DxvkGraphicsPipelineStateInfo)
    (fs : Option DxvkShader) :
    DxvkGraphicsPipelineFragmentOutputState :=
  let loop := processRenderTargets hdr state (fsOutputMask hdr state fs)
  let rtDepthFormat := state.rt.depthStencilFormat
  let aspectMask :=
    if rtDepthFormat != VK_FORMAT_UNDEFINED then
      match hdr.lookupFormatInfo rtDepthFormat with
      | some rtDepthFormatInfo => rtDepthFormatInfo.aspectMask
      | none => 0
    else 0
  let rasterizationSamples :=
    if state.ms.sampleCount != 0 then state.ms.sampleCount
    else if state.rs.sampleCount != 0 then state.rs.sampleCount
    else VK_SAMPLE_COUNT_1_BIT
  let sampleRateShading :=
    match fs with
    | some fs => fs.hasSampleRateShading
    | none => false
  { rtInfo :=
      { colorAttachmentCount := loop.colorAttachmentCount
        depthAttachmentFormat :=
          if aspectMask &&& VK_IMAGE_ASPECT_DEPTH_BIT != 0 then rtDepthFormat else 0
        stencilAttachmentFormat :=
          if aspectMask &&& VK_IMAGE_ASPECT_STENCIL_BIT != 0 then rtDepthFormat else 0 }
    cbInfo :=
      { logicOpEnable := state.om.enableLogicOp.toNat
        logicOp := state.om.logicOp
        attachmentCount :=
          if loop.colorAttachmentCount != 0 then loop.colorAttachmentCount else 0 }
    msInfo :=
      { rasterizationSamples := rasterizationSamples
        sampleShadingEnable := if sampleRateShading then VK_TRUE else 0
        minSampleShading := if sampleRateShading then floatOne else 0
        alphaToCoverageEnable := state.ms.enableAlphaToCoverage.toNat }
    msSampleMask := state.ms.sampleMask &&& sub32 (bit32 rasterizationSamples) 1
    cbUseDynamicBlendConstants := (hdr.useDynamicBlendConstants state).toNat
    rtColorFormats := loop.rtColorFormats
    cbAttachments := loop.cbAttachments }

/-! ## The PreRasterization sub-vector -/

/-- The structures that the constructor can chain to `rsInfo.pNext`. -/
inductive RasterizationChainEntry where
  | rsXfbStreamInfo
  | rsDepthClipInfo
  | rsConservativeInfo
  deriving DecidableEq, Repr

structure VkPipelineTessellationStateCreateInfo where
  patchControlPoints : Nat := 0
  deriving DecidableEq, Repr

/-- The fields of `VkPipelineRasterizationStateCreateInfo` that the constructor sets.
`pNext` lists the chained structures, the one that `rsInfo.pNext` points to first;
`lineWidth` is the 32-bit pattern of the float. -/
structure VkPipelineRasterizationStateCreateInfo where
  pNext : List RasterizationChainEntry := []
  depthClampEnable : Nat := 0
  rasterizerDiscardEnable : Nat := 0
  polygonMode : Nat := 0
  depthBiasEnable : Nat := 0
  lineWidth : Nat := 0
  deriving DecidableEq, Repr

structure VkPipelineRasterizationStateStreamCreateInfoEXT where
  rasterizationStream : Nat := 0
  deriving DecidableEq, Repr

structure VkPipelineRasterizationDepthClipStateCreateInfoEXT where
  depthClipEnable : Nat := 0
  deriving DecidableEq, Repr

structure VkPipelineRasterizationConservativeStateCreateInfoEXT where
  conservativeRasterizationMode : Nat := 0
  extraPrimitiveOverestimationSize : Nat := 0
  deriving DecidableEq, Repr

/-- The sub-vector `DxvkGraphicsPipelinePreRasterizationState` as far as its constructor
writes it; the default value is the default constructor. -/
structure DxvkGraphicsPipelinePreRasterizationState where
  tsInfo : VkPipelineTessellationStateCreateInfo := {}
  rsInfo : VkPipelineRasterizationStateCreateInfo := {}
  rsXfbStreamInfo : VkPipelineRasterizationStateStreamCreateInfoEXT := {}
  rsDepthClipInfo : VkPipelineRasterizationDepthClipStateCreateInfoEXT := {}
  rsConservativeInfo : VkPipelineRasterizationConservativeStateCreateInfoEXT := {}
  deriving DecidableEq, Repr

/-- The constructor `DxvkGraphicsPipelinePreRasterizationState(device, state, gs)`, one
statement after the other. The conversion `uint32_t(streamIndex)` is taken for a positive
`int32_t` and keeps its value. -/
def DxvkGraphicsPipelinePreRasterizationState.fromState (device : DxvkDevice)
    (state : DxvkGraphicsPipelineStateInfo) (gs : Option DxvkShader) :
    DxvkGraphicsPipelinePreRasterizationState :=
  let pr0 : DxvkGraphicsPipelinePreRasterizationState :=
    { tsInfo := { patchControlPoints := state.ia.patchVertexCount }
      rsInfo :=
        { depthClampEnable := VK_TRUE
          polygonMode := state.rs.polygonMode
          depthBiasEnable := state.rs.depthBiasEnable.toNat
          lineWidth := floatOne } }
  let streamIndex : Int :=
    match gs with
    | some gs => gs.xfbRasterizedStream
    | none => 0
  let pr1 : DxvkGraphicsPipelinePreRasterizationState :=
    if streamIndex > 0 then
      { pr0 with
        rsInfo :=
          { pr0.rsInfo with pNext := RasterizationChainEntry.rsXfbStreamInfo :: pr0.rsInfo.pNext }
        rsXfbStreamInfo := { rasterizationStream := streamIndex.toNat } }
    else if streamIndex < 0 then
      { pr0 with rsInfo := { pr0.rsInfo with rasterizerDiscardEnable := VK_TRUE } }
    else pr0
  let pr2 : DxvkGraphicsPipelinePreRasterizationState :=
    if device.depthClipEnable then
      { pr1 with
        rsInfo :=
          { pr1.rsInfo with pNext := RasterizationChainEntry.rsDepthClipInfo :: pr1.rsInfo.pNext }
        rsDepthClipInfo := { depthClipEnable := state.rs.depthClipEnable.toNat } }
    else
      { pr1 with
        rsInfo := { pr1.rsInfo with depthClampEnable := (!state.rs.depthClipEnable).toNat } }
  if state.rs.conservativeMode != VK_CONSERVATIVE_RASTERIZATION_MODE_DISABLED_EXT then
    { pr2 with
      rsInfo :=
        { pr2.rsInfo with pNext := RasterizationChainEntry.rsConservativeInfo :: pr2.rsInfo.pNext }
      rsConservativeInfo :=
        { conservativeRasterizationMode := state.rs.conservativeMode
          extraPrimitiveOverestimationSize := 0 } }
  else pr2

/-! ## Global barrier, shader code and dynamic states -/

/-- The method `DxvkGraphicsPipeline::getGlobalBarrier(state)`. It is `const`: it reads
the constant members and changes nothing. -/
def getGlobalBarrier (this : DxvkGraphicsPipeline) (state : DxvkGraphicsPipelineStateInfo) :
    DxvkGlobalPipelineBarrier :=
  let barrier := this.m_barrier
  if state.il.bindingCount != 0 then
    { stages := barrier.stages ||| VK_PIPELINE_STAGE_VERTEX_INPUT_BIT
      access := barrier.access ||| VK_ACCESS_VERTEX_ATTRIBUTE_READ_BIT }
  else barrier

/-- The method `DxvkGraphicsPipeline::getPrevStageShader(stage)`; `none` is the null
pointer. -/
def getPrevStageShader (this : DxvkGraphicsPipeline) (stage : Nat) : Option DxvkShader :=
  if stage == VK_SHADER_STAGE_VERTEX_BIT then none
  else if stage == VK_SHADER_STAGE_TESSELLATION_EVALUATION_BIT then this.m_shaders.tcs
  else
    let result := this.m_shaders.vs
    if stage == VK_SHADER_STAGE_TESSELLATION_CONTROL_BIT then some result
    else
      let result :=
        match this.m_shaders.tes with
        | some tes => tes
        | none => result
      if stage == VK_SHADER_STAGE_GEOMETRY_BIT then some result
      else
        match this.m_shaders.gs with
        | some gs => some gs
        | none => some result

/-- The patch options `DxvkShaderModuleCreateInfo` that `getShaderCode` fills in. An
entry `none` of `rtSwizzles` is an entry that keeps its default value. -/
structure DxvkShaderModuleCreateInfo where
  fsDualSrcBlend : Bool := false
  undefinedInputs : Nat := 0
  rtSwizzles : List (Option DxvkOmAttachmentSwizzle) := List.replicate MaxNumRenderTargets none
  deriving DecidableEq, Repr

/-- The local `providedInputs` of `getShaderCode` (source lines 913 to 926). For a stage
other than the vertex and the tessellation evaluation stage the previous stage shader is
dereferenced without a null check; `getPrevStageShader` is never null for such a stage,
and the mask is 0 in the branch that cannot be taken. -/
def providedInputs (this : DxvkGraphicsPipeline) (shader : DxvkShader)
    (state : DxvkGraphicsPipelineStateInfo) : Nat :=
  let consumedInputs := shader.inputMask
  if shader.stage == VK_SHADER_STAGE_VERTEX_BIT then
    (List.range state.il.attributeCount).foldl
      (fun providedInputs i => providedInputs ||| bit32 (state.ilAttributeAt i).location) 0
  else if shader.stage != VK_SHADER_STAGE_TESSELLATION_EVALUATION_BIT then
    match getPrevStageShader this shader.stage with
    | some prevStage => prevStage.outputMask
    | none => 0
  else consumedInputs

/-- The code buffer that `shader->getCode(m_bindings, info)` returns. The shader object is
an external collaborator; the buffer is kept as the shader and the patch options that
the call is given. -/
structure SpirvCodeBuffer where
  shader : DxvkShader
  info : DxvkShaderModuleCreateInfo
  deriving DecidableEq, Repr

/-- The method `DxvkGraphicsPipeline::getShaderCode(shader, state)`. -/
def getShaderCode (this : DxvkGraphicsPipeline) (shader : DxvkShader)
    (state : DxvkGraphicsPipelineStateInfo) : SpirvCodeBuffer :=
  let info : DxvkShaderModuleCreateInfo := {}
  let info : DxvkShaderModuleCreateInfo :=
    if shader.stage == VK_SHADER_STAGE_FRAGMENT_BIT then
      { info with
        fsDualSrcBlend := this.hdr.useDualSourceBlending state
        rtSwizzles := (List.range MaxNumRenderTargets).map (fun i =>
          if writesRenderTarget this state i then some (state.omSwizzleAt i) else none) }
    else info
  let consumedInputs := shader.inputMask
  let providedInputs := providedInputs this shader state
  { shader := shader
    info :=
      { info with
        undefinedInputs := (providedInputs &&& consumedInputs) ^^^ consumedInputs } }

/-- The first `dynamicStateCount` entries of the array `dynamicStates` that
`createOptimizedPipeline` builds (source lines 788 to 812). -/
def dynamicStates (this : DxvkGraphicsPipeline) (state : DxvkGraphicsPipelineStateInfo) :
    List Nat :=
  let dynamicStates :=
    [VK_DYNAMIC_STATE_VIEWPORT_WITH_COUNT, VK_DYNAMIC_STATE_SCISSOR_WITH_COUNT]
  let dynamicStates :=
    if this.hdr.useDynamicVertexStrides state then
      dynamicStates ++ [VK_DYNAMIC_STATE_VERTEX_INPUT_BINDING_STRIDE]
    else dynamicStates
  let dynamicStates :=
    if this.hdr.useDynamicDepthBias state then
      dynamicStates ++ [VK_DYNAMIC_STATE_DEPTH_BIAS]
    else dynamicStates
  let dynamicStates :=
    if this.hdr.useDynamicDepthBounds state then
      dynamicStates ++ [VK_DYNAMIC_STATE_DEPTH_BOUNDS]
    else dynamicStates
  let dynamicStates :=
    if this.hdr.useDynamicBlendConstants state then
      dynamicStates ++ [VK_DYNAMIC_STATE_BLEND_CONSTANTS]
    else dynamicStates
  let dynamicStates :=
    if this.hdr.useDynamicStencilRef state then
      dynamicStates ++ [VK_DYNAMIC_STATE_STENCIL_REFERENCE]
    else dynamicStates
  if !this.m_flags.HasRasterizerDiscard then
    dynamicStates ++ [VK_DYNAMIC_STATE_CULL_MODE, VK_DYNAMIC_STATE_FRONT_FACE]
  else dynamicStates

/-! ## Shader stages, base libraries and the destructor -/

/-- A stage that `createOptimizedPipeline` adds to its `DxvkShaderStageInfo`: with the
module identifier of a shader pipeline library, or with the code of a shader. -/
inductive ShaderStageEntry where
  | moduleIdentifier (stage : Nat) (identifier : Nat)
  | code (stage : Nat) (code : SpirvCodeBuffer)
  deriving DecidableEq, Repr

/-- The stages that `createOptimizedPipeline(state, flags)` adds to `stageInfo` (source
lines 823 to 841); `none` when the code dereferences a shader pipeline library that is
null. -/
def stageInfo (this : DxvkGraphicsPipeline) (state : DxvkGraphicsPipelineStateInfo)
    (flags : Nat) : Option (List ShaderStageEntry) :=
  if flags &&& VK_PIPELINE_CREATE_FAIL_ON_PIPELINE_COMPILE_REQUIRED_BIT != 0 then
    match this.m_vsLibrary with
    | none => none
    | some vsLibrary =>
      let stages :=
        [ShaderStageEntry.moduleIdentifier VK_SHADER_STAGE_VERTEX_BIT
          vsLibrary.moduleIdentifier]
      match this.m_shaders.fs with
      | none => some stages
      | some _ =>
        match this.m_fsLibrary with
        | none => none
        | some fsLibrary =>
          some (stages ++ [ShaderStageEntry.moduleIdentifier VK_SHADER_STAGE_FRAGMENT_BIT
            fsLibrary.moduleIdentifier])
  else
    some ([ShaderStageEntry.code VK_SHADER_STAGE_VERTEX_BIT
        (getShaderCode this this.m_shaders.vs state)]
      ++ (match this.m_shaders.tcs with
          | some tcs => [ShaderStageEntry.code VK_SHADER_STAGE_TESSELLATION_CONTROL_BIT
              (getShaderCode this tcs state)]
          | none => [])
      ++ (match this.m_shaders.tes with
          | some tes => [ShaderStageEntry.code VK_SHADER_STAGE_TESSELLATION_EVALUATION_BIT
              (getShaderCode this tes state)]
          | none => [])
      ++ (match this.m_shaders.gs with
          | some gs => [ShaderStageEntry.code VK_SHADER_STAGE_GEOMETRY_BIT
              (getShaderCode this gs state)]
          | none => [])
      ++ (match this.m_shaders.fs with
          | some fs => [ShaderStageEntry.code VK_SHADER_STAGE_FRAGMENT_BIT
              (getShaderCode this fs state)]
          | none => []))

/-- An entry of the array `libraries` of `createBasePipeline`: the handle of a
vertex-input or fragment-output library of the key, or the pipeline handle that a shader
pipeline library gives for the arguments of the key. -/
inductive PipelineLibraryEntry where
  | vertexInput (viLibrary : Nat)
  | shader (library : DxvkShaderPipelineLibrary) (args : DxvkShaderPipelineLibraryCompileArgs)
  | fragmentOutput (foLibrary : Nat)
  deriving DecidableEq, Repr

/-- The array `libraries` that `createBasePipeline(key)` builds (source lines 757 to
762); `none` when the code dereferences a shader pipeline library that is null. -/
def libraries (this : DxvkGraphicsPipeline) (key : DxvkGraphicsPipelineBaseInstanceKey) :
    Option (List PipelineLibraryEntry) :=
  match this.m_vsLibrary with
  | none => none
  | some vsLibrary =>
    match this.m_fsLibrary with
    | none => none
    | some fsLibrary =>
      some [ PipelineLibraryEntry.vertexInput key.viLibrary
           , PipelineLibraryEntry.shader vsLibrary key.args
           , PipelineLibraryEntry.shader fsLibrary key.args
           , PipelineLibraryEntry.fragmentOutput key.foLibrary ]

/-- The destructor `~DxvkGraphicsPipeline()`: the handles that it passes to
`destroyPipeline`, in order: the fast handle of every instance, then the handle of every
base instance. -/
def destructor (w : PipelineData) : List VkPipeline :=
  w.m_pipelines.map (fun inst => inst.fastHandle)
    ++ w.m_basePipelines.map (fun inst => inst.handle)

/-! ## Derived notions used in the statements -/

/-- The handle that the compile step of `compilePipeline` obtains when it is run on the
data `w`: the driver's answer to the next request, null unless the result is
`VK_SUCCESS`. -/
def compiledHandle (drv : Driver) (w : PipelineData) (state : DxvkGraphicsPipelineStateInfo) :
    VkPipeline :=
  if (drv w.driverCalls.length (DriverCall.optimized state 0)).1 != VK_SUCCESS then
    VK_NULL_HANDLE
  else (drv w.driverCalls.length (DriverCall.optimized state 0)).2

/-- The data after a won election, the compile and the publication on the instance
behind `ptr`. -/
def afterCompile (drv : Driver) (w : PipelineData) (state : DxvkGraphicsPipelineStateInfo)
    (ptr : Nat) : PipelineData :=
  publishFastHandle (createOptimizedPipeline drv (electCompiler w ptr).2 state 0).2 state ptr
    (createOptimizedPipeline drv (electCompiler w ptr).2 state 0).1

/-- Every instance that has a fast handle has its `isCompiling` flag set. -/
def FastImpliesCompiling (w : PipelineData) : Prop :=
  ∀ ptr, (instanceAt w ptr).fastHandle ≠ VK_NULL_HANDLE → (instanceAt w ptr).isCompiling = true

/-- From `w` to `w1` the instance store only grew at its end and every instance that had
a fast handle is untouched. -/
def KeepsFastHandles (w w1 : PipelineData) : Prop :=
  (∃ extra, storedStates w1 = storedStates w ++ extra)
  ∧ ∀ ptr, (instanceAt w ptr).fastHandle ≠ VK_NULL_HANDLE → instanceAt w1 ptr = instanceAt w ptr

/-- From `w` to `w1` the instance store kept its states, or got one instance more, at
its end, for a state that it did not hold. -/
def Grows (w w1 : PipelineData) : Prop :=
  storedStates w1 = storedStates w
  ∨ ∃ s, s ∉ storedStates w ∧ storedStates w1 = storedStates w ++ [s]

/-- What a thread knows about the shared data at its position: a thread that is about to
load the handles holds a pointer to the instance that `findInstance` finds for its
state; a thread that has returned from `getPipelineHandle` with a state that passes
trusted validation has an instance for that state in the store. -/
def Thread.Ok (this : DxvkGraphicsPipeline) (w : PipelineData) : Thread → Prop
  | Thread.getLoad state ptr => findInstance w state = some ptr
  | Thread.getReturn state _ =>
    validatePipelineState this state true = true → findInstance w state ≠ none
  | _ => True

/-- The invariant of the interleaved system: no state is stored twice and every thread
is consistent with the shared data. -/
def System.Inv (this : DxvkGraphicsPipeline) (sys : System) : Prop :=
  (storedStates sys.data).Nodup ∧ ∀ t ∈ sys.threads, t.Ok this sys.data

/-- Whether the location of the declared attribute `j` is in the 32-bit input mask of
the vertex shader. -/
def attributeUsed (state : DxvkGraphicsPipelineStateInfo) (vs : DxvkShader) (j : Nat) :
    Bool :=
  (u32 vs.inputMask).testBit (state.ilAttributeAt j).location

/-- Whether the declared binding `i` is used: some declared attribute whose location is
in the input mask reads from its binding number. -/
def bindingUsed (state : DxvkGraphicsPipelineStateInfo) (vs : DxvkShader) (i : Nat) :
    Bool :=
  (List.range state.il.attributeCount).any (fun j =>
    attributeUsed state vs j
      && (state.ilAttributeAt j).binding == (state.ilBindingAt i).binding)

/-- The binding number that the attribute loop of the VertexInput constructor writes for
an attribute that reads from binding number `b`: the entry `viBindingMap[b]` after the
binding loop. -/
def emittedBindingOf (state : DxvkGraphicsPipelineStateInfo) (vs : DxvkShader) (b : Nat) :
    Nat :=
  (processVertexBindings state (usedBindingMask state vs.inputMask)).viBindingMap b

/-- The effective rasterization sample count of a state in the words of the
specification: `ms.sampleCount` if it is set, else `rs.sampleCount` if it is set, else
1. -/
def effectiveSampleCount (state : DxvkGraphicsPipelineStateInfo) : Nat :=
  if state.ms.sampleCount ≠ 0 then state.ms.sampleCount
  else if state.rs.sampleCount ≠ 0 then state.rs.sampleCount
  else 1

/-- The entry `cbAttachments[i]` that one pass of the render-target loop of the
FragmentOutput constructor leaves for the slot `i`. -/
def renderTargetAttachment (hdr : HeaderDecls) (state : DxvkGraphicsPipelineStateInfo)
    (fsOutputMask : Nat) (i : Nat) : VkPipelineColorBlendAttachmentState :=
  (processRenderTarget hdr state fsOutputMask {} i).cbAttachments.getD 0 {}

/-- The handle that `createOptimizedPipeline` got from the driver request `c`, made after
`k` earlier requests, when the request is an optimized compile that succeeded. -/
def compiledHandleOf (drv : Driver) (k : Nat) (c : DriverCall) : Option VkPipeline :=
  match c with
  | DriverCall.optimized _ _ => if (drv k c).1 = VK_SUCCESS then some (drv k c).2 else none
  | DriverCall.link _ => none

/-- The handle that `createBasePipeline` got from the driver request `c`, made after `k`
earlier requests, when the request is a base link, successful or not. -/
def linkedHandleOf (drv : Driver) (k : Nat) (c : DriverCall) : Option VkPipeline :=
  match c with
  | DriverCall.optimized _ _ => none
  | DriverCall.link _ => some (drv k c).2

/-- The handles that the successful optimized compiles among the requests returned. -/
def compiledHandles (drv : Driver) (calls : List DriverCall) : List VkPipeline :=
  calls.enum.filterMap (fun p => compiledHandleOf drv p.1 p.2)

/-- The handles that the base links among the requests returned. -/
def linkedHandles (drv : Driver) (calls : List DriverCall) : List VkPipeline :=
  calls.enum.filterMap (fun p => linkedHandleOf drv p.1 p.2)

/-- No handle is lost: every non-null handle of a successful optimized compile is the
fast handle of an instance, every handle of a base link is the handle of a base
instance, and every non-null base handle of an instance is the handle of a base
instance. -/
def OwnsHandles (drv : Driver) (w : PipelineData) : Prop :=
  (∀ h ∈ compiledHandles drv w.driverCalls, h ≠ VK_NULL_HANDLE →
      h ∈ w.m_pipelines.map (fun inst => inst.fastHandle))
  ∧ (∀ h ∈ linkedHandles drv w.driverCalls,
      h ∈ w.m_basePipelines.map (fun inst => inst.handle))
  ∧ (∀ h ∈ w.m_pipelines.map (fun inst => inst.baseHandle), h ≠ VK_NULL_HANDLE →
      h ∈ w.m_basePipelines.map (fun inst => inst.handle))

/-- A driver request that the pipeline may make: an optimized compile without create
flags, or, for a state for which `canCreateBasePipeline` is true, an optimized compile
with the flag `FAIL_ON_PIPELINE_COMPILE_REQUIRED` alone or the link of the base instance
key of the state. -/
def DriverCall.Guarded (this : DxvkGraphicsPipeline) : DriverCall → Prop
  | DriverCall.optimized state flags =>
    flags = 0
      ∨ (flags = VK_PIPELINE_CREATE_FAIL_ON_PIPELINE_COMPILE_REQUIRED_BIT
          ∧ canCreateBasePipeline this state = true)
  | DriverCall.link key =>
    ∃ state, canCreateBasePipeline this state = true ∧ key = baseInstanceKey this state

/-! ## Example inputs -/

/-- Format infos for the examples: format 37 (`R8G8B8A8_UNORM`) has the four colour
components, format 9 (`R8_UNORM`) has the component R alone, format 126 (`D32_SFLOAT`)
has the depth aspect; no other format is known. -/
def exampleLookupFormatInfo (format : VkFormat) : Option DxvkFormatInfo :=
  if format = 37 then
    some { componentMask := 0xF, aspectMask := VK_IMAGE_ASPECT_COLOR_BIT }
  else if format = 9 then
    some { componentMask := VK_COLOR_COMPONENT_R_BIT, aspectMask := VK_IMAGE_ASPECT_COLOR_BIT }
  else if format = 126 then
    some { componentMask := 0, aspectMask := VK_IMAGE_ASPECT_DEPTH_BIT }
  else none

/-- A component remapping for the examples: a component of the result is set when the
mask has the component that the swizzle takes it from. -/
def exampleRemapComponentMask (mask : Nat) (swizzle : DxvkOmAttachmentSwizzle) : Nat :=
  (if mask.testBit swizzle.rIndex then VK_COLOR_COMPONENT_R_BIT else 0)
    ||| (if mask.testBit swizzle.gIndex then VK_COLOR_COMPONENT_G_BIT else 0)
    ||| (if mask.testBit swizzle.bIndex then VK_COLOR_COMPONENT_B_BIT else 0)
    ||| (if mask.testBit swizzle.aIndex then VK_COLOR_COMPONENT_A_BIT else 0)

/-- A blend factor table for the examples: the source-alpha factors become the
source-colour factors, every other factor is kept. -/
def exampleRemapAlphaToColorBlendFactor (factor : Nat) : Nat :=
  if factor = VK_BLEND_FACTOR_SRC_ALPHA then VK_BLEND_FACTOR_SRC_COLOR
  else if factor = VK_BLEND_FACTOR_ONE_MINUS_SRC_ALPHA then VK_BLEND_FACTOR_ONE_MINUS_SRC_COLOR
  else factor

/-- Header declarations for the examples: no state uses dual-source blending or a dynamic
state flag, and a new instance starts with `isCompiling` set exactly when it has a fast
handle. -/
def exampleHeaderDecls : HeaderDecls :=
  { useDualSourceBlending := fun _ => false
    instanceIsCompiling := fun _ _ fastHandle => fastHandle != VK_NULL_HANDLE
    useDynamicVertexStrides := fun _ => false
    useDynamicDepthBias := fun _ => false
    useDynamicDepthBounds := fun _ => false
    useDynamicBlendConstants := fun _ => false
    useDynamicStencilRef := fun _ => false
    lookupFormatInfo := exampleLookupFormatInfo
    remapComponentMask := exampleRemapComponentMask
    remapAlphaToColorBlendFactor := exampleRemapAlphaToColorBlendFactor }

/-- Header declarations for the examples with an instance constructor that always clears
`isCompiling`. -/
def exampleHeaderDeclsClearFlag : HeaderDecls :=
  { exampleHeaderDecls with instanceIsCompiling := fun _ _ _ => false }

/-- A pipeline with both shader pipeline libraries on a device with pipeline cache
control. -/
def exampleLibraryPipeline : DxvkGraphicsPipeline :=
  { m_vsLibrary := some {}, m_fsLibrary := some {}
    m_device := { canUsePipelineCacheControl := true }
    hdr := exampleHeaderDecls }

/-- The pipeline with both libraries and an instance constructor that always clears
`isCompiling`. -/
def exampleLibraryPipelineClearFlag : DxvkGraphicsPipeline :=
  { m_vsLibrary := some {}, m_fsLibrary := some {}
    m_device := { canUsePipelineCacheControl := true }
    hdr := exampleHeaderDeclsClearFlag }

/-- A pipeline without shader pipeline libraries, so that no state is base-eligible. -/
def examplePlainPipeline : DxvkGraphicsPipeline :=
  { hdr := exampleHeaderDecls }

/-- The plain pipeline with an instance constructor that always clears `isCompiling`. -/
def examplePlainPipelineClearFlag : DxvkGraphicsPipeline :=
  { hdr := exampleHeaderDeclsClearFlag }

/-- A pipeline with a tessellation control and a tessellation evaluation shader. -/
def exampleTessPipeline : DxvkGraphicsPipeline :=
  { m_shaders :=
      { tcs := some { stage := VK_SHADER_STAGE_TESSELLATION_CONTROL_BIT }
        tes := some { stage := VK_SHADER_STAGE_TESSELLATION_EVALUATION_BIT } }
    hdr := exampleHeaderDecls }

/-- A driver for which every request succeeds; request number `n` yields handle `n + 100`. -/
def exampleDriver : Driver := fun n _ => (VK_SUCCESS, n + 100)

/-- A driver for which every request fails. -/
def exampleFailingDriver : Driver := fun _ _ => (-1, VK_NULL_HANDLE)

/-- A driver that fails every optimized compile and links every base pipeline as handle 7. -/
def exampleLinkOnlyDriver : Driver := fun _ request =>
  match request with
  | DriverCall.optimized _ _ => (-1, VK_NULL_HANDLE)
  | DriverCall.link _ => (VK_SUCCESS, 7)

/-- A driver that fails the cached compile (create flags set), compiles without flags as
handle 9 and links every base pipeline as handle 7. -/
def exampleUpgradeDriver : Driver := fun _ request =>
  match request with
  | DriverCall.optimized _ flags => if flags == 0 then (VK_SUCCESS, 9) else (-1, VK_NULL_HANDLE)
  | DriverCall.link _ => (VK_SUCCESS, 7)

/-- A driver that fails its first request and answers the second with handle 101; later
requests fail. -/
def exampleSecondOnlyDriver : Driver := fun n _ =>
  if n == 1 then (VK_SUCCESS, 101) else (-1, VK_NULL_HANDLE)

/-- A driver whose first request succeeds with handle 100 and whose later requests fail. -/
def exampleFirstOnlyDriver : Driver := fun n _ =>
  if n == 0 then (VK_SUCCESS, 100) else (-1, VK_NULL_HANDLE)

/-- Two threads call `getPipelineHandle` for the default state at the same time: both
miss in the lock-free scan, then each runs its mutex-protected block and loads. -/
def exampleRace : List Event :=
  [Event.call (Call.getHandle {}), Event.call (Call.getHandle {}),
    Event.step 0, Event.step 1, Event.step 0, Event.step 1, Event.step 0, Event.step 1]

/-- The default state vector: triangle list, fill mode, nothing else set. -/
def exampleState : DxvkGraphicsPipelineStateInfo := {}

/-- A state vector with patch-list topology. -/
def examplePatchState : DxvkGraphicsPipelineStateInfo :=
  { ia := { primitiveTopology := VK_PRIMITIVE_TOPOLOGY_PATCH_LIST } }

/-- A state with line polygon mode, which is never base-eligible. -/
def exampleLineState : DxvkGraphicsPipelineStateInfo :=
  { rs := { polygonMode := VK_POLYGON_MODE_LINE } }

/-- The pipeline with both libraries on a device whose configuration forces the use of
pipeline libraries (`enableGraphicsPipelineLibrary` is `True`). -/
def exampleForcedLibraryPipeline : DxvkGraphicsPipeline :=
  { m_vsLibrary := some {}, m_fsLibrary := some {}
    m_device := { canUsePipelineCacheControl := true
                  enableGraphicsPipelineLibrary := Tristate.True }
    hdr := exampleHeaderDecls }

/-- A device on which every format supports every use. -/
def exampleFormatDevice : DxvkDevice :=
  { formatProperties := fun _ =>
      { bufferFeatures := VK_FORMAT_FEATURE_VERTEX_BUFFER_BIT
        optimalTilingFeatures := VK_FORMAT_FEATURE_COLOR_ATTACHMENT_BIT
          ||| VK_FORMAT_FEATURE_DEPTH_STENCIL_ATTACHMENT_BIT } }

/-- A plain pipeline on the device on which every format supports every use. -/
def exampleFormatPipeline : DxvkGraphicsPipeline :=
  { m_device := exampleFormatDevice, hdr := exampleHeaderDecls }

/-- A state with two attributes, at locations 0 and 1, that read from the one declared
binding, which has binding number 0. -/
def exampleTwoAttributeState : DxvkGraphicsPipelineStateInfo :=
  { il := { attributeCount := 2, bindingCount := 1 }
    ilAttributes := [{ location := 0, binding := 0 }, { location := 1, binding := 0 }]
    ilBindings := [{ binding := 0 }] }

/-- A state with one attribute that reads from binding 0 although no binding is
declared. -/
def exampleUndeclaredBindingState : DxvkGraphicsPipelineStateInfo :=
  { il := { attributeCount := 1, bindingCount := 0 }
    ilAttributes := [{ location := 0, binding := 0 }] }

/-- The state cache key of a pipeline: the keys of its shaders. -/
def stateCacheKey (this : DxvkGraphicsPipeline) : DxvkStateCacheKey :=
  { vs := this.m_shaders.vs.shaderKey
    tcs := (this.m_shaders.tcs.map (·.shaderKey)).getD 0
    tes := (this.m_shaders.tes.map (·.shaderKey)).getD 0
    gs := (this.m_shaders.gs.map (·.shaderKey)).getD 0
    fs := (this.m_shaders.fs.map (·.shaderKey)).getD 0 }

/-- A vertex shader that reads the locations 0 and 2. -/
def exampleMaskedShader : DxvkShader := { inputMask := 0b00000101 }

/-- A state with attributes at the locations 0, 1, 2 and 3 and two vertex-rate bindings
with the binding numbers 0 and 1; the attributes at locations 0 and 1 read from binding
0, those at locations 2 and 3 from binding 1. -/
def exampleFourAttributeState : DxvkGraphicsPipelineStateInfo :=
  { il := { attributeCount := 4, bindingCount := 2 }
    ilAttributes :=
      [ { location := 0, binding := 0, format := 100, offset := 0 }
      , { location := 1, binding := 0, format := 101, offset := 16 }
      , { location := 2, binding := 1, format := 102, offset := 0 }
      , { location := 3, binding := 1, format := 103, offset := 8 } ]
    ilBindings :=
      [ { binding := 0, stride := 32, inputRate := VK_VERTEX_INPUT_RATE_VERTEX }
      , { binding := 1, stride := 16, inputRate := VK_VERTEX_INPUT_RATE_VERTEX } ] }

/-- A state whose first declared binding (number 7) is read by no attribute and whose
second declared binding (number 3) is read by the one attribute, at location 0. -/
def exampleSkippedBindingState : DxvkGraphicsPipelineStateInfo :=
  { il := { attributeCount := 1, bindingCount := 2 }
    ilAttributes := [{ location := 0, binding := 3, format := 100, offset := 0 }]
    ilBindings :=
      [ { binding := 7, stride := 4, inputRate := VK_VERTEX_INPUT_RATE_VERTEX }
      , { binding := 3, stride := 16, inputRate := VK_VERTEX_INPUT_RATE_VERTEX } ] }

/-- A state with the given primitive topology, one attribute at location 0 and one
instance-rate binding with the given divisor that the attribute reads from. -/
def exampleInstanceRateState (topology divisor : Nat) : DxvkGraphicsPipelineStateInfo :=
  { ia := { primitiveTopology := topology }
    il := { attributeCount := 1, bindingCount := 1 }
    ilAttributes := [{ location := 0, binding := 0, format := 100, offset := 0 }]
    ilBindings :=
      [{ binding := 0, stride := 16, inputRate := VK_VERTEX_INPUT_RATE_INSTANCE
         divisor := divisor }] }

/-- A hash state for the examples: 64-bit values, start value 0, and `add` mixes the
added value into the held one by shifts, additions and exclusive or. -/
def exampleHashState : DxvkHashState :=
  { start := 0
    add := fun value hash =>
      (value ^^^ (hash + 0x9e3779b9 + (value <<< 6) % 2 ^ 64 + (value >>> 2))) % 2 ^ 64 }

/-- A FragmentOutput sub-vector with one colour attachment and one blend attachment that
has blending enabled. -/
def exampleBlendOutput : DxvkGraphicsPipelineFragmentOutputState :=
  { rtInfo := { colorAttachmentCount := 1 }
    cbInfo := { attachmentCount := 1 }
    msInfo := { rasterizationSamples := 1 }
    msSampleMask := 1
    rtColorFormats := [37]
    cbAttachments :=
      [{ blendEnable := 1, srcColorBlendFactor := 6, dstColorBlendFactor := 7
         colorBlendOp := 0, srcAlphaBlendFactor := 1, dstAlphaBlendFactor := 0
         alphaBlendOp := 0, colorWriteMask := 15 }] }

/-- Two FragmentOutput sub-vectors with blending disabled that differ only in a blend
factor of the disabled attachment. -/
def exampleDisabledBlendOutput (srcColorBlendFactor : Nat) :
    DxvkGraphicsPipelineFragmentOutputState :=
  { rtInfo := { colorAttachmentCount := 1 }
    cbInfo := { attachmentCount := 1 }
    msInfo := { rasterizationSamples := 1 }
    msSampleMask := 1
    rtColorFormats := [37]
    cbAttachments :=
      [{ blendEnable := 0, srcColorBlendFactor := srcColorBlendFactor, colorWriteMask := 15 }] }

/-- A state with four samples and the sample mask `0xFFFF`. -/
def exampleFourSampleState : DxvkGraphicsPipelineStateInfo :=
  { ms := { sampleCount := 4, sampleMask := 0xFFFF } }

/-- A pipeline whose geometry shader rasterizes no stream. -/
def exampleDiscardPipeline : DxvkGraphicsPipeline :=
  { m_shaders := { gs := some { stage := VK_SHADER_STAGE_GEOMETRY_BIT, xfbRasterizedStream := -1 } }
    hdr := exampleHeaderDecls }

/-- A pipeline whose geometry shader rasterizes stream 2. -/
def exampleStreamPipeline : DxvkGraphicsPipeline :=
  { m_shaders := { gs := some { stage := VK_SHADER_STAGE_GEOMETRY_BIT, xfbRasterizedStream := 2 } }
    hdr := exampleHeaderDecls }

/-- Header declarations for the examples in which every state uses dual-source
blending. -/
def exampleDualSourceHeaderDecls : HeaderDecls :=
  { exampleHeaderDecls with useDualSourceBlending := fun _ => true }

/-- A fragment shader that writes the outputs 0 and 1. -/
def exampleFragmentShader : DxvkShader :=
  { stage := VK_SHADER_STAGE_FRAGMENT_BIT, outputMask := 0b11 }

/-- A state with two render targets of the format 37, both with the write mask RGBA and
without blending. -/
def exampleTwoTargetState : DxvkGraphicsPipelineStateInfo :=
  { rt := { colorFormats := [37, 37] }
    omBlend := [{ colorWriteMask := 0xF }, { colorWriteMask := 0xF }]
    omSwizzle := [{}, {}] }

/-- A state with one render target of the format 37 whose write mask is R and B and
whose swizzle is the identity. -/
def examplePartialMaskState : DxvkGraphicsPipelineStateInfo :=
  { rt := { colorFormats := [37] }
    omBlend := [{ colorWriteMask := 0x5 }]
    omSwizzle := [{}] }

/-- A state with one render target of the alpha-only emulation kind: the format 9 has
the component R alone and the swizzle takes R from the source index 3. Blending is
enabled with the given colour factors and operation and the given alpha factors and
operation. -/
def exampleAlphaOnlyState (srcColor dstColor colorOp srcAlpha dstAlpha alphaOp : Nat) :
    DxvkGraphicsPipelineStateInfo :=
  { rt := { colorFormats := [9] }
    omBlend :=
      [{ blendEnable := true
         srcColorBlendFactor := srcColor, dstColorBlendFactor := dstColor
         colorBlendOp := colorOp
         srcAlphaBlendFactor := srcAlpha, dstAlphaBlendFactor := dstAlpha
         alphaBlendOp := alphaOp
         colorWriteMask := 0xF }]
    omSwizzle := [{ rIndex := 3, gIndex := 1, bIndex := 2, aIndex := 0 }] }

/-- The state `exampleFourAttributeState` with another binding, format and offset for
the attributes at the locations 1 and 3, which `exampleMaskedShader` does not read. -/
def exampleFourAttributeStateVariant : DxvkGraphicsPipelineStateInfo :=
  { exampleFourAttributeState with
    ilAttributes :=
      [ { location := 0, binding := 0, format := 100, offset := 0 }
      , { location := 1, binding := 1, format := 77, offset := 4 }
      , { location := 2, binding := 1, format := 102, offset := 0 }
      , { location := 3, binding := 0, format := 78, offset := 12 } ] }

/-- A pipeline with both libraries, a vertex shader that writes the outputs 0 and 1 and
a fragment shader that reads the input 0 and writes the output 0. -/
def exampleEligiblePipeline : DxvkGraphicsPipeline :=
  { m_vsLibrary := some {}, m_fsLibrary := some {}
    m_shaders :=
      { vs := { stage := VK_SHADER_STAGE_VERTEX_BIT, outputMask := 0b11 }
        fs := some { stage := VK_SHADER_STAGE_FRAGMENT_BIT, inputMask := 0b01
                     outputMask := 0b01 } }
    hdr := exampleHeaderDecls }

/-- A lookup of the default state followed by its background compile. -/
def exampleLookupThenCompile : List Call :=
  [Call.getHandle exampleState, Call.compile exampleState]

/-! ## Basic facts about the pieces -/

theorem instanceAt_eq_getElem (w : PipelineData) (ptr : Nat) (h : ptr < w.m_pipelines.length) :
    instanceAt w ptr = w.m_pipelines[ptr] := by
  simp [instanceAt, List.getD_eq_getElem, h]

theorem findInstance_some_lt {w : PipelineData} {state : DxvkGraphicsPipelineStateInfo}
    {ptr : Nat} (h : findInstance w state = some ptr) : ptr < w.m_pipelines.length := by
  unfold findInstance at h
  obtain ⟨hlt, _⟩ := List.findIdx?_eq_some_iff_getElem.mp h
  exact hlt

theorem findInstance_some_state {w : PipelineData} {state : DxvkGraphicsPipelineStateInfo}
    {ptr : Nat} (h : findInstance w state = some ptr) : (instanceAt w ptr).state = state := by
  have hlt := findInstance_some_lt h
  unfold findInstance at h
  obtain ⟨_, hp, _⟩ := List.findIdx?_eq_some_iff_getElem.mp h
  rw [instanceAt_eq_getElem w ptr hlt]
  simpa using hp

theorem findInstance_eq_storedStates (w : PipelineData) (state : DxvkGraphicsPipelineStateInfo) :
    findInstance w state = (storedStates w).findIdx? (fun s => s == state) := by
  simp [findInstance, storedStates, List.findIdx?_map, Function.comp_def]

theorem findInstance_none_iff (w : PipelineData) (state : DxvkGraphicsPipelineStateInfo) :
    findInstance w state = none ↔ state ∉ storedStates w := by
  rw [findInstance_eq_storedStates, List.findIdx?_eq_none_iff]
  constructor
  · intro h hmem
    have := h state hmem
    simp at this
  · intro h x hx
    simp only [beq_iff_eq, Bool.not_eq_true, beq_eq_false_iff_ne, ne_eq]
    intro hxs
    exact h (hxs ▸ hx)

@[simp] theorem createOptimizedPipeline_snd (drv : Driver) (w : PipelineData)
    (state : DxvkGraphicsPipelineStateInfo) (flags : Nat) :
    (createOptimizedPipeline drv w state flags).2
      = { w with driverCalls := w.driverCalls ++ [DriverCall.optimized state flags] } := by
  unfold createOptimizedPipeline
  dsimp only
  split <;> rfl

@[simp] theorem createBaseInstance_m_pipelines (drv : Driver) (w : PipelineData)
    (key : DxvkGraphicsPipelineBaseInstanceKey) :
    (createBaseInstance drv w key).2.m_pipelines = w.m_pipelines := by
  unfold createBaseInstance createBasePipeline
  split <;> rfl

@[simp] theorem createBaseInstance_workerQueue (drv : Driver) (w : PipelineData)
    (key : DxvkGraphicsPipelineBaseInstanceKey) :
    (createBaseInstance drv w key).2.workerQueue = w.workerQueue := by
  unfold createBaseInstance createBasePipeline
  split <;> rfl

@[simp] theorem createInstanceHandles_m_pipelines (this : DxvkGraphicsPipeline) (drv : Driver)
    (w : PipelineData) (state : DxvkGraphicsPipelineStateInfo) (b : Bool) :
    (createInstanceHandles this drv w state b).2.m_pipelines = w.m_pipelines := by
  unfold createInstanceHandles
  dsimp only
  split
  · split <;> split <;> simp
  · simp

@[simp] theorem createInstanceHandles_workerQueue (this : DxvkGraphicsPipeline) (drv : Driver)
    (w : PipelineData) (state : DxvkGraphicsPipelineStateInfo) (b : Bool) :
    (createInstanceHandles this drv w state b).2.workerQueue = w.workerQueue := by
  unfold createInstanceHandles
  dsimp only
  split
  · split <;> split <;> simp
  · simp

/-- The instance that `createInstance` stores. -/
theorem createInstance_spec (this : DxvkGraphicsPipeline) (drv : Driver)
    (w : PipelineData) (state : DxvkGraphicsPipelineStateInfo) (b : Bool) :
    (createInstance this drv w state b).1 = w.m_pipelines.length
    ∧ (createInstance this drv w state b).2.m_pipelines = w.m_pipelines ++
        [{ state := state
           baseHandle := (createInstanceHandles this drv w state b).1.1
           fastHandle := (createInstanceHandles this drv w state b).1.2
           isCompiling := this.hdr.instanceIsCompiling state
             (createInstanceHandles this drv w state b).1.1
             (createInstanceHandles this drv w state b).1.2 }]
    ∧ (createInstance this drv w state b).2.workerQueue = w.workerQueue := by
  unfold createInstance
  simp only
  split <;> simp [logPipelineState]

theorem findInstance_append_new {w w1 : PipelineData} {state : DxvkGraphicsPipelineStateInfo}
    {inst : DxvkGraphicsPipelineInstance} (hnone : findInstance w state = none)
    (happ : w1.m_pipelines = w.m_pipelines ++ [inst]) (hst : inst.state = state) :
    findInstance w1 state = some w.m_pipelines.length := by
  unfold findInstance at hnone ⊢
  rw [happ, List.findIdx?_append, hnone]
  simp [List.findIdx?_cons, hst]

theorem findInstance_append_old {w w1 : PipelineData} {state : DxvkGraphicsPipelineStateInfo}
    {extra : List DxvkGraphicsPipelineInstance} {ptr : Nat}
    (hsome : findInstance w state = some ptr)
    (happ : w1.m_pipelines = w.m_pipelines ++ extra) :
    findInstance w1 state = some ptr := by
  unfold findInstance at hsome ⊢
  rw [happ, List.findIdx?_append, hsome]
  rfl

theorem instanceAt_append_new {w w1 : PipelineData} {inst : DxvkGraphicsPipelineInstance}
    (happ : w1.m_pipelines = w.m_pipelines ++ [inst]) :
    instanceAt w1 w.m_pipelines.length = inst := by
  simp [instanceAt, happ]

/-- What the mutex-protected block of `getPipelineHandle` does on a miss. -/
theorem getPipelineHandleLocked_miss (this : DxvkGraphicsPipeline) (drv : Driver)
    (w : PipelineData) (state : DxvkGraphicsPipelineStateInfo)
    (hnone : findInstance w state = none) :
    (getPipelineHandleLocked this drv w state).1 = w.m_pipelines.length
    ∧ (getPipelineHandleLocked this drv w state).2.m_pipelines
        = (createInstance this drv w state (canCreateBasePipeline this state)).2.m_pipelines
    ∧ (getPipelineHandleLocked this drv w state).2.workerQueue
        = if (instanceAt (createInstance this drv w state (canCreateBasePipeline this state)).2
              w.m_pipelines.length).fastHandle = VK_NULL_HANDLE
          then w.workerQueue ++ [state] else w.workerQueue := by
  obtain ⟨h1, h2, h3⟩ := createInstance_spec this drv w state (canCreateBasePipeline this state)
  unfold getPipelineHandleLocked
  rw [hnone]
  dsimp only
  rw [h1]
  refine ⟨rfl, ?_, ?_⟩
  · split <;> split <;> simp [enqueueCompile, writePipelineStateToCache]
  · split <;> split <;> simp_all [enqueueCompile, writePipelineStateToCache]

theorem getPipelineHandle_hit (this : DxvkGraphicsPipeline) (drv : Driver)
    (w : PipelineData) (state : DxvkGraphicsPipelineStateInfo) (ptr : Nat)
    (hfind : findInstance w state = some ptr) :
    getPipelineHandle this drv w state = (loadPipelineHandle w ptr, w) := by
  unfold getPipelineHandle
  rw [hfind]

theorem getPipelineHandle_invalid (this : DxvkGraphicsPipeline) (drv : Driver)
    (w : PipelineData) (state : DxvkGraphicsPipelineStateInfo)
    (hfind : findInstance w state = none)
    (hval : validatePipelineState this state true = false) :
    getPipelineHandle this drv w state
      = ((VK_NULL_HANDLE, DxvkGraphicsPipelineType.FastPipeline), w) := by
  unfold getPipelineHandle
  rw [hfind]
  simp [hval]

theorem getPipelineHandle_miss (this : DxvkGraphicsPipeline) (drv : Driver)
    (w : PipelineData) (state : DxvkGraphicsPipelineStateInfo)
    (hfind : findInstance w state = none)
    (hval : validatePipelineState this state true = true) :
    getPipelineHandle this drv w state
      = (loadPipelineHandle (getPipelineHandleLocked this drv w state).2
            (getPipelineHandleLocked this drv w state).1,
          (getPipelineHandleLocked this drv w state).2) := by
  unfold getPipelineHandle
  rw [hfind]
  simp [hval]

/-- After the mutex-protected block of `getPipelineHandle`, the returned pointer is what
`findInstance` finds for the state. -/
theorem getPipelineHandleLocked_find (this : DxvkGraphicsPipeline) (drv : Driver)
    (w : PipelineData) (state : DxvkGraphicsPipelineStateInfo) :
    findInstance (getPipelineHandleLocked this drv w state).2 state
      = some (getPipelineHandleLocked this drv w state).1 := by
  cases hfind : findInstance w state with
  | some p =>
    have : getPipelineHandleLocked this drv w state = (p, w) := by
      unfold getPipelineHandleLocked
      rw [hfind]
    rw [this]
    exact hfind
  | none =>
    obtain ⟨h1, h2, _⟩ := getPipelineHandleLocked_miss this drv w state hfind
    obtain ⟨_, c2, _⟩ := createInstance_spec this drv w state (canCreateBasePipeline this state)
    rw [findInstance_append_new hfind (h2.trans c2) rfl, h1]

/-- The result of `getPipelineHandle` is read from the instance that the lookup ends with. -/
theorem getPipelineHandle_result (this : DxvkGraphicsPipeline) (drv : Driver)
    (w : PipelineData) (state : DxvkGraphicsPipelineStateInfo) (ptr : Nat)
    (hinst : findInstance (getPipelineHandle this drv w state).2 state = some ptr) :
    (getPipelineHandle this drv w state).1
      = loadPipelineHandle (getPipelineHandle this drv w state).2 ptr := by
  cases hfind : findInstance w state with
  | some p =>
    rw [getPipelineHandle_hit this drv w state p hfind] at hinst ⊢
    dsimp only at hinst ⊢
    rw [hfind] at hinst
    cases hinst
    rfl
  | none =>
    cases hval : validatePipelineState this state true with
    | true =>
      rw [getPipelineHandle_miss this drv w state hfind hval] at hinst ⊢
      dsimp only at hinst ⊢
      rw [getPipelineHandleLocked_find] at hinst
      cases hinst
      rfl
    | false =>
      rw [getPipelineHandle_invalid this drv w state hfind hval] at hinst
      dsimp only at hinst
      rw [hfind] at hinst
      cases hinst

/-- C1: whenever an Instance for `state` exists when the lookup of
`getPipelineHandle(state)` has finished (it was found, or it has just been created), the
call returns `(fastHandle, FastPipeline)` if that Instance's `fastHandle` is not null and
`(baseHandle, BasePipeline)` with that Instance's `baseHandle` otherwise. -/
theorem getPipelineHandle_returns_fast_else_base (this : DxvkGraphicsPipeline) (drv : Driver)
    (w : PipelineData) (state : DxvkGraphicsPipelineStateInfo) (ptr : Nat)
    (hinst : findInstance (getPipelineHandle this drv w state).2 state = some ptr) :
    ((instanceAt (getPipelineHandle this drv w state).2 ptr).fastHandle ≠ VK_NULL_HANDLE →
      (getPipelineHandle this drv w state).1
        = ((instanceAt (getPipelineHandle this drv w state).2 ptr).fastHandle,
            DxvkGraphicsPipelineType.FastPipeline))
    ∧ ((instanceAt (getPipelineHandle this drv w state).2 ptr).fastHandle = VK_NULL_HANDLE →
      (getPipelineHandle this drv w state).1
        = ((instanceAt (getPipelineHandle this drv w state).2 ptr).baseHandle,
            DxvkGraphicsPipelineType.BasePipeline)) := by
  rw [getPipelineHandle_result this drv w state ptr hinst]
  unfold loadPipelineHandle
  constructor
  · intro h
    simp [h]
  · intro h
    simp [h]

/-- Witness for C1: on a fresh pipeline whose driver only links, the lookup ends
with instance 0, whose fast handle is null, and the call returns its base handle 7. -/
theorem getPipelineHandle_returns_fast_else_base_witness :
    findInstance (getPipelineHandle exampleLibraryPipeline exampleLinkOnlyDriver {}
        exampleState).2 exampleState = some 0
    ∧ (getPipelineHandle exampleLibraryPipeline exampleLinkOnlyDriver {} exampleState).1
        = (7, DxvkGraphicsPipelineType.BasePipeline) :=
  ⟨by decide,
    (getPipelineHandle_returns_fast_else_base exampleLibraryPipeline exampleLinkOnlyDriver {}
      exampleState 0 (by decide)).2 (by decide)⟩

/-- A patch-list topology without both tessellation shaders fails validation. -/
theorem validatePipelineState_patch_without_tess (this : DxvkGraphicsPipeline)
    (state : DxvkGraphicsPipelineStateInfo) (trusted : Bool)
    (htopo : state.ia.primitiveTopology = VK_PRIMITIVE_TOPOLOGY_PATCH_LIST)
    (hno : this.m_shaders.tcs = none ∨ this.m_shaders.tes = none) :
    validatePipelineState this state trusted = false := by
  unfold validatePipelineState
  rcases hno with h | h <;> simp [htopo, h]

/-- C4: for a state that has no Instance and fails trusted validation (for example a
patch-list topology on a pipeline that lacks a tessellation shader),
`getPipelineHandle` returns `(VK_NULL_HANDLE, FastPipeline)` and changes nothing:
the instance containers, the driver requests, the worker queue and the state cache are
as before. -/
theorem getPipelineHandle_invalid_state_unchanged (this : DxvkGraphicsPipeline)
    (drv : Driver) (w : PipelineData) (state : DxvkGraphicsPipelineStateInfo)
    (hmiss : findInstance w state = none)
    (hbad : validatePipelineState this state true = false
      ∨ (state.ia.primitiveTopology = VK_PRIMITIVE_TOPOLOGY_PATCH_LIST
          ∧ (this.m_shaders.tcs = none ∨ this.m_shaders.tes = none))) :
    validatePipelineState this state true = false
    ∧ getPipelineHandle this drv w state
        = ((VK_NULL_HANDLE, DxvkGraphicsPipelineType.FastPipeline), w) := by
  have hval : validatePipelineState this state true = false := by
    rcases hbad with h | ⟨htopo, hno⟩
    · exact h
    · exact validatePipelineState_patch_without_tess this state true htopo hno
  exact ⟨hval, getPipelineHandle_invalid this drv w state hmiss hval⟩

/-- Witness for C4: a patch-list state on a pipeline without tessellation shaders. -/
theorem getPipelineHandle_invalid_state_unchanged_witness :
    findInstance {} examplePatchState = none
    ∧ (validatePipelineState exampleLibraryPipeline examplePatchState true = false
      ∨ (examplePatchState.ia.primitiveTopology = VK_PRIMITIVE_TOPOLOGY_PATCH_LIST
          ∧ (exampleLibraryPipeline.m_shaders.tcs = none
              ∨ exampleLibraryPipeline.m_shaders.tes = none)))
    ∧ validatePipelineState exampleLibraryPipeline examplePatchState true = false
    ∧ getPipelineHandle exampleLibraryPipeline exampleDriver {} examplePatchState
        = ((VK_NULL_HANDLE, DxvkGraphicsPipelineType.FastPipeline), {}) :=
  ⟨by decide, Or.inr ⟨by decide, Or.inl (by decide)⟩,
    getPipelineHandle_invalid_state_unchanged exampleLibraryPipeline exampleDriver {}
      examplePatchState (by decide) (Or.inr ⟨by decide, Or.inl (by decide)⟩)⟩

theorem createBaseInstance_driverCalls (drv : Driver) (w : PipelineData)
    (key : DxvkGraphicsPipelineBaseInstanceKey) :
    (createBaseInstance drv w key).2.driverCalls = w.driverCalls
    ∨ (createBaseInstance drv w key).2.driverCalls = w.driverCalls ++ [DriverCall.link key] := by
  unfold createBaseInstance createBasePipeline
  split
  · exact Or.inl rfl
  · exact Or.inr rfl

theorem createInstanceHandles_base (this : DxvkGraphicsPipeline) (drv : Driver)
    (w : PipelineData) (state : DxvkGraphicsPipelineStateInfo) :
    createInstanceHandles this drv w state false
      = ((VK_NULL_HANDLE, (createOptimizedPipeline drv w state 0).1),
          (createOptimizedPipeline drv w state 0).2) := by
  simp [createInstanceHandles]

theorem createInstanceHandles_cached (this : DxvkGraphicsPipeline) (drv : Driver)
    (w : PipelineData) (state : DxvkGraphicsPipelineStateInfo)
    (hcc : this.m_device.canUsePipelineCacheControl = true)
    (hh : (createOptimizedPipeline drv w state
      VK_PIPELINE_CREATE_FAIL_ON_PIPELINE_COMPILE_REQUIRED_BIT).1 ≠ VK_NULL_HANDLE) :
    createInstanceHandles this drv w state true
      = ((VK_NULL_HANDLE, (createOptimizedPipeline drv w state
            VK_PIPELINE_CREATE_FAIL_ON_PIPELINE_COMPILE_REQUIRED_BIT).1),
          (createOptimizedPipeline drv w state
            VK_PIPELINE_CREATE_FAIL_ON_PIPELINE_COMPILE_REQUIRED_BIT).2) := by
  unfold createInstanceHandles
  simp only [hcc, if_true]
  simp [hh]

theorem createInstanceHandles_cache_miss (this : DxvkGraphicsPipeline) (drv : Driver)
    (w : PipelineData) (state : DxvkGraphicsPipelineStateInfo)
    (hcc : this.m_device.canUsePipelineCacheControl = true)
    (hh : (createOptimizedPipeline drv w state
      VK_PIPELINE_CREATE_FAIL_ON_PIPELINE_COMPILE_REQUIRED_BIT).1 = VK_NULL_HANDLE) :
    createInstanceHandles this drv w state true
      = (((createBaseInstance drv (createOptimizedPipeline drv w state
              VK_PIPELINE_CREATE_FAIL_ON_PIPELINE_COMPILE_REQUIRED_BIT).2
            (baseInstanceKey this state)).1.handle, VK_NULL_HANDLE),
          (createBaseInstance drv (createOptimizedPipeline drv w state
              VK_PIPELINE_CREATE_FAIL_ON_PIPELINE_COMPILE_REQUIRED_BIT).2
            (baseInstanceKey this state)).2) := by
  unfold createInstanceHandles
  simp only [hcc, if_true]
  simp [hh]

theorem createInstanceHandles_no_cache_control (this : DxvkGraphicsPipeline) (drv : Driver)
    (w : PipelineData) (state : DxvkGraphicsPipelineStateInfo)
    (hcc : this.m_device.canUsePipelineCacheControl = false) :
    createInstanceHandles this drv w state true
      = (((createBaseInstance drv w (baseInstanceKey this state)).1.handle, VK_NULL_HANDLE),
          (createBaseInstance drv w (baseInstanceKey this state)).2) := by
  unfold createInstanceHandles
  simp [hcc]

/-- The instance that `createInstance` returns, and the fields it leaves to
`createInstanceHandles`. -/
theorem createInstance_instance (this : DxvkGraphicsPipeline) (drv : Driver)
    (w : PipelineData) (state : DxvkGraphicsPipelineStateInfo) (b : Bool) :
    instanceAt (createInstance this drv w state b).2 (createInstance this drv w state b).1
      = { state := state
          baseHandle := (createInstanceHandles this drv w state b).1.1
          fastHandle := (createInstanceHandles this drv w state b).1.2
          isCompiling := this.hdr.instanceIsCompiling state
            (createInstanceHandles this drv w state b).1.1
            (createInstanceHandles this drv w state b).1.2 }
    ∧ (createInstance this drv w state b).2.driverCalls
        = (createInstanceHandles this drv w state b).2.driverCalls
    ∧ (createInstance this drv w state b).2.m_basePipelines
        = (createInstanceHandles this drv w state b).2.m_basePipelines := by
  obtain ⟨h1, h2, _⟩ := createInstance_spec this drv w state b
  refine ⟨?_, ?_, ?_⟩
  · rw [h1]
    exact instanceAt_append_new h2
  · unfold createInstance
    dsimp only
    split <;> simp [logPipelineState]
  · unfold createInstance
    dsimp only
    split <;> simp [logPipelineState]

theorem createInstanceHandles_one_null (this : DxvkGraphicsPipeline) (drv : Driver)
    (w : PipelineData) (state : DxvkGraphicsPipelineStateInfo) (b : Bool) :
    (createInstanceHandles this drv w state b).1.1 = VK_NULL_HANDLE
    ∨ (createInstanceHandles this drv w state b).1.2 = VK_NULL_HANDLE := by
  cases b with
  | false =>
    rw [createInstanceHandles_base]
    exact Or.inl rfl
  | true =>
    cases hcc : this.m_device.canUsePipelineCacheControl with
    | false =>
      rw [createInstanceHandles_no_cache_control this drv w state hcc]
      exact Or.inr rfl
    | true =>
      by_cases hh : (createOptimizedPipeline drv w state
          VK_PIPELINE_CREATE_FAIL_ON_PIPELINE_COMPILE_REQUIRED_BIT).1 = VK_NULL_HANDLE
      · rw [createInstanceHandles_cache_miss this drv w state hcc hh]
        exact Or.inr rfl
      · rw [createInstanceHandles_cached this drv w state hcc hh]
        exact Or.inl rfl

theorem createOptimizedPipeline_fields (drv : Driver) (w : PipelineData)
    (state : DxvkGraphicsPipelineStateInfo) (flags : Nat) :
    (createOptimizedPipeline drv w state flags).2.driverCalls
        = w.driverCalls ++ [DriverCall.optimized state flags]
    ∧ (createOptimizedPipeline drv w state flags).2.m_pipelines = w.m_pipelines
    ∧ (createOptimizedPipeline drv w state flags).2.m_basePipelines = w.m_basePipelines := by
  unfold createOptimizedPipeline
  dsimp only
  split <;> exact ⟨rfl, rfl, rfl⟩

/-- The handle that `createOptimizedPipeline` returns is the handle that the driver wrote
for the request, and null unless the result code is `VK_SUCCESS`. -/
theorem createOptimizedPipeline_answer (drv : Driver) (w : PipelineData)
    (state : DxvkGraphicsPipelineStateInfo) (flags : Nat) :
    (createOptimizedPipeline drv w state flags).1
      = if (drv w.driverCalls.length (DriverCall.optimized state flags)).1 = VK_SUCCESS then
          (drv w.driverCalls.length (DriverCall.optimized state flags)).2
        else VK_NULL_HANDLE := by
  unfold createOptimizedPipeline
  dsimp only
  by_cases hs : (drv w.driverCalls.length (DriverCall.optimized state flags)).1 = VK_SUCCESS
  · simp [hs]
  · simp [hs]

/-- When a base instance with the key exists, `createBaseInstance` returns the first one
and requests nothing. -/
theorem createBaseInstance_found (drv : Driver) (w : PipelineData)
    (key : DxvkGraphicsPipelineBaseInstanceKey) (inst : DxvkGraphicsPipelineBaseInstance)
    (h : w.m_basePipelines.find? (fun x => x.key == key) = some inst) :
    createBaseInstance drv w key = (inst, w) := by
  unfold createBaseInstance
  rw [h]

/-- When no base instance has the key, `createBaseInstance` requests the link of the key
from the driver and stores a base instance with the handle that the driver wrote. -/
theorem createBaseInstance_linked (drv : Driver) (w : PipelineData)
    (key : DxvkGraphicsPipelineBaseInstanceKey)
    (h : ∀ inst ∈ w.m_basePipelines, inst.key ≠ key) :
    createBaseInstance drv w key
      = ({ key := key, handle := (drv w.driverCalls.length (DriverCall.link key)).2 },
          { w with
            driverCalls := w.driverCalls ++ [DriverCall.link key]
            m_basePipelines := w.m_basePipelines
              ++ [{ key := key
                    handle := (drv w.driverCalls.length (DriverCall.link key)).2 }] }) := by
  have hnone : w.m_basePipelines.find? (fun x => x.key == key) = none := by
    rw [List.find?_eq_none]
    intro x hx
    simpa using h x hx
  unfold createBaseInstance
  rw [hnone]
  rfl

/-- C5: the routing of `createInstance(state, doCreateBasePipeline)`. The call appends
one Instance for `state`, never with both handles non-null. Without
`doCreateBasePipeline` the fast handle is the result of the optimized compile with
flags 0 and the base handle is null. With it, the cached compile (flag
`FAIL_ON_PIPELINE_COMPILE_REQUIRED`) is requested only on a device with pipeline cache
control; if it yields a handle, that is the fast handle, the base handle is null and no
base pipeline is linked; otherwise the fast handle is null and the base handle is the
handle of the base instance for the key of the state: the handle of the first base
instance that has the key, without a request, if there is one, and else the handle that
the driver wrote for the link of the key, which is requested and stored as a new base
instance. The result of an optimized compile is the handle that the driver wrote for the
request, and null unless the result code is `VK_SUCCESS`. -/
theorem createInstance_routing (this : DxvkGraphicsPipeline) (drv : Driver)
    (w : PipelineData) (state : DxvkGraphicsPipelineStateInfo) (doCreateBasePipeline : Bool) :
    (createInstance this drv w state doCreateBasePipeline).2.m_pipelines = w.m_pipelines ++
      [instanceAt (createInstance this drv w state doCreateBasePipeline).2
        (createInstance this drv w state doCreateBasePipeline).1]
    ∧ (instanceAt (createInstance this drv w state doCreateBasePipeline).2
        (createInstance this drv w state doCreateBasePipeline).1).state = state
    ∧ ¬ ((instanceAt (createInstance this drv w state doCreateBasePipeline).2
          (createInstance this drv w state doCreateBasePipeline).1).baseHandle ≠ VK_NULL_HANDLE
        ∧ (instanceAt (createInstance this drv w state doCreateBasePipeline).2
          (createInstance this drv w state doCreateBasePipeline).1).fastHandle ≠ VK_NULL_HANDLE)
    ∧ (doCreateBasePipeline = false →
        (instanceAt (createInstance this drv w state false).2
            (createInstance this drv w state false).1).fastHandle
          = (createOptimizedPipeline drv w state 0).1
        ∧ (instanceAt (createInstance this drv w state false).2
            (createInstance this drv w state false).1).baseHandle = VK_NULL_HANDLE
        ∧ (createInstance this drv w state false).2.driverCalls
            = w.driverCalls ++ [DriverCall.optimized state 0]
        ∧ (createInstance this drv w state false).2.m_basePipelines = w.m_basePipelines)
    ∧ (doCreateBasePipeline = true → this.m_device.canUsePipelineCacheControl = true →
        (createOptimizedPipeline drv w state
          VK_PIPELINE_CREATE_FAIL_ON_PIPELINE_COMPILE_REQUIRED_BIT).1 ≠ VK_NULL_HANDLE →
        (instanceAt (createInstance this drv w state true).2
            (createInstance this drv w state true).1).fastHandle
          = (createOptimizedPipeline drv w state
              VK_PIPELINE_CREATE_FAIL_ON_PIPELINE_COMPILE_REQUIRED_BIT).1
        ∧ (instanceAt (createInstance this drv w state true).2
            (createInstance this drv w state true).1).baseHandle = VK_NULL_HANDLE
        ∧ (createInstance this drv w state true).2.driverCalls
            = w.driverCalls ++ [DriverCall.optimized state
                VK_PIPELINE_CREATE_FAIL_ON_PIPELINE_COMPILE_REQUIRED_BIT]
        ∧ (createInstance this drv w state true).2.m_basePipelines = w.m_basePipelines)
    ∧ (doCreateBasePipeline = true → this.m_device.canUsePipelineCacheControl = true →
        (createOptimizedPipeline drv w state
          VK_PIPELINE_CREATE_FAIL_ON_PIPELINE_COMPILE_REQUIRED_BIT).1 = VK_NULL_HANDLE →
        (instanceAt (createInstance this drv w state true).2
            (createInstance this drv w state true).1).fastHandle = VK_NULL_HANDLE
        ∧ (instanceAt (createInstance this drv w state true).2
            (createInstance this drv w state true).1).baseHandle
          = (createBaseInstance drv (createOptimizedPipeline drv w state
                VK_PIPELINE_CREATE_FAIL_ON_PIPELINE_COMPILE_REQUIRED_BIT).2
              (baseInstanceKey this state)).1.handle
        ∧ ((createInstance this drv w state true).2.driverCalls
            = w.driverCalls ++ [DriverCall.optimized state
                VK_PIPELINE_CREATE_FAIL_ON_PIPELINE_COMPILE_REQUIRED_BIT]
          ∨ (createInstance this drv w state true).2.driverCalls
            = w.driverCalls ++ [DriverCall.optimized state
                VK_PIPELINE_CREATE_FAIL_ON_PIPELINE_COMPILE_REQUIRED_BIT]
              ++ [DriverCall.link (baseInstanceKey this state)]))
    ∧ (doCreateBasePipeline = true → this.m_device.canUsePipelineCacheControl = false →
        (instanceAt (createInstance this drv w state true).2
            (createInstance this drv w state true).1).fastHandle = VK_NULL_HANDLE
        ∧ (instanceAt (createInstance this drv w state true).2
            (createInstance this drv w state true).1).baseHandle
          = (createBaseInstance drv w (baseInstanceKey this state)).1.handle
        ∧ ((createInstance this drv w state true).2.driverCalls = w.driverCalls
          ∨ (createInstance this drv w state true).2.driverCalls
            = w.driverCalls ++ [DriverCall.link (baseInstanceKey this state)]))
    ∧ (∀ flags, (createOptimizedPipeline drv w state flags).1
        = if (drv w.driverCalls.length (DriverCall.optimized state flags)).1 = VK_SUCCESS then
            (drv w.driverCalls.length (DriverCall.optimized state flags)).2
          else VK_NULL_HANDLE)
    ∧ (doCreateBasePipeline = true → this.m_device.canUsePipelineCacheControl = true →
        (createOptimizedPipeline drv w state
          VK_PIPELINE_CREATE_FAIL_ON_PIPELINE_COMPILE_REQUIRED_BIT).1 = VK_NULL_HANDLE →
        (∀ inst, w.m_basePipelines.find? (fun x => x.key == baseInstanceKey this state)
            = some inst →
          (instanceAt (createInstance this drv w state true).2
              (createInstance this drv w state true).1).baseHandle = inst.handle
          ∧ (createInstance this drv w state true).2.driverCalls
              = w.driverCalls ++ [DriverCall.optimized state
                  VK_PIPELINE_CREATE_FAIL_ON_PIPELINE_COMPILE_REQUIRED_BIT]
          ∧ (createInstance this drv w state true).2.m_basePipelines = w.m_basePipelines)
        ∧ ((∀ inst ∈ w.m_basePipelines, inst.key ≠ baseInstanceKey this state) →
          (instanceAt (createInstance this drv w state true).2
              (createInstance this drv w state true).1).baseHandle
            = (drv (w.driverCalls.length + 1)
                (DriverCall.link (baseInstanceKey this state))).2
          ∧ (createInstance this drv w state true).2.driverCalls
              = w.driverCalls ++ [DriverCall.optimized state
                    VK_PIPELINE_CREATE_FAIL_ON_PIPELINE_COMPILE_REQUIRED_BIT,
                  DriverCall.link (baseInstanceKey this state)]
          ∧ (createInstance this drv w state true).2.m_basePipelines
              = w.m_basePipelines
                ++ [{ key := baseInstanceKey this state
                      handle := (drv (w.driverCalls.length + 1)
                        (DriverCall.link (baseInstanceKey this state))).2 }]))
    ∧ (doCreateBasePipeline = true → this.m_device.canUsePipelineCacheControl = false →
        (∀ inst, w.m_basePipelines.find? (fun x => x.key == baseInstanceKey this state)
            = some inst →
          (instanceAt (createInstance this drv w state true).2
              (createInstance this drv w state true).1).baseHandle = inst.handle
          ∧ (createInstance this drv w state true).2.driverCalls = w.driverCalls
          ∧ (createInstance this drv w state true).2.m_basePipelines = w.m_basePipelines)
        ∧ ((∀ inst ∈ w.m_basePipelines, inst.key ≠ baseInstanceKey this state) →
          (instanceAt (createInstance this drv w state true).2
              (createInstance this drv w state true).1).baseHandle
            = (drv w.driverCalls.length (DriverCall.link (baseInstanceKey this state))).2
          ∧ (createInstance this drv w state true).2.driverCalls
              = w.driverCalls ++ [DriverCall.link (baseInstanceKey this state)]
          ∧ (createInstance this drv w state true).2.m_basePipelines
              = w.m_basePipelines
                ++ [{ key := baseInstanceKey this state
                      handle := (drv w.driverCalls.length
                        (DriverCall.link (baseInstanceKey this state))).2 }])) := by
  obtain ⟨h1, h2, _⟩ := createInstance_spec this drv w state doCreateBasePipeline
  obtain ⟨hi, _, _⟩ := createInstance_instance this drv w state doCreateBasePipeline
  refine ⟨?_, ?_, ?_, ?_, ?_, ?_, ?_,
    fun flags => createOptimizedPipeline_answer drv w state flags, ?_, ?_⟩
  rotate_left 7
  · intro _ hcc hh
    obtain ⟨hi, hd, hb⟩ := createInstance_instance this drv w state true
    obtain ⟨hf1, _, hf3⟩ := createOptimizedPipeline_fields drv w state
      VK_PIPELINE_CREATE_FAIL_ON_PIPELINE_COMPILE_REQUIRED_BIT
    rw [hi, hd, hb, createInstanceHandles_cache_miss this drv w state hcc hh]
    constructor
    · intro inst hfound
      rw [← hf3] at hfound
      rw [createBaseInstance_found drv _ _ inst hfound]
      exact ⟨rfl, hf1, hf3⟩
    · intro hnone
      rw [← hf3] at hnone
      rw [createBaseInstance_linked drv _ _ hnone]
      dsimp only
      rw [hf1, hf3]
      simp
  · intro _ hcc
    obtain ⟨hi, hd, hb⟩ := createInstance_instance this drv w state true
    rw [hi, hd, hb, createInstanceHandles_no_cache_control this drv w state hcc]
    constructor
    · intro inst hfound
      rw [createBaseInstance_found drv _ _ inst hfound]
      exact ⟨rfl, rfl, rfl⟩
    · intro hnone
      rw [createBaseInstance_linked drv _ _ hnone]
      exact ⟨rfl, rfl, rfl⟩
  · rw [hi]
    exact h2
  · rw [hi]
  · rw [hi]
    dsimp only
    rcases createInstanceHandles_one_null this drv w state doCreateBasePipeline with h | h
    · exact fun hboth => hboth.1 h
    · exact fun hboth => hboth.2 h
  · intro _
    obtain ⟨hi, hd, hb⟩ := createInstance_instance this drv w state false
    rw [hi, hd, hb, createInstanceHandles_base]
    simp
  · intro _ hcc hh
    obtain ⟨hi, hd, hb⟩ := createInstance_instance this drv w state true
    rw [hi, hd, hb, createInstanceHandles_cached this drv w state hcc hh]
    simp
  · intro _ hcc hh
    obtain ⟨hi, hd, hb⟩ := createInstance_instance this drv w state true
    rw [hi, hd, createInstanceHandles_cache_miss this drv w state hcc hh]
    refine ⟨rfl, rfl, ?_⟩
    have := createBaseInstance_driverCalls drv (createOptimizedPipeline drv w state
      VK_PIPELINE_CREATE_FAIL_ON_PIPELINE_COMPILE_REQUIRED_BIT).2 (baseInstanceKey this state)
    simpa using this
  · intro _ hcc
    obtain ⟨hi, hd, hb⟩ := createInstance_instance this drv w state true
    rw [hi, hd, createInstanceHandles_no_cache_control this drv w state hcc]
    exact ⟨rfl, rfl, createBaseInstance_driverCalls drv w (baseInstanceKey this state)⟩

/-- Witness for C5: on a fresh pipeline with both libraries and cache control, whose driver
fails every optimized compile and links every base pipeline as handle 7,
`createInstance(state, true)` requests the cached compile and then the link of the key of
the state, stores the base instance with handle 7 and gives the Instance base handle 7. -/
theorem createInstance_routing_witness :
    (instanceAt
        (createInstance exampleLibraryPipeline exampleLinkOnlyDriver {} exampleState true).2
        (createInstance exampleLibraryPipeline exampleLinkOnlyDriver {} exampleState true).1
      ).baseHandle = 7
    ∧ (createInstance exampleLibraryPipeline exampleLinkOnlyDriver {} exampleState true
        ).2.driverCalls
        = [DriverCall.optimized exampleState
            VK_PIPELINE_CREATE_FAIL_ON_PIPELINE_COMPILE_REQUIRED_BIT,
          DriverCall.link (baseInstanceKey exampleLibraryPipeline exampleState)]
    ∧ (createInstance exampleLibraryPipeline exampleLinkOnlyDriver {} exampleState true
        ).2.m_basePipelines
        = [{ key := baseInstanceKey exampleLibraryPipeline exampleState, handle := 7 }] :=
  ((createInstance_routing exampleLibraryPipeline exampleLinkOnlyDriver {} exampleState
      true).2.2.2.2.2.2.2.2.1 rfl rfl (by decide)).2
    (fun _ hmem => absurd hmem (List.not_mem_nil _))

theorem bit32_of_lt {n : Nat} (h : n < 32) : bit32 n = 2 ^ n := by
  unfold bit32
  rw [Nat.one_shiftLeft]
  exact Nat.mod_eq_of_lt (Nat.pow_lt_pow_right (by decide) h)

theorem and_bit32_eq_zero_iff (m : Nat) {n : Nat} (h : n < 32) :
    m &&& bit32 n = 0 ↔ m.testBit n = false := by
  rw [bit32_of_lt h, Nat.and_two_pow]
  cases m.testBit n <;> simp

/-- The method `writesRenderTarget` in words: the fragment shader writes the output, the
colour write mask is not zero and the format is defined. -/
theorem writesRenderTarget_iff (this : DxvkGraphicsPipeline)
    (state : DxvkGraphicsPipelineStateInfo) {target : Nat} (h : target < 32) :
    writesRenderTarget this state target = true ↔
      (this.m_fsOut.testBit target = true
        ∧ (state.omBlendAt target).colorWriteMask ≠ 0
        ∧ state.getColorFormat target ≠ VK_FORMAT_UNDEFINED) := by
  unfold writesRenderTarget
  by_cases hb : this.m_fsOut.testBit target = true
  · have hne : ¬ (this.m_fsOut &&& bit32 target = 0) := by
      rw [and_bit32_eq_zero_iff _ h, hb]
      simp
    by_cases hm : (state.omBlendAt target).colorWriteMask = 0
    · simp [hne, hm]
    · simp [hne, hm, hb]
  · have hz : this.m_fsOut &&& bit32 target = 0 := by
      rw [and_bit32_eq_zero_iff _ h]
      simpa using hb
    simp [hz, hb]

theorem fragmentShaderBlocksBasePipeline_eq_false_iff (this : DxvkGraphicsPipeline)
    (state : DxvkGraphicsPipelineStateInfo) (fs : DxvkShader) :
    fragmentShaderBlocksBasePipeline this state fs = false ↔
      (this.m_shaders.vs.outputMask &&& fs.inputMask = fs.inputMask
        ∧ this.hdr.useDualSourceBlending state = false
        ∧ (fs.hasSampleRateShading = true →
            state.ms.sampleCount = VK_SAMPLE_COUNT_1_BIT
            ∧ state.ms.sampleMask ≠ 0
            ∧ state.ms.enableAlphaToCoverage = false)) := by
  unfold fragmentShaderBlocksBasePipeline
  dsimp only
  by_cases h1 : this.m_shaders.vs.outputMask &&& fs.inputMask = fs.inputMask
  · cases h2 : this.hdr.useDualSourceBlending state
    · cases h3 : fs.hasSampleRateShading
      · simp [h1]
      · by_cases h4 : state.ms.sampleCount = VK_SAMPLE_COUNT_1_BIT
        · by_cases h5 : state.ms.sampleMask = 0
          · simp [h1, h4, h5]
          · cases h6 : state.ms.enableAlphaToCoverage <;> simp [h1, h4, h5]
        · simp [h1, h4]
    · simp [h1]
  · simp [h1]

/-- C6: `canCreateBasePipeline(state)` is true exactly when (1) both shader pipeline
libraries are present, (2) the polygon mode is FILL and conservative rasterization is
disabled, (3) if there is a fragment shader, its input mask is covered by the vertex
shader's output mask, the state does not use dual-source blending, and with sample-rate
shading the sample count is 1, the sample mask is not zero and alpha-to-coverage is off,
and (4) every render target below `MaxNumRenderTargets` that the pipeline writes has an
identity swizzle. Changing the polygon mode of any state to LINE makes it ineligible. -/
theorem canCreateBasePipeline_iff (this : DxvkGraphicsPipeline)
    (state : DxvkGraphicsPipelineStateInfo) :
    (canCreateBasePipeline this state = true ↔
      (this.m_vsLibrary.isSome = true ∧ this.m_fsLibrary.isSome = true)
      ∧ (state.rs.polygonMode = VK_POLYGON_MODE_FILL
          ∧ state.rs.conservativeMode = VK_CONSERVATIVE_RASTERIZATION_MODE_DISABLED_EXT)
      ∧ (∀ fs, this.m_shaders.fs = some fs →
          this.m_shaders.vs.outputMask &&& fs.inputMask = fs.inputMask
          ∧ this.hdr.useDualSourceBlending state = false
          ∧ (fs.hasSampleRateShading = true →
              state.ms.sampleCount = VK_SAMPLE_COUNT_1_BIT
              ∧ state.ms.sampleMask ≠ 0
              ∧ state.ms.enableAlphaToCoverage = false))
      ∧ (∀ i, i < MaxNumRenderTargets →
          (this.m_fsOut.testBit i = true
            ∧ (state.omBlendAt i).colorWriteMask ≠ 0
            ∧ state.getColorFormat i ≠ VK_FORMAT_UNDEFINED) →
          isIdentityMapping (state.omSwizzleAt i) = true))
    ∧ canCreateBasePipeline this
        { state with rs := { state.rs with polygonMode := VK_POLYGON_MODE_LINE } } = false := by
  constructor
  · have hrt : (List.range MaxNumRenderTargets).all (fun i =>
          !(writesRenderTarget this state i && !isIdentityMapping (state.omSwizzleAt i))) = true ↔
        ∀ i, i < MaxNumRenderTargets →
          (this.m_fsOut.testBit i = true
            ∧ (state.omBlendAt i).colorWriteMask ≠ 0
            ∧ state.getColorFormat i ≠ VK_FORMAT_UNDEFINED) →
          isIdentityMapping (state.omSwizzleAt i) = true := by
      rw [List.all_eq_true]
      constructor
      · intro h i hi hw
        have hall := h i (List.mem_range.mpr hi)
        have hlt : i < 32 := lt_of_lt_of_le hi (by decide)
        rw [← writesRenderTarget_iff this state hlt] at hw
        simpa [hw] using hall
      · intro h i hi
        have hi := List.mem_range.mp hi
        have hlt : i < 32 := lt_of_lt_of_le hi (by decide)
        cases hw : writesRenderTarget this state i
        · simp
        · have hid := h i hi ((writesRenderTarget_iff this state hlt).mp hw)
          simp [hid]
    have hfs : (match this.m_shaders.fs with
        | some fs => fragmentShaderBlocksBasePipeline this state fs
        | none => false) = false ↔
        ∀ fs, this.m_shaders.fs = some fs →
          this.m_shaders.vs.outputMask &&& fs.inputMask = fs.inputMask
          ∧ this.hdr.useDualSourceBlending state = false
          ∧ (fs.hasSampleRateShading = true →
              state.ms.sampleCount = VK_SAMPLE_COUNT_1_BIT
              ∧ state.ms.sampleMask ≠ 0
              ∧ state.ms.enableAlphaToCoverage = false) := by
      cases hf : this.m_shaders.fs with
      | none => simp
      | some fs =>
        simp only [Option.some.injEq, forall_eq']
        exact fragmentShaderBlocksBasePipeline_eq_false_iff this state fs
    unfold canCreateBasePipeline
    rw [← hrt, ← hfs]
    cases h1 : this.m_vsLibrary.isSome <;> cases h2 : this.m_fsLibrary.isSome <;>
      simp [Option.isNone_iff_eq_none, Option.isSome_iff_ne_none] at h1 h2 ⊢ <;>
      simp [h1, h2]
  · unfold canCreateBasePipeline
    simp [VK_POLYGON_MODE_LINE, VK_POLYGON_MODE_FILL]

/-- C10: `getPipelineHandle(state)` enqueues nothing on a lookup hit; when it misses and
creates an Instance it enqueues a background compile of `state` exactly when the new
Instance's fast handle is null. In particular, with pipeline cache control, a miss on a
base-eligible state whose cached compile succeeds with handle `h` returns
`(h, FastPipeline)` and enqueues nothing. -/
theorem getPipelineHandle_enqueues_iff_no_fast_handle (this : DxvkGraphicsPipeline)
    (drv : Driver) (w : PipelineData) (state : DxvkGraphicsPipelineStateInfo) :
    (∀ ptr, findInstance w state = some ptr →
      (getPipelineHandle this drv w state).2.workerQueue = w.workerQueue)
    ∧ (findInstance w state = none → validatePipelineState this state true = true →
        findInstance (getPipelineHandle this drv w state).2 state = some w.m_pipelines.length
        ∧ (getPipelineHandle this drv w state).2.m_pipelines.length = w.m_pipelines.length + 1
        ∧ ((instanceAt (getPipelineHandle this drv w state).2 w.m_pipelines.length).fastHandle
              = VK_NULL_HANDLE →
            (getPipelineHandle this drv w state).2.workerQueue = w.workerQueue ++ [state])
        ∧ ((instanceAt (getPipelineHandle this drv w state).2 w.m_pipelines.length).fastHandle
              ≠ VK_NULL_HANDLE →
            (getPipelineHandle this drv w state).2.workerQueue = w.workerQueue))
    ∧ (∀ h, findInstance w state = none → validatePipelineState this state true = true →
        canCreateBasePipeline this state = true →
        this.m_device.canUsePipelineCacheControl = true →
        drv w.driverCalls.length (DriverCall.optimized state
          VK_PIPELINE_CREATE_FAIL_ON_PIPELINE_COMPILE_REQUIRED_BIT) = (VK_SUCCESS, h) →
        h ≠ VK_NULL_HANDLE →
        (getPipelineHandle this drv w state).1 = (h, DxvkGraphicsPipelineType.FastPipeline)
        ∧ (getPipelineHandle this drv w state).2.workerQueue = w.workerQueue) := by
  have hmiss : findInstance w state = none → validatePipelineState this state true = true →
      (getPipelineHandle this drv w state).1
          = loadPipelineHandle (getPipelineHandle this drv w state).2 w.m_pipelines.length
      ∧ (getPipelineHandle this drv w state).2.m_pipelines
          = (createInstance this drv w state (canCreateBasePipeline this state)).2.m_pipelines
      ∧ (getPipelineHandle this drv w state).2.workerQueue
          = if (instanceAt (createInstance this drv w state
                  (canCreateBasePipeline this state)).2 w.m_pipelines.length).fastHandle
                = VK_NULL_HANDLE
            then w.workerQueue ++ [state] else w.workerQueue := by
    intro hfind hval
    obtain ⟨h1, h2, h3⟩ := getPipelineHandleLocked_miss this drv w state hfind
    rw [getPipelineHandle_miss this drv w state hfind hval]
    dsimp only
    rw [h1]
    exact ⟨rfl, h2, h3⟩
  have hsame : ∀ w1 w2 : PipelineData, w1.m_pipelines = w2.m_pipelines →
      ∀ ptr, instanceAt w1 ptr = instanceAt w2 ptr := by
    intro w1 w2 h ptr
    simp [instanceAt, h]
  refine ⟨?_, ?_, ?_⟩
  · intro ptr hfind
    rw [getPipelineHandle_hit this drv w state ptr hfind]
  · intro hfind hval
    obtain ⟨_, h2, h3⟩ := hmiss hfind hval
    obtain ⟨_, c2, _⟩ := createInstance_spec this drv w state (canCreateBasePipeline this state)
    refine ⟨findInstance_append_new hfind (h2.trans c2) rfl, ?_, ?_, ?_⟩
    · rw [h2, c2]
      simp
    · intro hnull
      rw [hsame _ _ h2] at hnull
      rw [h3, if_pos hnull]
    · intro hnn
      rw [hsame _ _ h2] at hnn
      rw [h3, if_neg hnn]
  · intro h hfind hval hcan hcc hdrv hne
    obtain ⟨r1, h2, h3⟩ := hmiss hfind hval
    obtain ⟨c1, _, _⟩ := createInstance_spec this drv w state (canCreateBasePipeline this state)
    obtain ⟨ci, _, _⟩ := createInstance_instance this drv w state (canCreateBasePipeline this state)
    have hcached : (createOptimizedPipeline drv w state
        VK_PIPELINE_CREATE_FAIL_ON_PIPELINE_COMPILE_REQUIRED_BIT).1 = h := by
      unfold createOptimizedPipeline
      simp [hdrv]
    have hcached_ne : (createOptimizedPipeline drv w state
        VK_PIPELINE_CREATE_FAIL_ON_PIPELINE_COMPILE_REQUIRED_BIT).1 ≠ VK_NULL_HANDLE := by
      rw [hcached]
      exact hne
    rw [c1, hcan, createInstanceHandles_cached this drv w state hcc hcached_ne] at ci
    dsimp only at ci
    rw [hcan] at h3
    rw [ci] at h3
    dsimp only at h3
    rw [hcached, if_neg hne] at h3
    refine ⟨?_, h3⟩
    rw [r1]
    unfold loadPipelineHandle
    rw [hsame _ _ h2, hcan, ci]
    dsimp only
    rw [hcached]
    simp [hne]

/-- Witness for C10: with pipeline cache control and a driver whose cached compile yields
handle 100, the first lookup of a base-eligible state returns `(100, FastPipeline)` and
the worker queue stays empty. -/
theorem getPipelineHandle_enqueues_iff_no_fast_handle_witness :
    (getPipelineHandle exampleLibraryPipeline exampleDriver {} exampleState).1
      = (100, DxvkGraphicsPipelineType.FastPipeline)
    ∧ (getPipelineHandle exampleLibraryPipeline exampleDriver {} exampleState).2.workerQueue
      = [] :=
  (getPipelineHandle_enqueues_iff_no_fast_handle exampleLibraryPipeline exampleDriver {}
    exampleState).2.2 100 (by decide) (by decide) (by decide) (by decide) (by decide)
    (by decide)

/-! ## The compile step -/

theorem map_state_modify (l : List DxvkGraphicsPipelineInstance)
    (f : DxvkGraphicsPipelineInstance → DxvkGraphicsPipelineInstance)
    (hf : ∀ x, (f x).state = x.state) (n : Nat) :
    (l.modify f n).map (·.state) = l.map (·.state) := by
  apply List.ext_getElem?
  intro i
  simp only [List.getElem?_map, List.getElem?_modify]
  cases l[i]? with
  | none => rfl
  | some x =>
    by_cases h : n = i <;> simp [h, hf]

theorem getD_modify (l : List DxvkGraphicsPipelineInstance)
    (f : DxvkGraphicsPipelineInstance → DxvkGraphicsPipelineInstance) (n m : Nat)
    (d : DxvkGraphicsPipelineInstance) :
    (l.modify f n).getD m d
      = if n = m ∧ m < l.length then f (l.getD m d) else l.getD m d := by
  rw [List.getD_eq_getElem?_getD, List.getD_eq_getElem?_getD, List.getElem?_modify]
  by_cases hm : m < l.length
  · rw [List.getElem?_eq_getElem hm]
    by_cases h : n = m <;> simp [h, hm]
  · have hnone : l[m]? = none := List.getElem?_eq_none (Nat.le_of_not_lt hm)
    simp [hnone, hm]

theorem compileInstance_of_isCompiling (drv : Driver) (w : PipelineData)
    (state : DxvkGraphicsPipelineStateInfo) (ptr : Nat)
    (h : (instanceAt w ptr).isCompiling = true) : compileInstance drv w state ptr = w := by
  unfold compileInstance electCompiler
  simp [h]

theorem compileInstance_of_not_isCompiling (drv : Driver) (w : PipelineData)
    (state : DxvkGraphicsPipelineStateInfo) (ptr : Nat)
    (h : (instanceAt w ptr).isCompiling = false) :
    compileInstance drv w state ptr = afterCompile drv w state ptr := by
  unfold compileInstance afterCompile
  have he : (electCompiler w ptr).1 = false := by
    unfold electCompiler
    simp [h]
  simp [he]

theorem createOptimizedPipeline_fst (drv : Driver) (w : PipelineData)
    (state : DxvkGraphicsPipelineStateInfo) :
    (createOptimizedPipeline drv w state 0).1 = compiledHandle drv w state := by
  unfold createOptimizedPipeline compiledHandle
  dsimp only
  split <;> simp [*]

theorem afterCompile_spec (drv : Driver) (w : PipelineData)
    (state : DxvkGraphicsPipelineStateInfo) (ptr : Nat)
    (h : (instanceAt w ptr).isCompiling = false) :
    (afterCompile drv w state ptr).m_pipelines
      = w.m_pipelines.modify
          (fun inst => { inst with isCompiling := true, fastHandle := compiledHandle drv w state })
          ptr
    ∧ (afterCompile drv w state ptr).driverCalls
      = w.driverCalls ++ [DriverCall.optimized state 0]
    ∧ (afterCompile drv w state ptr).m_basePipelines = w.m_basePipelines
    ∧ (afterCompile drv w state ptr).workerQueue = w.workerQueue
    ∧ (afterCompile drv w state ptr).stateCache = w.stateCache := by
  have he : electCompiler w ptr = (false, setIsCompiling w ptr) := by
    unfold electCompiler
    simp [h]
  have hc : (createOptimizedPipeline drv (electCompiler w ptr).2 state 0).1
      = compiledHandle drv w state := by
    rw [he]
    exact createOptimizedPipeline_fst drv (setIsCompiling w ptr) state
  unfold afterCompile
  rw [hc, createOptimizedPipeline_snd, he]
  unfold publishFastHandle storeFastHandle setIsCompiling
  dsimp only
  refine ⟨?_, ?_, ?_, ?_, ?_⟩
  · split <;> simp [logPipelineState, List.modify_modify_eq, Function.comp_def]
  all_goals split <;> simp [logPipelineState]

theorem findInstance_congr {w1 w2 : PipelineData} (h : storedStates w1 = storedStates w2)
    (state : DxvkGraphicsPipelineStateInfo) : findInstance w1 state = findInstance w2 state := by
  rw [findInstance_eq_storedStates, findInstance_eq_storedStates, h]

theorem storedStates_afterCompile (drv : Driver) (w : PipelineData)
    (state : DxvkGraphicsPipelineStateInfo) (ptr : Nat)
    (h : (instanceAt w ptr).isCompiling = false) :
    storedStates (afterCompile drv w state ptr) = storedStates w := by
  obtain ⟨hm, _⟩ := afterCompile_spec drv w state ptr h
  unfold storedStates
  rw [hm]
  apply map_state_modify
  intro x
  rfl

theorem storedStates_compileInstance (drv : Driver) (w : PipelineData)
    (state : DxvkGraphicsPipelineStateInfo) (ptr : Nat) :
    storedStates (compileInstance drv w state ptr) = storedStates w := by
  cases h : (instanceAt w ptr).isCompiling with
  | true => rw [compileInstance_of_isCompiling drv w state ptr h]
  | false =>
    rw [compileInstance_of_not_isCompiling drv w state ptr h]
    exact storedStates_afterCompile drv w state ptr h

theorem instanceAt_afterCompile (drv : Driver) (w : PipelineData)
    (state : DxvkGraphicsPipelineStateInfo) (ptr : Nat)
    (h : (instanceAt w ptr).isCompiling = false) (q : Nat) :
    instanceAt (afterCompile drv w state ptr) q
      = if ptr = q ∧ q < w.m_pipelines.length then
          { instanceAt w q with isCompiling := true, fastHandle := compiledHandle drv w state }
        else instanceAt w q := by
  obtain ⟨hm, _⟩ := afterCompile_spec drv w state ptr h
  unfold instanceAt
  rw [hm, getD_modify]

theorem compileInstance_isCompiling (drv : Driver) (w : PipelineData)
    (state : DxvkGraphicsPipelineStateInfo) (ptr : Nat) (hlt : ptr < w.m_pipelines.length) :
    (instanceAt (compileInstance drv w state ptr) ptr).isCompiling = true := by
  cases h : (instanceAt w ptr).isCompiling with
  | true =>
    rw [compileInstance_of_isCompiling drv w state ptr h]
    exact h
  | false =>
    rw [compileInstance_of_not_isCompiling drv w state ptr h,
      instanceAt_afterCompile drv w state ptr h ptr]
    simp [hlt]

theorem compilePipeline_disabled (this : DxvkGraphicsPipeline) (drv : Driver)
    (w : PipelineData) (state : DxvkGraphicsPipelineStateInfo)
    (hcfg : this.m_device.enableGraphicsPipelineLibrary = Tristate.True) :
    compilePipeline this drv w state = w := by
  unfold compilePipeline
  simp [hcfg]

theorem compilePipeline_hit (this : DxvkGraphicsPipeline) (drv : Driver)
    (w : PipelineData) (state : DxvkGraphicsPipelineStateInfo) (ptr : Nat)
    (hcfg : this.m_device.enableGraphicsPipelineLibrary ≠ Tristate.True)
    (hfind : findInstance w state = some ptr) :
    compilePipeline this drv w state = compileInstance drv w state ptr := by
  unfold compilePipeline
  rw [hfind]
  simp [hcfg]

theorem compilePipeline_abort (this : DxvkGraphicsPipeline) (drv : Driver)
    (w : PipelineData) (state : DxvkGraphicsPipelineStateInfo)
    (hfind : findInstance w state = none)
    (hskip : validatePipelineState this state false = false
      ∨ canCreateBasePipeline this state = true) :
    compilePipeline this drv w state = w := by
  unfold compilePipeline
  rw [hfind]
  rcases hskip with h | h
  · simp [h]
  · cases hv : validatePipelineState this state false <;> simp [h, hv]

theorem compilePipeline_miss (this : DxvkGraphicsPipeline) (drv : Driver)
    (w : PipelineData) (state : DxvkGraphicsPipelineStateInfo)
    (hcfg : this.m_device.enableGraphicsPipelineLibrary ≠ Tristate.True)
    (hfind : findInstance w state = none)
    (hval : validatePipelineState this state false = true)
    (hcan : canCreateBasePipeline this state = false) :
    compilePipeline this drv w state
      = compileInstance drv (createInstance this drv w state false).2 state
          w.m_pipelines.length := by
  obtain ⟨h1, _, _⟩ := createInstance_spec this drv w state false
  unfold compilePipeline compilePipelineLocked
  rw [hfind]
  simp [hcfg, hval, hcan, h1]

/-- Running `compilePipeline(state)` a second time changes nothing. -/
theorem compilePipeline_twice (this : DxvkGraphicsPipeline) (drv : Driver)
    (w : PipelineData) (state : DxvkGraphicsPipelineStateInfo) :
    compilePipeline this drv (compilePipeline this drv w state) state
      = compilePipeline this drv w state := by
  by_cases hcfg : this.m_device.enableGraphicsPipelineLibrary = Tristate.True
  · rw [compilePipeline_disabled this drv w state hcfg,
      compilePipeline_disabled this drv w state hcfg]
  · cases hfind : findInstance w state with
    | some ptr =>
      rw [compilePipeline_hit this drv w state ptr hcfg hfind]
      have hfind1 : findInstance (compileInstance drv w state ptr) state = some ptr := by
        rw [findInstance_congr (storedStates_compileInstance drv w state ptr), hfind]
      rw [compilePipeline_hit this drv _ state ptr hcfg hfind1]
      exact compileInstance_of_isCompiling drv _ state ptr
        (compileInstance_isCompiling drv w state ptr (findInstance_some_lt hfind))
    | none =>
      by_cases hskip : validatePipelineState this state false = false
          ∨ canCreateBasePipeline this state = true
      · rw [compilePipeline_abort this drv w state hfind hskip,
          compilePipeline_abort this drv w state hfind hskip]
      · have hval : validatePipelineState this state false = true := by
          cases h : validatePipelineState this state false
          · exact absurd (Or.inl h) hskip
          · rfl
        have hcan : canCreateBasePipeline this state = false := by
          cases h : canCreateBasePipeline this state
          · rfl
          · exact absurd (Or.inr h) hskip
        obtain ⟨_, c2, _⟩ := createInstance_spec this drv w state false
        rw [compilePipeline_miss this drv w state hcfg hfind hval hcan]
        have hlt : w.m_pipelines.length
            < (createInstance this drv w state false).2.m_pipelines.length := by
          rw [c2]
          simp
        have hfind1 : findInstance (compileInstance drv (createInstance this drv w state false).2
            state w.m_pipelines.length) state = some w.m_pipelines.length := by
          rw [findInstance_congr (storedStates_compileInstance drv _ state _)]
          exact findInstance_append_new hfind c2 rfl
        rw [compilePipeline_hit this drv _ state _ hcfg hfind1]
        exact compileInstance_of_isCompiling drv _ state _
          (compileInstance_isCompiling drv _ state _ hlt)

theorem instanceAt_append_other {w w1 : PipelineData} {inst : DxvkGraphicsPipelineInstance}
    (happ : w1.m_pipelines = w.m_pipelines ++ [inst]) {q : Nat}
    (hq : q ≠ w.m_pipelines.length) : instanceAt w1 q = instanceAt w q := by
  unfold instanceAt
  rw [happ, List.getD_eq_getElem?_getD, List.getD_eq_getElem?_getD]
  rcases Nat.lt_or_gt_of_ne hq with hlt | hgt
  · rw [List.getElem?_append_left hlt]
  · rw [List.getElem?_eq_none (by simp; omega), List.getElem?_eq_none (by omega)]

/-- A lookup that loads a base pipeline loads the base handle of the instance. -/
theorem loadPipelineHandle_base {w : PipelineData} {ptr : Nat} {hb : VkPipeline}
    (h : loadPipelineHandle w ptr = (hb, DxvkGraphicsPipelineType.BasePipeline)) :
    (instanceAt w ptr).baseHandle = hb := by
  unfold loadPipelineHandle at h
  dsimp only at h
  by_cases hf : (instanceAt w ptr).fastHandle = VK_NULL_HANDLE
  · simp only [hf, bne_self_eq_false, Bool.false_eq_true, if_false] at h
    exact congrArg Prod.fst h
  · have hf1 : ((instanceAt w ptr).fastHandle != VK_NULL_HANDLE) = true := by
      simpa using hf
    rw [if_pos hf1] at h
    cases h

/-- The compile step of `compilePipeline` on the instance behind `ptr`, whose `isCompiling`
flag is clear: the election is won, the compile is requested once and its result is stored
as the fast handle of that instance; nothing else changes. -/
theorem compileInstance_publishes (this : DxvkGraphicsPipeline) (drv : Driver)
    (w : PipelineData) (state : DxvkGraphicsPipelineStateInfo) (ptr : Nat)
    (hfind : findInstance w state = some ptr)
    (helect : (instanceAt w ptr).isCompiling = false) :
    findInstance (compileInstance drv w state ptr) state = some ptr
    ∧ instanceAt (compileInstance drv w state ptr) ptr
        = { state := (instanceAt w ptr).state
            baseHandle := (instanceAt w ptr).baseHandle
            fastHandle := compiledHandle drv w state
            isCompiling := true }
    ∧ (compileInstance drv w state ptr).m_pipelines.length = w.m_pipelines.length
    ∧ (∀ q, q ≠ ptr → instanceAt (compileInstance drv w state ptr) q = instanceAt w q)
    ∧ (compileInstance drv w state ptr).driverCalls
        = w.driverCalls ++ [DriverCall.optimized state 0]
    ∧ (compiledHandle drv w state ≠ VK_NULL_HANDLE →
        (getPipelineHandle this drv (compileInstance drv w state ptr) state).1
          = (compiledHandle drv w state, DxvkGraphicsPipelineType.FastPipeline))
    ∧ (compiledHandle drv w state = VK_NULL_HANDLE →
        (getPipelineHandle this drv (compileInstance drv w state ptr) state).1
          = ((instanceAt w ptr).baseHandle, DxvkGraphicsPipelineType.BasePipeline)) := by
  have hlt := findInstance_some_lt hfind
  have hrun : compileInstance drv w state ptr = afterCompile drv w state ptr :=
    compileInstance_of_not_isCompiling drv w state ptr helect
  have hfind1 : findInstance (afterCompile drv w state ptr) state = some ptr := by
    rw [findInstance_congr (storedStates_afterCompile drv w state ptr helect), hfind]
  have hinst : instanceAt (afterCompile drv w state ptr) ptr
      = { state := (instanceAt w ptr).state
          baseHandle := (instanceAt w ptr).baseHandle
          fastHandle := compiledHandle drv w state
          isCompiling := true } := by
    rw [instanceAt_afterCompile drv w state ptr helect ptr]
    simp [hlt]
  obtain ⟨hm, hd, _⟩ := afterCompile_spec drv w state ptr helect
  rw [hrun]
  refine ⟨hfind1, hinst, ?_, ?_, hd, ?_, ?_⟩
  · rw [hm]
    simp
  · intro q hq
    rw [instanceAt_afterCompile drv w state ptr helect q]
    simp [Ne.symm hq]
  · intro hne
    rw [getPipelineHandle_hit this drv _ state ptr hfind1]
    unfold loadPipelineHandle
    dsimp only
    rw [hinst]
    dsimp only
    simp [hne]
  · intro hnull
    rw [getPipelineHandle_hit this drv _ state ptr hfind1]
    unfold loadPipelineHandle
    dsimp only
    rw [hinst]
    dsimp only
    simp [hnull]

/-- What `createInstance(state, false)` leaves for the compile step of the same
`compilePipeline` call: the new instance is the last one, it has the state and a null base
handle, the instances before it are untouched and one compile has been requested. -/
theorem createInstance_for_compile (this : DxvkGraphicsPipeline) (drv : Driver)
    (w : PipelineData) (state : DxvkGraphicsPipelineStateInfo)
    (hnone : findInstance w state = none) :
    findInstance (createInstance this drv w state false).2 state = some w.m_pipelines.length
    ∧ (instanceAt (createInstance this drv w state false).2 w.m_pipelines.length).state = state
    ∧ (instanceAt (createInstance this drv w state false).2 w.m_pipelines.length).baseHandle
        = VK_NULL_HANDLE
    ∧ (createInstance this drv w state false).2.m_pipelines.length = w.m_pipelines.length + 1
    ∧ (∀ q, q ≠ w.m_pipelines.length →
        instanceAt (createInstance this drv w state false).2 q = instanceAt w q)
    ∧ (createInstance this drv w state false).2.driverCalls
        = w.driverCalls ++ [DriverCall.optimized state 0] := by
  obtain ⟨_, happ, _⟩ := createInstance_spec this drv w state false
  obtain ⟨_, hd, _⟩ := createInstance_instance this drv w state false
  refine ⟨findInstance_append_new hnone happ rfl, ?_, ?_, ?_, ?_, ?_⟩
  · rw [instanceAt_append_new happ]
  · rw [instanceAt_append_new happ]
    dsimp only
    rw [createInstanceHandles_base]
  · rw [happ]
    simp
  · intro q hq
    exact instanceAt_append_other happ hq
  · rw [hd, createInstanceHandles_base]
    exact (createOptimizedPipeline_fields drv w state 0).1

/-- C7: when `compilePipeline(state)` performs its compile step on the Instance for
`state` (the library-only configuration is off and the call wins the election because the
`isCompiling` flag of the Instance was clear), then afterwards that Instance has the
result of the optimized compile as `fastHandle` and its state and `baseHandle` are
unchanged, no Instance is removed and no other Instance changes. This holds both when the
Instance existed before the call and when the same call has just created it with
`createInstance(state, false)`; in the second case the step is the second compile request
of the call and the `baseHandle` is null. Hence, if a `getPipelineHandle(state)` before
the compile returned `(hb, BasePipeline)`, the next `getPipelineHandle(state)` returns the
new handle with kind `FastPipeline` when the compile succeeded, and still
`(hb, BasePipeline)` when it failed. -/
theorem compilePipeline_publishes_fast_handle (this : DxvkGraphicsPipeline) (drv : Driver)
    (w : PipelineData) (state : DxvkGraphicsPipelineStateInfo)
    (hcfg : this.m_device.enableGraphicsPipelineLibrary ≠ Tristate.True) :
    (∀ ptr, findInstance w state = some ptr → (instanceAt w ptr).isCompiling = false →
      findInstance (compilePipeline this drv w state) state = some ptr
      ∧ instanceAt (compilePipeline this drv w state) ptr
          = { state := (instanceAt w ptr).state
              baseHandle := (instanceAt w ptr).baseHandle
              fastHandle := compiledHandle drv w state
              isCompiling := true }
      ∧ (compilePipeline this drv w state).m_pipelines.length = w.m_pipelines.length
      ∧ (∀ q, q ≠ ptr → instanceAt (compilePipeline this drv w state) q = instanceAt w q)
      ∧ (compilePipeline this drv w state).driverCalls
          = w.driverCalls ++ [DriverCall.optimized state 0]
      ∧ (∀ hb, (getPipelineHandle this drv w state).1
            = (hb, DxvkGraphicsPipelineType.BasePipeline) →
          (compiledHandle drv w state ≠ VK_NULL_HANDLE →
            (getPipelineHandle this drv (compilePipeline this drv w state) state).1
              = (compiledHandle drv w state, DxvkGraphicsPipelineType.FastPipeline))
          ∧ (compiledHandle drv w state = VK_NULL_HANDLE →
            (getPipelineHandle this drv (compilePipeline this drv w state) state).1
              = (hb, DxvkGraphicsPipelineType.BasePipeline))))
    ∧ (findInstance w state = none → validatePipelineState this state false = true →
      canCreateBasePipeline this state = false →
      (instanceAt (createInstance this drv w state false).2
        w.m_pipelines.length).isCompiling = false →
      findInstance (compilePipeline this drv w state) state = some w.m_pipelines.length
      ∧ instanceAt (compilePipeline this drv w state) w.m_pipelines.length
          = { state := (instanceAt (createInstance this drv w state false).2
                w.m_pipelines.length).state
              baseHandle := (instanceAt (createInstance this drv w state false).2
                w.m_pipelines.length).baseHandle
              fastHandle := compiledHandle drv (createInstance this drv w state false).2 state
              isCompiling := true }
      ∧ (instanceAt (createInstance this drv w state false).2 w.m_pipelines.length).state
          = state
      ∧ (instanceAt (createInstance this drv w state false).2
          w.m_pipelines.length).baseHandle = VK_NULL_HANDLE
      ∧ compiledHandle drv (createInstance this drv w state false).2 state
          = (if (drv (w.driverCalls.length + 1) (DriverCall.optimized state 0)).1
                != VK_SUCCESS then VK_NULL_HANDLE
              else (drv (w.driverCalls.length + 1) (DriverCall.optimized state 0)).2)
      ∧ (compilePipeline this drv w state).m_pipelines.length = w.m_pipelines.length + 1
      ∧ (∀ q, q ≠ w.m_pipelines.length →
          instanceAt (compilePipeline this drv w state) q = instanceAt w q)
      ∧ (compilePipeline this drv w state).driverCalls
          = w.driverCalls ++ [DriverCall.optimized state 0, DriverCall.optimized state 0]
      ∧ (compiledHandle drv (createInstance this drv w state false).2 state
            ≠ VK_NULL_HANDLE →
          (getPipelineHandle this drv (compilePipeline this drv w state) state).1
            = (compiledHandle drv (createInstance this drv w state false).2 state,
                DxvkGraphicsPipelineType.FastPipeline))
      ∧ (compiledHandle drv (createInstance this drv w state false).2 state
            = VK_NULL_HANDLE →
          (getPipelineHandle this drv (compilePipeline this drv w state) state).1
            = (VK_NULL_HANDLE, DxvkGraphicsPipelineType.BasePipeline))) := by
  constructor
  · intro ptr hfind helect
    obtain ⟨p1, p2, p3, p4, p5, p6, p7⟩ :=
      compileInstance_publishes this drv w state ptr hfind helect
    rw [compilePipeline_hit this drv w state ptr hcfg hfind]
    refine ⟨p1, p2, p3, p4, p5, ?_⟩
    intro hb hfirst
    rw [getPipelineHandle_hit this drv w state ptr hfind] at hfirst
    rw [← loadPipelineHandle_base hfirst]
    exact ⟨p6, p7⟩
  · intro hnone hval hcan helect
    obtain ⟨c1, c2, c3, c4, c5, c6⟩ := createInstance_for_compile this drv w state hnone
    obtain ⟨p1, p2, p3, p4, p5, p6, p7⟩ :=
      compileInstance_publishes this drv (createInstance this drv w state false).2 state
        w.m_pipelines.length c1 helect
    rw [compilePipeline_miss this drv w state hcfg hnone hval hcan]
    refine ⟨p1, p2, c2, c3, ?_, ?_, ?_, ?_, p6, ?_⟩
    · unfold compiledHandle
      rw [c6]
      simp
    · rw [p3, c4]
    · intro q hq
      rw [p4 q hq, c5 q hq]
    · rw [p5, c6]
      simp
    · intro hnull
      rw [p7 hnull, c3]

/-- Witness for C7. On a fresh pipeline with libraries the first lookup links base
pipeline 7 and returns it with kind `BasePipeline`; `compilePipeline` then compiles
handle 9, and the next lookup returns `(9, FastPipeline)`. On a fresh pipeline without
libraries whose driver fails the first request and answers the second with handle 101,
`compilePipeline` creates the Instance, compiles a second time and publishes handle 101 on
it, and the next lookup returns `(101, FastPipeline)`. -/
theorem compilePipeline_publishes_fast_handle_witness :
    ((getPipelineHandle exampleLibraryPipeline exampleUpgradeDriver {} exampleState).1
      = (7, DxvkGraphicsPipelineType.BasePipeline)
    ∧ (getPipelineHandle exampleLibraryPipeline exampleUpgradeDriver
        (compilePipeline exampleLibraryPipeline exampleUpgradeDriver
          (getPipelineHandle exampleLibraryPipeline exampleUpgradeDriver {} exampleState).2
          exampleState) exampleState).1
      = (9, DxvkGraphicsPipelineType.FastPipeline))
    ∧ ((instanceAt (compilePipeline examplePlainPipeline exampleSecondOnlyDriver {}
          exampleState) 0).fastHandle = 101
    ∧ (compilePipeline examplePlainPipeline exampleSecondOnlyDriver {} exampleState).driverCalls
      = [DriverCall.optimized exampleState 0, DriverCall.optimized exampleState 0]
    ∧ (getPipelineHandle examplePlainPipeline exampleSecondOnlyDriver
        (compilePipeline examplePlainPipeline exampleSecondOnlyDriver {} exampleState)
        exampleState).1
      = (101, DxvkGraphicsPipelineType.FastPipeline)) :=
  ⟨⟨by decide,
    (((compilePipeline_publishes_fast_handle exampleLibraryPipeline exampleUpgradeDriver
      (getPipelineHandle exampleLibraryPipeline exampleUpgradeDriver {} exampleState).2
      exampleState (by decide)).1 0 (by decide) (by decide)).2.2.2.2.2 7 (by decide)).1
      (by decide)⟩,
    ⟨congrArg DxvkGraphicsPipelineInstance.fastHandle
        ((compilePipeline_publishes_fast_handle examplePlainPipeline exampleSecondOnlyDriver
          {} exampleState (by decide)).2 (by decide) (by decide) (by decide) (by decide)).2.1,
      ((compilePipeline_publishes_fast_handle examplePlainPipeline exampleSecondOnlyDriver
          {} exampleState (by decide)).2 (by decide) (by decide) (by decide)
          (by decide)).2.2.2.2.2.2.2.1,
      ((compilePipeline_publishes_fast_handle examplePlainPipeline exampleSecondOnlyDriver
          {} exampleState (by decide)).2 (by decide) (by decide) (by decide)
          (by decide)).2.2.2.2.2.2.2.2.1 (by decide)⟩⟩

/-- C8: `compilePipeline` is idempotent. A second `compilePipeline(state)` after the first
has returned leaves everything as the first call left it: the instance store with all
handles and `isCompiling` flags, and the list of driver requests, so it performs no
compile. -/
theorem compilePipeline_idempotent (this : DxvkGraphicsPipeline) (drv : Driver)
    (w : PipelineData) (state : DxvkGraphicsPipelineStateInfo) :
    compilePipeline this drv (compilePipeline this drv w state) state
        = compilePipeline this drv w state
    ∧ (compilePipeline this drv (compilePipeline this drv w state) state).driverCalls
        = (compilePipeline this drv w state).driverCalls
    ∧ (compilePipeline this drv (compilePipeline this drv w state) state).m_pipelines
        = (compilePipeline this drv w state).m_pipelines := by
  rw [compilePipeline_twice]
  exact ⟨rfl, rfl, rfl⟩

theorem compilePipelineTimes_succ (this : DxvkGraphicsPipeline) (drv : Driver)
    (state : DxvkGraphicsPipelineStateInfo) (n : Nat) (w : PipelineData) :
    compilePipelineTimes this drv state (n + 1) w = compilePipeline this drv w state := by
  induction n generalizing w with
  | zero => rfl
  | succ k ih =>
    have hstep : compilePipelineTimes this drv state (k + 1 + 1) w
        = compilePipelineTimes this drv state (k + 1) (compilePipeline this drv w state) := rfl
    rw [hstep, ih, compilePipeline_twice]

theorem compileInstance_driverCalls (drv : Driver) (w : PipelineData)
    (state : DxvkGraphicsPipelineStateInfo) (ptr : Nat) :
    (compileInstance drv w state ptr).driverCalls = w.driverCalls
    ∨ (compileInstance drv w state ptr).driverCalls
        = w.driverCalls ++ [DriverCall.optimized state 0] := by
  cases h : (instanceAt w ptr).isCompiling with
  | true =>
    rw [compileInstance_of_isCompiling drv w state ptr h]
    exact Or.inl rfl
  | false =>
    rw [compileInstance_of_not_isCompiling drv w state ptr h]
    exact Or.inr (afterCompile_spec drv w state ptr h).2.1

theorem optimizedCompileCount_compileInstance (drv : Driver) (w : PipelineData)
    (state : DxvkGraphicsPipelineStateInfo) (ptr : Nat) :
    optimizedCompileCount (compileInstance drv w state ptr) state
      ≤ optimizedCompileCount w state + 1 := by
  unfold optimizedCompileCount
  rcases compileInstance_driverCalls drv w state ptr with h | h
  · rw [h]
    exact Nat.le_succ _
  · rw [h]
    simp

/-- One call of `compilePipeline` requests at most one optimized compile without flags
when the Instance exists, and at most two when it has to create the Instance. -/
theorem optimizedCompileCount_compilePipeline (this : DxvkGraphicsPipeline) (drv : Driver)
    (w : PipelineData) (state : DxvkGraphicsPipelineStateInfo) :
    optimizedCompileCount (compilePipeline this drv w state) state
      ≤ optimizedCompileCount w state + (if findInstance w state = none then 2 else 1) := by
  by_cases hcfg : this.m_device.enableGraphicsPipelineLibrary = Tristate.True
  · rw [compilePipeline_disabled this drv w state hcfg]
    split <;> omega
  · cases hfind : findInstance w state with
    | some ptr =>
      rw [compilePipeline_hit this drv w state ptr hcfg hfind]
      simpa using optimizedCompileCount_compileInstance drv w state ptr
    | none =>
      by_cases hskip : validatePipelineState this state false = false
          ∨ canCreateBasePipeline this state = true
      · rw [compilePipeline_abort this drv w state hfind hskip]
        simp
      · have hval : validatePipelineState this state false = true := by
          cases h : validatePipelineState this state false
          · exact absurd (Or.inl h) hskip
          · rfl
        have hcan : canCreateBasePipeline this state = false := by
          cases h : canCreateBasePipeline this state
          · rfl
          · exact absurd (Or.inr h) hskip
        rw [compilePipeline_miss this drv w state hcfg hfind hval hcan]
        have h1 := optimizedCompileCount_compileInstance drv
          (createInstance this drv w state false).2 state w.m_pipelines.length
        have h2 : optimizedCompileCount (createInstance this drv w state false).2 state
            = optimizedCompileCount w state + 1 := by
          unfold optimizedCompileCount
          rw [(createInstance_instance this drv w state false).2.1, createInstanceHandles_base]
          simp
        simp only [if_true]
        omega

/-- When the instance constructor marks an instance with a fast handle as compiling and
the compile inside `createInstance` succeeds, a `compilePipeline` that creates the
Instance requests exactly that one optimized compile. -/
theorem optimizedCompileCount_compilePipeline_created (this : DxvkGraphicsPipeline)
    (drv : Driver) (w : PipelineData) (state : DxvkGraphicsPipelineStateInfo)
    (hctor : ∀ st b f, f ≠ VK_NULL_HANDLE → this.hdr.instanceIsCompiling st b f = true)
    (hfind : findInstance w state = none)
    (hok : compiledHandle drv w state ≠ VK_NULL_HANDLE) :
    optimizedCompileCount (compilePipeline this drv w state) state
      ≤ optimizedCompileCount w state + 1 := by
  by_cases hcfg : this.m_device.enableGraphicsPipelineLibrary = Tristate.True
  · rw [compilePipeline_disabled this drv w state hcfg]
    exact Nat.le_succ _
  · by_cases hskip : validatePipelineState this state false = false
        ∨ canCreateBasePipeline this state = true
    · rw [compilePipeline_abort this drv w state hfind hskip]
      exact Nat.le_succ _
    · have hval : validatePipelineState this state false = true := by
        cases h : validatePipelineState this state false
        · exact absurd (Or.inl h) hskip
        · rfl
      have hcan : canCreateBasePipeline this state = false := by
        cases h : canCreateBasePipeline this state
        · rfl
        · exact absurd (Or.inr h) hskip
      obtain ⟨c1, _, _⟩ := createInstance_spec this drv w state false
      obtain ⟨ci, cd, _⟩ := createInstance_instance this drv w state false
      rw [c1, createInstanceHandles_base, createOptimizedPipeline_fst] at ci
      have hflag : (instanceAt (createInstance this drv w state false).2
          w.m_pipelines.length).isCompiling = true := by
        rw [ci]
        exact hctor _ _ _ hok
      rw [compilePipeline_miss this drv w state hcfg hfind hval hcan,
        compileInstance_of_isCompiling drv _ state _ hflag]
      unfold optimizedCompileCount
      rw [cd, createInstanceHandles_base]
      simp

/-- C9 (as amended): over any number of `compilePipeline(state)` calls on one pipeline,
`createOptimizedPipeline(state, 0)` is performed at most once when the Instance for
`state` already exists, and at most twice when the first call has to create it (once
inside `createInstance`, once by the elected compile step); every call after the first
performs none. The second compile of a creating call is excluded when the compile
inside `createInstance` succeeds and the instance constructor marks an instance with a
fast handle as compiling. -/
theorem compilePipeline_optimized_compiles_bounded (this : DxvkGraphicsPipeline)
    (drv : Driver) (w : PipelineData) (state : DxvkGraphicsPipelineStateInfo) (n : Nat) :
    optimizedCompileCount (compilePipelineTimes this drv state n w) state
        ≤ optimizedCompileCount w state + (if findInstance w state = none then 2 else 1)
    ∧ compilePipelineTimes this drv state (n + 1) w = compilePipeline this drv w state
    ∧ ((∀ st b f, f ≠ VK_NULL_HANDLE → this.hdr.instanceIsCompiling st b f = true) →
        findInstance w state = none → compiledHandle drv w state ≠ VK_NULL_HANDLE →
        optimizedCompileCount (compilePipelineTimes this drv state n w) state
          ≤ optimizedCompileCount w state + 1) := by
  refine ⟨?_, compilePipelineTimes_succ this drv state n w, ?_⟩
  · cases n with
    | zero =>
      show optimizedCompileCount w state ≤ _
      split <;> omega
    | succ k =>
      rw [compilePipelineTimes_succ]
      exact optimizedCompileCount_compilePipeline this drv w state
  · intro hctor hfind hok
    cases n with
    | zero => exact Nat.le_succ _
    | succ k =>
      rw [compilePipelineTimes_succ]
      exact optimizedCompileCount_compilePipeline_created this drv w state hctor hfind hok

/-- Counterexample to C9 as stated: on a fresh pipeline whose driver fails every compile,
a single `compilePipeline(state)` performs `createOptimizedPipeline(state, 0)` twice,
whether the instance constructor sets `isCompiling` from the fast handle or clears it. -/
theorem compilePipeline_compiles_twice_when_first_fails :
    ¬ (optimizedCompileCount
        (compilePipelineTimes examplePlainPipeline exampleFailingDriver exampleState 1 {})
        exampleState ≤ 1)
    ∧ ¬ (optimizedCompileCount
        (compilePipelineTimes examplePlainPipelineClearFlag exampleFailingDriver exampleState 1 {})
        exampleState ≤ 1) := by
  decide

/-! ## Fast handles are kept -/

theorem instanceAt_congr {w1 w2 : PipelineData} (h : w1.m_pipelines = w2.m_pipelines)
    (ptr : Nat) : instanceAt w1 ptr = instanceAt w2 ptr := by
  simp [instanceAt, h]

theorem instanceAt_of_le {w : PipelineData} {ptr : Nat} (h : w.m_pipelines.length ≤ ptr) :
    instanceAt w ptr = {} := by
  unfold instanceAt
  rw [List.getD_eq_getElem?_getD, List.getElem?_eq_none h]
  rfl

theorem lt_of_fastHandle_ne {w : PipelineData} {ptr : Nat}
    (h : (instanceAt w ptr).fastHandle ≠ VK_NULL_HANDLE) : ptr < w.m_pipelines.length := by
  by_contra hge
  rw [instanceAt_of_le (Nat.le_of_not_lt hge)] at h
  exact h rfl

theorem instanceAt_append_old {w w1 : PipelineData} {extra : List DxvkGraphicsPipelineInstance}
    (happ : w1.m_pipelines = w.m_pipelines ++ extra) {ptr : Nat}
    (hlt : ptr < w.m_pipelines.length) : instanceAt w1 ptr = instanceAt w ptr := by
  unfold instanceAt
  rw [happ, List.getD_eq_getElem?_getD, List.getD_eq_getElem?_getD,
    List.getElem?_append_left hlt]

theorem storedStates_append {w w1 : PipelineData} {extra : List DxvkGraphicsPipelineInstance}
    (happ : w1.m_pipelines = w.m_pipelines ++ extra) :
    storedStates w1 = storedStates w ++ extra.map (·.state) := by
  simp [storedStates, happ]

theorem FastImpliesCompiling_empty : FastImpliesCompiling {} := by
  intro ptr h
  have hlt := lt_of_fastHandle_ne h
  exact absurd hlt (Nat.not_lt_zero ptr)

theorem keepsFastHandles_refl (w : PipelineData) : KeepsFastHandles w w :=
  ⟨⟨[], by simp⟩, fun _ _ => rfl⟩

theorem keepsFastHandles_of_eq {w w1 : PipelineData} (h : w1.m_pipelines = w.m_pipelines) :
    KeepsFastHandles w w1 :=
  ⟨⟨[], by simp [storedStates, h]⟩, fun ptr _ => instanceAt_congr h ptr⟩

theorem keepsFastHandles_trans {w w1 w2 : PipelineData} (h1 : KeepsFastHandles w w1)
    (h2 : KeepsFastHandles w1 w2) : KeepsFastHandles w w2 := by
  obtain ⟨⟨e1, hs1⟩, hk1⟩ := h1
  obtain ⟨⟨e2, hs2⟩, hk2⟩ := h2
  refine ⟨⟨e1 ++ e2, by rw [hs2, hs1, List.append_assoc]⟩, ?_⟩
  intro ptr hne
  have h1 := hk1 ptr hne
  rw [hk2 ptr (by rw [h1]; exact hne), h1]

theorem keepsFastHandles_find {w w1 : PipelineData} (h : KeepsFastHandles w w1)
    {state : DxvkGraphicsPipelineStateInfo} {ptr : Nat}
    (hfind : findInstance w state = some ptr) : findInstance w1 state = some ptr := by
  obtain ⟨⟨e, hs⟩, _⟩ := h
  rw [findInstance_eq_storedStates] at hfind ⊢
  rw [hs, List.findIdx?_append, hfind]
  rfl

theorem keepsFastHandles_of_append {w w1 : PipelineData}
    {extra : List DxvkGraphicsPipelineInstance}
    (happ : w1.m_pipelines = w.m_pipelines ++ extra) : KeepsFastHandles w w1 :=
  ⟨⟨extra.map (·.state), storedStates_append happ⟩,
    fun _ hne => instanceAt_append_old happ (lt_of_fastHandle_ne hne)⟩

theorem fastImpliesCompiling_of_eq {w w1 : PipelineData}
    (h : w1.m_pipelines = w.m_pipelines) (hinv : FastImpliesCompiling w) :
    FastImpliesCompiling w1 := by
  intro ptr hne
  rw [instanceAt_congr h ptr] at hne ⊢
  exact hinv ptr hne

theorem fastImpliesCompiling_of_append {w w1 : PipelineData}
    {inst : DxvkGraphicsPipelineInstance}
    (happ : w1.m_pipelines = w.m_pipelines ++ [inst])
    (hinst : inst.fastHandle ≠ VK_NULL_HANDLE → inst.isCompiling = true)
    (hinv : FastImpliesCompiling w) : FastImpliesCompiling w1 := by
  intro ptr hne
  rcases Nat.lt_trichotomy ptr w.m_pipelines.length with hlt | heq | hgt
  · rw [instanceAt_append_old happ hlt] at hne ⊢
    exact hinv ptr hne
  · subst heq
    rw [instanceAt_append_new happ] at hne ⊢
    exact hinst hne
  · have hlen : w1.m_pipelines.length ≤ ptr := by
      rw [happ]
      simp
      omega
    rw [instanceAt_of_le hlen] at hne
    exact absurd rfl hne

theorem createInstance_keeps (this : DxvkGraphicsPipeline) (drv : Driver)
    (hctor : ∀ st b f, f ≠ VK_NULL_HANDLE → this.hdr.instanceIsCompiling st b f = true)
    (w : PipelineData) (state : DxvkGraphicsPipelineStateInfo) (b : Bool)
    (hinv : FastImpliesCompiling w) :
    FastImpliesCompiling (createInstance this drv w state b).2
    ∧ KeepsFastHandles w (createInstance this drv w state b).2 := by
  obtain ⟨_, c2, _⟩ := createInstance_spec this drv w state b
  exact ⟨fastImpliesCompiling_of_append c2 (fun hne => hctor _ _ _ hne) hinv,
    keepsFastHandles_of_append c2⟩

theorem compileInstance_keeps (drv : Driver) (w : PipelineData)
    (state : DxvkGraphicsPipelineStateInfo) (ptr : Nat) (hinv : FastImpliesCompiling w) :
    FastImpliesCompiling (compileInstance drv w state ptr)
    ∧ KeepsFastHandles w (compileInstance drv w state ptr) := by
  cases h : (instanceAt w ptr).isCompiling with
  | true =>
    rw [compileInstance_of_isCompiling drv w state ptr h]
    exact ⟨hinv, keepsFastHandles_refl w⟩
  | false =>
    rw [compileInstance_of_not_isCompiling drv w state ptr h]
    constructor
    · intro q hne
      rw [instanceAt_afterCompile drv w state ptr h q] at hne ⊢
      split
      · rfl
      · rename_i hq
        rw [if_neg hq] at hne
        exact hinv q hne
    · refine ⟨⟨[], by simp [storedStates_afterCompile drv w state ptr h]⟩, ?_⟩
      intro q hne
      rw [instanceAt_afterCompile drv w state ptr h q]
      have hq : ¬ (ptr = q ∧ q < w.m_pipelines.length) := by
        rintro ⟨rfl, _⟩
        have := hinv ptr hne
        rw [h] at this
        cases this
      rw [if_neg hq]

theorem getPipelineHandle_keeps (this : DxvkGraphicsPipeline) (drv : Driver)
    (hctor : ∀ st b f, f ≠ VK_NULL_HANDLE → this.hdr.instanceIsCompiling st b f = true)
    (w : PipelineData) (state : DxvkGraphicsPipelineStateInfo)
    (hinv : FastImpliesCompiling w) :
    FastImpliesCompiling (getPipelineHandle this drv w state).2
    ∧ KeepsFastHandles w (getPipelineHandle this drv w state).2 := by
  cases hfind : findInstance w state with
  | some ptr =>
    rw [getPipelineHandle_hit this drv w state ptr hfind]
    exact ⟨hinv, keepsFastHandles_refl w⟩
  | none =>
    cases hval : validatePipelineState this state true with
    | false =>
      rw [getPipelineHandle_invalid this drv w state hfind hval]
      exact ⟨hinv, keepsFastHandles_refl w⟩
    | true =>
      rw [getPipelineHandle_miss this drv w state hfind hval]
      obtain ⟨_, h2, _⟩ := getPipelineHandleLocked_miss this drv w state hfind
      obtain ⟨ci, ck⟩ := createInstance_keeps this drv hctor w state
        (canCreateBasePipeline this state) hinv
      exact ⟨fastImpliesCompiling_of_eq h2 ci, keepsFastHandles_trans ck (keepsFastHandles_of_eq h2)⟩

theorem compilePipeline_keeps (this : DxvkGraphicsPipeline) (drv : Driver)
    (hctor : ∀ st b f, f ≠ VK_NULL_HANDLE → this.hdr.instanceIsCompiling st b f = true)
    (w : PipelineData) (state : DxvkGraphicsPipelineStateInfo)
    (hinv : FastImpliesCompiling w) :
    FastImpliesCompiling (compilePipeline this drv w state)
    ∧ KeepsFastHandles w (compilePipeline this drv w state) := by
  by_cases hcfg : this.m_device.enableGraphicsPipelineLibrary = Tristate.True
  · rw [compilePipeline_disabled this drv w state hcfg]
    exact ⟨hinv, keepsFastHandles_refl w⟩
  · cases hfind : findInstance w state with
    | some ptr =>
      rw [compilePipeline_hit this drv w state ptr hcfg hfind]
      exact compileInstance_keeps drv w state ptr hinv
    | none =>
      by_cases hskip : validatePipelineState this state false = false
          ∨ canCreateBasePipeline this state = true
      · rw [compilePipeline_abort this drv w state hfind hskip]
        exact ⟨hinv, keepsFastHandles_refl w⟩
      · have hval : validatePipelineState this state false = true := by
          cases h : validatePipelineState this state false
          · exact absurd (Or.inl h) hskip
          · rfl
        have hcan : canCreateBasePipeline this state = false := by
          cases h : canCreateBasePipeline this state
          · rfl
          · exact absurd (Or.inr h) hskip
        rw [compilePipeline_miss this drv w state hcfg hfind hval hcan]
        obtain ⟨ci, ck⟩ := createInstance_keeps this drv hctor w state false hinv
        obtain ⟨di, dk⟩ := compileInstance_keeps drv (createInstance this drv w state false).2
          state w.m_pipelines.length ci
        exact ⟨di, keepsFastHandles_trans ck dk⟩

theorem runCalls_keeps (this : DxvkGraphicsPipeline) (drv : Driver)
    (hctor : ∀ st b f, f ≠ VK_NULL_HANDLE → this.hdr.instanceIsCompiling st b f = true)
    (calls : List Call) (w : PipelineData) (hinv : FastImpliesCompiling w) :
    FastImpliesCompiling (runCalls this drv calls w)
    ∧ KeepsFastHandles w (runCalls this drv calls w) := by
  induction calls generalizing w with
  | nil => exact ⟨hinv, keepsFastHandles_refl w⟩
  | cons c rest ih =>
    have hstep : FastImpliesCompiling (c.run this drv w)
        ∧ KeepsFastHandles w (c.run this drv w) := by
      cases c with
      | getHandle state => exact getPipelineHandle_keeps this drv hctor w state hinv
      | compile state => exact compilePipeline_keeps this drv hctor w state hinv
    obtain ⟨ri, rk⟩ := ih (c.run this drv w) hstep.1
    exact ⟨ri, keepsFastHandles_trans hstep.2 rk⟩

/-- A lookup that returns a non-null handle of kind `FastPipeline` ends with an instance
for the state that has this handle as its fast handle. -/
theorem getPipelineHandle_fast_instance (this : DxvkGraphicsPipeline) (drv : Driver)
    (w : PipelineData) (state : DxvkGraphicsPipelineStateInfo) (h : VkPipeline)
    (hne : h ≠ VK_NULL_HANDLE)
    (hres : (getPipelineHandle this drv w state).1 = (h, DxvkGraphicsPipelineType.FastPipeline)) :
    ∃ ptr, findInstance (getPipelineHandle this drv w state).2 state = some ptr
      ∧ (instanceAt (getPipelineHandle this drv w state).2 ptr).fastHandle = h := by
  have hex : ∃ ptr, findInstance (getPipelineHandle this drv w state).2 state = some ptr := by
    cases hfind : findInstance w state with
    | some ptr =>
      rw [getPipelineHandle_hit this drv w state ptr hfind]
      exact ⟨ptr, hfind⟩
    | none =>
      cases hval : validatePipelineState this state true with
      | false =>
        rw [getPipelineHandle_invalid this drv w state hfind hval] at hres
        cases hres
        exact absurd rfl hne
      | true =>
        rw [getPipelineHandle_miss this drv w state hfind hval]
        exact ⟨_, getPipelineHandleLocked_find this drv w state⟩
  obtain ⟨ptr, hptr⟩ := hex
  refine ⟨ptr, hptr, ?_⟩
  rw [getPipelineHandle_result this drv w state ptr hptr] at hres
  unfold loadPipelineHandle at hres
  dsimp only at hres
  split at hres
  · cases hres
    rfl
  · cases hres

/-- C2: provided the constructor of `DxvkGraphicsPipelineInstance` marks an instance that
is created with a non-null fast handle as already compiling, then in every sequence of
`getPipelineHandle` and `compilePipeline` calls on a fresh pipeline, with an arbitrary
driver, an instance whose `fastHandle` is non-null is never changed again, so the handle
is never cleared; and once `getPipelineHandle(state)` has returned a non-null handle `h`
of kind `FastPipeline`, every later `getPipelineHandle(state)` returns `(h, FastPipeline)`
again, never kind `BasePipeline`. -/
theorem fastHandle_never_cleared (this : DxvkGraphicsPipeline) (drv : Driver)
    (hctor : ∀ st b f, f ≠ VK_NULL_HANDLE → this.hdr.instanceIsCompiling st b f = true)
    (before after : List Call) :
    (∀ ptr, (instanceAt (runCalls this drv before {}) ptr).fastHandle ≠ VK_NULL_HANDLE →
      instanceAt (runCalls this drv after (runCalls this drv before {})) ptr
        = instanceAt (runCalls this drv before {}) ptr)
    ∧ (∀ state h, h ≠ VK_NULL_HANDLE →
        (getPipelineHandle this drv (runCalls this drv before {}) state).1
          = (h, DxvkGraphicsPipelineType.FastPipeline) →
        (getPipelineHandle this drv
          (runCalls this drv after
            (getPipelineHandle this drv (runCalls this drv before {}) state).2) state).1
          = (h, DxvkGraphicsPipelineType.FastPipeline)) := by
  obtain ⟨hinv1, _⟩ := runCalls_keeps this drv hctor before {} FastImpliesCompiling_empty
  constructor
  · intro ptr hne
    exact (runCalls_keeps this drv hctor after _ hinv1).2.2 ptr hne
  · intro state h hne hres
    obtain ⟨ptr, hptr, hfast⟩ := getPipelineHandle_fast_instance this drv _ state h hne hres
    obtain ⟨hinv2, _⟩ := getPipelineHandle_keeps this drv hctor _ state hinv1
    obtain ⟨_, hk⟩ := runCalls_keeps this drv hctor after _ hinv2
    have hptr2 := keepsFastHandles_find hk hptr
    have hsame := hk.2 ptr (by rw [hfast]; exact hne)
    rw [getPipelineHandle_hit this drv _ state ptr hptr2]
    unfold loadPipelineHandle
    dsimp only
    rw [hsame, hfast]
    simp [hne]

/-- Witness for C2: the first lookup obtains fast handle 100 from the driver cache; after
a `compilePipeline` on a driver that fails from then on, the lookup still returns
`(100, FastPipeline)`. -/
theorem fastHandle_never_cleared_witness :
    (∀ st b f, f ≠ VK_NULL_HANDLE →
      exampleLibraryPipeline.hdr.instanceIsCompiling st b f = true)
    ∧ (getPipelineHandle exampleLibraryPipeline exampleFirstOnlyDriver {} exampleState).1
      = (100, DxvkGraphicsPipelineType.FastPipeline)
    ∧ (getPipelineHandle exampleLibraryPipeline exampleFirstOnlyDriver
        (runCalls exampleLibraryPipeline exampleFirstOnlyDriver [Call.compile exampleState]
          (getPipelineHandle exampleLibraryPipeline exampleFirstOnlyDriver
            (runCalls exampleLibraryPipeline exampleFirstOnlyDriver [] {}) exampleState).2)
        exampleState).1
      = (100, DxvkGraphicsPipelineType.FastPipeline) :=
  ⟨fun _ _ f hf => by simpa [exampleLibraryPipeline, exampleHeaderDecls] using hf, by decide,
    (fastHandle_never_cleared exampleLibraryPipeline exampleFirstOnlyDriver
      (fun _ _ f hf => by simpa [exampleLibraryPipeline, exampleHeaderDecls] using hf) []
      [Call.compile exampleState]).2 exampleState 100 (by decide) (by decide)⟩

/-- The hypothesis of `fastHandle_never_cleared` on the instance constructor cannot be
dropped: with a constructor that always clears `isCompiling`, a lookup obtains fast
handle 100 from the driver cache, a following `compilePipeline` whose compile fails stores
null over it, and the next lookup returns a null handle of kind `BasePipeline`. -/
theorem fastHandle_cleared_when_constructor_clears_flag :
    (getPipelineHandle exampleLibraryPipelineClearFlag exampleFirstOnlyDriver {}
        exampleState).1
      = (100, DxvkGraphicsPipelineType.FastPipeline)
    ∧ (getPipelineHandle exampleLibraryPipelineClearFlag exampleFirstOnlyDriver
        (compilePipeline exampleLibraryPipelineClearFlag exampleFirstOnlyDriver
          (getPipelineHandle exampleLibraryPipelineClearFlag exampleFirstOnlyDriver {}
            exampleState).2 exampleState) exampleState).1
      = (VK_NULL_HANDLE, DxvkGraphicsPipelineType.BasePipeline) := by
  decide

/-! ## Interleaved calls keep the instance store free of duplicates -/

theorem grows_refl (w : PipelineData) : Grows w w := Or.inl rfl

theorem grows_of_eq {w w1 : PipelineData} (h : storedStates w1 = storedStates w) :
    Grows w w1 := Or.inl h

theorem grows_nodup {w w1 : PipelineData} (h : Grows w w1)
    (hn : (storedStates w).Nodup) : (storedStates w1).Nodup := by
  rcases h with h | ⟨s, hs, h⟩
  · rw [h]
    exact hn
  · rw [h]
    exact List.Nodup.append hn (List.nodup_singleton s) (by simpa using hs)

theorem grows_find {w w1 : PipelineData} (h : Grows w w1)
    {state : DxvkGraphicsPipelineStateInfo} {ptr : Nat}
    (hfind : findInstance w state = some ptr) : findInstance w1 state = some ptr := by
  rcases h with h | ⟨s, _, h⟩
  · rw [findInstance_congr h]
    exact hfind
  · rw [findInstance_eq_storedStates] at hfind ⊢
    rw [h, List.findIdx?_append, hfind]
    rfl

theorem grows_find_ne_none {w w1 : PipelineData} (h : Grows w w1)
    {state : DxvkGraphicsPipelineStateInfo}
    (hfind : findInstance w state ≠ none) : findInstance w1 state ≠ none := by
  cases hf : findInstance w state with
  | none => exact absurd hf hfind
  | some ptr =>
    rw [grows_find h hf]
    simp

theorem grows_ok {this : DxvkGraphicsPipeline} {w w1 : PipelineData} (h : Grows w w1)
    {t : Thread} (ht : t.Ok this w) : t.Ok this w1 := by
  cases t with
  | getLoad state ptr => exact grows_find h ht
  | getReturn state result => exact fun hval => grows_find_ne_none h (ht hval)
  | _ => trivial

theorem createInstance_grows (this : DxvkGraphicsPipeline) (drv : Driver)
    (w : PipelineData) (state : DxvkGraphicsPipelineStateInfo) (b : Bool)
    (hfind : findInstance w state = none) :
    Grows w (createInstance this drv w state b).2 := by
  obtain ⟨_, c2, _⟩ := createInstance_spec this drv w state b
  refine Or.inr ⟨state, (findInstance_none_iff w state).mp hfind, ?_⟩
  rw [storedStates_append c2]
  rfl

theorem getPipelineHandleLocked_grows (this : DxvkGraphicsPipeline) (drv : Driver)
    (w : PipelineData) (state : DxvkGraphicsPipelineStateInfo) :
    Grows w (getPipelineHandleLocked this drv w state).2 := by
  cases hfind : findInstance w state with
  | some p =>
    have hsame : getPipelineHandleLocked this drv w state = (p, w) := by
      unfold getPipelineHandleLocked
      rw [hfind]
    rw [hsame]
    exact grows_refl w
  | none =>
    obtain ⟨_, h2, _⟩ := getPipelineHandleLocked_miss this drv w state hfind
    rcases createInstance_grows this drv w state (canCreateBasePipeline this state) hfind
      with h | ⟨s, hs, h⟩
    · exact Or.inl (by unfold storedStates at h ⊢; rw [h2]; exact h)
    · exact Or.inr ⟨s, hs, by unfold storedStates at h ⊢; rw [h2]; exact h⟩

theorem compilePipelineLocked_grows (this : DxvkGraphicsPipeline) (drv : Driver)
    (w : PipelineData) (state : DxvkGraphicsPipelineStateInfo) :
    Grows w (compilePipelineLocked this drv w state).2 := by
  unfold compilePipelineLocked
  cases hfind : findInstance w state with
  | some p => exact grows_refl w
  | none => exact createInstance_grows this drv w state false hfind

theorem storedStates_electCompiler (w : PipelineData) (ptr : Nat) :
    storedStates (electCompiler w ptr).2 = storedStates w := by
  unfold electCompiler
  split
  · rfl
  · unfold storedStates setIsCompiling
    apply map_state_modify
    intro x
    rfl

theorem storedStates_publishFastHandle (w : PipelineData)
    (state : DxvkGraphicsPipelineStateInfo) (ptr : Nat) (pipeline : VkPipeline) :
    storedStates (publishFastHandle w state ptr pipeline) = storedStates w := by
  have hstore : storedStates (storeFastHandle w ptr pipeline) = storedStates w := by
    unfold storedStates storeFastHandle
    apply map_state_modify
    intro x
    rfl
  unfold publishFastHandle
  dsimp only
  split
  · exact hstore
  · exact hstore

/-- Every step of every thread keeps the stored states or adds one new state at the end. -/
theorem Thread.step_grows (this : DxvkGraphicsPipeline) (drv : Driver) (w : PipelineData)
    (t : Thread) : Grows w (t.step this drv w).2 := by
  cases t with
  | getEnter state =>
    simp only [Thread.step]
    split
    · exact grows_refl w
    · split <;> exact grows_refl w
  | getLock state => exact getPipelineHandleLocked_grows this drv w state
  | getLoad state ptr => exact grows_refl w
  | getReturn state result => exact grows_refl w
  | compileEnter state =>
    simp only [Thread.step]
    split
    · exact grows_refl w
    · split
      · exact grows_refl w
      · split
        · exact grows_refl w
        · split <;> exact grows_refl w
  | compileLock state => exact compilePipelineLocked_grows this drv w state
  | compileElect state ptr =>
    simp only [Thread.step]
    split <;> exact grows_of_eq (storedStates_electCompiler w ptr)
  | compileBuild state ptr =>
    simp only [Thread.step]
    rw [createOptimizedPipeline_snd]
    exact grows_refl _
  | compilePublish state ptr pipeline =>
    exact grows_of_eq (storedStates_publishFastHandle w state ptr pipeline)
  | compileReturn state => exact grows_refl w

/-- After its step a thread is consistent with the data that the step produced. -/
theorem Thread.step_ok (this : DxvkGraphicsPipeline) (drv : Driver) (w : PipelineData)
    (t : Thread) (ht : t.Ok this w) : (t.step this drv w).1.Ok this (t.step this drv w).2 := by
  cases t with
  | getEnter state =>
    simp only [Thread.step]
    cases hfind : findInstance w state with
    | some ptr => exact hfind
    | none =>
      cases hval : validatePipelineState this state true with
      | false =>
        intro h
        rw [hval] at h
        cases h
      | true => trivial
  | getLock state => exact getPipelineHandleLocked_find this drv w state
  | getLoad state ptr =>
    intro _
    have hsome : findInstance w state = some ptr := ht
    show findInstance w state ≠ none
    rw [hsome]
    simp
  | getReturn state result => exact ht
  | compileEnter state =>
    simp only [Thread.step]
    split
    · trivial
    · split
      · trivial
      · split
        · trivial
        · split <;> trivial
  | compileLock state => trivial
  | compileElect state ptr =>
    simp only [Thread.step]
    split <;> trivial
  | compileBuild state ptr => trivial
  | compilePublish state ptr pipeline => trivial
  | compileReturn state => trivial

theorem systemInv_initial (this : DxvkGraphicsPipeline) : System.Inv this {} := by
  constructor
  · exact List.nodup_nil
  · intro t ht
    cases ht

theorem systemInv_next (this : DxvkGraphicsPipeline) (drv : Driver) (sys : System)
    (e : Event) (hinv : System.Inv this sys) : System.Inv this (sys.next this drv e) := by
  obtain ⟨hn, hok⟩ := hinv
  cases e with
  | call c =>
    refine ⟨hn, ?_⟩
    intro t ht
    simp only [System.next, List.mem_append, List.mem_singleton] at ht
    rcases ht with ht | rfl
    · exact hok t ht
    · cases c <;> trivial
  | step tid =>
    simp only [System.next]
    cases hget : sys.threads[tid]? with
    | none => exact ⟨hn, hok⟩
    | some t =>
      have hmem : t ∈ sys.threads := List.getElem?_mem hget
      have hg := Thread.step_grows this drv sys.data t
      refine ⟨grows_nodup hg hn, ?_⟩
      intro t1 ht1
      rcases List.mem_or_eq_of_mem_set ht1 with hold | rfl
      · exact grows_ok hg (hok t1 hold)
      · exact Thread.step_ok this drv sys.data t (hok t hmem)

theorem systemInv_run (this : DxvkGraphicsPipeline) (drv : Driver) (events : List Event)
    (sys : System) (hinv : System.Inv this sys) :
    System.Inv this (System.run this drv events sys) := by
  induction events generalizing sys with
  | nil => exact hinv
  | cons e rest ih => exact ih _ (systemInv_next this drv sys e hinv)

theorem countP_state_eq_count (w : PipelineData) (state : DxvkGraphicsPipelineStateInfo) :
    w.m_pipelines.countP (fun inst => inst.state == state) = (storedStates w).count state := by
  unfold storedStates List.count
  rw [List.countP_map]
  rfl

/-- A thread that runs `getPipelineHandle` alone makes the steps of the sequential call. -/
theorem Thread.steps_getEnter (this : DxvkGraphicsPipeline) (drv : Driver)
    (w : PipelineData) (state : DxvkGraphicsPipelineStateInfo) :
    Thread.steps this drv 3 (Thread.getEnter state, w)
      = (Thread.getReturn state (getPipelineHandle this drv w state).1,
          (getPipelineHandle this drv w state).2) := by
  cases hfind : findInstance w state with
  | some ptr =>
    rw [getPipelineHandle_hit this drv w state ptr hfind]
    simp [Thread.steps, Thread.step, hfind]
  | none =>
    cases hval : validatePipelineState this state true with
    | false =>
      rw [getPipelineHandle_invalid this drv w state hfind hval]
      simp [Thread.steps, Thread.step, hfind, hval]
    | true =>
      rw [getPipelineHandle_miss this drv w state hfind hval]
      simp [Thread.steps, Thread.step, hfind, hval]

/-- A thread that runs `compilePipeline` alone makes the steps of the sequential call. -/
theorem Thread.steps_compileEnter (this : DxvkGraphicsPipeline) (drv : Driver)
    (w : PipelineData) (state : DxvkGraphicsPipelineStateInfo) :
    Thread.steps this drv 5 (Thread.compileEnter state, w)
      = (Thread.compileReturn state, compilePipeline this drv w state) := by
  have helect : ∀ w1 ptr, Thread.steps this drv 3 (Thread.compileElect state ptr, w1)
      = (Thread.compileReturn state, compileInstance drv w1 state ptr) := by
    intro w1 ptr
    cases h : (electCompiler w1 ptr).1 <;>
      simp [Thread.steps, Thread.step, compileInstance, h]
  have hret : ∀ n w1, Thread.steps this drv n (Thread.compileReturn state, w1)
      = (Thread.compileReturn state, w1) := by
    intro n
    induction n with
    | zero => intro w1; rfl
    | succ k ih => intro w1; simp [Thread.steps, Thread.step, ih]
  by_cases hcfg : this.m_device.enableGraphicsPipelineLibrary = Tristate.True
  · rw [compilePipeline_disabled this drv w state hcfg]
    have h1 : (Thread.compileEnter state).step this drv w = (Thread.compileReturn state, w) := by
      simp [Thread.step, hcfg]
    show Thread.steps this drv 4 ((Thread.compileEnter state).step this drv w) = _
    rw [h1, hret]
  · cases hfind : findInstance w state with
    | some ptr =>
      rw [compilePipeline_hit this drv w state ptr hcfg hfind]
      have h1 : (Thread.compileEnter state).step this drv w
          = (Thread.compileElect state ptr, w) := by
        simp [Thread.step, hcfg, hfind]
      show Thread.steps this drv 4 ((Thread.compileEnter state).step this drv w) = _
      rw [h1]
      show Thread.steps this drv 1 (Thread.steps this drv 3 (Thread.compileElect state ptr, w)) = _
      rw [helect, hret]
    | none =>
      by_cases hskip : validatePipelineState this state false = false
          ∨ canCreateBasePipeline this state = true
      · rw [compilePipeline_abort this drv w state hfind hskip]
        have h1 : (Thread.compileEnter state).step this drv w
            = (Thread.compileReturn state, w) := by
          rcases hskip with h | h
          · simp [Thread.step, hcfg, hfind, h]
          · cases hv : validatePipelineState this state false <;>
              simp [Thread.step, hcfg, hfind, h, hv]
        show Thread.steps this drv 4 ((Thread.compileEnter state).step this drv w) = _
        rw [h1, hret]
      · have hval : validatePipelineState this state false = true := by
          cases h : validatePipelineState this state false
          · exact absurd (Or.inl h) hskip
          · rfl
        have hcan : canCreateBasePipeline this state = false := by
          cases h : canCreateBasePipeline this state
          · rfl
          · exact absurd (Or.inr h) hskip
        have h1 : (Thread.compileEnter state).step this drv w
            = (Thread.compileLock state, w) := by
          simp [Thread.step, hcfg, hfind, hval, hcan]
        have h2 : (Thread.compileLock state).step this drv w
            = (Thread.compileElect state w.m_pipelines.length,
                (createInstance this drv w state false).2) := by
          obtain ⟨c1, _, _⟩ := createInstance_spec this drv w state false
          simp [Thread.step, compilePipelineLocked, hfind, c1]
        rw [compilePipeline_miss this drv w state hcfg hfind hval hcan]
        show Thread.steps this drv 4 ((Thread.compileEnter state).step this drv w) = _
        rw [h1]
        show Thread.steps this drv 3 ((Thread.compileLock state).step this drv w) = _
        rw [h2, helect]

/-- C3: in every state that is reachable by interleaving the steps of any number of
`getPipelineHandle` and `compilePipeline` calls (mutex-protected blocks being atomic),
the instance store holds at most one Instance per state vector; and once a
`getPipelineHandle(state)` has returned for a state that passes trusted validation,
`findInstance(state)` is non-null and exactly one stored Instance has that state. -/
theorem instance_store_has_no_duplicates (this : DxvkGraphicsPipeline) (drv : Driver)
    (events : List Event) :
    (storedStates (System.run this drv events {}).data).Nodup
    ∧ (∀ state, (System.run this drv events {}).data.m_pipelines.countP
        (fun inst => inst.state == state) ≤ 1)
    ∧ (∀ state result,
        Thread.getReturn state result ∈ (System.run this drv events {}).threads →
        validatePipelineState this state true = true →
        findInstance (System.run this drv events {}).data state ≠ none
        ∧ (System.run this drv events {}).data.m_pipelines.countP
            (fun inst => inst.state == state) = 1) := by
  obtain ⟨hn, hok⟩ := systemInv_run this drv events {} (systemInv_initial this)
  refine ⟨hn, ?_, ?_⟩
  · intro state
    rw [countP_state_eq_count]
    exact List.nodup_iff_count_le_one.mp hn state
  · intro state result hmem hval
    have hfind : findInstance (System.run this drv events {}).data state ≠ none :=
      hok _ hmem hval
    refine ⟨hfind, ?_⟩
    rw [countP_state_eq_count]
    apply List.count_eq_one_of_mem hn
    by_contra hnot
    exact hfind ((findInstance_none_iff _ state).mpr hnot)

/-- Witness for C3: two threads race on the same state; both return handle 100 and the
store holds exactly one Instance for the state. -/
theorem instance_store_has_no_duplicates_witness :
    (System.run exampleLibraryPipeline exampleDriver exampleRace {}).threads
      = [Thread.getReturn exampleState (100, DxvkGraphicsPipelineType.FastPipeline),
          Thread.getReturn exampleState (100, DxvkGraphicsPipelineType.FastPipeline)]
    ∧ (System.run exampleLibraryPipeline exampleDriver exampleRace {}).data.m_pipelines.countP
        (fun inst => inst.state == exampleState) = 1 :=
  ⟨by decide,
    ((instance_store_has_no_duplicates exampleLibraryPipeline exampleDriver exampleRace).2.2
      exampleState (100, DxvkGraphicsPipelineType.FastPipeline) (by decide) (by decide)).2⟩

/-! ## State cache and the abort paths of `compilePipeline` -/

theorem getPipelineHandleLocked_stateCache (this : DxvkGraphicsPipeline) (drv : Driver)
    (w : PipelineData) (state : DxvkGraphicsPipelineStateInfo)
    (hnone : findInstance w state = none) :
    (getPipelineHandleLocked this drv w state).2.stateCache
      = if canCreateBasePipeline this state = true then w.stateCache
        else w.stateCache ++ [(stateCacheKey this, state)] := by
  have hc : (createInstance this drv w state (canCreateBasePipeline this state)).2.stateCache
      = w.stateCache := by
    unfold createInstance
    dsimp only
    have hh : (createInstanceHandles this drv w state
        (canCreateBasePipeline this state)).2.stateCache = w.stateCache := by
      unfold createInstanceHandles createBaseInstance createBasePipeline
      dsimp only
      split
      · split <;> split <;> simp <;> split <;> rfl
      · simp
    split <;> simp [logPipelineState, hh]
  have hw1 : ∀ r : Nat × PipelineData,
      (if ((instanceAt r.2 r.1).fastHandle == VK_NULL_HANDLE) = true
        then enqueueCompile r.2 state else r.2).stateCache = r.2.stateCache := by
    intro r
    split <;> rfl
  unfold getPipelineHandleLocked
  rw [hnone]
  dsimp only
  cases hcan : canCreateBasePipeline this state
  · rw [hcan] at hc
    simp only [Bool.not_false, if_true, Bool.false_eq_true, if_false]
    unfold writePipelineStateToCache
    dsimp only
    rw [hw1, hc]
    rfl
  · rw [hcan] at hc
    simp only [Bool.not_true, Bool.false_eq_true, if_false, if_true]
    rw [hw1, hc]

/-- C11: `getPipelineHandle(state)` writes `state` to the state cache if and only if the
call created a new Instance and `canCreateBasePipeline(state)` is false. A hit, a miss
that fails validation and the creation of an Instance for a base-eligible state leave
the state cache as it was; otherwise exactly one entry, the pipeline's shader keys with
`state`, is added. The call creates an Instance exactly on a miss that passes trusted
validation. -/
theorem getPipelineHandle_writes_state_cache_iff (this : DxvkGraphicsPipeline)
    (drv : Driver) (w : PipelineData) (state : DxvkGraphicsPipelineStateInfo) :
    ((getPipelineHandle this drv w state).2.m_pipelines.length = w.m_pipelines.length + 1
      ↔ (findInstance w state = none ∧ validatePipelineState this state true = true))
    ∧ ((getPipelineHandle this drv w state).2.m_pipelines.length = w.m_pipelines.length + 1
        ∧ canCreateBasePipeline this state = false →
      (getPipelineHandle this drv w state).2.stateCache
        = w.stateCache ++ [(stateCacheKey this, state)])
    ∧ (¬ ((getPipelineHandle this drv w state).2.m_pipelines.length
          = w.m_pipelines.length + 1
        ∧ canCreateBasePipeline this state = false) →
      (getPipelineHandle this drv w state).2.stateCache = w.stateCache) := by
  cases hfind : findInstance w state with
  | some ptr =>
    rw [getPipelineHandle_hit this drv w state ptr hfind]
    simp
  | none =>
    cases hval : validatePipelineState this state true with
    | false =>
      rw [getPipelineHandle_invalid this drv w state hfind hval]
      simp
    | true =>
      rw [getPipelineHandle_miss this drv w state hfind hval]
      obtain ⟨_, h2, _⟩ := getPipelineHandleLocked_miss this drv w state hfind
      obtain ⟨_, c2, _⟩ := createInstance_spec this drv w state (canCreateBasePipeline this state)
      have hlen : (getPipelineHandleLocked this drv w state).2.m_pipelines.length
          = w.m_pipelines.length + 1 := by
        rw [h2, c2]
        simp
      have hsc := getPipelineHandleLocked_stateCache this drv w state hfind
      refine ⟨by simp [hlen], ?_, ?_⟩
      · rintro ⟨_, hcan⟩
        rw [hsc, hcan]
        simp
      · intro hnot
        have hcan : canCreateBasePipeline this state = true := by
          cases h : canCreateBasePipeline this state
          · exact absurd ⟨hlen, h⟩ hnot
          · rfl
        rw [hsc, hcan]
        simp

/-- Witness for C11: the first lookup of a state with line polygon mode creates the
Instance and adds one state cache entry; the first lookup of the base-eligible default
state creates an Instance and adds none. -/
theorem getPipelineHandle_writes_state_cache_iff_witness :
    (getPipelineHandle exampleLibraryPipeline exampleDriver {} exampleLineState).2.stateCache
      = [(stateCacheKey exampleLibraryPipeline, exampleLineState)]
    ∧ (getPipelineHandle exampleLibraryPipeline exampleDriver {} exampleState).2.stateCache
      = [] :=
  ⟨(getPipelineHandle_writes_state_cache_iff exampleLibraryPipeline exampleDriver {}
      exampleLineState).2.1 (by decide),
    (getPipelineHandle_writes_state_cache_iff exampleLibraryPipeline exampleDriver {}
      exampleState).2.2 (by decide)⟩

theorem compileInstance_m_basePipelines (drv : Driver) (w : PipelineData)
    (state : DxvkGraphicsPipelineStateInfo) (ptr : Nat) :
    (compileInstance drv w state ptr).m_basePipelines = w.m_basePipelines := by
  cases h : (instanceAt w ptr).isCompiling with
  | true => rw [compileInstance_of_isCompiling drv w state ptr h]
  | false =>
    rw [compileInstance_of_not_isCompiling drv w state ptr h]
    exact (afterCompile_spec drv w state ptr h).2.2.1

/-- Every driver request that `compilePipeline(state)` adds is an optimized compile of
`state` without create flags, and it leaves the base instances alone. -/
theorem compilePipeline_requests (this : DxvkGraphicsPipeline) (drv : Driver)
    (w : PipelineData) (state : DxvkGraphicsPipelineStateInfo) :
    (∃ extra, (compilePipeline this drv w state).driverCalls = w.driverCalls ++ extra
      ∧ ∀ c ∈ extra, c = DriverCall.optimized state 0)
    ∧ (compilePipeline this drv w state).m_basePipelines = w.m_basePipelines := by
  have hinst : ∀ w1 ptr,
      (∃ extra, (compileInstance drv w1 state ptr).driverCalls = w1.driverCalls ++ extra
        ∧ ∀ c ∈ extra, c = DriverCall.optimized state 0) := by
    intro w1 ptr
    rcases compileInstance_driverCalls drv w1 state ptr with h | h
    · exact ⟨[], by simp [h], by simp⟩
    · exact ⟨[DriverCall.optimized state 0], h, by simp⟩
  by_cases hcfg : this.m_device.enableGraphicsPipelineLibrary = Tristate.True
  · rw [compilePipeline_disabled this drv w state hcfg]
    exact ⟨⟨[], by simp, by simp⟩, rfl⟩
  · cases hfind : findInstance w state with
    | some ptr =>
      rw [compilePipeline_hit this drv w state ptr hcfg hfind]
      exact ⟨hinst w ptr, compileInstance_m_basePipelines drv w state ptr⟩
    | none =>
      by_cases hskip : validatePipelineState this state false = false
          ∨ canCreateBasePipeline this state = true
      · rw [compilePipeline_abort this drv w state hfind hskip]
        exact ⟨⟨[], by simp, by simp⟩, rfl⟩
      · have hval : validatePipelineState this state false = true := by
          cases h : validatePipelineState this state false
          · exact absurd (Or.inl h) hskip
          · rfl
        have hcan : canCreateBasePipeline this state = false := by
          cases h : canCreateBasePipeline this state
          · rfl
          · exact absurd (Or.inr h) hskip
        obtain ⟨_, cd, cb⟩ := createInstance_instance this drv w state false
        rw [createInstanceHandles_base] at cd cb
        rw [compilePipeline_miss this drv w state hcfg hfind hval hcan]
        constructor
        · obtain ⟨extra, he, hall⟩ := hinst (createInstance this drv w state false).2
            w.m_pipelines.length
          refine ⟨DriverCall.optimized state 0 :: extra, ?_, ?_⟩
          · rw [he, cd]
            simp
          · intro c hc
            rcases List.mem_cons.mp hc with rfl | hc
            · rfl
            · exact hall c hc
        · rw [compileInstance_m_basePipelines, cb]
          simp

/-- C12 (as amended): for a state that has no Instance, `compilePipeline(state)` changes
nothing (no Instance, no driver request) when the state fails untrusted validation,
when `canCreateBasePipeline(state)` is true, or when the device configuration
`enableGraphicsPipelineLibrary` is `True`; in every other case it creates the Instance
with `createInstance(state, false)`, so the new Instance has a null base handle.
`compilePipeline` never links a base pipeline: it adds no base instance and every driver
request it adds is an optimized compile of `state` without flags. -/
theorem compilePipeline_aborts_or_creates (this : DxvkGraphicsPipeline) (drv : Driver)
    (w : PipelineData) (state : DxvkGraphicsPipelineStateInfo)
    (hmiss : findInstance w state = none) :
    ((validatePipelineState this state false = false
        ∨ canCreateBasePipeline this state = true
        ∨ this.m_device.enableGraphicsPipelineLibrary = Tristate.True) →
      compilePipeline this drv w state = w)
    ∧ (validatePipelineState this state false = true →
        canCreateBasePipeline this state = false →
        this.m_device.enableGraphicsPipelineLibrary ≠ Tristate.True →
        compilePipeline this drv w state
          = compileInstance drv (createInstance this drv w state false).2 state
              w.m_pipelines.length
        ∧ findInstance (compilePipeline this drv w state) state = some w.m_pipelines.length
        ∧ (compilePipeline this drv w state).m_pipelines.length = w.m_pipelines.length + 1
        ∧ (instanceAt (compilePipeline this drv w state) w.m_pipelines.length).baseHandle
            = VK_NULL_HANDLE)
    ∧ (compilePipeline this drv w state).m_basePipelines = w.m_basePipelines
    ∧ (∃ extra, (compilePipeline this drv w state).driverCalls = w.driverCalls ++ extra
        ∧ ∀ c ∈ extra, c = DriverCall.optimized state 0) := by
  obtain ⟨hreq, hbase⟩ := compilePipeline_requests this drv w state
  refine ⟨?_, ?_, hbase, hreq⟩
  · rintro (h | h | h)
    · exact compilePipeline_abort this drv w state hmiss (Or.inl h)
    · exact compilePipeline_abort this drv w state hmiss (Or.inr h)
    · exact compilePipeline_disabled this drv w state h
  · intro hval hcan hcfg
    obtain ⟨_, c2, _⟩ := createInstance_spec this drv w state false
    obtain ⟨ci, _, _⟩ := createInstance_instance this drv w state false
    have hrun := compilePipeline_miss this drv w state hcfg hmiss hval hcan
    have hstates := storedStates_compileInstance drv (createInstance this drv w state false).2
      state w.m_pipelines.length
    have hfind1 : findInstance (compileInstance drv (createInstance this drv w state false).2
        state w.m_pipelines.length) state = some w.m_pipelines.length := by
      rw [findInstance_congr hstates]
      exact findInstance_append_new hmiss c2 rfl
    have hlen : (compileInstance drv (createInstance this drv w state false).2
        state w.m_pipelines.length).m_pipelines.length = w.m_pipelines.length + 1 := by
      have h1 := congrArg List.length hstates
      simp only [storedStates, List.length_map] at h1
      rw [h1, c2]
      simp
    rw [hrun]
    refine ⟨rfl, hfind1, hlen, ?_⟩
    have hcre : (instanceAt (createInstance this drv w state false).2
        w.m_pipelines.length).baseHandle = VK_NULL_HANDLE := by
      have h1 := (createInstance_spec this drv w state false).1
      rw [h1] at ci
      rw [ci, createInstanceHandles_base]
    cases hc : (instanceAt (createInstance this drv w state false).2
        w.m_pipelines.length).isCompiling with
    | true =>
      rw [compileInstance_of_isCompiling drv _ state _ hc]
      exact hcre
    | false =>
      rw [compileInstance_of_not_isCompiling drv _ state _ hc,
        instanceAt_afterCompile drv _ state _ hc]
      split
      · exact hcre
      · exact hcre

/-- Witness for C12: on a fresh plain pipeline `compilePipeline` creates the Instance for
the default state, which is valid and not base-eligible. -/
theorem compilePipeline_aborts_or_creates_witness :
    findInstance {} exampleState = none
    ∧ findInstance (compilePipeline examplePlainPipeline exampleDriver {} exampleState)
        exampleState = some 0 :=
  ⟨by decide,
    ((compilePipeline_aborts_or_creates examplePlainPipeline exampleDriver {} exampleState
      (by decide)).2.1 (by decide) (by decide) (by decide)).2.1⟩

/-- Counterexample to C12 as stated: with `enableGraphicsPipelineLibrary` set to `True`,
a state that has no Instance, passes untrusted validation and is not base-eligible (line
polygon mode) is not given an Instance by `compilePipeline`; the call changes nothing. -/
theorem compilePipeline_forced_library_creates_nothing :
    findInstance {} exampleLineState = none
    ∧ validatePipelineState exampleForcedLibraryPipeline exampleLineState false = true
    ∧ canCreateBasePipeline exampleForcedLibraryPipeline exampleLineState = false
    ∧ compilePipeline exampleForcedLibraryPipeline exampleDriver {} exampleLineState = {}
    ∧ findInstance (compilePipeline exampleForcedLibraryPipeline exampleDriver {}
        exampleLineState) exampleLineState = none := by
  decide

/-! ## Validation -/

theorem validatePipelineState_trusted_iff (this : DxvkGraphicsPipeline)
    (state : DxvkGraphicsPipelineStateInfo) :
    validatePipelineState this state true = true ↔
      (decide (state.ia.primitiveTopology = VK_PRIMITIVE_TOPOLOGY_PATCH_LIST)
          = this.m_shaders.tcs.isSome
        ∧ decide (state.ia.primitiveTopology = VK_PRIMITIVE_TOPOLOGY_PATCH_LIST)
          = this.m_shaders.tes.isSome)
      ∧ state.ia.primitiveTopology ≠ VK_PRIMITIVE_TOPOLOGY_MAX_ENUM
      ∧ state.il.attributeCount ≤ MaxNumVertexAttributes
      ∧ state.il.bindingCount ≤ MaxNumVertexBindings := by
  unfold validatePipelineState
  dsimp only
  by_cases hp : state.ia.primitiveTopology = VK_PRIMITIVE_TOPOLOGY_PATCH_LIST <;>
    cases htcs : this.m_shaders.tcs.isSome <;>
    cases htes : this.m_shaders.tes.isSome <;>
    by_cases hm : state.ia.primitiveTopology = VK_PRIMITIVE_TOPOLOGY_MAX_ENUM <;>
    by_cases ha : state.il.attributeCount ≤ MaxNumVertexAttributes <;>
    by_cases hb : state.il.bindingCount ≤ MaxNumVertexBindings <;>
    simp [hp, hm, ha, hb, Nat.not_le.mp, Nat.not_lt.mpr]

/-- C13: `validatePipelineState(state, trusted = true)` is true exactly when the topology
is PATCH_LIST if and only if a tessellation control shader is present, and likewise for
the tessellation evaluation shader, the topology is not `MAX_ENUM`, the attribute count
is at most `MaxNumVertexAttributes` and the binding count is at most
`MaxNumVertexBindings`. In particular a state that meets the other conditions passes
with `MaxNumVertexAttributes` attributes and fails with one more. -/
theorem validatePipelineState_trusted_characterised (this : DxvkGraphicsPipeline)
    (state : DxvkGraphicsPipelineStateInfo) :
    (validatePipelineState this state true = true ↔
      ((state.ia.primitiveTopology = VK_PRIMITIVE_TOPOLOGY_PATCH_LIST
          ↔ this.m_shaders.tcs.isSome = true)
        ∧ (state.ia.primitiveTopology = VK_PRIMITIVE_TOPOLOGY_PATCH_LIST
          ↔ this.m_shaders.tes.isSome = true))
      ∧ state.ia.primitiveTopology ≠ VK_PRIMITIVE_TOPOLOGY_MAX_ENUM
      ∧ state.il.attributeCount ≤ MaxNumVertexAttributes
      ∧ state.il.bindingCount ≤ MaxNumVertexBindings)
    ∧ (((state.ia.primitiveTopology = VK_PRIMITIVE_TOPOLOGY_PATCH_LIST
            ↔ this.m_shaders.tcs.isSome = true)
          ∧ (state.ia.primitiveTopology = VK_PRIMITIVE_TOPOLOGY_PATCH_LIST
            ↔ this.m_shaders.tes.isSome = true))
        ∧ state.ia.primitiveTopology ≠ VK_PRIMITIVE_TOPOLOGY_MAX_ENUM
        ∧ state.il.bindingCount ≤ MaxNumVertexBindings →
      validatePipelineState this
          { state with il := { state.il with attributeCount := MaxNumVertexAttributes } }
          true = true
      ∧ validatePipelineState this
          { state with il := { state.il with attributeCount := MaxNumVertexAttributes + 1 } }
          true = false) := by
  have hiff : ∀ (b : Bool) (p : Prop) [Decidable p], (decide p = b) ↔ (p ↔ b = true) := by
    intro b p _
    cases b <;> simp
  constructor
  · rw [validatePipelineState_trusted_iff, hiff, hiff]
  · rintro ⟨htess, hmax, hbind⟩
    constructor
    · rw [validatePipelineState_trusted_iff, hiff, hiff]
      exact ⟨htess, hmax, Nat.le_refl _, hbind⟩
    · cases hv : validatePipelineState this
          { state with il := { state.il with attributeCount := MaxNumVertexAttributes + 1 } }
          true
      · rfl
      · rw [validatePipelineState_trusted_iff] at hv
        exact absurd hv.2.2.1 (Nat.not_succ_le_self _)

/-- Witness for C13: the default state passes trusted validation on the plain pipeline
with 32 attributes and fails with 33. -/
theorem validatePipelineState_trusted_characterised_witness :
    validatePipelineState examplePlainPipeline
        { exampleState with il := { exampleState.il with attributeCount := 32 } } true = true
    ∧ validatePipelineState examplePlainPipeline
        { exampleState with il := { exampleState.il with attributeCount := 33 } } true
      = false :=
  (validatePipelineState_trusted_characterised examplePlainPipeline exampleState).2
    ⟨⟨by decide, by decide⟩, by decide, by decide⟩

theorem bit32_of_ge {n : Nat} (h : 32 ≤ n) : bit32 n = 0 := by
  unfold bit32
  rw [Nat.one_shiftLeft]
  exact Nat.mod_eq_zero_of_dvd (Nat.pow_dvd_pow 2 h)

theorem testBit_bit32 (k n : Nat) : (bit32 k).testBit n = decide (k = n ∧ k < 32) := by
  by_cases hk : k < 32
  · rw [bit32_of_lt hk, Nat.testBit_two_pow]
    simp [hk]
  · rw [bit32_of_ge (Nat.le_of_not_lt hk)]
    simp [hk]

theorem and_bit32_ne_zero_iff (m n : Nat) :
    m &&& bit32 n ≠ 0 ↔ n < 32 ∧ m.testBit n = true := by
  by_cases hn : n < 32
  · rw [Ne, and_bit32_eq_zero_iff m hn]
    simp [hn]
  · rw [bit32_of_ge (Nat.le_of_not_lt hn)]
    simp [hn]

theorem testBit_foldl_or (f : Nat → Nat) (l : List Nat) (m0 n : Nat)
    (h : (l.foldl (fun mask i => mask ||| f i) m0).testBit n = true) :
    m0.testBit n = true ∨ ∃ i ∈ l, (f i).testBit n = true := by
  induction l generalizing m0 with
  | nil => exact Or.inl h
  | cons x rest ih =>
    rcases ih (m0 ||| f x) h with h1 | ⟨i, hi, h2⟩
    · rw [Nat.testBit_or, Bool.or_eq_true] at h1
      rcases h1 with h1 | h1
      · exact Or.inl h1
      · exact Or.inr ⟨x, List.mem_cons_self x rest, h1⟩
    · exact Or.inr ⟨i, List.mem_cons_of_mem x hi, h2⟩

/-- What a passing attribute loop of `validatePipelineState` establishes: no location
bit is in the start mask, no two attributes share a location bit, and every binding bit
is in the binding mask. -/
theorem validateAttributes_true (device : DxvkDevice) (ilBindingMask : Nat)
    (attrs : List DxvkIlAttribute) (mask : Nat)
    (h : validateAttributes device ilBindingMask attrs mask = true) :
    (∀ a ∈ attrs, a.location < 32 → mask.testBit a.location = false)
    ∧ attrs.Pairwise (fun a b => a.location < 32 → a.location ≠ b.location)
    ∧ ∀ a ∈ attrs, ilBindingMask &&& bit32 a.binding ≠ 0 := by
  induction attrs generalizing mask with
  | nil => simp
  | cons x rest ih =>
    unfold validateAttributes at h
    by_cases h1 : mask &&& bit32 x.location = 0
    · by_cases h2 : ilBindingMask &&& bit32 x.binding = 0
      · simp [h1, h2] at h
      · by_cases h3 : (device.formatProperties x.format).bufferFeatures
            &&& VK_FORMAT_FEATURE_VERTEX_BUFFER_BIT = 0
        · simp [h1, h2, h3] at h
        · simp only [h1, h2, h3, bne_self_eq_false, Bool.false_eq_true, if_false,
            beq_iff_eq] at h
          obtain ⟨i1, i2, i3⟩ := ih (mask ||| bit32 x.location) h
          refine ⟨?_, ?_, ?_⟩
          · intro a ha hlt
            rcases List.mem_cons.mp ha with rfl | ha
            · exact (and_bit32_eq_zero_iff mask hlt).mp h1
            · have := i1 a ha hlt
              rw [Nat.testBit_or, Bool.or_eq_false_iff] at this
              exact this.1
          · rw [List.pairwise_cons]
            refine ⟨?_, i2⟩
            intro b hb hx heq
            have hbl : b.location < 32 := heq ▸ hx
            have := i1 b hb hbl
            rw [Nat.testBit_or, Bool.or_eq_false_iff, testBit_bit32] at this
            simp [heq, hbl] at this
          · intro a ha
            rcases List.mem_cons.mp ha with rfl | ha
            · exact h2
            · exact i3 a ha
    · simp [h1] at h

/-- A state that passes untrusted validation passes the trusted checks and the attribute
loop. -/
theorem validatePipelineState_untrusted_parts (this : DxvkGraphicsPipeline)
    (state : DxvkGraphicsPipelineStateInfo)
    (hval : validatePipelineState this state false = true) :
    validatePipelineState this state true = true
    ∧ validateAttributes this.m_device
        ((List.range state.il.bindingCount).foldl
          (fun mask i => mask ||| bit32 (state.ilBindingAt i).binding) 0)
        ((List.range state.il.attributeCount).map state.ilAttributeAt) 0 = true := by
  unfold validatePipelineState at hval ⊢
  dsimp only at hval ⊢
  split at hval
  · cases hval
  · rename_i h1
    split at hval
    · cases hval
    · rename_i h2
      split at hval
      · cases hval
      · rename_i h3
        simp only [h1, h2, h3, Bool.false_eq_true, if_false, if_true, true_and]
        simp only [Bool.false_eq_true, if_false] at hval
        split at hval
        · cases hval
        · split at hval
          · cases hval
          · rename_i h5
            simpa using h5

/-- C14: untrusted validation is stronger than trusted validation. For a state whose
attribute locations are bits of the 32-bit location mask, a true
`validatePipelineState(state, trusted = false)` implies that
`validatePipelineState(state, trusted = true)` is true, that the locations of the first
`attributeCount` attributes are pairwise distinct, and that each of these attributes
names a binding number that one of the first `bindingCount` bindings declares. -/
theorem validatePipelineState_untrusted_stronger (this : DxvkGraphicsPipeline)
    (state : DxvkGraphicsPipelineStateInfo)
    (hloc : ∀ i, i < state.il.attributeCount → (state.ilAttributeAt i).location < 32)
    (hval : validatePipelineState this state false = true) :
    validatePipelineState this state true = true
    ∧ (∀ i j, i < j → j < state.il.attributeCount →
        (state.ilAttributeAt i).location ≠ (state.ilAttributeAt j).location)
    ∧ (∀ i, i < state.il.attributeCount →
        ∃ j, j < state.il.bindingCount
          ∧ (state.ilBindingAt j).binding = (state.ilAttributeAt i).binding) := by
  obtain ⟨htrusted, hattrs⟩ := validatePipelineState_untrusted_parts this state hval
  obtain ⟨_, hpair, hbind⟩ := validateAttributes_true _ _ _ _ hattrs
  refine ⟨htrusted, ?_, ?_⟩
  · intro i j hij hj
    rw [List.pairwise_iff_getElem] at hpair
    have hi : i < state.il.attributeCount := Nat.lt_trans hij hj
    have := hpair i j (by simpa using hi) (by simpa using hj) hij
    simp only [List.getElem_map, List.getElem_range] at this
    exact this (hloc i hi)
  · intro i hi
    have hmem : state.ilAttributeAt i
        ∈ (List.range state.il.attributeCount).map state.ilAttributeAt :=
      List.mem_map.mpr ⟨i, List.mem_range.mpr hi, rfl⟩
    obtain ⟨_, htest⟩ := (and_bit32_ne_zero_iff _ _).mp (hbind _ hmem)
    rcases testBit_foldl_or _ _ _ _ htest with h0 | ⟨j, hj, hbit⟩
    · simp at h0
    · rw [testBit_bit32] at hbit
      exact ⟨j, List.mem_range.mp hj, (of_decide_eq_true hbit).1⟩

/-- Witness for C14: a state with two attributes at locations 0 and 1 on one declared
binding passes untrusted validation, so its locations are distinct and its bindings are
declared; a state whose attribute names an undeclared binding passes trusted validation
only. -/
theorem validatePipelineState_untrusted_stronger_witness :
    validatePipelineState exampleFormatPipeline exampleTwoAttributeState false = true
    ∧ validatePipelineState exampleFormatPipeline exampleTwoAttributeState true = true
    ∧ validatePipelineState exampleFormatPipeline exampleUndeclaredBindingState true = true
    ∧ validatePipelineState exampleFormatPipeline exampleUndeclaredBindingState false
      = false :=
  ⟨by decide,
    (validatePipelineState_untrusted_stronger exampleFormatPipeline exampleTwoAttributeState
      (by decide) (by decide)).1,
    by decide, by decide⟩

/-! ## The VertexInput sub-vector: what the constructor emits -/

theorem foldl_append_if {α : Type} (p : Nat → Bool) (f : Nat → α) (l : List Nat)
    (init : List α) :
    l.foldl (fun acc i => if p i then acc ++ [f i] else acc) init
      = init ++ (l.filter p).map f := by
  induction l generalizing init with
  | nil => simp
  | cons x rest ih =>
    rw [List.foldl_cons, ih]
    by_cases hx : p x = true
    · simp [hx, List.filter_cons]
    · simp [hx, List.filter_cons]

/-- The test `attrMask & (1u << location)` of the constructor is the test whether the
location bit is set in the 32-bit input mask. -/
theorem attributeUsed_iff (state : DxvkGraphicsPipelineStateInfo) (vs : DxvkShader)
    (j : Nat) :
    (vs.inputMask &&& bit32 (state.ilAttributeAt j).location != 0)
      = attributeUsed state vs j := by
  unfold attributeUsed u32
  rw [Nat.testBit_mod_two_pow]
  rw [Bool.eq_iff_iff, bne_iff_ne, and_bit32_ne_zero_iff]
  simp

/-- The attribute loop emits the used declared attributes in order. -/
theorem processVertexAttributes_eq (state : DxvkGraphicsPipelineStateInfo)
    (vs : DxvkShader) (viBindingMap : Nat → Nat) :
    processVertexAttributes state vs.inputMask viBindingMap
      = ((List.range state.il.attributeCount).filter (attributeUsed state vs)).map
          (fun j =>
            { location := (state.ilAttributeAt j).location
              binding := viBindingMap (state.ilAttributeAt j).binding
              format := (state.ilAttributeAt j).format
              offset := (state.ilAttributeAt j).offset }) := by
  unfold processVertexAttributes
  rw [foldl_append_if, List.nil_append]
  congr 2
  funext j
  exact attributeUsed_iff state vs j

theorem fromState_viAttributes (hdr : HeaderDecls) (device : DxvkDevice)
    (state : DxvkGraphicsPipelineStateInfo) (vs : DxvkShader) :
    (DxvkGraphicsPipelineVertexInputState.fromState hdr device state vs).viAttributes
      = ((List.range state.il.attributeCount).filter (attributeUsed state vs)).map
          (fun j =>
            { location := (state.ilAttributeAt j).location
              binding := emittedBindingOf state vs (state.ilAttributeAt j).binding
              format := (state.ilAttributeAt j).format
              offset := (state.ilAttributeAt j).offset }) := by
  unfold DxvkGraphicsPipelineVertexInputState.fromState emittedBindingOf
  exact processVertexAttributes_eq state vs _

theorem fromState_attributeCount (hdr : HeaderDecls) (device : DxvkDevice)
    (state : DxvkGraphicsPipelineStateInfo) (vs : DxvkShader) :
    (DxvkGraphicsPipelineVertexInputState.fromState hdr device state vs).viInfo.vertexAttributeDescriptionCount
      = (DxvkGraphicsPipelineVertexInputState.fromState hdr device state vs).viAttributes.length :=
  rfl

/-- C15. For every state and vertex shader, the attributes that the VertexInput
sub-vector emits are the declared attributes (the first `attributeCount` entries) whose
location bit is set in the 32-bit input mask of the vertex shader, in source order, each
with its location, format and offset; the attribute count of the sub-vector is their
number. -/
theorem vertexInput_emits_used_attributes (hdr : HeaderDecls) (device : DxvkDevice)
    (state : DxvkGraphicsPipelineStateInfo) (vs : DxvkShader) :
    ((DxvkGraphicsPipelineVertexInputState.fromState hdr device state vs).viAttributes.map
        (fun a => (a.location, a.format, a.offset))
      = ((List.range state.il.attributeCount).filter
            (fun j => (u32 vs.inputMask).testBit (state.ilAttributeAt j).location)).map
          (fun j => ((state.ilAttributeAt j).location, (state.ilAttributeAt j).format,
            (state.ilAttributeAt j).offset)))
    ∧ (DxvkGraphicsPipelineVertexInputState.fromState hdr device state vs).viInfo.vertexAttributeDescriptionCount
      = ((List.range state.il.attributeCount).filter
            (fun j => (u32 vs.inputMask).testBit (state.ilAttributeAt j).location)).length := by
  rw [fromState_attributeCount, fromState_viAttributes]
  constructor
  · rw [List.map_map]
    rfl
  · rw [List.length_map]
    rfl

/-- The example of the specification: with the input mask `0b00000101` and declared
attributes at the locations 0, 1, 2 and 3, exactly the attributes at the locations 0 and
2 are emitted. -/
theorem vertexInput_example_attributes :
    (DxvkGraphicsPipelineVertexInputState.fromState exampleHeaderDecls {}
        exampleFourAttributeState exampleMaskedShader).viAttributes
      = [ { location := 0, binding := 0, format := 100, offset := 0 }
        , { location := 2, binding := 1, format := 102, offset := 0 } ] := by
  decide

theorem testBit_foldl_or_if (c : Nat → Bool) (f : Nat → Nat) (l : List Nat) (m0 n : Nat) :
    (l.foldl (fun mask i => if c i then mask ||| f i else mask) m0).testBit n
      = (m0.testBit n || l.any (fun i => c i && (f i).testBit n)) := by
  induction l generalizing m0 with
  | nil => simp
  | cons x rest ih =>
    rw [List.foldl_cons, ih]
    by_cases hx : c x = true
    · simp [hx, Nat.testBit_or, Bool.or_assoc]
    · simp [hx]

/-- The test `bindingMask & (1u << bindingIndex)` of the binding loop, for a binding
number below 32, is the test whether a used attribute reads from the binding number. -/
theorem bindingUsed_iff (state : DxvkGraphicsPipelineStateInfo) (vs : DxvkShader) (i : Nat)
    (hb : (state.ilBindingAt i).binding < 32) :
    (usedBindingMask state vs.inputMask &&& bit32 (state.ilBindingAt i).binding != 0)
      = bindingUsed state vs i := by
  rw [Bool.eq_iff_iff, bne_iff_ne, and_bit32_ne_zero_iff]
  unfold usedBindingMask bindingUsed
  rw [testBit_foldl_or_if]
  simp only [Nat.zero_testBit, Bool.false_or, List.any_eq_true, Bool.and_eq_true,
    testBit_bit32, decide_eq_true_eq, beq_iff_eq, bne_iff_ne, ne_eq]
  constructor
  · rintro ⟨_, j, hj, hu, hbj, _⟩
    refine ⟨j, hj, ?_, hbj⟩
    rw [← attributeUsed_iff]
    exact bne_iff_ne.mpr hu
  · rintro ⟨j, hj, hu, hbj⟩
    refine ⟨hb, j, hj, ?_, hbj, hbj ▸ hb⟩
    rw [← attributeUsed_iff] at hu
    exact bne_iff_ne.mp hu

/-- What the binding loop appends to `viBindings` and `viDivisors`. -/
theorem processVertexBinding_foldl (state : DxvkGraphicsPipelineStateInfo) (mask : Nat)
    (l : List Nat) (acc : VertexBindingLoop) :
    (l.foldl (processVertexBinding state mask) acc).viBindings
        = acc.viBindings
          ++ (l.filter (fun i => mask &&& bit32 (state.ilBindingAt i).binding != 0)).map
              (fun i =>
                { binding := i
                  stride := (state.ilBindingAt i).stride
                  inputRate := (state.ilBindingAt i).inputRate })
    ∧ (l.foldl (processVertexBinding state mask) acc).viDivisors
        = acc.viDivisors
          ++ (l.filter (fun i => mask &&& bit32 (state.ilBindingAt i).binding != 0
                && ((state.ilBindingAt i).inputRate == VK_VERTEX_INPUT_RATE_INSTANCE
                  && (state.ilBindingAt i).divisor != 1))).map
              (fun i => { binding := i, divisor := (state.ilBindingAt i).divisor }) := by
  induction l generalizing acc with
  | nil => simp
  | cons x rest ih =>
    have ih1 := ih (processVertexBinding state mask acc x)
    rw [List.foldl_cons, ih1.1, ih1.2]
    unfold processVertexBinding
    by_cases h1 : (mask &&& bit32 (state.ilBindingAt x).binding != 0) = true
    · by_cases h2 : ((state.ilBindingAt x).inputRate == VK_VERTEX_INPUT_RATE_INSTANCE
          && (state.ilBindingAt x).divisor != 1) = true
      · simp [h1, h2, List.filter_cons]
      · simp [h1, h2, List.filter_cons]
    · simp [h1, List.filter_cons]

theorem processVertexBinding_viBindingMap (state : DxvkGraphicsPipelineStateInfo)
    (mask : Nat) (acc : VertexBindingLoop) (i : Nat) :
    (processVertexBinding state mask acc i).viBindingMap
      = if mask &&& bit32 (state.ilBindingAt i).binding != 0 then
          Function.update acc.viBindingMap (state.ilBindingAt i).binding i
        else acc.viBindingMap := by
  unfold processVertexBinding
  by_cases h1 : (mask &&& bit32 (state.ilBindingAt i).binding != 0) = true
  · by_cases h2 : ((state.ilBindingAt i).inputRate == VK_VERTEX_INPUT_RATE_INSTANCE
        && (state.ilBindingAt i).divisor != 1) = true
    · simp [h1, h2]
    · simp [h1, h2]
  · simp [h1]

/-- After the binding loop over the first `n` declared bindings, `viBindingMap` holds at
the binding number of a used binding the array index of that binding, unless a later
declared binding has the same binding number. -/
theorem viBindingMap_of_last (state : DxvkGraphicsPipelineStateInfo) (mask : Nat) (n : Nat) :
    ∀ i, i < n → (mask &&& bit32 (state.ilBindingAt i).binding != 0) = true →
      (∀ k, i < k → k < n → (state.ilBindingAt k).binding ≠ (state.ilBindingAt i).binding) →
      ((List.range n).foldl (processVertexBinding state mask) {}).viBindingMap
        (state.ilBindingAt i).binding = i := by
  induction n with
  | zero => intro i hi; omega
  | succ n ih =>
    intro i hi hu hlast
    rw [List.range_succ, List.foldl_append, List.foldl_cons, List.foldl_nil,
      processVertexBinding_viBindingMap]
    by_cases hin : i = n
    · subst hin
      simp [hu]
    · have hlt : i < n := by omega
      have hne : (state.ilBindingAt n).binding ≠ (state.ilBindingAt i).binding :=
        hlast n hlt (Nat.lt_succ_self n)
      have hrec := ih i hlt hu (fun k h1 h2 => hlast k h1 (by omega))
      by_cases hn : (mask &&& bit32 (state.ilBindingAt n).binding != 0) = true
      · rw [if_pos hn, Function.update_noteq (Ne.symm hne)]
        exact hrec
      · rw [if_neg hn]
        exact hrec

theorem fromState_viBindings (hdr : HeaderDecls) (device : DxvkDevice)
    (state : DxvkGraphicsPipelineStateInfo) (vs : DxvkShader)
    (hbind : ∀ i, i < state.il.bindingCount → (state.ilBindingAt i).binding < 32) :
    (DxvkGraphicsPipelineVertexInputState.fromState hdr device state vs).viBindings
      = ((List.range state.il.bindingCount).filter (bindingUsed state vs)).map
          (fun i =>
            { binding := i
              stride := (state.ilBindingAt i).stride
              inputRate := (state.ilBindingAt i).inputRate }) := by
  unfold DxvkGraphicsPipelineVertexInputState.fromState processVertexBindings
  dsimp only
  rw [(processVertexBinding_foldl state _ _ _).1]
  simp only [List.nil_append]
  congr 1
  apply List.filter_congr
  intro i hi
  exact bindingUsed_iff state vs i (hbind i (List.mem_range.mp hi))

theorem fromState_viDivisors (hdr : HeaderDecls) (device : DxvkDevice)
    (state : DxvkGraphicsPipelineStateInfo) (vs : DxvkShader)
    (hbind : ∀ i, i < state.il.bindingCount → (state.ilBindingAt i).binding < 32) :
    (DxvkGraphicsPipelineVertexInputState.fromState hdr device state vs).viDivisors
      = ((List.range state.il.bindingCount).filter (fun i => bindingUsed state vs i
            && ((state.ilBindingAt i).inputRate == VK_VERTEX_INPUT_RATE_INSTANCE
              && (state.ilBindingAt i).divisor != 1))).map
          (fun i => { binding := i, divisor := (state.ilBindingAt i).divisor }) := by
  unfold DxvkGraphicsPipelineVertexInputState.fromState processVertexBindings
  dsimp only
  rw [(processVertexBinding_foldl state _ _ _).2]
  simp only [List.nil_append]
  congr 1
  apply List.filter_congr
  intro i hi
  rw [bindingUsed_iff state vs i (hbind i (List.mem_range.mp hi))]

theorem fromState_counts (hdr : HeaderDecls) (device : DxvkDevice)
    (state : DxvkGraphicsPipelineStateInfo) (vs : DxvkShader) :
    (DxvkGraphicsPipelineVertexInputState.fromState hdr device state vs).viInfo.vertexBindingDescriptionCount
        = (DxvkGraphicsPipelineVertexInputState.fromState hdr device state vs).viBindings.length
    ∧ (DxvkGraphicsPipelineVertexInputState.fromState hdr device state vs).viDivisorInfo.vertexBindingDivisorCount
        = (DxvkGraphicsPipelineVertexInputState.fromState hdr device state vs).viDivisors.length :=
  ⟨rfl, rfl⟩

theorem emittedBindingOf_of_last (state : DxvkGraphicsPipelineStateInfo) (vs : DxvkShader)
    (hbind : ∀ i, i < state.il.bindingCount → (state.ilBindingAt i).binding < 32)
    (j i : Nat) (hj : j < state.il.attributeCount) (hu : attributeUsed state vs j = true)
    (hi : i < state.il.bindingCount)
    (hb : (state.ilBindingAt i).binding = (state.ilAttributeAt j).binding)
    (hlast : ∀ k, i < k → k < state.il.bindingCount →
      (state.ilBindingAt k).binding ≠ (state.ilBindingAt i).binding) :
    emittedBindingOf state vs (state.ilAttributeAt j).binding = i := by
  unfold emittedBindingOf processVertexBindings
  rw [← hb]
  apply viBindingMap_of_last state _ _ i hi _ hlast
  rw [bindingUsed_iff state vs i (hbind i hi)]
  unfold bindingUsed
  rw [List.any_eq_true]
  exact ⟨j, List.mem_range.mpr hj, by simp [hu, hb]⟩

/-- C16 (as stated, refuted). The claim says that `k` used bindings are emitted with the
binding numbers `0, ..., k-1`. In the example state the first declared binding is unused
and the second is used: one binding is emitted, and it carries the binding number 1, its
index in the binding array of the state, not the compact index 0; the emitted attribute
refers to it by that number. -/
theorem vertexInput_binding_number_not_compact :
    (DxvkGraphicsPipelineVertexInputState.fromState exampleHeaderDecls {}
        exampleSkippedBindingState exampleMaskedShader).viBindings
      = [{ binding := 1, stride := 16, inputRate := VK_VERTEX_INPUT_RATE_VERTEX }]
    ∧ (DxvkGraphicsPipelineVertexInputState.fromState exampleHeaderDecls {}
        exampleSkippedBindingState exampleMaskedShader).viBindings.map (fun b => b.binding)
      ≠ List.range 1
    ∧ (DxvkGraphicsPipelineVertexInputState.fromState exampleHeaderDecls {}
        exampleSkippedBindingState exampleMaskedShader).viAttributes.map (fun a => a.binding)
      = [1] := by
  decide

/-- C16 (amended). For every state whose declared binding numbers are below 32 and every
vertex shader, the VertexInput sub-vector emits the used bindings in original order, each
with the index that it has in the binding array of the state as its binding number and
with its stride and input rate; the binding count is their number. The binding field of
an emitted attribute is the entry of the binding map for the binding number that the
attribute referenced, and this entry is the index (hence the emitted binding number) of
the last declared binding with that binding number. When every declared binding is used,
the emitted binding numbers are `0, ..., k-1`. -/
theorem vertexInput_bindings_carry_declared_index (hdr : HeaderDecls) (device : DxvkDevice)
    (state : DxvkGraphicsPipelineStateInfo) (vs : DxvkShader)
    (hbind : ∀ i, i < state.il.bindingCount → (state.ilBindingAt i).binding < 32) :
    (DxvkGraphicsPipelineVertexInputState.fromState hdr device state vs).viBindings
      = ((List.range state.il.bindingCount).filter (bindingUsed state vs)).map
          (fun i =>
            { binding := i
              stride := (state.ilBindingAt i).stride
              inputRate := (state.ilBindingAt i).inputRate })
    ∧ (DxvkGraphicsPipelineVertexInputState.fromState hdr device state vs).viInfo.vertexBindingDescriptionCount
      = ((List.range state.il.bindingCount).filter (bindingUsed state vs)).length
    ∧ (DxvkGraphicsPipelineVertexInputState.fromState hdr device state vs).viAttributes.map
          (fun a => a.binding)
      = ((List.range state.il.attributeCount).filter (attributeUsed state vs)).map
          (fun j => emittedBindingOf state vs (state.ilAttributeAt j).binding)
    ∧ (∀ j i, j < state.il.attributeCount → attributeUsed state vs j = true →
        i < state.il.bindingCount →
        (state.ilBindingAt i).binding = (state.ilAttributeAt j).binding →
        (∀ k, i < k → k < state.il.bindingCount →
          (state.ilBindingAt k).binding ≠ (state.ilBindingAt i).binding) →
        emittedBindingOf state vs (state.ilAttributeAt j).binding = i)
    ∧ ((∀ i, i < state.il.bindingCount → bindingUsed state vs i = true) →
        (DxvkGraphicsPipelineVertexInputState.fromState hdr device state vs).viBindings.map
            (fun b => b.binding)
          = List.range state.il.bindingCount) := by
  refine ⟨fromState_viBindings hdr device state vs hbind, ?_, ?_, ?_, ?_⟩
  · rw [(fromState_counts hdr device state vs).1, fromState_viBindings hdr device state vs hbind,
      List.length_map]
  · rw [fromState_viAttributes, List.map_map]
    rfl
  · intro j i hj hu hi hb hlast
    exact emittedBindingOf_of_last state vs hbind j i hj hu hi hb hlast
  · intro hall
    rw [fromState_viBindings hdr device state vs hbind, List.map_map]
    have hfilter : (List.range state.il.bindingCount).filter (bindingUsed state vs)
        = List.range state.il.bindingCount :=
      List.filter_eq_self.mpr (fun i hi => hall i (List.mem_range.mp hi))
    rw [hfilter]
    exact List.map_id _

theorem vertexInput_bindings_carry_declared_index_witness :
    (∀ i, i < exampleSkippedBindingState.il.bindingCount →
        (exampleSkippedBindingState.ilBindingAt i).binding < 32)
    ∧ (DxvkGraphicsPipelineVertexInputState.fromState exampleHeaderDecls {}
          exampleSkippedBindingState exampleMaskedShader).viBindings
        = ((List.range exampleSkippedBindingState.il.bindingCount).filter
              (bindingUsed exampleSkippedBindingState exampleMaskedShader)).map
            (fun i =>
              { binding := i
                stride := (exampleSkippedBindingState.ilBindingAt i).stride
                inputRate := (exampleSkippedBindingState.ilBindingAt i).inputRate })
    ∧ emittedBindingOf exampleSkippedBindingState exampleMaskedShader
          (exampleSkippedBindingState.ilAttributeAt 0).binding = 1
    ∧ (List.range exampleSkippedBindingState.il.bindingCount).filter
          (bindingUsed exampleSkippedBindingState exampleMaskedShader) = [1] :=
  ⟨by decide,
    (vertexInput_bindings_carry_declared_index exampleHeaderDecls {}
      exampleSkippedBindingState exampleMaskedShader (by decide)).1,
    (vertexInput_bindings_carry_declared_index exampleHeaderDecls {}
      exampleSkippedBindingState exampleMaskedShader (by decide)).2.2.2.1 0 1
      (by decide) (by decide) (by decide) (by decide)
      (fun k h1 h2 => absurd (show k < 2 from h2) (by omega)),
    by decide⟩

/-- C17. For every state whose declared binding numbers are below 32, the VertexInput
sub-vector records one divisor record for exactly those used bindings whose input rate
is INSTANCE and whose divisor is not 1, in source order; the record carries the binding
number emitted for that binding (its index in the binding array of the state) and its
divisor, and the divisor count is the number of records. A state whose used bindings are
all vertex-rate records no divisor record. -/
theorem vertexInput_divisor_records (hdr : HeaderDecls) (device : DxvkDevice)
    (state : DxvkGraphicsPipelineStateInfo) (vs : DxvkShader)
    (hbind : ∀ i, i < state.il.bindingCount → (state.ilBindingAt i).binding < 32) :
    (DxvkGraphicsPipelineVertexInputState.fromState hdr device state vs).viDivisors
      = ((List.range state.il.bindingCount).filter (fun i => bindingUsed state vs i
            && ((state.ilBindingAt i).inputRate == VK_VERTEX_INPUT_RATE_INSTANCE
              && (state.ilBindingAt i).divisor != 1))).map
          (fun i => { binding := i, divisor := (state.ilBindingAt i).divisor })
    ∧ (DxvkGraphicsPipelineVertexInputState.fromState hdr device state vs).viDivisorInfo.vertexBindingDivisorCount
      = ((List.range state.il.bindingCount).filter (fun i => bindingUsed state vs i
            && ((state.ilBindingAt i).inputRate == VK_VERTEX_INPUT_RATE_INSTANCE
              && (state.ilBindingAt i).divisor != 1))).length
    ∧ (∀ d ∈ (DxvkGraphicsPipelineVertexInputState.fromState hdr device state vs).viDivisors,
        ({ binding := d.binding
           stride := (state.ilBindingAt d.binding).stride
           inputRate := VK_VERTEX_INPUT_RATE_INSTANCE } : VkVertexInputBindingDescription)
          ∈ (DxvkGraphicsPipelineVertexInputState.fromState hdr device state vs).viBindings)
    ∧ ((∀ i, i < state.il.bindingCount → bindingUsed state vs i = true →
          (state.ilBindingAt i).inputRate = VK_VERTEX_INPUT_RATE_VERTEX) →
        (DxvkGraphicsPipelineVertexInputState.fromState hdr device state vs).viDivisors = []
        ∧ (DxvkGraphicsPipelineVertexInputState.fromState hdr device state vs).viDivisorInfo.vertexBindingDivisorCount
          = 0) := by
  have hd := fromState_viDivisors hdr device state vs hbind
  have hc := (fromState_counts hdr device state vs).2
  refine ⟨hd, ?_, ?_, ?_⟩
  · rw [hc, hd, List.length_map]
  · intro d hmem
    rw [hd, List.mem_map] at hmem
    obtain ⟨i, hi, rfl⟩ := hmem
    rw [List.mem_filter, Bool.and_eq_true, Bool.and_eq_true, beq_iff_eq] at hi
    rw [fromState_viBindings hdr device state vs hbind, List.mem_map]
    refine ⟨i, List.mem_filter.mpr ⟨hi.1, hi.2.1⟩, ?_⟩
    rw [hi.2.2.1]
  · intro hvertex
    have hnil : (DxvkGraphicsPipelineVertexInputState.fromState hdr device state vs).viDivisors
        = [] := by
      rw [hd, List.map_eq_nil_iff, List.filter_eq_nil_iff]
      intro i hi
      rw [Bool.and_eq_true, Bool.and_eq_true, beq_iff_eq]
      rintro ⟨hu, hrate, _⟩
      have hv := hvertex i (List.mem_range.mp hi) hu
      rw [hv] at hrate
      exact absurd hrate (by decide)
    exact ⟨hnil, by rw [hc, hnil]; rfl⟩

theorem vertexInput_divisor_records_witness :
    (∀ i, i < (exampleInstanceRateState 3 2).il.bindingCount →
        ((exampleInstanceRateState 3 2).ilBindingAt i).binding < 32)
    ∧ (DxvkGraphicsPipelineVertexInputState.fromState exampleHeaderDecls {}
          (exampleInstanceRateState 3 2) exampleMaskedShader).viDivisors
        = [{ binding := 0, divisor := 2 }]
    ∧ (DxvkGraphicsPipelineVertexInputState.fromState exampleHeaderDecls {}
          exampleFourAttributeState exampleMaskedShader).viDivisors = [] :=
  ⟨by decide,
    ((vertexInput_divisor_records exampleHeaderDecls {} (exampleInstanceRateState 3 2)
      exampleMaskedShader (by decide)).1).trans (by decide),
    ((vertexInput_divisor_records exampleHeaderDecls {} exampleFourAttributeState
      exampleMaskedShader (by decide)).2.2.2 (by decide)).1⟩

/-! ## Equality and hash of the VertexInput sub-vector -/

/-- When the first sub-vector has at least one divisor record, the result of `eq` is the
comparison of the last divisor records alone: the third loop of `eq` assigns the result
in every iteration, whatever it was before. -/
theorem vertexInput_eq_of_last_divisor (a b : DxvkGraphicsPipelineVertexInputState) (n : Nat)
    (hn : a.viDivisorInfo.vertexBindingDivisorCount = n + 1) :
    a.eq b = ((a.divisorAt n).binding == (b.divisorAt n).binding
      && (a.divisorAt n).divisor == (b.divisorAt n).divisor) := by
  unfold DxvkGraphicsPipelineVertexInputState.eq
  dsimp only
  rw [hn, List.range_succ, List.foldl_append, List.foldl_cons, List.foldl_nil]

/-- C18 (defect in the code). The claim says that `eq` is true only for sub-vectors that
agree on the topology and on every other listed part. The two sub-vectors derived from
states that differ in the primitive topology, each with one used instance-rate binding
with divisor 2, differ in the topology, and `eq` returns true for them: the loop over
the divisor records has no `&& eq` in its condition and overwrites the result. -/
theorem vertexInput_eq_true_for_different_topology :
    (DxvkGraphicsPipelineVertexInputState.fromState exampleHeaderDecls {}
        (exampleInstanceRateState 3 2) exampleMaskedShader).eq
      (DxvkGraphicsPipelineVertexInputState.fromState exampleHeaderDecls {}
        (exampleInstanceRateState 1 2) exampleMaskedShader) = true
    ∧ (DxvkGraphicsPipelineVertexInputState.fromState exampleHeaderDecls {}
        (exampleInstanceRateState 3 2) exampleMaskedShader).iaInfo.topology = 3
    ∧ (DxvkGraphicsPipelineVertexInputState.fromState exampleHeaderDecls {}
        (exampleInstanceRateState 1 2) exampleMaskedShader).iaInfo.topology = 1
    ∧ (DxvkGraphicsPipelineVertexInputState.fromState exampleHeaderDecls {}
        (exampleInstanceRateState 3 2) exampleMaskedShader).viDivisorInfo.vertexBindingDivisorCount
      = 1 := by
  decide

/-- With the arrays of a sub-vector zero beyond their counts, `eq` is not symmetric: a
sub-vector with the one divisor record (binding 0, divisor 0) is `eq` to the default
sub-vector, which has no divisor record, but not the other way round. -/
theorem vertexInput_eq_not_symmetric :
    (DxvkGraphicsPipelineVertexInputState.fromState exampleHeaderDecls {}
        (exampleInstanceRateState 3 0) exampleMaskedShader).eq {} = true
    ∧ DxvkGraphicsPipelineVertexInputState.eq {}
        (DxvkGraphicsPipelineVertexInputState.fromState exampleHeaderDecls {}
          (exampleInstanceRateState 3 0) exampleMaskedShader) = false := by
  decide

/-- C19 (defect in the code, the same as for C18). The two sub-vectors derived from the
states that differ in the primitive topology are `eq`, but the values that `hash` feeds
into the hash state differ in the first one, the topology, and with the example hash
state the two hashes differ. -/
theorem vertexInput_eq_with_different_hash :
    (DxvkGraphicsPipelineVertexInputState.fromState exampleHeaderDecls {}
        (exampleInstanceRateState 3 2) exampleMaskedShader).eq
      (DxvkGraphicsPipelineVertexInputState.fromState exampleHeaderDecls {}
        (exampleInstanceRateState 1 2) exampleMaskedShader) = true
    ∧ (DxvkGraphicsPipelineVertexInputState.fromState exampleHeaderDecls {}
        (exampleInstanceRateState 3 2) exampleMaskedShader).hashed
      = [3, 0, 1, 1, 1, 0, 0, 16, 1, 0, 0, 100, 0, 0, 2]
    ∧ (DxvkGraphicsPipelineVertexInputState.fromState exampleHeaderDecls {}
        (exampleInstanceRateState 1 2) exampleMaskedShader).hashed
      = [1, 0, 1, 1, 1, 0, 0, 16, 1, 0, 0, 100, 0, 0, 2]
    ∧ (DxvkGraphicsPipelineVertexInputState.fromState exampleHeaderDecls {}
        (exampleInstanceRateState 3 2) exampleMaskedShader).hash exampleHashState
      ≠ (DxvkGraphicsPipelineVertexInputState.fromState exampleHeaderDecls {}
        (exampleInstanceRateState 1 2) exampleMaskedShader).hash exampleHashState := by
  decide

/-! ## Equality and hash of the FragmentOutput sub-vector -/

/-- A loop that runs while `eq` is true ends with `eq` true exactly when `eq` was true
before and every iteration set it to true. -/
theorem foldl_guard_eq_true (c : Nat → Bool) (l : List Nat) (e0 : Bool) :
    l.foldl (fun eq i => if eq then c i else eq) e0 = true
      ↔ e0 = true ∧ ∀ i ∈ l, c i = true := by
  induction l generalizing e0 with
  | nil => simp
  | cons x rest ih =>
    rw [List.foldl_cons, ih]
    cases e0 <;> simp

/-- What a passing attachment comparison forces: equal `blendEnable` and write mask, and
equal blend factors and operations when blending is enabled. -/
theorem attachmentEq_true (a b : DxvkGraphicsPipelineFragmentOutputState) (i : Nat)
    (h : DxvkGraphicsPipelineFragmentOutputState.attachmentEq a b i = true) :
    (a.attachmentAt i).blendEnable = (b.attachmentAt i).blendEnable
    ∧ (a.attachmentAt i).colorWriteMask = (b.attachmentAt i).colorWriteMask
    ∧ ((a.attachmentAt i).blendEnable ≠ 0 →
        (a.attachmentAt i).srcColorBlendFactor = (b.attachmentAt i).srcColorBlendFactor
        ∧ (a.attachmentAt i).dstColorBlendFactor = (b.attachmentAt i).dstColorBlendFactor
        ∧ (a.attachmentAt i).colorBlendOp = (b.attachmentAt i).colorBlendOp
        ∧ (a.attachmentAt i).srcAlphaBlendFactor = (b.attachmentAt i).srcAlphaBlendFactor
        ∧ (a.attachmentAt i).dstAlphaBlendFactor = (b.attachmentAt i).dstAlphaBlendFactor
        ∧ (a.attachmentAt i).alphaBlendOp = (b.attachmentAt i).alphaBlendOp) := by
  unfold DxvkGraphicsPipelineFragmentOutputState.attachmentEq at h
  dsimp only at h
  by_cases hb : (a.attachmentAt i).blendEnable = 0
  · simp [hb] at h
    exact ⟨by rw [hb]; exact h.1, h.2, fun hne => absurd hb hne⟩
  · by_cases he : ((a.attachmentAt i).blendEnable == (b.attachmentAt i).blendEnable
        && (a.attachmentAt i).colorWriteMask == (b.attachmentAt i).colorWriteMask) = true
    · have he2 := he
      rw [Bool.and_eq_true, beq_iff_eq, beq_iff_eq] at he2
      rw [he] at h
      simp [hb] at h
      exact ⟨he2.1, he2.2, fun _ => ⟨h.1.1.1.1.1, h.1.1.1.1.2, h.1.1.1.2, h.1.1.2, h.1.2, h.2⟩⟩
    · rw [Bool.not_eq_true] at he
      rw [he] at h
      simp at h

/-- The values fed into the hash for one attachment are forced equal by a passing
attachment comparison. -/
theorem attachmentEq_hashed (a b : DxvkGraphicsPipelineFragmentOutputState) (i : Nat)
    (h : DxvkGraphicsPipelineFragmentOutputState.attachmentEq a b i = true) :
    ([ u32 (a.attachmentAt i).blendEnable, u32 (a.attachmentAt i).colorWriteMask ]
      ++ (if (a.attachmentAt i).blendEnable != 0 then
            [ u32 (a.attachmentAt i).srcColorBlendFactor
            , u32 (a.attachmentAt i).dstColorBlendFactor
            , u32 (a.attachmentAt i).colorBlendOp
            , u32 (a.attachmentAt i).srcAlphaBlendFactor
            , u32 (a.attachmentAt i).dstAlphaBlendFactor
            , u32 (a.attachmentAt i).alphaBlendOp ]
          else []))
    = ([ u32 (b.attachmentAt i).blendEnable, u32 (b.attachmentAt i).colorWriteMask ]
      ++ (if (b.attachmentAt i).blendEnable != 0 then
            [ u32 (b.attachmentAt i).srcColorBlendFactor
            , u32 (b.attachmentAt i).dstColorBlendFactor
            , u32 (b.attachmentAt i).colorBlendOp
            , u32 (b.attachmentAt i).srcAlphaBlendFactor
            , u32 (b.attachmentAt i).dstAlphaBlendFactor
            , u32 (b.attachmentAt i).alphaBlendOp ]
          else [])) := by
  obtain ⟨h1, h2, h3⟩ := attachmentEq_true a b i h
  by_cases hb : (a.attachmentAt i).blendEnable = 0
  · have hb2 : (b.attachmentAt i).blendEnable = 0 := by rw [← h1]; exact hb
    simp [hb, hb2, h2]
  · obtain ⟨f1, f2, f3, f4, f5, f6⟩ := h3 hb
    rw [← h1, ← h2, ← f1, ← f2, ← f3, ← f4, ← f5, ← f6]

theorem flatMap_congr_mem {α β : Type} (l : List α) (f g : α → List β)
    (h : ∀ x ∈ l, f x = g x) : l.flatMap f = l.flatMap g := by
  induction l with
  | nil => rfl
  | cons x rest ih =>
    rw [List.flatMap_cons, List.flatMap_cons, h x (List.mem_cons_self x rest),
      ih (fun y hy => h y (List.mem_cons_of_mem x hy))]

/-- Equal FragmentOutput sub-vectors feed the same values into the hash. -/
theorem fragmentOutput_eq_hashed (a b : DxvkGraphicsPipelineFragmentOutputState)
    (h : a.eq b = true) : a.hashed = b.hashed := by
  unfold DxvkGraphicsPipelineFragmentOutputState.eq at h
  dsimp only at h
  rw [foldl_guard_eq_true, foldl_guard_eq_true] at h
  obtain ⟨⟨h0, hfmt⟩, hatt⟩ := h
  simp only [Bool.and_eq_true, beq_iff_eq] at h0
  obtain ⟨⟨⟨⟨⟨⟨⟨⟨⟨⟨⟨⟨c1, c2⟩, c3⟩, c4⟩, c5⟩, c6⟩, c7⟩, _⟩, _⟩, c10⟩, c11⟩, c12⟩, c13⟩ := h0
  unfold DxvkGraphicsPipelineFragmentOutputState.hashed
  rw [← c1, ← c2, ← c3, ← c4, ← c5, ← c6, ← c7, ← c10, ← c11, ← c12, ← c13]
  congr 1
  · congr 1
    apply List.map_congr_left
    intro i hi
    have hf := hfmt i hi
    rw [beq_iff_eq] at hf
    rw [hf]
  · apply flatMap_congr_mem
    intro i hi
    exact attachmentEq_hashed a b i (hatt i hi)

/-- C20. For all FragmentOutput sub-vectors `a` and `b` and every hash state, `a.eq(b)`
implies `a.hash() == b.hash()`: `eq` forces every value that `hash` feeds into the hash
state to be equal (the attachment counts, the depth and stencil formats, the logic op,
the sample count, alpha-to-coverage, alpha-to-one, the sample mask, the
dynamic-blend-constants flag, the first `colorAttachmentCount` formats and, per
attachment, `blendEnable`, the write mask and, when blending is enabled, the six blend
factors and operations). -/
theorem fragmentOutput_eq_implies_hash_eq (hash : DxvkHashState)
    (a b : DxvkGraphicsPipelineFragmentOutputState) (h : a.eq b = true) :
    a.hashed = b.hashed ∧ a.hash hash = b.hash hash := by
  have hh := fragmentOutput_eq_hashed a b h
  refine ⟨hh, ?_⟩
  unfold DxvkGraphicsPipelineFragmentOutputState.hash
  rw [hh]

theorem fragmentOutput_eq_implies_hash_eq_witness :
    (exampleDisabledBlendOutput 3).eq (exampleDisabledBlendOutput 5) = true
    ∧ exampleDisabledBlendOutput 3 ≠ exampleDisabledBlendOutput 5
    ∧ (exampleDisabledBlendOutput 3).hash exampleHashState
      = (exampleDisabledBlendOutput 5).hash exampleHashState
    ∧ exampleBlendOutput.eq exampleBlendOutput = true :=
  ⟨by decide, by decide,
    (fragmentOutput_eq_implies_hash_eq exampleHashState (exampleDisabledBlendOutput 3)
      (exampleDisabledBlendOutput 5) (by decide)).2,
    by decide⟩

/-! ## Dynamic states, global barrier, rasterized stream and sample mask -/

/-- C30. For every pipeline and state, the dynamic-state list that
`createOptimizedPipeline` builds is `VIEWPORT_WITH_COUNT`, `SCISSOR_WITH_COUNT`, then, in
this order, `VERTEX_INPUT_BINDING_STRIDE`, `DEPTH_BIAS`, `DEPTH_BOUNDS`,
`BLEND_CONSTANTS` and `STENCIL_REFERENCE`, each exactly when the state flag of that name
is set, and then `CULL_MODE` and `FRONT_FACE` exactly when the pipeline does not have the
flag `HasRasterizerDiscard`. The list has no duplicates and between 2 and 9 entries. -/
theorem dynamicStates_characterised (this : DxvkGraphicsPipeline)
    (state : DxvkGraphicsPipelineStateInfo) :
    dynamicStates this state
      = [VK_DYNAMIC_STATE_VIEWPORT_WITH_COUNT, VK_DYNAMIC_STATE_SCISSOR_WITH_COUNT]
        ++ (if this.hdr.useDynamicVertexStrides state = true then
              [VK_DYNAMIC_STATE_VERTEX_INPUT_BINDING_STRIDE] else [])
        ++ (if this.hdr.useDynamicDepthBias state = true then
              [VK_DYNAMIC_STATE_DEPTH_BIAS] else [])
        ++ (if this.hdr.useDynamicDepthBounds state = true then
              [VK_DYNAMIC_STATE_DEPTH_BOUNDS] else [])
        ++ (if this.hdr.useDynamicBlendConstants state = true then
              [VK_DYNAMIC_STATE_BLEND_CONSTANTS] else [])
        ++ (if this.hdr.useDynamicStencilRef state = true then
              [VK_DYNAMIC_STATE_STENCIL_REFERENCE] else [])
        ++ (if this.m_flags.HasRasterizerDiscard = true then []
            else [VK_DYNAMIC_STATE_CULL_MODE, VK_DYNAMIC_STATE_FRONT_FACE])
    ∧ (dynamicStates this state).Nodup
    ∧ 2 ≤ (dynamicStates this state).length
    ∧ (dynamicStates this state).length ≤ 9 := by
  unfold dynamicStates
  dsimp only
  generalize this.hdr.useDynamicVertexStrides state = b1
  generalize this.hdr.useDynamicDepthBias state = b2
  generalize this.hdr.useDynamicDepthBounds state = b3
  generalize this.hdr.useDynamicBlendConstants state = b4
  generalize this.hdr.useDynamicStencilRef state = b5
  generalize this.m_flags.HasRasterizerDiscard = b6
  cases b1 <;> cases b2 <;> cases b3 <;> cases b4 <;> cases b5 <;> cases b6 <;> decide

theorem or_and_self_left (a b : Nat) : (a ||| b) &&& a = a := by
  apply Nat.eq_of_testBit_eq
  intro k
  rw [Nat.testBit_and, Nat.testBit_or]
  cases a.testBit k <;> cases b.testBit k <;> rfl

/-- C28. `getGlobalBarrier(state)` is the construction-time barrier `m_barrier` with the
`VERTEX_INPUT` stage bit and the `VERTEX_ATTRIBUTE_READ` access bit added when the
binding count of the state is not zero, and `m_barrier` itself when it is zero; the
result contains every stage and access bit of `m_barrier`. Both added bits have the
value `0x4`. The method is `const` and is a function of the constant members and the state
alone. -/
theorem getGlobalBarrier_characterised (this : DxvkGraphicsPipeline)
    (state : DxvkGraphicsPipelineStateInfo) :
    (state.il.bindingCount ≠ 0 →
      getGlobalBarrier this state
        = { stages := this.m_barrier.stages ||| VK_PIPELINE_STAGE_VERTEX_INPUT_BIT
            access := this.m_barrier.access ||| VK_ACCESS_VERTEX_ATTRIBUTE_READ_BIT })
    ∧ (state.il.bindingCount = 0 → getGlobalBarrier this state = this.m_barrier)
    ∧ (getGlobalBarrier this state).stages &&& this.m_barrier.stages = this.m_barrier.stages
    ∧ (getGlobalBarrier this state).access &&& this.m_barrier.access = this.m_barrier.access
    ∧ (state.il.bindingCount ≠ 0 →
      (getGlobalBarrier this state).stages = this.m_barrier.stages ||| 0x4
      ∧ (getGlobalBarrier this state).access = this.m_barrier.access ||| 0x4) := by
  unfold getGlobalBarrier
  by_cases h : state.il.bindingCount = 0
  · simp [h]
  · simp [h, or_and_self_left]
    exact ⟨rfl, rfl⟩

/-- C27. For every pipeline and state, the PreRasterization sub-vector built from the
geometry shader of the pipeline sets `rasterizerDiscardEnable` exactly when a geometry
shader is present with a negative `xfbRasterizedStream`, which is exactly when the
constructor of the pipeline set the flag `HasRasterizerDiscard`; it chains the
xfb-stream structure, with `rasterizationStream` the stream index, exactly when the
index is positive; without a geometry shader it does neither. -/
theorem preRasterization_rasterized_stream (this : DxvkGraphicsPipeline)
    (state : DxvkGraphicsPipelineStateInfo) :
    ((DxvkGraphicsPipelinePreRasterizationState.fromState this.m_device state
          this.m_shaders.gs).rsInfo.rasterizerDiscardEnable ≠ 0
        ↔ ∃ gs, this.m_shaders.gs = some gs ∧ gs.xfbRasterizedStream < 0)
    ∧ (this.m_flags.HasRasterizerDiscard = true
        ↔ ∃ gs, this.m_shaders.gs = some gs ∧ gs.xfbRasterizedStream < 0)
    ∧ (RasterizationChainEntry.rsXfbStreamInfo
          ∈ (DxvkGraphicsPipelinePreRasterizationState.fromState this.m_device state
              this.m_shaders.gs).rsInfo.pNext
        ↔ ∃ gs, this.m_shaders.gs = some gs ∧ 0 < gs.xfbRasterizedStream)
    ∧ (∀ gs, this.m_shaders.gs = some gs → 0 < gs.xfbRasterizedStream →
        (((DxvkGraphicsPipelinePreRasterizationState.fromState this.m_device state
            this.m_shaders.gs).rsXfbStreamInfo.rasterizationStream : Nat) : Int)
          = gs.xfbRasterizedStream)
    ∧ (this.m_shaders.gs = none →
        (DxvkGraphicsPipelinePreRasterizationState.fromState this.m_device state
            this.m_shaders.gs).rsInfo.rasterizerDiscardEnable = 0
        ∧ RasterizationChainEntry.rsXfbStreamInfo
            ∉ (DxvkGraphicsPipelinePreRasterizationState.fromState this.m_device state
                this.m_shaders.gs).rsInfo.pNext) := by
  unfold DxvkGraphicsPipelinePreRasterizationState.fromState DxvkGraphicsPipeline.m_flags
  dsimp only
  cases hgs : this.m_shaders.gs with
  | none =>
    simp only [Int.lt_irrefl, if_false, gt_iff_lt]
    refine ⟨?_, ?_, ?_, ?_, ?_⟩
    · split <;> split <;> simp [VK_TRUE]
    · simp
    · split <;> split <;> simp
    · intro gs h
      cases h
    · intro _
      constructor
      · split <;> split <;> simp [VK_TRUE]
      · split <;> split <;> simp
  | some gs =>
    simp only [gt_iff_lt]
    rcases Int.lt_trichotomy gs.xfbRasterizedStream 0 with hneg | hzero | hpos
    · have h1 : ¬ (0 < gs.xfbRasterizedStream) := by omega
      simp only [h1, hneg, if_true, if_false]
      refine ⟨?_, ?_, ?_, ?_, ?_⟩
      · split <;> split <;> simp [VK_TRUE, hneg]
      · simp [hneg]
      · split <;> split <;> simp [h1]
      · intro g hg hp
        cases hg
        exact absurd hp h1
      · intro h
        cases h
    · have h1 : ¬ (0 < gs.xfbRasterizedStream) := by omega
      have h2 : ¬ (gs.xfbRasterizedStream < 0) := by omega
      simp only [h1, h2, if_false]
      refine ⟨?_, ?_, ?_, ?_, ?_⟩
      · split <;> split <;> simp [VK_TRUE, h2]
      · simp [h2]
      · split <;> split <;> simp [h1]
      · intro g hg hp
        cases hg
        exact absurd hp h1
      · intro h
        cases h
    · have h2 : ¬ (gs.xfbRasterizedStream < 0) := by omega
      simp only [hpos, if_true]
      refine ⟨?_, ?_, ?_, ?_, ?_⟩
      · split <;> split <;> simp [VK_TRUE, h2]
      · simp [h2]
      · split <;> split <;> simp [hpos]
      · intro g hg _
        cases hg
        split <;> split <;> simp <;> omega
      · intro h
        cases h

/-- Two examples: a geometry shader that rasterizes no stream gives rasterizer discard and
the pipeline flag, and one that rasterizes stream 2 chains the xfb-stream structure with
that stream. -/
theorem preRasterization_examples :
    (DxvkGraphicsPipelinePreRasterizationState.fromState exampleDiscardPipeline.m_device {}
        exampleDiscardPipeline.m_shaders.gs).rsInfo.rasterizerDiscardEnable = VK_TRUE
    ∧ exampleDiscardPipeline.m_flags.HasRasterizerDiscard = true
    ∧ (DxvkGraphicsPipelinePreRasterizationState.fromState exampleStreamPipeline.m_device {}
        exampleStreamPipeline.m_shaders.gs).rsInfo.pNext
        = [RasterizationChainEntry.rsXfbStreamInfo]
    ∧ (DxvkGraphicsPipelinePreRasterizationState.fromState exampleStreamPipeline.m_device {}
        exampleStreamPipeline.m_shaders.gs).rsXfbStreamInfo.rasterizationStream = 2
    ∧ exampleStreamPipeline.m_flags.HasRasterizerDiscard = false := by
  decide

theorem sub32_bit32_one {n : Nat} (h : n < 32) : sub32 (bit32 n) 1 = 2 ^ n - 1 := by
  rw [bit32_of_lt h]
  have h1 : 2 ^ n < 2 ^ 32 := Nat.pow_lt_pow_right (by decide) h
  have h0 : 0 < 2 ^ n := Nat.two_pow_pos n
  have h32 : (2 : Nat) ^ 32 = 4294967296 := by norm_num
  unfold sub32
  rw [h32] at h1 ⊢
  omega

theorem fromState_rasterizationSamples (hdr : HeaderDecls) (device : DxvkDevice)
    (state : DxvkGraphicsPipelineStateInfo) (fs : Option DxvkShader) :
    (DxvkGraphicsPipelineFragmentOutputState.fromState hdr device state
        fs).msInfo.rasterizationSamples = effectiveSampleCount state := by
  unfold DxvkGraphicsPipelineFragmentOutputState.fromState effectiveSampleCount
  dsimp only
  by_cases h1 : state.ms.sampleCount = 0
  · by_cases h2 : state.rs.sampleCount = 0
    · simp [h1, h2, VK_SAMPLE_COUNT_1_BIT]
    · simp [h1, h2]
  · simp [h1]

theorem fromState_msSampleMask (hdr : HeaderDecls) (device : DxvkDevice)
    (state : DxvkGraphicsPipelineStateInfo) (fs : Option DxvkShader) :
    (DxvkGraphicsPipelineFragmentOutputState.fromState hdr device state fs).msSampleMask
      = state.ms.sampleMask &&& sub32 (bit32 (effectiveSampleCount state)) 1 := by
  rw [← fromState_rasterizationSamples hdr device state fs]
  rfl

/-- C26. For every state whose effective rasterization sample count `n`
(`ms.sampleCount` if non-zero, else `rs.sampleCount` if non-zero, else 1) is below 32, in
particular for the valid sample counts 1, 2, 4, 8 and 16, the FragmentOutput sub-vector
stores `rasterizationSamples = n` and the sample mask `ms.sampleMask AND (2^n - 1)`: the
low `n` bits of the mask of the state. -/
theorem fragmentOutput_sample_mask (hdr : HeaderDecls) (device : DxvkDevice)
    (state : DxvkGraphicsPipelineStateInfo) (fs : Option DxvkShader)
    (hn : effectiveSampleCount state < 32) :
    (DxvkGraphicsPipelineFragmentOutputState.fromState hdr device state
        fs).msInfo.rasterizationSamples = effectiveSampleCount state
    ∧ (DxvkGraphicsPipelineFragmentOutputState.fromState hdr device state fs).msSampleMask
      = state.ms.sampleMask &&& (2 ^ effectiveSampleCount state - 1)
    ∧ (DxvkGraphicsPipelineFragmentOutputState.fromState hdr device state fs).msSampleMask
      = state.ms.sampleMask % 2 ^ effectiveSampleCount state := by
  have hm := fromState_msSampleMask hdr device state fs
  rw [sub32_bit32_one hn] at hm
  exact ⟨fromState_rasterizationSamples hdr device state fs, hm,
    hm.trans (Nat.and_pow_two_sub_one_eq_mod _ _)⟩

theorem fragmentOutput_sample_mask_witness :
    effectiveSampleCount exampleFourSampleState = 4
    ∧ (DxvkGraphicsPipelineFragmentOutputState.fromState exampleHeaderDecls {}
        exampleFourSampleState none).msInfo.rasterizationSamples = 4
    ∧ (DxvkGraphicsPipelineFragmentOutputState.fromState exampleHeaderDecls {}
        exampleFourSampleState none).msSampleMask = 0x0F :=
  ⟨by decide,
    (fragmentOutput_sample_mask exampleHeaderDecls {} exampleFourSampleState none
      (by decide)).1.trans (by decide),
    (fragmentOutput_sample_mask exampleHeaderDecls {} exampleFourSampleState none
      (by decide)).2.2.trans (by decide)⟩

/-! ## Undefined shader inputs -/

theorem testBit_foldl_or_any (f : Nat → Nat) (l : List Nat) (m0 n : Nat) :
    (l.foldl (fun mask i => mask ||| f i) m0).testBit n
      = (m0.testBit n || l.any (fun i => (f i).testBit n)) := by
  induction l generalizing m0 with
  | nil => simp
  | cons x rest ih =>
    rw [List.foldl_cons, ih]
    simp [Nat.testBit_or, Bool.or_assoc]

theorem testBit_and_xor (p c k : Nat) :
    ((p &&& c) ^^^ c).testBit k = (c.testBit k && !p.testBit k) := by
  rw [Nat.testBit_xor, Nat.testBit_and]
  cases p.testBit k <;> cases c.testBit k <;> rfl

theorem getShaderCode_undefinedInputs_eq (this : DxvkGraphicsPipeline) (shader : DxvkShader)
    (state : DxvkGraphicsPipelineStateInfo) :
    (getShaderCode this shader state).info.undefinedInputs
      = (providedInputs this shader state &&& shader.inputMask) ^^^ shader.inputMask := by
  unfold getShaderCode
  rfl

/-- C29. For every shader and state, `getShaderCode` passes
`undefinedInputs = inputMask AND NOT providedInputs`, a subset of the input mask of the
shader. For the tessellation control stage `providedInputs` is the output mask of the
vertex shader; for the geometry stage that of the tessellation evaluation shader if
present, else of the vertex shader; for the fragment stage that of the geometry shader
if present, else of the tessellation evaluation shader if present, else of the vertex
shader. For the tessellation evaluation stage the provided mask is the consumed mask and
`undefinedInputs` is 0; for the vertex stage the provided mask is the union of the
location bits of the declared vertex attributes. -/
theorem getShaderCode_undefined_inputs (this : DxvkGraphicsPipeline) (shader : DxvkShader)
    (state : DxvkGraphicsPipelineStateInfo) :
    (∀ k, (getShaderCode this shader state).info.undefinedInputs.testBit k
        = (shader.inputMask.testBit k && !(providedInputs this shader state).testBit k))
    ∧ (getShaderCode this shader state).info.undefinedInputs &&& shader.inputMask
        = (getShaderCode this shader state).info.undefinedInputs
    ∧ (shader.stage = VK_SHADER_STAGE_TESSELLATION_CONTROL_BIT →
        providedInputs this shader state = this.m_shaders.vs.outputMask)
    ∧ (shader.stage = VK_SHADER_STAGE_GEOMETRY_BIT →
        providedInputs this shader state
          = (this.m_shaders.tes.getD this.m_shaders.vs).outputMask)
    ∧ (shader.stage = VK_SHADER_STAGE_FRAGMENT_BIT →
        providedInputs this shader state
          = (this.m_shaders.gs.getD
              (this.m_shaders.tes.getD this.m_shaders.vs)).outputMask)
    ∧ (shader.stage = VK_SHADER_STAGE_TESSELLATION_EVALUATION_BIT →
        providedInputs this shader state = shader.inputMask
        ∧ (getShaderCode this shader state).info.undefinedInputs = 0)
    ∧ (shader.stage = VK_SHADER_STAGE_VERTEX_BIT →
        ∀ k, (providedInputs this shader state).testBit k = true
          ↔ k < 32 ∧ ∃ i, i < state.il.attributeCount
              ∧ (state.ilAttributeAt i).location = k) := by
  have hbits : ∀ k, (getShaderCode this shader state).info.undefinedInputs.testBit k
      = (shader.inputMask.testBit k && !(providedInputs this shader state).testBit k) := by
    intro k
    rw [getShaderCode_undefinedInputs_eq, testBit_and_xor]
  refine ⟨hbits, ?_, ?_, ?_, ?_, ?_, ?_⟩
  · apply Nat.eq_of_testBit_eq
    intro k
    rw [Nat.testBit_and, hbits]
    cases shader.inputMask.testBit k <;> cases (providedInputs this shader state).testBit k <;> rfl
  · intro hs
    unfold providedInputs getPrevStageShader
    rw [hs]
    rfl
  · intro hs
    unfold providedInputs getPrevStageShader
    rw [hs]
    cases this.m_shaders.tes <;> rfl
  · intro hs
    unfold providedInputs getPrevStageShader
    rw [hs]
    cases this.m_shaders.tes <;> cases this.m_shaders.gs <;> rfl
  · intro hs
    have hp : providedInputs this shader state = shader.inputMask := by
      unfold providedInputs
      rw [hs]
      rfl
    refine ⟨hp, ?_⟩
    rw [getShaderCode_undefinedInputs_eq, hp, Nat.and_self, Nat.xor_self]
  · intro hs k
    have hp : providedInputs this shader state
        = (List.range state.il.attributeCount).foldl
            (fun providedInputs i => providedInputs ||| bit32 (state.ilAttributeAt i).location)
            0 := by
      unfold providedInputs
      rw [hs]
      rfl
    rw [hp, testBit_foldl_or_any]
    simp only [Nat.zero_testBit, Bool.false_or, List.any_eq_true, List.mem_range,
      testBit_bit32, decide_eq_true_eq]
    constructor
    · rintro ⟨i, hi, hk, hlt⟩
      exact ⟨hk ▸ hlt, i, hi, hk⟩
    · rintro ⟨hlt, i, hi, hk⟩
      exact ⟨i, hi, hk, hk ▸ hlt⟩

/-! ## The FragmentOutput sub-vector: what the constructor emits -/

/-- One pass of the render-target loop appends the format of the slot and the attachment
entry of the slot, and sets the count to `i + 1` when the format is defined. -/
theorem processRenderTarget_eq (hdr : HeaderDecls) (state : DxvkGraphicsPipelineStateInfo)
    (mask : Nat) (loop : RenderTargetLoop) (i : Nat) :
    processRenderTarget hdr state mask loop i
      = { rtColorFormats := loop.rtColorFormats ++ [state.getColorFormat i]
          colorAttachmentCount :=
            if state.getColorFormat i = VK_FORMAT_UNDEFINED then loop.colorAttachmentCount
            else i + 1
          cbAttachments := loop.cbAttachments ++ [renderTargetAttachment hdr state mask i] } := by
  unfold renderTargetAttachment processRenderTarget
  dsimp only
  by_cases hf : state.getColorFormat i = VK_FORMAT_UNDEFINED
  · simp [hf]
  · cases hl : hdr.lookupFormatInfo (state.getColorFormat i) with
    | none => simp [hf]
    | some info =>
      by_cases hb : mask &&& (1 <<< i) = 0
      · simp [hf, hb]
      · by_cases hw : effectiveWriteMask hdr state i info = 0
        · simp [hf, hb, hw]
        · simp [hf, hb, hw]

/-- The render-target loop over the first `n` slots. -/
theorem processRenderTarget_foldl (hdr : HeaderDecls) (state : DxvkGraphicsPipelineStateInfo)
    (mask : Nat) (n : Nat) :
    ((List.range n).foldl (processRenderTarget hdr state mask) {}).rtColorFormats
        = (List.range n).map state.getColorFormat
    ∧ ((List.range n).foldl (processRenderTarget hdr state mask) {}).cbAttachments
        = (List.range n).map (renderTargetAttachment hdr state mask)
    ∧ ((((List.range n).foldl (processRenderTarget hdr state mask) {}).colorAttachmentCount = 0
          ∧ ∀ i, i < n → state.getColorFormat i = VK_FORMAT_UNDEFINED)
        ∨ ∃ j, j < n
          ∧ ((List.range n).foldl (processRenderTarget hdr state mask) {}).colorAttachmentCount
              = j + 1
          ∧ state.getColorFormat j ≠ VK_FORMAT_UNDEFINED
          ∧ ∀ i, j < i → i < n → state.getColorFormat i = VK_FORMAT_UNDEFINED) := by
  induction n with
  | zero =>
    refine ⟨rfl, rfl, Or.inl ⟨rfl, ?_⟩⟩
    intro i hi
    omega
  | succ n ih =>
    obtain ⟨h1, h2, h3⟩ := ih
    rw [List.range_succ, List.foldl_append, List.foldl_cons, List.foldl_nil,
      processRenderTarget_eq]
    refine ⟨?_, ?_, ?_⟩
    · simp [h1]
    · simp [h2]
    · dsimp only
      by_cases hf : state.getColorFormat n = VK_FORMAT_UNDEFINED
      · rw [if_pos hf]
        rcases h3 with ⟨hc, hall⟩ | ⟨j, hj, hc, hne, hall⟩
        · left
          refine ⟨hc, ?_⟩
          intro i hi
          by_cases hin : i = n
          · rw [hin]; exact hf
          · exact hall i (by omega)
        · right
          refine ⟨j, by omega, hc, hne, ?_⟩
          intro i hji hi
          by_cases hin : i = n
          · rw [hin]; exact hf
          · exact hall i hji (by omega)
      · rw [if_neg hf]
        right
        refine ⟨n, Nat.lt_succ_self n, rfl, hf, ?_⟩
        intro i hni hi
        omega

theorem getD_map_range {α : Type} (f : Nat → α) (n i : Nat) (d : α) (hi : i < n) :
    ((List.range n).map f).getD i d = f i := by
  rw [List.getD_eq_getElem?_getD, List.getElem?_map, List.getElem?_range hi]
  rfl

theorem fromState_colorFormatAt (hdr : HeaderDecls) (device : DxvkDevice)
    (state : DxvkGraphicsPipelineStateInfo) (fs : Option DxvkShader) (i : Nat)
    (hi : i < MaxNumRenderTargets) :
    (DxvkGraphicsPipelineFragmentOutputState.fromState hdr device state fs).colorFormatAt i
      = state.getColorFormat i := by
  unfold DxvkGraphicsPipelineFragmentOutputState.colorFormatAt
    DxvkGraphicsPipelineFragmentOutputState.fromState processRenderTargets
  dsimp only
  rw [(processRenderTarget_foldl hdr state _ _).1]
  exact getD_map_range _ _ _ _ hi

theorem fromState_attachmentAt (hdr : HeaderDecls) (device : DxvkDevice)
    (state : DxvkGraphicsPipelineStateInfo) (fs : Option DxvkShader) (i : Nat)
    (hi : i < MaxNumRenderTargets) :
    (DxvkGraphicsPipelineFragmentOutputState.fromState hdr device state fs).attachmentAt i
      = renderTargetAttachment hdr state (fsOutputMask hdr state fs) i := by
  unfold DxvkGraphicsPipelineFragmentOutputState.attachmentAt
    DxvkGraphicsPipelineFragmentOutputState.fromState processRenderTargets
  dsimp only
  rw [(processRenderTarget_foldl hdr state _ _).2.1]
  exact getD_map_range _ _ _ _ hi

theorem fromState_attachmentCount (hdr : HeaderDecls) (device : DxvkDevice)
    (state : DxvkGraphicsPipelineStateInfo) (fs : Option DxvkShader) :
    (DxvkGraphicsPipelineFragmentOutputState.fromState hdr device state
        fs).cbInfo.attachmentCount
      = (DxvkGraphicsPipelineFragmentOutputState.fromState hdr device state
        fs).rtInfo.colorAttachmentCount := by
  unfold DxvkGraphicsPipelineFragmentOutputState.fromState
  dsimp only
  split
  · rfl
  · rename_i h
    simp at h
    exact h.symm

theorem fromState_colorAttachmentCount (hdr : HeaderDecls) (device : DxvkDevice)
    (state : DxvkGraphicsPipelineStateInfo) (fs : Option DxvkShader) :
    ((DxvkGraphicsPipelineFragmentOutputState.fromState hdr device state
          fs).rtInfo.colorAttachmentCount = 0
        ∧ ∀ i, i < MaxNumRenderTargets → state.getColorFormat i = VK_FORMAT_UNDEFINED)
    ∨ ∃ j, j < MaxNumRenderTargets
      ∧ (DxvkGraphicsPipelineFragmentOutputState.fromState hdr device state
          fs).rtInfo.colorAttachmentCount = j + 1
      ∧ state.getColorFormat j ≠ VK_FORMAT_UNDEFINED
      ∧ ∀ i, j < i → i < MaxNumRenderTargets →
          state.getColorFormat i = VK_FORMAT_UNDEFINED :=
  (processRenderTarget_foldl hdr state (fsOutputMask hdr state fs) MaxNumRenderTargets).2.2

/-- C22. For every state, the FragmentOutput sub-vector records the colour format of
each of the `MaxNumRenderTargets` slots unchanged; `colorAttachmentCount` is the index of
the highest slot whose format is not `UNDEFINED` plus one, or 0 when no slot has a
defined format, and `cbInfo.attachmentCount` equals `colorAttachmentCount`. -/
theorem fragmentOutput_formats_and_count (hdr : HeaderDecls) (device : DxvkDevice)
    (state : DxvkGraphicsPipelineStateInfo) (fs : Option DxvkShader) :
    (∀ i, i < MaxNumRenderTargets →
      (DxvkGraphicsPipelineFragmentOutputState.fromState hdr device state fs).colorFormatAt i
        = state.getColorFormat i)
    ∧ (((DxvkGraphicsPipelineFragmentOutputState.fromState hdr device state
            fs).rtInfo.colorAttachmentCount = 0
          ∧ ∀ i, i < MaxNumRenderTargets → state.getColorFormat i = VK_FORMAT_UNDEFINED)
        ∨ ∃ j, j < MaxNumRenderTargets
          ∧ (DxvkGraphicsPipelineFragmentOutputState.fromState hdr device state
              fs).rtInfo.colorAttachmentCount = j + 1
          ∧ state.getColorFormat j ≠ VK_FORMAT_UNDEFINED
          ∧ ∀ i, j < i → i < MaxNumRenderTargets →
              state.getColorFormat i = VK_FORMAT_UNDEFINED)
    ∧ (DxvkGraphicsPipelineFragmentOutputState.fromState hdr device state
        fs).cbInfo.attachmentCount
      = (DxvkGraphicsPipelineFragmentOutputState.fromState hdr device state
        fs).rtInfo.colorAttachmentCount :=
  ⟨fun i hi => fromState_colorFormatAt hdr device state fs i hi,
    fromState_colorAttachmentCount hdr device state fs,
    fromState_attachmentCount hdr device state fs⟩

theorem and_one_shiftLeft_eq_zero_iff (m i : Nat) :
    m &&& (1 <<< i) = 0 ↔ m.testBit i = false := by
  rw [Nat.one_shiftLeft, Nat.and_two_pow]
  cases m.testBit i <;> simp

/-- The entry of a slot whose format is defined and known, that the shader writes and
whose write mask is not zero. -/
theorem renderTargetAttachment_recorded (hdr : HeaderDecls)
    (state : DxvkGraphicsPipelineStateInfo) (mask i : Nat) (info : DxvkFormatInfo)
    (hf : state.getColorFormat i ≠ VK_FORMAT_UNDEFINED)
    (hl : hdr.lookupFormatInfo (state.getColorFormat i) = some info)
    (hb : mask.testBit i = true)
    (hw : effectiveWriteMask hdr state i info ≠ 0) :
    renderTargetAttachment hdr state mask i
      = recordAttachment hdr state i info (effectiveWriteMask hdr state i info) := by
  have hb2 : ¬ (mask &&& (1 <<< i) = 0) := by
    rw [and_one_shiftLeft_eq_zero_iff, hb]
    simp
  unfold renderTargetAttachment processRenderTarget
  dsimp only
  simp [hf, hl, hb2, hw]

/-- The entry of every other slot keeps its zero value. -/
theorem renderTargetAttachment_zero (hdr : HeaderDecls)
    (state : DxvkGraphicsPipelineStateInfo) (mask i : Nat)
    (h : state.getColorFormat i = VK_FORMAT_UNDEFINED
      ∨ hdr.lookupFormatInfo (state.getColorFormat i) = none
      ∨ mask.testBit i = false
      ∨ ∃ info, hdr.lookupFormatInfo (state.getColorFormat i) = some info
          ∧ effectiveWriteMask hdr state i info = 0) :
    renderTargetAttachment hdr state mask i = {} := by
  unfold renderTargetAttachment processRenderTarget
  dsimp only
  by_cases hf : state.getColorFormat i = VK_FORMAT_UNDEFINED
  · simp [hf]
  · cases hl : hdr.lookupFormatInfo (state.getColorFormat i) with
    | none => simp [hf]
    | some info =>
      by_cases hb : mask &&& (1 <<< i) = 0
      · simp [hf, hb]
      · by_cases hw : effectiveWriteMask hdr state i info = 0
        · simp [hf, hb, hw]
        · exfalso
          rcases h with h | h | h | ⟨info2, h1, h2⟩
          · exact hf h
          · rw [hl] at h
            cases h
          · exact hb ((and_one_shiftLeft_eq_zero_iff mask i).mpr h)
          · rw [hl] at h1
            cases h1
            exact hw h2

/-- The clamped output mask has the bit of a slot exactly when the fragment shader
writes the output and, under dual-source blending, the slot is slot 0. -/
theorem clampedMask_testBit (dual : Bool) (m i : Nat) :
    (if dual = true then m &&& 0x1 else m).testBit i = true
      ↔ m.testBit i = true ∧ (dual = true → i = 0) := by
  by_cases hd : dual = true
  · rw [if_pos hd, Nat.testBit_and]
    have h1 : (1 : Nat).testBit i = decide (0 = i) := @Nat.testBit_two_pow 0 i
    rw [h1]
    simp only [Bool.and_eq_true, decide_eq_true_eq]
    constructor
    · rintro ⟨h, h0⟩
      exact ⟨h, fun _ => h0.symm⟩
    · rintro ⟨h, h0⟩
      exact ⟨h, (h0 hd).symm⟩
  · rw [if_neg hd]
    constructor
    · intro h
      exact ⟨h, fun h2 => absurd h2 hd⟩
    · intro h
      exact h.1

theorem fsOutputMask_testBit (hdr : HeaderDecls) (state : DxvkGraphicsPipelineStateInfo)
    (fs : Option DxvkShader) (i : Nat) :
    (fsOutputMask hdr state fs).testBit i = true
      ↔ ((fs.map (fun (x : DxvkShader) => x.outputMask)).getD 0).testBit i = true
        ∧ (hdr.useDualSourceBlending state = true → i = 0) := by
  cases fs with
  | none => exact clampedMask_testBit (hdr.useDualSourceBlending state) 0 i
  | some fs => exact clampedMask_testBit (hdr.useDualSourceBlending state) fs.outputMask i

/-- The write mask in the words of the specification, for a slot on whose swizzle the
component remapping keeps the full mask RGBA. -/
theorem effectiveWriteMask_eq (hdr : HeaderDecls) (state : DxvkGraphicsPipelineStateInfo)
    (i : Nat) (info : DxvkFormatInfo)
    (hremap : hdr.remapComponentMask rgbaWriteMask (state.omSwizzleAt i) = rgbaWriteMask) :
    effectiveWriteMask hdr state i info
      = if hdr.remapComponentMask (state.omBlendAt i).colorWriteMask (state.omSwizzleAt i)
            &&& info.componentMask = info.componentMask then rgbaWriteMask
        else hdr.remapComponentMask (state.omBlendAt i).colorWriteMask (state.omSwizzleAt i)
            &&& info.componentMask := by
  unfold effectiveWriteMask
  dsimp only
  by_cases hr : (state.omBlendAt i).colorWriteMask = rgbaWriteMask
  · rw [hr, hremap]
    simp
  · simp [hr]

theorem normalizedMask_subset (x cm : Nat) :
    (if (x &&& cm == cm) = true then rgbaWriteMask else x &&& cm) = rgbaWriteMask
      ∨ ((if (x &&& cm == cm) = true then rgbaWriteMask else x &&& cm) &&& cm
            = (if (x &&& cm == cm) = true then rgbaWriteMask else x &&& cm)
          ∧ (if (x &&& cm == cm) = true then rgbaWriteMask else x &&& cm) ≠ cm) := by
  by_cases h : x &&& cm = cm
  · left
    simp [h]
  · right
    have hb : (x &&& cm == cm) = false := by simpa using h
    rw [hb]
    simp only [Bool.false_eq_true, if_false]
    exact ⟨by rw [Nat.and_assoc, Nat.and_self], h⟩

/-- The write mask before the test `if (writeMask)` is RGBA or a strict subset of the
component mask of the format. -/
theorem effectiveWriteMask_subset (hdr : HeaderDecls) (state : DxvkGraphicsPipelineStateInfo)
    (i : Nat) (info : DxvkFormatInfo) :
    effectiveWriteMask hdr state i info = rgbaWriteMask
      ∨ (effectiveWriteMask hdr state i info &&& info.componentMask
            = effectiveWriteMask hdr state i info
          ∧ effectiveWriteMask hdr state i info ≠ info.componentMask) := by
  unfold effectiveWriteMask
  exact normalizedMask_subset _ _

theorem recordAttachment_mask (hdr : HeaderDecls) (state : DxvkGraphicsPipelineStateInfo)
    (i : Nat) (info : DxvkFormatInfo) (writeMask : Nat) :
    (recordAttachment hdr state i info writeMask).colorWriteMask = writeMask
    ∧ (recordAttachment hdr state i info writeMask).blendEnable
        = (state.omBlendAt i).blendEnable.toNat := by
  unfold recordAttachment
  dsimp only
  split <;> exact ⟨rfl, rfl⟩

/-- The alpha-only rewrite of `recordAttachment`. -/
theorem recordAttachment_rewrite (hdr : HeaderDecls) (state : DxvkGraphicsPipelineStateInfo)
    (i : Nat) (info : DxvkFormatInfo) (writeMask : Nat)
    (h : (state.omBlendAt i).blendEnable = true
      ∧ info.componentMask = VK_COLOR_COMPONENT_R_BIT
      ∧ (state.omSwizzleAt i).rIndex = 3) :
    recordAttachment hdr state i info writeMask
      = { blendEnable := 1
          srcColorBlendFactor :=
            hdr.remapAlphaToColorBlendFactor (state.omBlendAt i).srcAlphaBlendFactor
          dstColorBlendFactor :=
            hdr.remapAlphaToColorBlendFactor (state.omBlendAt i).dstAlphaBlendFactor
          colorBlendOp := (state.omBlendAt i).alphaBlendOp
          srcAlphaBlendFactor := VK_BLEND_FACTOR_ONE
          dstAlphaBlendFactor := VK_BLEND_FACTOR_ZERO
          alphaBlendOp := VK_BLEND_OP_ADD
          colorWriteMask := writeMask } := by
  obtain ⟨h1, h2, h3⟩ := h
  unfold recordAttachment DxvkOmAttachmentBlend.state
  simp [h1, h2, h3]

/-- Without the alpha-only rewrite `recordAttachment` keeps the blend state of the
state vector. -/
theorem recordAttachment_keep (hdr : HeaderDecls) (state : DxvkGraphicsPipelineStateInfo)
    (i : Nat) (info : DxvkFormatInfo) (writeMask : Nat)
    (h : ¬ ((state.omBlendAt i).blendEnable = true
      ∧ info.componentMask = VK_COLOR_COMPONENT_R_BIT
      ∧ (state.omSwizzleAt i).rIndex = 3)) :
    recordAttachment hdr state i info writeMask
      = { (state.omBlendAt i).state with colorWriteMask := writeMask } := by
  unfold recordAttachment DxvkOmAttachmentBlend.state
  dsimp only
  by_cases h1 : (state.omBlendAt i).blendEnable = true
  · by_cases h2 : info.componentMask = VK_COLOR_COMPONENT_R_BIT
    · by_cases h3 : (state.omSwizzleAt i).rIndex = 3
      · exact absurd ⟨h1, h2, h3⟩ h
      · simp [h3]
    · simp [h2]
  · simp [h1]

/-- C23. For every slot `i` below `MaxNumRenderTargets` on whose swizzle the component
remapping keeps the full mask RGBA: when the format of the slot is defined with known
format info and the bit of the slot is set in the output mask of the fragment shader
(clamped to bit 0 under dual-source blending), the write mask is the requested colour
write mask remapped through the swizzle and intersected with the component mask of the
format, replaced by RGBA when it equals the component mask; the blend state of the slot
is recorded with that mask only if the mask is not zero, and the mask is RGBA or a strict
subset of the component mask. Every other slot (undefined format, unknown format info,
not written by the shader, any slot from 1 on under dual-source blending) keeps the zero
entry: a zero write mask with blending disabled. -/
theorem fragmentOutput_write_mask (hdr : HeaderDecls) (device : DxvkDevice)
    (state : DxvkGraphicsPipelineStateInfo) (fs : Option DxvkShader) (i : Nat)
    (hi : i < MaxNumRenderTargets)
    (hremap : hdr.remapComponentMask rgbaWriteMask (state.omSwizzleAt i) = rgbaWriteMask) :
    (∀ info, state.getColorFormat i ≠ VK_FORMAT_UNDEFINED →
      hdr.lookupFormatInfo (state.getColorFormat i) = some info →
      (fsOutputMask hdr state fs).testBit i = true →
      (effectiveWriteMask hdr state i info
          = if hdr.remapComponentMask (state.omBlendAt i).colorWriteMask
                (state.omSwizzleAt i) &&& info.componentMask = info.componentMask
            then rgbaWriteMask
            else hdr.remapComponentMask (state.omBlendAt i).colorWriteMask
                (state.omSwizzleAt i) &&& info.componentMask)
      ∧ (effectiveWriteMask hdr state i info ≠ 0 →
          ((DxvkGraphicsPipelineFragmentOutputState.fromState hdr device state
              fs).attachmentAt i).colorWriteMask = effectiveWriteMask hdr state i info
          ∧ ((DxvkGraphicsPipelineFragmentOutputState.fromState hdr device state
              fs).attachmentAt i).blendEnable = (state.omBlendAt i).blendEnable.toNat)
      ∧ (effectiveWriteMask hdr state i info = 0 →
          (DxvkGraphicsPipelineFragmentOutputState.fromState hdr device state
              fs).attachmentAt i = {})
      ∧ (effectiveWriteMask hdr state i info = rgbaWriteMask
          ∨ (effectiveWriteMask hdr state i info &&& info.componentMask
                = effectiveWriteMask hdr state i info
              ∧ effectiveWriteMask hdr state i info ≠ info.componentMask)))
    ∧ ((state.getColorFormat i = VK_FORMAT_UNDEFINED
          ∨ hdr.lookupFormatInfo (state.getColorFormat i) = none
          ∨ (fsOutputMask hdr state fs).testBit i = false) →
        (DxvkGraphicsPipelineFragmentOutputState.fromState hdr device state
            fs).attachmentAt i = {})
    ∧ ((fsOutputMask hdr state fs).testBit i = true
        ↔ ((fs.map (fun (x : DxvkShader) => x.outputMask)).getD 0).testBit i = true
          ∧ (hdr.useDualSourceBlending state = true → i = 0))
    ∧ (hdr.useDualSourceBlending state = true → 1 ≤ i →
        (DxvkGraphicsPipelineFragmentOutputState.fromState hdr device state
            fs).attachmentAt i = {}) := by
  rw [fromState_attachmentAt hdr device state fs i hi]
  refine ⟨?_, ?_, fsOutputMask_testBit hdr state fs i, ?_⟩
  · intro info hf hl hb
    refine ⟨effectiveWriteMask_eq hdr state i info hremap, ?_, ?_,
      effectiveWriteMask_subset hdr state i info⟩
    · intro hw
      rw [renderTargetAttachment_recorded hdr state _ i info hf hl hb hw]
      exact recordAttachment_mask hdr state i info _
    · intro hw
      exact renderTargetAttachment_zero hdr state _ i
        (Or.inr (Or.inr (Or.inr ⟨info, hl, hw⟩)))
  · intro h
    apply renderTargetAttachment_zero
    rcases h with h | h | h
    · exact Or.inl h
    · exact Or.inr (Or.inl h)
    · exact Or.inr (Or.inr (Or.inl h))
  · intro hd h1
    apply renderTargetAttachment_zero
    refine Or.inr (Or.inr (Or.inl ?_))
    rw [← Bool.not_eq_true]
    intro hb
    have h0 := ((fsOutputMask_testBit hdr state fs i).mp hb).2 hd
    omega

theorem fragmentOutput_write_mask_witness :
    0 < MaxNumRenderTargets
    ∧ exampleHeaderDecls.remapComponentMask rgbaWriteMask
        (examplePartialMaskState.omSwizzleAt 0) = rgbaWriteMask
    ∧ ((DxvkGraphicsPipelineFragmentOutputState.fromState exampleHeaderDecls {}
        examplePartialMaskState (some exampleFragmentShader)).attachmentAt 0).colorWriteMask
      = 0x5 :=
  ⟨by decide, by decide,
    (((fragmentOutput_write_mask exampleHeaderDecls {} examplePartialMaskState
      (some exampleFragmentShader) 0 (by decide) (by decide)).1
        { componentMask := 0xF, aspectMask := VK_IMAGE_ASPECT_COLOR_BIT }
        (by decide) (by decide) (by decide)).2.1 (by decide)).1.trans (by decide)⟩

/-- C21 (as stated, refuted). The claim says that under dual-source blending the
attachment count is clamped to 1. With dual-source blending, a fragment shader that
writes the outputs 0 and 1 and two render targets with a defined format, both
`colorAttachmentCount` and `cbInfo.attachmentCount` are 2; the slot 1 keeps a zero write
mask. -/
theorem fragmentOutput_dual_source_count_not_clamped :
    exampleDualSourceHeaderDecls.useDualSourceBlending exampleTwoTargetState = true
    ∧ (DxvkGraphicsPipelineFragmentOutputState.fromState exampleDualSourceHeaderDecls {}
        exampleTwoTargetState (some exampleFragmentShader)).rtInfo.colorAttachmentCount = 2
    ∧ (DxvkGraphicsPipelineFragmentOutputState.fromState exampleDualSourceHeaderDecls {}
        exampleTwoTargetState (some exampleFragmentShader)).cbInfo.attachmentCount = 2
    ∧ ((DxvkGraphicsPipelineFragmentOutputState.fromState exampleDualSourceHeaderDecls {}
        exampleTwoTargetState (some exampleFragmentShader)).attachmentAt 1).colorWriteMask
      = 0 := by
  decide

/-- C21 (amended). For every state that uses dual-source blending and every fragment
shader, the output mask of the fragment shader is clamped to bit 0, so every slot from 1
on keeps the zero entry (zero write mask, blending disabled). The attachment count is not
clamped: `cbInfo.attachmentCount` equals `colorAttachmentCount`, which is at most 1
exactly when no slot from 1 on has a defined format. -/
theorem fragmentOutput_dual_source_clamps_mask (hdr : HeaderDecls) (device : DxvkDevice)
    (state : DxvkGraphicsPipelineStateInfo) (fs : Option DxvkShader)
    (hdual : hdr.useDualSourceBlending state = true) :
    (∀ i, 1 ≤ i → (fsOutputMask hdr state fs).testBit i = false)
    ∧ (∀ i, 1 ≤ i → i < MaxNumRenderTargets →
        (DxvkGraphicsPipelineFragmentOutputState.fromState hdr device state
            fs).attachmentAt i = {})
    ∧ (DxvkGraphicsPipelineFragmentOutputState.fromState hdr device state
        fs).cbInfo.attachmentCount
      = (DxvkGraphicsPipelineFragmentOutputState.fromState hdr device state
        fs).rtInfo.colorAttachmentCount
    ∧ ((DxvkGraphicsPipelineFragmentOutputState.fromState hdr device state
          fs).rtInfo.colorAttachmentCount ≤ 1
        ↔ ∀ i, 1 ≤ i → i < MaxNumRenderTargets →
            state.getColorFormat i = VK_FORMAT_UNDEFINED) := by
  have hbit : ∀ i, 1 ≤ i → (fsOutputMask hdr state fs).testBit i = false := by
    intro i h1
    rw [← Bool.not_eq_true]
    intro hb
    have h0 := ((fsOutputMask_testBit hdr state fs i).mp hb).2 hdual
    omega
  refine ⟨hbit, ?_, fromState_attachmentCount hdr device state fs, ?_⟩
  · intro i h1 hi
    rw [fromState_attachmentAt hdr device state fs i hi]
    exact renderTargetAttachment_zero hdr state _ i (Or.inr (Or.inr (Or.inl (hbit i h1))))
  · rcases fromState_colorAttachmentCount hdr device state fs with
      ⟨hc, hall⟩ | ⟨j, hj, hc, hne, hall⟩
    · rw [hc]
      constructor
      · intro _ i _ hi
        exact hall i hi
      · intro _
        omega
    · rw [hc]
      constructor
      · intro hle i h1 hi
        exact hall i (by omega) hi
      · intro h
        by_cases hj0 : j = 0
        · omega
        · exact absurd (h j (by omega) hj) hne

theorem fragmentOutput_dual_source_clamps_mask_witness :
    exampleDualSourceHeaderDecls.useDualSourceBlending exampleTwoTargetState = true
    ∧ (DxvkGraphicsPipelineFragmentOutputState.fromState exampleDualSourceHeaderDecls {}
        exampleTwoTargetState (some exampleFragmentShader)).attachmentAt 1 = {}
    ∧ ((DxvkGraphicsPipelineFragmentOutputState.fromState exampleDualSourceHeaderDecls {}
        exampleTwoTargetState (some exampleFragmentShader)).attachmentAt 0).colorWriteMask
      = 0xF :=
  ⟨by decide,
    (fragmentOutput_dual_source_clamps_mask exampleDualSourceHeaderDecls {}
      exampleTwoTargetState (some exampleFragmentShader) (by decide)).2.1 1
      (by decide) (by decide),
    by decide⟩

/-- C24. For every recorded render-target slot (defined format with known format info,
written by the shader, write mask not zero): when blending is enabled, the component
mask of the format is exactly R and the swizzle has `rIndex == 3`, the sub-vector has
`srcColorBlendFactor` = the remapped original `srcAlphaBlendFactor`,
`dstColorBlendFactor` = the remapped original `dstAlphaBlendFactor`, `colorBlendOp` = the
original `alphaBlendOp`, `srcAlphaBlendFactor = ONE`, `dstAlphaBlendFactor = ZERO` and
`alphaBlendOp = ADD`; for every other recorded slot the six blend factors and operations
are those of the state. -/
theorem fragmentOutput_alpha_only_rewrite (hdr : HeaderDecls) (device : DxvkDevice)
    (state : DxvkGraphicsPipelineStateInfo) (fs : Option DxvkShader) (i : Nat)
    (info : DxvkFormatInfo) (hi : i < MaxNumRenderTargets)
    (hf : state.getColorFormat i ≠ VK_FORMAT_UNDEFINED)
    (hl : hdr.lookupFormatInfo (state.getColorFormat i) = some info)
    (hb : (fsOutputMask hdr state fs).testBit i = true)
    (hw : effectiveWriteMask hdr state i info ≠ 0) :
    (((state.omBlendAt i).blendEnable = true
        ∧ info.componentMask = VK_COLOR_COMPONENT_R_BIT
        ∧ (state.omSwizzleAt i).rIndex = 3) →
      ((DxvkGraphicsPipelineFragmentOutputState.fromState hdr device state
          fs).attachmentAt i).srcColorBlendFactor
        = hdr.remapAlphaToColorBlendFactor (state.omBlendAt i).srcAlphaBlendFactor
      ∧ ((DxvkGraphicsPipelineFragmentOutputState.fromState hdr device state
          fs).attachmentAt i).dstColorBlendFactor
        = hdr.remapAlphaToColorBlendFactor (state.omBlendAt i).dstAlphaBlendFactor
      ∧ ((DxvkGraphicsPipelineFragmentOutputState.fromState hdr device state
          fs).attachmentAt i).colorBlendOp = (state.omBlendAt i).alphaBlendOp
      ∧ ((DxvkGraphicsPipelineFragmentOutputState.fromState hdr device state
          fs).attachmentAt i).srcAlphaBlendFactor = VK_BLEND_FACTOR_ONE
      ∧ ((DxvkGraphicsPipelineFragmentOutputState.fromState hdr device state
          fs).attachmentAt i).dstAlphaBlendFactor = VK_BLEND_FACTOR_ZERO
      ∧ ((DxvkGraphicsPipelineFragmentOutputState.fromState hdr device state
          fs).attachmentAt i).alphaBlendOp = VK_BLEND_OP_ADD)
    ∧ (¬ ((state.omBlendAt i).blendEnable = true
        ∧ info.componentMask = VK_COLOR_COMPONENT_R_BIT
        ∧ (state.omSwizzleAt i).rIndex = 3) →
      ((DxvkGraphicsPipelineFragmentOutputState.fromState hdr device state
          fs).attachmentAt i).srcColorBlendFactor = (state.omBlendAt i).srcColorBlendFactor
      ∧ ((DxvkGraphicsPipelineFragmentOutputState.fromState hdr device state
          fs).attachmentAt i).dstColorBlendFactor = (state.omBlendAt i).dstColorBlendFactor
      ∧ ((DxvkGraphicsPipelineFragmentOutputState.fromState hdr device state
          fs).attachmentAt i).colorBlendOp = (state.omBlendAt i).colorBlendOp
      ∧ ((DxvkGraphicsPipelineFragmentOutputState.fromState hdr device state
          fs).attachmentAt i).srcAlphaBlendFactor = (state.omBlendAt i).srcAlphaBlendFactor
      ∧ ((DxvkGraphicsPipelineFragmentOutputState.fromState hdr device state
          fs).attachmentAt i).dstAlphaBlendFactor = (state.omBlendAt i).dstAlphaBlendFactor
      ∧ ((DxvkGraphicsPipelineFragmentOutputState.fromState hdr device state
          fs).attachmentAt i).alphaBlendOp = (state.omBlendAt i).alphaBlendOp) := by
  rw [fromState_attachmentAt hdr device state fs i hi,
    renderTargetAttachment_recorded hdr state _ i info hf hl hb hw]
  constructor
  · intro h
    rw [recordAttachment_rewrite hdr state i info _ h]
    exact ⟨rfl, rfl, rfl, rfl, rfl, rfl⟩
  · intro h
    rw [recordAttachment_keep hdr state i info _ h]
    exact ⟨rfl, rfl, rfl, rfl, rfl, rfl⟩

theorem fragmentOutput_alpha_only_rewrite_witness :
    (0 < MaxNumRenderTargets
      ∧ (exampleAlphaOnlyState 6 7 0 1 0 1).getColorFormat 0 ≠ VK_FORMAT_UNDEFINED
      ∧ exampleHeaderDecls.lookupFormatInfo ((exampleAlphaOnlyState 6 7 0 1 0 1).getColorFormat 0)
          = some { componentMask := VK_COLOR_COMPONENT_R_BIT
                   aspectMask := VK_IMAGE_ASPECT_COLOR_BIT }
      ∧ (fsOutputMask exampleHeaderDecls (exampleAlphaOnlyState 6 7 0 1 0 1)
          (some exampleFragmentShader)).testBit 0 = true
      ∧ effectiveWriteMask exampleHeaderDecls (exampleAlphaOnlyState 6 7 0 1 0 1) 0
          { componentMask := VK_COLOR_COMPONENT_R_BIT
            aspectMask := VK_IMAGE_ASPECT_COLOR_BIT } ≠ 0)
    ∧ ((DxvkGraphicsPipelineFragmentOutputState.fromState exampleHeaderDecls {}
        (exampleAlphaOnlyState 6 7 0 1 0 1)
        (some exampleFragmentShader)).attachmentAt 0).colorBlendOp = VK_BLEND_OP_SUBTRACT
    ∧ ((DxvkGraphicsPipelineFragmentOutputState.fromState exampleHeaderDecls {}
        examplePartialMaskState (some exampleFragmentShader)).attachmentAt 0).colorBlendOp
      = (examplePartialMaskState.omBlendAt 0).colorBlendOp :=
  ⟨⟨by decide, by decide, by decide, by decide, by decide⟩,
    ((fragmentOutput_alpha_only_rewrite exampleHeaderDecls {}
      (exampleAlphaOnlyState 6 7 0 1 0 1) (some exampleFragmentShader) 0
      { componentMask := VK_COLOR_COMPONENT_R_BIT, aspectMask := VK_IMAGE_ASPECT_COLOR_BIT }
      (by decide) (by decide) (by decide) (by decide) (by decide)).1
        ⟨by decide, by decide, by decide⟩).2.2.1.trans (by decide),
    ((fragmentOutput_alpha_only_rewrite exampleHeaderDecls {}
      examplePartialMaskState (some exampleFragmentShader) 0
      { componentMask := 0xF, aspectMask := VK_IMAGE_ASPECT_COLOR_BIT }
      (by decide) (by decide) (by decide) (by decide) (by decide)).2
        (by decide)).2.2.1⟩

/-- C25 (as stated, refuted). The claim takes the colour factors `SRC_ALPHA`,
`ONE_MINUS_SRC_ALPHA` and the colour operation `ADD` with any alpha factors and
operation, and expects the remapped colour factors and `colorBlendOp = ADD`. With the
alpha factors `ONE`, `ZERO` and the alpha operation `SUBTRACT` the sub-vector has
`colorBlendOp = SUBTRACT` and the colour factors `ONE` and `ZERO`: the rewrite takes the
colour factors and operation from the alpha factors and operation of the state. -/
theorem fragmentOutput_alpha_only_uses_alpha_factors :
    ((DxvkGraphicsPipelineFragmentOutputState.fromState exampleHeaderDecls {}
        (exampleAlphaOnlyState VK_BLEND_FACTOR_SRC_ALPHA VK_BLEND_FACTOR_ONE_MINUS_SRC_ALPHA
          VK_BLEND_OP_ADD VK_BLEND_FACTOR_ONE VK_BLEND_FACTOR_ZERO VK_BLEND_OP_SUBTRACT)
        (some exampleFragmentShader)).attachmentAt 0)
      = { blendEnable := 1
          srcColorBlendFactor := VK_BLEND_FACTOR_ONE
          dstColorBlendFactor := VK_BLEND_FACTOR_ZERO
          colorBlendOp := VK_BLEND_OP_SUBTRACT
          srcAlphaBlendFactor := VK_BLEND_FACTOR_ONE
          dstAlphaBlendFactor := VK_BLEND_FACTOR_ZERO
          alphaBlendOp := VK_BLEND_OP_ADD
          colorWriteMask := 0xF }
    ∧ VK_BLEND_OP_SUBTRACT ≠ VK_BLEND_OP_ADD
    ∧ VK_BLEND_FACTOR_ONE
        ≠ exampleHeaderDecls.remapAlphaToColorBlendFactor VK_BLEND_FACTOR_SRC_ALPHA := by
  decide

/-- C25 (amended). Alpha-only emulation scenario: for a recorded slot whose format has
the component mask R alone and whose swizzle has `rIndex == 3`, with blending enabled,
the alpha factors `SRC_ALPHA` and `ONE_MINUS_SRC_ALPHA`, the alpha operation `ADD` and
any colour factors and colour operation, the sub-vector has `srcColorBlendFactor` = the
remapped `SRC_ALPHA`, `dstColorBlendFactor` = the remapped `ONE_MINUS_SRC_ALPHA`,
`srcAlphaBlendFactor = ONE`, `dstAlphaBlendFactor = ZERO`, `colorBlendOp = ADD` and
`alphaBlendOp = ADD`. -/
theorem fragmentOutput_alpha_only_scenario (hdr : HeaderDecls) (device : DxvkDevice)
    (state : DxvkGraphicsPipelineStateInfo) (fs : Option DxvkShader) (i : Nat)
    (info : DxvkFormatInfo) (hi : i < MaxNumRenderTargets)
    (hf : state.getColorFormat i ≠ VK_FORMAT_UNDEFINED)
    (hl : hdr.lookupFormatInfo (state.getColorFormat i) = some info)
    (hb : (fsOutputMask hdr state fs).testBit i = true)
    (hw : effectiveWriteMask hdr state i info ≠ 0)
    (hblend : (state.omBlendAt i).blendEnable = true)
    (hmask : info.componentMask = VK_COLOR_COMPONENT_R_BIT)
    (hswz : (state.omSwizzleAt i).rIndex = 3)
    (hsrc : (state.omBlendAt i).srcAlphaBlendFactor = VK_BLEND_FACTOR_SRC_ALPHA)
    (hdst : (state.omBlendAt i).dstAlphaBlendFactor = VK_BLEND_FACTOR_ONE_MINUS_SRC_ALPHA)
    (hop : (state.omBlendAt i).alphaBlendOp = VK_BLEND_OP_ADD) :
    (DxvkGraphicsPipelineFragmentOutputState.fromState hdr device state fs).attachmentAt i
      = { blendEnable := 1
          srcColorBlendFactor := hdr.remapAlphaToColorBlendFactor VK_BLEND_FACTOR_SRC_ALPHA
          dstColorBlendFactor :=
            hdr.remapAlphaToColorBlendFactor VK_BLEND_FACTOR_ONE_MINUS_SRC_ALPHA
          colorBlendOp := VK_BLEND_OP_ADD
          srcAlphaBlendFactor := VK_BLEND_FACTOR_ONE
          dstAlphaBlendFactor := VK_BLEND_FACTOR_ZERO
          alphaBlendOp := VK_BLEND_OP_ADD
          colorWriteMask := effectiveWriteMask hdr state i info } := by
  rw [fromState_attachmentAt hdr device state fs i hi,
    renderTargetAttachment_recorded hdr state _ i info hf hl hb hw,
    recordAttachment_rewrite hdr state i info _ ⟨hblend, hmask, hswz⟩, hsrc, hdst, hop]

theorem fragmentOutput_alpha_only_scenario_witness :
    (DxvkGraphicsPipelineFragmentOutputState.fromState exampleHeaderDecls {}
        (exampleAlphaOnlyState VK_BLEND_FACTOR_ZERO VK_BLEND_FACTOR_ONE VK_BLEND_OP_SUBTRACT
          VK_BLEND_FACTOR_SRC_ALPHA VK_BLEND_FACTOR_ONE_MINUS_SRC_ALPHA VK_BLEND_OP_ADD)
        (some exampleFragmentShader)).attachmentAt 0
      = { blendEnable := 1
          srcColorBlendFactor := VK_BLEND_FACTOR_SRC_COLOR
          dstColorBlendFactor := VK_BLEND_FACTOR_ONE_MINUS_SRC_COLOR
          colorBlendOp := VK_BLEND_OP_ADD
          srcAlphaBlendFactor := VK_BLEND_FACTOR_ONE
          dstAlphaBlendFactor := VK_BLEND_FACTOR_ZERO
          alphaBlendOp := VK_BLEND_OP_ADD
          colorWriteMask := 0xF } :=
  (fragmentOutput_alpha_only_scenario exampleHeaderDecls {}
    (exampleAlphaOnlyState VK_BLEND_FACTOR_ZERO VK_BLEND_FACTOR_ONE VK_BLEND_OP_SUBTRACT
      VK_BLEND_FACTOR_SRC_ALPHA VK_BLEND_FACTOR_ONE_MINUS_SRC_ALPHA VK_BLEND_OP_ADD)
    (some exampleFragmentShader) 0
    { componentMask := VK_COLOR_COMPONENT_R_BIT, aspectMask := VK_IMAGE_ASPECT_COLOR_BIT }
    (by decide) (by decide) (by decide) (by decide) (by decide) (by decide) (by decide)
    (by decide) (by decide) (by decide) (by decide)).trans (by decide)

/-! ## Unused attributes and referential integrity of the VertexInput sub-vector -/

theorem foldl_unguarded_eq_true (c : Nat → Bool) (l : List Nat) (e0 : Bool)
    (h0 : e0 = true) (h : ∀ i ∈ l, c i = true) :
    l.foldl (fun _ i => c i) e0 = true := by
  induction l generalizing e0 with
  | nil => exact h0
  | cons x rest ih =>
    rw [List.foldl_cons]
    exact ih (c x) (h x (List.mem_cons_self x rest))
      (fun i hi => h i (List.mem_cons_of_mem x hi))

/-- A VertexInput sub-vector is `eq` to itself. -/
theorem vertexInput_eq_self (a : DxvkGraphicsPipelineVertexInputState) : a.eq a = true := by
  unfold DxvkGraphicsPipelineVertexInputState.eq
  dsimp only
  apply foldl_unguarded_eq_true
  · rw [foldl_guard_eq_true]
    refine ⟨?_, fun i _ => by simp⟩
    rw [foldl_guard_eq_true]
    exact ⟨by simp, fun i _ => by simp⟩
  · intro i _
    simp

theorem usedBindingMask_congr (s1 s2 : DxvkGraphicsPipelineStateInfo) (attrMask : Nat)
    (hil : s2.il = s1.il)
    (hloc : ∀ j, j < s1.il.attributeCount →
      (s2.ilAttributeAt j).location = (s1.ilAttributeAt j).location)
    (hused : ∀ j, j < s1.il.attributeCount →
      (attrMask &&& bit32 (s1.ilAttributeAt j).location != 0) = true →
      s2.ilAttributeAt j = s1.ilAttributeAt j) :
    usedBindingMask s2 attrMask = usedBindingMask s1 attrMask := by
  unfold usedBindingMask
  rw [hil]
  apply List.foldl_ext
  intro mask j hj
  have hj2 := List.mem_range.mp hj
  rw [hloc j hj2]
  by_cases hu : (attrMask &&& bit32 (s1.ilAttributeAt j).location != 0) = true
  · rw [if_pos hu, if_pos hu, hused j hj2 hu]
  · rw [if_neg hu, if_neg hu]

theorem processVertexBindings_congr (s1 s2 : DxvkGraphicsPipelineStateInfo) (mask : Nat)
    (hil : s2.il = s1.il) (hbind : s2.ilBindings = s1.ilBindings) :
    processVertexBindings s2 mask = processVertexBindings s1 mask := by
  unfold processVertexBindings
  rw [hil]
  apply List.foldl_ext
  intro loop i _
  unfold processVertexBinding DxvkGraphicsPipelineStateInfo.ilBindingAt
  rw [hbind]

theorem processVertexAttributes_congr (s1 s2 : DxvkGraphicsPipelineStateInfo)
    (attrMask : Nat) (viBindingMap : Nat → Nat)
    (hil : s2.il = s1.il)
    (hloc : ∀ j, j < s1.il.attributeCount →
      (s2.ilAttributeAt j).location = (s1.ilAttributeAt j).location)
    (hused : ∀ j, j < s1.il.attributeCount →
      (attrMask &&& bit32 (s1.ilAttributeAt j).location != 0) = true →
      s2.ilAttributeAt j = s1.ilAttributeAt j) :
    processVertexAttributes s2 attrMask viBindingMap
      = processVertexAttributes s1 attrMask viBindingMap := by
  unfold processVertexAttributes
  rw [hil]
  apply List.foldl_ext
  intro acc j hj
  have hj2 := List.mem_range.mp hj
  rw [hloc j hj2]
  by_cases hu : (attrMask &&& bit32 (s1.ilAttributeAt j).location != 0) = true
  · rw [if_pos hu, if_pos hu, hused j hj2 hu]
  · rw [if_neg hu, if_neg hu]

/-- Two states that agree on everything the VertexInput constructor reads give the same
sub-vector. -/
theorem fromState_congr (hdr : HeaderDecls) (device : DxvkDevice)
    (s1 s2 : DxvkGraphicsPipelineStateInfo) (vs : DxvkShader)
    (hia : s2.ia = s1.ia) (hil : s2.il = s1.il) (hbind : s2.ilBindings = s1.ilBindings)
    (hflag : hdr.useDynamicVertexStrides s2 = hdr.useDynamicVertexStrides s1)
    (hloc : ∀ j, j < s1.il.attributeCount →
      (s2.ilAttributeAt j).location = (s1.ilAttributeAt j).location)
    (hused : ∀ j, j < s1.il.attributeCount → attributeUsed s1 vs j = true →
      s2.ilAttributeAt j = s1.ilAttributeAt j) :
    DxvkGraphicsPipelineVertexInputState.fromState hdr device s2 vs
      = DxvkGraphicsPipelineVertexInputState.fromState hdr device s1 vs := by
  have hused2 : ∀ j, j < s1.il.attributeCount →
      (vs.inputMask &&& bit32 (s1.ilAttributeAt j).location != 0) = true →
      s2.ilAttributeAt j = s1.ilAttributeAt j := by
    intro j hj hu
    rw [attributeUsed_iff] at hu
    exact hused j hj hu
  unfold DxvkGraphicsPipelineVertexInputState.fromState
  dsimp only
  rw [usedBindingMask_congr s1 s2 vs.inputMask hil hloc hused2,
    processVertexBindings_congr s1 s2 _ hil hbind,
    processVertexAttributes_congr s1 s2 vs.inputMask _ hil hloc hused2, hia, hflag]

/-- C32. Unused vertex attributes do not influence the VertexInput sub-vector: for every
vertex shader and any two states that agree on the input assembly, on the attribute and
binding counts, on the bindings, on the dynamic-vertex-stride flag, on the location of
every declared attribute and on every declared attribute whose location bit is set in
the input mask (so they may differ in the binding, format and offset of the other
attributes), the two sub-vectors are the same, `eq` holds for them and they have the
same hash, for every hash state. -/
theorem vertexInput_ignores_unused_attributes (hdr : HeaderDecls) (device : DxvkDevice)
    (s1 s2 : DxvkGraphicsPipelineStateInfo) (vs : DxvkShader)
    (hia : s2.ia = s1.ia) (hil : s2.il = s1.il) (hbind : s2.ilBindings = s1.ilBindings)
    (hflag : hdr.useDynamicVertexStrides s2 = hdr.useDynamicVertexStrides s1)
    (hloc : ∀ j, j < s1.il.attributeCount →
      (s2.ilAttributeAt j).location = (s1.ilAttributeAt j).location)
    (hused : ∀ j, j < s1.il.attributeCount → attributeUsed s1 vs j = true →
      s2.ilAttributeAt j = s1.ilAttributeAt j) :
    DxvkGraphicsPipelineVertexInputState.fromState hdr device s1 vs
      = DxvkGraphicsPipelineVertexInputState.fromState hdr device s2 vs
    ∧ (DxvkGraphicsPipelineVertexInputState.fromState hdr device s1 vs).eq
        (DxvkGraphicsPipelineVertexInputState.fromState hdr device s2 vs) = true
    ∧ ∀ hash : DxvkHashState,
        (DxvkGraphicsPipelineVertexInputState.fromState hdr device s1 vs).hash hash
          = (DxvkGraphicsPipelineVertexInputState.fromState hdr device s2 vs).hash hash := by
  have h := fromState_congr hdr device s1 s2 vs hia hil hbind hflag hloc hused
  rw [h]
  exact ⟨rfl, vertexInput_eq_self _, fun _ => rfl⟩

theorem vertexInput_ignores_unused_attributes_witness :
    exampleFourAttributeStateVariant ≠ exampleFourAttributeState
    ∧ (DxvkGraphicsPipelineVertexInputState.fromState exampleHeaderDecls {}
        exampleFourAttributeState exampleMaskedShader).eq
        (DxvkGraphicsPipelineVertexInputState.fromState exampleHeaderDecls {}
          exampleFourAttributeStateVariant exampleMaskedShader) = true
    ∧ (DxvkGraphicsPipelineVertexInputState.fromState exampleHeaderDecls {}
        exampleFourAttributeState exampleMaskedShader).hash exampleHashState
      = (DxvkGraphicsPipelineVertexInputState.fromState exampleHeaderDecls {}
          exampleFourAttributeStateVariant exampleMaskedShader).hash exampleHashState :=
  ⟨by decide,
    (vertexInput_ignores_unused_attributes exampleHeaderDecls {} exampleFourAttributeState
      exampleFourAttributeStateVariant exampleMaskedShader rfl rfl rfl rfl
      (by decide) (by decide)).2.1,
    (vertexInput_ignores_unused_attributes exampleHeaderDecls {} exampleFourAttributeState
      exampleFourAttributeStateVariant exampleMaskedShader rfl rfl rfl rfl
      (by decide) (by decide)).2.2 exampleHashState⟩

theorem exists_last_index (p : Nat → Prop) (n : Nat) (h : ∃ i, i < n ∧ p i) :
    ∃ i, i < n ∧ p i ∧ ∀ k, i < k → k < n → ¬ p k := by
  induction n with
  | zero =>
    obtain ⟨i, hi, _⟩ := h
    omega
  | succ n ih =>
    by_cases hn : p n
    · exact ⟨n, Nat.lt_succ_self n, hn, fun k h1 h2 => by omega⟩
    · obtain ⟨i, hi, hp⟩ := h
      have hin : i < n := by
        rcases Nat.lt_succ_iff_lt_or_eq.mp hi with h1 | h1
        · exact h1
        · rw [h1] at hp
          exact absurd hp hn
      obtain ⟨i0, hi0, hp0, hlast⟩ := ih ⟨i, hin, hp⟩
      refine ⟨i0, by omega, hp0, ?_⟩
      intro k h1 h2
      by_cases hkn : k = n
      · rw [hkn]
        exact hn
      · exact hlast k h1 (by omega)

theorem bindingUsed_of_attribute (state : DxvkGraphicsPipelineStateInfo) (vs : DxvkShader)
    (j i : Nat) (hj : j < state.il.attributeCount) (hu : attributeUsed state vs j = true)
    (hb : (state.ilBindingAt i).binding = (state.ilAttributeAt j).binding) :
    bindingUsed state vs i = true := by
  unfold bindingUsed
  rw [List.any_eq_true]
  exact ⟨j, List.mem_range.mpr hj, by simp [hu, hb]⟩

/-- C33. Referential integrity of the VertexInput sub-vector: for every state whose
declared binding numbers are below 32 and in which each attribute that the vertex shader
consumes names a binding number declared among the first `bindingCount` bindings, the
binding field of every emitted attribute is the binding field of one of the emitted
binding descriptions, namely of the one derived from the last declared binding with
that binding number; the emitted binding numbers are strictly increasing and each is
less than `bindingCount`. -/
theorem vertexInput_referential_integrity (hdr : HeaderDecls) (device : DxvkDevice)
    (state : DxvkGraphicsPipelineStateInfo) (vs : DxvkShader)
    (hbind : ∀ i, i < state.il.bindingCount → (state.ilBindingAt i).binding < 32)
    (href : ∀ j, j < state.il.attributeCount → attributeUsed state vs j = true →
      ∃ i, i < state.il.bindingCount
        ∧ (state.ilBindingAt i).binding = (state.ilAttributeAt j).binding) :
    (∀ a ∈ (DxvkGraphicsPipelineVertexInputState.fromState hdr device state vs).viAttributes,
      ∃ b ∈ (DxvkGraphicsPipelineVertexInputState.fromState hdr device state vs).viBindings,
        b.binding = a.binding)
    ∧ (∀ j, j < state.il.attributeCount → attributeUsed state vs j = true →
        ∃ i, i < state.il.bindingCount
          ∧ (state.ilBindingAt i).binding = (state.ilAttributeAt j).binding
          ∧ (∀ k, i < k → k < state.il.bindingCount →
              (state.ilBindingAt k).binding ≠ (state.ilAttributeAt j).binding)
          ∧ emittedBindingOf state vs (state.ilAttributeAt j).binding = i
          ∧ ({ binding := i
               stride := (state.ilBindingAt i).stride
               inputRate := (state.ilBindingAt i).inputRate } :
              VkVertexInputBindingDescription)
            ∈ (DxvkGraphicsPipelineVertexInputState.fromState hdr device state vs).viBindings)
    ∧ (DxvkGraphicsPipelineVertexInputState.fromState hdr device state vs).viAttributes.map
          (fun a => a.binding)
        = ((List.range state.il.attributeCount).filter (attributeUsed state vs)).map
            (fun j => emittedBindingOf state vs (state.ilAttributeAt j).binding)
    ∧ ((DxvkGraphicsPipelineVertexInputState.fromState hdr device state vs).viBindings.map
          (fun b => b.binding)).Pairwise (fun x y => x < y)
    ∧ (∀ b ∈ (DxvkGraphicsPipelineVertexInputState.fromState hdr device state vs).viBindings,
        b.binding < state.il.bindingCount) := by
  have hvb := fromState_viBindings hdr device state vs hbind
  have hva := fromState_viAttributes hdr device state vs
  have hlast : ∀ j, j < state.il.attributeCount → attributeUsed state vs j = true →
      ∃ i, i < state.il.bindingCount
        ∧ (state.ilBindingAt i).binding = (state.ilAttributeAt j).binding
        ∧ (∀ k, i < k → k < state.il.bindingCount →
            (state.ilBindingAt k).binding ≠ (state.ilAttributeAt j).binding)
        ∧ emittedBindingOf state vs (state.ilAttributeAt j).binding = i
        ∧ ({ binding := i
             stride := (state.ilBindingAt i).stride
             inputRate := (state.ilBindingAt i).inputRate } :
            VkVertexInputBindingDescription)
          ∈ (DxvkGraphicsPipelineVertexInputState.fromState hdr device state vs).viBindings := by
    intro j hj hu
    obtain ⟨i, hi, hb, hl⟩ := exists_last_index
      (fun i => (state.ilBindingAt i).binding = (state.ilAttributeAt j).binding)
      state.il.bindingCount (href j hj hu)
    refine ⟨i, hi, hb, hl, ?_, ?_⟩
    · apply emittedBindingOf_of_last state vs hbind j i hj hu hi hb
      intro k h1 h2
      rw [hb]
      exact hl k h1 h2
    · rw [hvb, List.mem_map]
      exact ⟨i, List.mem_filter.mpr ⟨List.mem_range.mpr hi,
        bindingUsed_of_attribute state vs j i hj hu hb⟩, rfl⟩
  refine ⟨?_, hlast, ?_, ?_, ?_⟩
  · intro a ha
    rw [hva, List.mem_map] at ha
    obtain ⟨j, hj, rfl⟩ := ha
    rw [List.mem_filter] at hj
    obtain ⟨i, _, _, _, he, hmem⟩ := hlast j (List.mem_range.mp hj.1) hj.2
    exact ⟨_, hmem, he.symm⟩
  · rw [hva, List.map_map]
    rfl
  · rw [hvb, List.map_map]
    have hid : ((fun (b : VkVertexInputBindingDescription) => b.binding)
        ∘ fun i => ({ binding := i
                      stride := (state.ilBindingAt i).stride
                      inputRate := (state.ilBindingAt i).inputRate } :
                    VkVertexInputBindingDescription)) = id := by
      funext i
      rfl
    rw [hid, List.map_id]
    exact List.Pairwise.sublist (List.filter_sublist _) (List.pairwise_lt_range _)
  · intro b hb
    rw [hvb, List.mem_map] at hb
    obtain ⟨i, hi, rfl⟩ := hb
    exact List.mem_range.mp (List.mem_filter.mp hi).1

theorem vertexInput_referential_integrity_witness :
    (∀ i, i < exampleSkippedBindingState.il.bindingCount →
        (exampleSkippedBindingState.ilBindingAt i).binding < 32)
    ∧ (DxvkGraphicsPipelineVertexInputState.fromState exampleHeaderDecls {}
          exampleSkippedBindingState exampleMaskedShader).viBindings.map (fun b => b.binding)
        = [1]
    ∧ (DxvkGraphicsPipelineVertexInputState.fromState exampleHeaderDecls {}
          exampleSkippedBindingState exampleMaskedShader).viAttributes.map (fun a => a.binding)
        = [1]
    ∧ ∀ a ∈ (DxvkGraphicsPipelineVertexInputState.fromState exampleHeaderDecls {}
          exampleSkippedBindingState exampleMaskedShader).viAttributes,
        ∃ b ∈ (DxvkGraphicsPipelineVertexInputState.fromState exampleHeaderDecls {}
          exampleSkippedBindingState exampleMaskedShader).viBindings,
          b.binding = a.binding :=
  ⟨by decide, by decide, by decide,
    (vertexInput_referential_integrity exampleHeaderDecls {} exampleSkippedBindingState
      exampleMaskedShader (by decide)
      (fun j hj _ => ⟨1, by decide, by
        have h0 : j = 0 := by
          have h1 : j < 1 := hj
          omega
        rw [h0]
        decide⟩)).1⟩

/-! ## Base eligibility and the patch options of the fragment shader -/

/-- What a true `canCreateBasePipeline(state)` establishes. -/
theorem canCreateBasePipeline_true_parts (this : DxvkGraphicsPipeline)
    (state : DxvkGraphicsPipelineStateInfo)
    (h : canCreateBasePipeline this state = true) :
    (this.m_vsLibrary.isSome = true ∧ this.m_fsLibrary.isSome = true)
    ∧ (∀ fs, this.m_shaders.fs = some fs →
        fragmentShaderBlocksBasePipeline this state fs = false)
    ∧ (∀ i, i < MaxNumRenderTargets → writesRenderTarget this state i = true →
        isIdentityMapping (state.omSwizzleAt i) = true) := by
  unfold canCreateBasePipeline at h
  split at h
  · cases h
  · rename_i h1
    split at h
    · cases h
    · split at h
      · cases h
      · rename_i h3
        refine ⟨?_, ?_, ?_⟩
        · cases hv : this.m_vsLibrary <;> cases hf : this.m_fsLibrary <;>
            simp [hv, hf] at h1 ⊢
        · intro fs hfs
          rw [hfs] at h3
          simpa using h3
        · intro i hi hw
          rw [List.all_eq_true] at h
          have hall := h i (List.mem_range.mpr hi)
          simpa [hw] using hall

theorem getShaderCode_fragment (this : DxvkGraphicsPipeline) (shader : DxvkShader)
    (state : DxvkGraphicsPipelineStateInfo)
    (hs : shader.stage = VK_SHADER_STAGE_FRAGMENT_BIT) :
    (getShaderCode this shader state).info.fsDualSrcBlend
        = this.hdr.useDualSourceBlending state
    ∧ (getShaderCode this shader state).info.rtSwizzles
        = (List.range MaxNumRenderTargets).map (fun i =>
            if writesRenderTarget this state i then some (state.omSwizzleAt i) else none) := by
  unfold getShaderCode
  rw [hs]
  exact ⟨rfl, rfl⟩

/-- C34. Base eligibility implies that the fragment shader needs no per-state patching:
for every pipeline whose fragment shader has the fragment stage and that has no
tessellation evaluation and no geometry shader, and every state with
`canCreateBasePipeline(state) = true`, the patch options that `getShaderCode` computes
for the fragment shader have `undefinedInputs = 0` and `fsDualSrcBlend = false`, and
every render-target swizzle that it assigns is the identity mapping. -/
theorem base_eligible_needs_no_patching (this : DxvkGraphicsPipeline)
    (state : DxvkGraphicsPipelineStateInfo) (fs : DxvkShader)
    (hfs : this.m_shaders.fs = some fs)
    (hstage : fs.stage = VK_SHADER_STAGE_FRAGMENT_BIT)
    (htes : this.m_shaders.tes = none) (hgs : this.m_shaders.gs = none)
    (hcan : canCreateBasePipeline this state = true) :
    (getShaderCode this fs state).info.undefinedInputs = 0
    ∧ (getShaderCode this fs state).info.fsDualSrcBlend = false
    ∧ (∀ i swizzle, (getShaderCode this fs state).info.rtSwizzles.getD i none = some swizzle →
        isIdentityMapping swizzle = true) := by
  obtain ⟨_, hblock, hid⟩ := canCreateBasePipeline_true_parts this state hcan
  obtain ⟨hmask, hdual, _⟩ :=
    (fragmentShaderBlocksBasePipeline_eq_false_iff this state fs).mp (hblock fs hfs)
  obtain ⟨hd, hsw⟩ := getShaderCode_fragment this fs state hstage
  refine ⟨?_, ?_, ?_⟩
  · have hp : providedInputs this fs state = this.m_shaders.vs.outputMask := by
      unfold providedInputs getPrevStageShader
      rw [hstage, htes, hgs]
      rfl
    rw [getShaderCode_undefinedInputs_eq, hp, hmask, Nat.xor_self]
  · rw [hd, hdual]
  · intro i swizzle hget
    rw [hsw] at hget
    by_cases hi : i < MaxNumRenderTargets
    · rw [getD_map_range _ _ _ _ hi] at hget
      by_cases hw : writesRenderTarget this state i = true
      · rw [if_pos hw] at hget
        cases hget
        exact hid i hi hw
      · rw [if_neg hw] at hget
        cases hget
    · rw [List.getD_eq_getElem?_getD, List.getElem?_eq_none] at hget
      · cases hget
      · rw [List.length_map, List.length_range]
        omega

theorem base_eligible_needs_no_patching_witness :
    canCreateBasePipeline exampleEligiblePipeline exampleTwoTargetState = true
    ∧ (getShaderCode exampleEligiblePipeline
        { stage := VK_SHADER_STAGE_FRAGMENT_BIT, inputMask := 0b01, outputMask := 0b01 }
        exampleTwoTargetState).info.undefinedInputs = 0
    ∧ (getShaderCode exampleEligiblePipeline
        { stage := VK_SHADER_STAGE_FRAGMENT_BIT, inputMask := 0b01, outputMask := 0b01 }
        exampleTwoTargetState).info.rtSwizzles.getD 0 none = some {} :=
  ⟨by decide,
    (base_eligible_needs_no_patching exampleEligiblePipeline exampleTwoTargetState
      { stage := VK_SHADER_STAGE_FRAGMENT_BIT, inputMask := 0b01, outputMask := 0b01 }
      rfl rfl rfl rfl (by decide)).1,
    by decide⟩

/-! ## The cached-optimized variant and the shader pipeline libraries -/

/-- The driver requests of `createInstance`: with `doCreateBasePipeline` the cached
compile and the link of the base instance key of the state, without it the compile
without create flags. -/
theorem createInstanceHandles_requests (this : DxvkGraphicsPipeline) (drv : Driver)
    (w : PipelineData) (state : DxvkGraphicsPipelineStateInfo) (b : Bool) :
    ∃ extra, (createInstanceHandles this drv w state b).2.driverCalls = w.driverCalls ++ extra
      ∧ ∀ c ∈ extra,
          (b = true
            ∧ (c = DriverCall.optimized state
                  VK_PIPELINE_CREATE_FAIL_ON_PIPELINE_COMPILE_REQUIRED_BIT
              ∨ c = DriverCall.link (baseInstanceKey this state)))
          ∨ (b = false ∧ c = DriverCall.optimized state 0) := by
  unfold createInstanceHandles
  cases b with
  | false =>
    refine ⟨[DriverCall.optimized state 0], ?_, ?_⟩
    · exact (createOptimizedPipeline_fields drv w state 0).1
    · intro c hc
      exact Or.inr ⟨rfl, List.mem_singleton.mp hc⟩
  | true =>
    simp only [if_true]
    by_cases hcc : this.m_device.canUsePipelineCacheControl = true
    · simp only [hcc, if_true]
      have hopt := (createOptimizedPipeline_fields drv w state
        VK_PIPELINE_CREATE_FAIL_ON_PIPELINE_COMPILE_REQUIRED_BIT).1
      split
      · rcases createBaseInstance_driverCalls drv
          (createOptimizedPipeline drv w state
            VK_PIPELINE_CREATE_FAIL_ON_PIPELINE_COMPILE_REQUIRED_BIT).2
          (baseInstanceKey this state) with h | h
        · refine ⟨[DriverCall.optimized state
            VK_PIPELINE_CREATE_FAIL_ON_PIPELINE_COMPILE_REQUIRED_BIT], ?_, ?_⟩
          · dsimp only
            rw [h, hopt]
          · intro c hc
            exact Or.inl ⟨trivial, Or.inl (List.mem_singleton.mp hc)⟩
        · refine ⟨[DriverCall.optimized state
            VK_PIPELINE_CREATE_FAIL_ON_PIPELINE_COMPILE_REQUIRED_BIT,
            DriverCall.link (baseInstanceKey this state)], ?_, ?_⟩
          · dsimp only
            rw [h, hopt]
            simp
          · intro c hc
            simp only [List.mem_cons, List.mem_singleton, List.not_mem_nil, or_false] at hc
            exact Or.inl ⟨trivial, hc⟩
      · refine ⟨[DriverCall.optimized state
          VK_PIPELINE_CREATE_FAIL_ON_PIPELINE_COMPILE_REQUIRED_BIT], ?_, ?_⟩
        · dsimp only
          rw [hopt]
        · intro c hc
          exact Or.inl ⟨trivial, Or.inl (List.mem_singleton.mp hc)⟩
    · simp only [hcc, Bool.false_eq_true, if_false]
      split
      · rcases createBaseInstance_driverCalls drv w (baseInstanceKey this state) with h | h
        · refine ⟨[], ?_, ?_⟩
          · dsimp only
            rw [h]
            simp
          · intro c hc
            cases hc
        · refine ⟨[DriverCall.link (baseInstanceKey this state)], ?_, ?_⟩
          · dsimp only
            rw [h]
          · intro c hc
            exact Or.inl ⟨trivial, Or.inr (List.mem_singleton.mp hc)⟩
      · exact ⟨[], by simp, fun c hc => by cases hc⟩

/-- On a miss the mutex-protected block of `getPipelineHandle` leaves the containers and
the driver requests as `createInstance` leaves them. -/
theorem getPipelineHandleLocked_fields (this : DxvkGraphicsPipeline) (drv : Driver)
    (w : PipelineData) (state : DxvkGraphicsPipelineStateInfo)
    (hnone : findInstance w state = none) :
    (getPipelineHandleLocked this drv w state).2.m_pipelines
        = (createInstance this drv w state (canCreateBasePipeline this state)).2.m_pipelines
    ∧ (getPipelineHandleLocked this drv w state).2.driverCalls
        = (createInstance this drv w state (canCreateBasePipeline this state)).2.driverCalls
    ∧ (getPipelineHandleLocked this drv w state).2.m_basePipelines
        = (createInstance this drv w state
            (canCreateBasePipeline this state)).2.m_basePipelines := by
  unfold getPipelineHandleLocked
  rw [hnone]
  dsimp only
  unfold writePipelineStateToCache enqueueCompile
  split <;> split <;> exact ⟨rfl, rfl, rfl⟩

theorem guarded_of_createInstance (this : DxvkGraphicsPipeline) (drv : Driver)
    (w : PipelineData) (state : DxvkGraphicsPipelineStateInfo) (b : Bool)
    (hb : b = true → canCreateBasePipeline this state = true) :
    ∃ extra, (createInstance this drv w state b).2.driverCalls = w.driverCalls ++ extra
      ∧ ∀ c ∈ extra, DriverCall.Guarded this c := by
  obtain ⟨extra, hcalls, hextra⟩ := createInstanceHandles_requests this drv w state b
  refine ⟨extra, ?_, ?_⟩
  · rw [(createInstance_instance this drv w state b).2.1, hcalls]
  · intro c hc
    rcases hextra c hc with ⟨hb1, h | h⟩ | ⟨_, h⟩
    · rw [h]
      exact Or.inr ⟨rfl, hb hb1⟩
    · rw [h]
      exact ⟨state, hb hb1, rfl⟩
    · rw [h]
      exact Or.inl rfl

theorem guarded_of_getPipelineHandle (this : DxvkGraphicsPipeline) (drv : Driver)
    (w : PipelineData) (state : DxvkGraphicsPipelineStateInfo) :
    ∃ extra, (getPipelineHandle this drv w state).2.driverCalls = w.driverCalls ++ extra
      ∧ ∀ c ∈ extra, DriverCall.Guarded this c := by
  cases hfind : findInstance w state with
  | some ptr =>
    rw [getPipelineHandle_hit this drv w state ptr hfind]
    exact ⟨[], by simp, fun c hc => by cases hc⟩
  | none =>
    by_cases hval : validatePipelineState this state true = true
    · rw [getPipelineHandle_miss this drv w state hfind hval]
      dsimp only
      rw [(getPipelineHandleLocked_fields this drv w state hfind).2.1]
      exact guarded_of_createInstance this drv w state _ (fun h => h)
    · rw [getPipelineHandle_invalid this drv w state hfind (by simpa using hval)]
      exact ⟨[], by simp, fun c hc => by cases hc⟩

theorem guarded_of_runCalls (this : DxvkGraphicsPipeline) (drv : Driver)
    (calls : List Call) (w : PipelineData)
    (hw : ∀ c ∈ w.driverCalls, DriverCall.Guarded this c) :
    ∀ c ∈ (runCalls this drv calls w).driverCalls, DriverCall.Guarded this c := by
  induction calls generalizing w with
  | nil => exact hw
  | cons call rest ih =>
    unfold runCalls
    rw [List.foldl_cons]
    apply ih
    intro c hc
    cases call with
    | getHandle state =>
      obtain ⟨extra, hcalls, hextra⟩ := guarded_of_getPipelineHandle this drv w state
      simp only [Call.run] at hc
      rw [hcalls, List.mem_append] at hc
      rcases hc with hc | hc
      · exact hw c hc
      · exact hextra c hc
    | compile state =>
      obtain ⟨⟨extra, hcalls, hextra⟩, _⟩ := compilePipeline_requests this drv w state
      simp only [Call.run] at hc
      rw [hcalls, List.mem_append] at hc
      rcases hc with hc | hc
      · exact hw c hc
      · rw [hextra c hc]
        exact Or.inl rfl

/-- With both libraries present no request dereferences a null library. -/
theorem stageInfo_isSome (this : DxvkGraphicsPipeline) (state : DxvkGraphicsPipelineStateInfo)
    (flags : Nat)
    (h : flags = 0 ∨ (this.m_vsLibrary.isSome = true ∧ this.m_fsLibrary.isSome = true)) :
    (stageInfo this state flags).isSome = true := by
  unfold stageInfo
  rcases h with h | ⟨hv, hf⟩
  · rw [h]
    rfl
  · split
    · cases hvl : this.m_vsLibrary with
      | none => rw [hvl] at hv; cases hv
      | some vsLibrary =>
        cases hfl : this.m_fsLibrary with
        | none => rw [hfl] at hf; cases hf
        | some fsLibrary => cases this.m_shaders.fs <;> rfl
    · rfl

theorem libraries_isSome (this : DxvkGraphicsPipeline)
    (key : DxvkGraphicsPipelineBaseInstanceKey)
    (h : this.m_vsLibrary.isSome = true ∧ this.m_fsLibrary.isSome = true) :
    (libraries this key).isSome = true := by
  unfold libraries
  obtain ⟨hv, hf⟩ := h
  cases hvl : this.m_vsLibrary with
  | none => rw [hvl] at hv; cases hv
  | some vsLibrary =>
    cases hfl : this.m_fsLibrary with
    | none => rw [hfl] at hf; cases hf
    | some fsLibrary => rfl

/-- Without the vertex shader library the module-identifier path dereferences a null
library: the guard of the call sites is what excludes it. -/
theorem stageInfo_without_library :
    stageInfo examplePlainPipeline exampleState
        VK_PIPELINE_CREATE_FAIL_ON_PIPELINE_COMPILE_REQUIRED_BIT = none
    ∧ libraries examplePlainPipeline {} = none := by
  decide

/-- C35. The cached-optimized variant is only reached with both shader libraries
present. In every sequence of `getPipelineHandle` and `compilePipeline` calls on a fresh
pipeline, a request `createOptimizedPipeline(state, flags)` with the flag
`FAIL_ON_PIPELINE_COMPILE_REQUIRED` has exactly this flag and a state with
`canCreateBasePipeline(state) = true`, so the vertex and the fragment shader library are
both present; every link of a base pipeline is for the base instance key of such a
state. Hence the stages of every optimized compile and the libraries of every base link
are built without dereferencing a null library. `compilePipeline` and
`createInstance(state, false)` request only compiles without create flags. -/
theorem cached_variant_needs_libraries (this : DxvkGraphicsPipeline) (drv : Driver)
    (calls : List Call) :
    (∀ state flags,
      DriverCall.optimized state flags ∈ (runCalls this drv calls {}).driverCalls →
      (flags &&& VK_PIPELINE_CREATE_FAIL_ON_PIPELINE_COMPILE_REQUIRED_BIT ≠ 0 →
        flags = VK_PIPELINE_CREATE_FAIL_ON_PIPELINE_COMPILE_REQUIRED_BIT
        ∧ canCreateBasePipeline this state = true
        ∧ this.m_vsLibrary.isSome = true ∧ this.m_fsLibrary.isSome = true)
      ∧ (stageInfo this state flags).isSome = true)
    ∧ (∀ key, DriverCall.link key ∈ (runCalls this drv calls {}).driverCalls →
        (∃ state, canCreateBasePipeline this state = true
          ∧ key = baseInstanceKey this state)
        ∧ this.m_vsLibrary.isSome = true ∧ this.m_fsLibrary.isSome = true
        ∧ (libraries this key).isSome = true)
    ∧ (∀ w state, ∃ extra,
        (compilePipeline this drv w state).driverCalls = w.driverCalls ++ extra
        ∧ ∀ c ∈ extra, c = DriverCall.optimized state 0)
    ∧ (∀ w state, ∃ extra,
        (createInstance this drv w state false).2.driverCalls = w.driverCalls ++ extra
        ∧ ∀ c ∈ extra, c = DriverCall.optimized state 0) := by
  have hg := guarded_of_runCalls this drv calls {} (fun c hc => by cases hc)
  refine ⟨?_, ?_, ?_, ?_⟩
  · intro state flags hmem
    have h := hg _ hmem
    simp only [DriverCall.Guarded] at h
    rcases h with h | ⟨h, hcan⟩
    · refine ⟨?_, stageInfo_isSome this state flags (Or.inl h)⟩
      intro hflag
      rw [h] at hflag
      exact absurd rfl hflag
    · have hlib := (canCreateBasePipeline_true_parts this state hcan).1
      exact ⟨fun _ => ⟨h, hcan, hlib.1, hlib.2⟩, stageInfo_isSome this state flags (Or.inr hlib)⟩
  · intro key hmem
    have h := hg _ hmem
    simp only [DriverCall.Guarded] at h
    obtain ⟨state, hcan, hkey⟩ := h
    have hlib := (canCreateBasePipeline_true_parts this state hcan).1
    exact ⟨⟨state, hcan, hkey⟩, hlib.1, hlib.2, libraries_isSome this key hlib⟩
  · intro w state
    exact (compilePipeline_requests this drv w state).1
  · intro w state
    obtain ⟨extra, hcalls, hextra⟩ := createInstanceHandles_requests this drv w state false
    refine ⟨extra, ?_, ?_⟩
    · rw [(createInstance_instance this drv w state false).2.1, hcalls]
    · intro c hc
      rcases hextra c hc with ⟨hb, _⟩ | ⟨_, h⟩
      · cases hb
      · exact h

/-- An example: on the pipeline with both libraries and cache control, a lookup of the
default state requests the cached compile, whose stages are the two module
identifiers. -/
theorem cached_variant_example :
    (getPipelineHandle exampleLibraryPipeline exampleFirstOnlyDriver {}
        exampleState).2.driverCalls
      = [DriverCall.optimized exampleState
          VK_PIPELINE_CREATE_FAIL_ON_PIPELINE_COMPILE_REQUIRED_BIT]
    ∧ stageInfo exampleLibraryPipeline exampleState
        VK_PIPELINE_CREATE_FAIL_ON_PIPELINE_COMPILE_REQUIRED_BIT
      = some [ShaderStageEntry.moduleIdentifier VK_SHADER_STAGE_VERTEX_BIT 0] := by
  decide

/-! ## No handle is lost before destruction -/

theorem mem_compiledHandles_append (drv : Driver) (calls : List DriverCall) (c : DriverCall)
    (h : VkPipeline) :
    h ∈ compiledHandles drv (calls ++ [c])
      ↔ h ∈ compiledHandles drv calls ∨ compiledHandleOf drv calls.length c = some h := by
  unfold compiledHandles
  rw [List.enum_append, List.filterMap_append, List.mem_append]
  simp [List.enumFrom]

theorem mem_linkedHandles_append (drv : Driver) (calls : List DriverCall) (c : DriverCall)
    (h : VkPipeline) :
    h ∈ linkedHandles drv (calls ++ [c])
      ↔ h ∈ linkedHandles drv calls ∨ linkedHandleOf drv calls.length c = some h := by
  unfold linkedHandles
  rw [List.enum_append, List.filterMap_append, List.mem_append]
  simp [List.enumFrom]

/-- The handles after `createOptimizedPipeline`: a new non-null handle of a successful
compile is the handle that the method returns. -/
theorem createOptimizedPipeline_handles (drv : Driver) (w : PipelineData)
    (state : DxvkGraphicsPipelineStateInfo) (flags : Nat) :
    (∀ h ∈ compiledHandles drv (createOptimizedPipeline drv w state flags).2.driverCalls,
      h ≠ VK_NULL_HANDLE →
      h ∈ compiledHandles drv w.driverCalls
        ∨ h = (createOptimizedPipeline drv w state flags).1)
    ∧ (∀ h ∈ linkedHandles drv (createOptimizedPipeline drv w state flags).2.driverCalls,
        h ∈ linkedHandles drv w.driverCalls) := by
  rw [(createOptimizedPipeline_fields drv w state flags).1]
  constructor
  · intro h hmem _
    rw [mem_compiledHandles_append] at hmem
    rcases hmem with hmem | hmem
    · exact Or.inl hmem
    · right
      unfold compiledHandleOf at hmem
      unfold createOptimizedPipeline
      dsimp only at hmem ⊢
      by_cases hs : (drv w.driverCalls.length (DriverCall.optimized state flags)).1 = VK_SUCCESS
      · rw [if_pos hs] at hmem
        simp only [hs, bne_self_eq_false, Bool.false_eq_true, if_false]
        exact (Option.some.inj hmem).symm
      · rw [if_neg hs] at hmem
        cases hmem
  · intro h hmem
    rw [mem_linkedHandles_append] at hmem
    rcases hmem with hmem | hmem
    · exact hmem
    · cases hmem

/-- The handles after `createBaseInstance`. -/
theorem createBaseInstance_handles (drv : Driver) (w : PipelineData)
    (key : DxvkGraphicsPipelineBaseInstanceKey) :
    (∀ h ∈ compiledHandles drv (createBaseInstance drv w key).2.driverCalls,
      h ∈ compiledHandles drv w.driverCalls)
    ∧ (∀ h ∈ linkedHandles drv (createBaseInstance drv w key).2.driverCalls,
        h ∈ linkedHandles drv w.driverCalls
          ∨ h ∈ (createBaseInstance drv w key).2.m_basePipelines.map (fun inst => inst.handle))
    ∧ (∀ h ∈ w.m_basePipelines.map (fun inst => inst.handle),
        h ∈ (createBaseInstance drv w key).2.m_basePipelines.map (fun inst => inst.handle))
    ∧ (createBaseInstance drv w key).1.handle
        ∈ (createBaseInstance drv w key).2.m_basePipelines.map (fun inst => inst.handle) := by
  unfold createBaseInstance
  cases hfind : w.m_basePipelines.find? (fun inst => inst.key == key) with
  | some inst =>
    dsimp only
    refine ⟨fun h hm => hm, fun h hm => Or.inl hm, fun h hm => hm, ?_⟩
    exact List.mem_map.mpr ⟨inst, List.mem_of_find?_eq_some hfind, rfl⟩
  | none =>
    unfold createBasePipeline
    dsimp only
    refine ⟨?_, ?_, ?_, ?_⟩
    · intro h hm
      rw [mem_compiledHandles_append] at hm
      rcases hm with hm | hm
      · exact hm
      · cases hm
    · intro h hm
      rw [mem_linkedHandles_append] at hm
      rcases hm with hm | hm
      · exact Or.inl hm
      · right
        unfold linkedHandleOf at hm
        dsimp only at hm
        rw [List.map_append, List.mem_append]
        right
        rw [← Option.some.inj hm]
        simp
    · intro h hm
      rw [List.map_append, List.mem_append]
      exact Or.inl hm
    · rw [List.map_append, List.mem_append]
      right
      simp

/-- The second half of `createInstance` with `doCreateBasePipeline`: after the cached
compile gave `cached`, the base instance is linked when the cached handle is null. -/
theorem linkAfterCached_handles (drv : Driver) (w : PipelineData)
    (key : DxvkGraphicsPipelineBaseInstanceKey) (cached : VkPipeline × PipelineData)
    (hlink : ∀ h ∈ linkedHandles drv w.driverCalls,
      h ∈ w.m_basePipelines.map (fun inst => inst.handle))
    (hc1 : ∀ h ∈ compiledHandles drv cached.2.driverCalls, h ≠ VK_NULL_HANDLE →
      h ∈ compiledHandles drv w.driverCalls ∨ h = cached.1)
    (hc2 : ∀ h ∈ linkedHandles drv cached.2.driverCalls, h ∈ linkedHandles drv w.driverCalls)
    (hc3 : cached.2.m_basePipelines = w.m_basePipelines) :
    (∀ h ∈ compiledHandles drv
        (if cached.1 == VK_NULL_HANDLE then
          (((createBaseInstance drv cached.2 key).1.handle, cached.1),
            (createBaseInstance drv cached.2 key).2)
        else ((VK_NULL_HANDLE, cached.1), cached.2)).2.driverCalls,
      h ≠ VK_NULL_HANDLE →
      h ∈ compiledHandles drv w.driverCalls
        ∨ h = (if cached.1 == VK_NULL_HANDLE then
          (((createBaseInstance drv cached.2 key).1.handle, cached.1),
            (createBaseInstance drv cached.2 key).2)
        else ((VK_NULL_HANDLE, cached.1), cached.2)).1.2)
    ∧ (∀ h ∈ linkedHandles drv
        (if cached.1 == VK_NULL_HANDLE then
          (((createBaseInstance drv cached.2 key).1.handle, cached.1),
            (createBaseInstance drv cached.2 key).2)
        else ((VK_NULL_HANDLE, cached.1), cached.2)).2.driverCalls,
      h ∈ (if cached.1 == VK_NULL_HANDLE then
          (((createBaseInstance drv cached.2 key).1.handle, cached.1),
            (createBaseInstance drv cached.2 key).2)
        else ((VK_NULL_HANDLE, cached.1), cached.2)).2.m_basePipelines.map
          (fun inst => inst.handle))
    ∧ (∀ h ∈ w.m_basePipelines.map (fun inst => inst.handle),
      h ∈ (if cached.1 == VK_NULL_HANDLE then
          (((createBaseInstance drv cached.2 key).1.handle, cached.1),
            (createBaseInstance drv cached.2 key).2)
        else ((VK_NULL_HANDLE, cached.1), cached.2)).2.m_basePipelines.map
          (fun inst => inst.handle))
    ∧ ((if cached.1 == VK_NULL_HANDLE then
          (((createBaseInstance drv cached.2 key).1.handle, cached.1),
            (createBaseInstance drv cached.2 key).2)
        else ((VK_NULL_HANDLE, cached.1), cached.2)).1.1 ≠ VK_NULL_HANDLE →
      (if cached.1 == VK_NULL_HANDLE then
          (((createBaseInstance drv cached.2 key).1.handle, cached.1),
            (createBaseInstance drv cached.2 key).2)
        else ((VK_NULL_HANDLE, cached.1), cached.2)).1.1
        ∈ (if cached.1 == VK_NULL_HANDLE then
          (((createBaseInstance drv cached.2 key).1.handle, cached.1),
            (createBaseInstance drv cached.2 key).2)
        else ((VK_NULL_HANDLE, cached.1), cached.2)).2.m_basePipelines.map
          (fun inst => inst.handle)) := by
  obtain ⟨hb1, hb2, hb3, hb4⟩ := createBaseInstance_handles drv cached.2 key
  by_cases hnull : (cached.1 == VK_NULL_HANDLE) = true
  · simp only [hnull, if_true]
    refine ⟨?_, ?_, ?_, fun _ => hb4⟩
    · intro h hm hne
      exact hc1 h (hb1 h hm) hne
    · intro h hm
      rcases hb2 h hm with hm2 | hm2
      · apply hb3
        rw [hc3]
        exact hlink h (hc2 h hm2)
      · exact hm2
    · intro h hm
      apply hb3
      rw [hc3]
      exact hm
  · simp only [hnull, Bool.false_eq_true, if_false]
    refine ⟨hc1, ?_, ?_, fun hne => absurd rfl hne⟩
    · intro h hm
      rw [hc3]
      exact hlink h (hc2 h hm)
    · intro h hm
      rw [hc3]
      exact hm

/-- The handles after the driver requests of `createInstance`. -/
theorem createInstanceHandles_handles (this : DxvkGraphicsPipeline) (drv : Driver)
    (w : PipelineData) (state : DxvkGraphicsPipelineStateInfo) (b : Bool)
    (hlink : ∀ h ∈ linkedHandles drv w.driverCalls,
      h ∈ w.m_basePipelines.map (fun inst => inst.handle)) :
    (∀ h ∈ compiledHandles drv (createInstanceHandles this drv w state b).2.driverCalls,
      h ≠ VK_NULL_HANDLE →
      h ∈ compiledHandles drv w.driverCalls
        ∨ h = (createInstanceHandles this drv w state b).1.2)
    ∧ (∀ h ∈ linkedHandles drv (createInstanceHandles this drv w state b).2.driverCalls,
      h ∈ (createInstanceHandles this drv w state b).2.m_basePipelines.map
          (fun inst => inst.handle))
    ∧ (∀ h ∈ w.m_basePipelines.map (fun inst => inst.handle),
      h ∈ (createInstanceHandles this drv w state b).2.m_basePipelines.map
          (fun inst => inst.handle))
    ∧ ((createInstanceHandles this drv w state b).1.1 ≠ VK_NULL_HANDLE →
      (createInstanceHandles this drv w state b).1.1
        ∈ (createInstanceHandles this drv w state b).2.m_basePipelines.map
          (fun inst => inst.handle)) := by
  unfold createInstanceHandles
  cases b with
  | false =>
    simp only [Bool.false_eq_true, if_false]
    obtain ⟨ho1, ho2⟩ := createOptimizedPipeline_handles drv w state 0
    have hf := (createOptimizedPipeline_fields drv w state 0).2.2
    refine ⟨ho1, ?_, ?_, fun hne => absurd rfl hne⟩
    · intro h hm
      rw [hf]
      exact hlink h (ho2 h hm)
    · intro h hm
      rw [hf]
      exact hm
  | true =>
    simp only [if_true]
    by_cases hcc : this.m_device.canUsePipelineCacheControl = true
    · simp only [hcc, if_true]
      obtain ⟨ho1, ho2⟩ := createOptimizedPipeline_handles drv w state
        VK_PIPELINE_CREATE_FAIL_ON_PIPELINE_COMPILE_REQUIRED_BIT
      exact linkAfterCached_handles drv w (baseInstanceKey this state) _ hlink ho1 ho2
        (createOptimizedPipeline_fields drv w state
          VK_PIPELINE_CREATE_FAIL_ON_PIPELINE_COMPILE_REQUIRED_BIT).2.2
    · simp only [hcc, Bool.false_eq_true, if_false]
      exact linkAfterCached_handles drv w (baseInstanceKey this state) (VK_NULL_HANDLE, w)
        hlink (fun h hm _ => Or.inl hm) (fun h hm => hm) rfl

/-- `createInstance` keeps the handle ownership. -/
theorem createInstance_owns (this : DxvkGraphicsPipeline) (drv : Driver)
    (w : PipelineData) (state : DxvkGraphicsPipelineStateInfo) (b : Bool)
    (hown : OwnsHandles drv w) : OwnsHandles drv (createInstance this drv w state b).2 := by
  obtain ⟨h1, h2, h3⟩ := hown
  obtain ⟨hc, hl, hm, hb⟩ := createInstanceHandles_handles this drv w state b h2
  obtain ⟨_, hpipes, _⟩ := createInstance_spec this drv w state b
  obtain ⟨_, hcalls, hbase⟩ := createInstance_instance this drv w state b
  unfold OwnsHandles
  rw [hpipes, hcalls, hbase]
  refine ⟨?_, hl, ?_⟩
  · intro h hmem hne
    rw [List.map_append, List.mem_append]
    rcases hc h hmem hne with hold | hnew
    · exact Or.inl (h1 h hold hne)
    · right
      rw [hnew]
      simp
  · intro h hmem hne
    rw [List.map_append, List.mem_append] at hmem
    rcases hmem with hold | hnew
    · exact hm h (h3 h hold hne)
    · simp only [List.map_cons, List.map_nil, List.mem_singleton] at hnew
      rw [hnew] at hne ⊢
      exact hb hne

theorem instanceAt_mem (w : PipelineData) (ptr : Nat) (h : ptr < w.m_pipelines.length) :
    instanceAt w ptr ∈ w.m_pipelines := by
  rw [instanceAt_eq_getElem w ptr h]
  exact List.getElem_mem h

/-- A non-null fast handle stays in the instance store when fast handles are kept. -/
theorem mem_fastHandles_of_keeps {w w1 : PipelineData} (hk : KeepsFastHandles w w1)
    {h : VkPipeline} (hne : h ≠ VK_NULL_HANDLE)
    (hm : h ∈ w.m_pipelines.map (fun inst => inst.fastHandle)) :
    h ∈ w1.m_pipelines.map (fun inst => inst.fastHandle) := by
  rw [List.mem_map] at hm
  obtain ⟨inst, hinst, hfast⟩ := hm
  obtain ⟨q, hq, hget⟩ := List.mem_iff_getElem.mp hinst
  have hat : instanceAt w q = inst := by
    rw [instanceAt_eq_getElem w q hq, hget]
  have hne2 : (instanceAt w q).fastHandle ≠ VK_NULL_HANDLE := by
    rw [hat, hfast]
    exact hne
  have hsame := hk.2 q hne2
  have hne3 : (instanceAt w1 q).fastHandle ≠ VK_NULL_HANDLE := by
    rw [hsame]
    exact hne2
  rw [List.mem_map]
  refine ⟨instanceAt w1 q, instanceAt_mem w1 q (lt_of_fastHandle_ne hne3), ?_⟩
  rw [hsame, hat, hfast]

theorem map_baseHandle_modify (l : List DxvkGraphicsPipelineInstance)
    (f : DxvkGraphicsPipelineInstance → DxvkGraphicsPipelineInstance)
    (hf : ∀ x, (f x).baseHandle = x.baseHandle) (n : Nat) :
    (l.modify f n).map (fun inst => inst.baseHandle)
      = l.map (fun inst => inst.baseHandle) := by
  apply List.ext_getElem?
  intro i
  simp only [List.getElem?_map, List.getElem?_modify]
  cases l[i]? with
  | none => rfl
  | some x =>
    by_cases h : n = i
    · simp [h, hf]
    · simp [h]

/-- The compile step of `compilePipeline` keeps the handle ownership: it stores the new
handle over a null fast handle. -/
theorem compileInstance_owns (drv : Driver) (w : PipelineData)
    (state : DxvkGraphicsPipelineStateInfo) (ptr : Nat)
    (hown : OwnsHandles drv w) (hfic : FastImpliesCompiling w)
    (hptr : ptr < w.m_pipelines.length) :
    OwnsHandles drv (compileInstance drv w state ptr) := by
  by_cases hic : (instanceAt w ptr).isCompiling = true
  · rw [compileInstance_of_isCompiling drv w state ptr hic]
    exact hown
  · have hic2 : (instanceAt w ptr).isCompiling = false := by simpa using hic
    have hkeep := (compileInstance_keeps drv w state ptr hfic).2
    rw [compileInstance_of_not_isCompiling drv w state ptr hic2] at hkeep ⊢
    obtain ⟨hp, hd, hb, _, _⟩ := afterCompile_spec drv w state ptr hic2
    obtain ⟨h1, h2, h3⟩ := hown
    unfold OwnsHandles
    rw [hd, hb]
    refine ⟨?_, ?_, ?_⟩
    · intro h hmem hne
      rw [mem_compiledHandles_append] at hmem
      rcases hmem with hold | hnew
      · exact mem_fastHandles_of_keeps hkeep hne (h1 h hold hne)
      · have hlen : ptr < (afterCompile drv w state ptr).m_pipelines.length := by
          rw [hp, List.length_modify]
          exact hptr
        have hat := instanceAt_afterCompile drv w state ptr hic2 ptr
        rw [if_pos ⟨rfl, hptr⟩] at hat
        have hch : compiledHandle drv w state = h := by
          unfold compiledHandleOf at hnew
          unfold compiledHandle
          dsimp only at hnew
          by_cases hs : (drv w.driverCalls.length (DriverCall.optimized state 0)).1 = VK_SUCCESS
          · rw [if_pos hs] at hnew
            simp only [hs, bne_self_eq_false, Bool.false_eq_true, if_false]
            exact Option.some.inj hnew
          · rw [if_neg hs] at hnew
            cases hnew
        rw [List.mem_map]
        refine ⟨instanceAt (afterCompile drv w state ptr) ptr,
          instanceAt_mem _ ptr hlen, ?_⟩
        rw [hat]
        exact hch
    · intro h hmem
      rw [mem_linkedHandles_append] at hmem
      rcases hmem with hold | hnew
      · exact h2 h hold
      · cases hnew
    · rw [hp, map_baseHandle_modify w.m_pipelines
        (fun inst => { inst with isCompiling := true, fastHandle := compiledHandle drv w state })
        (fun _ => rfl) ptr]
      exact h3

theorem ownsHandles_congr {drv : Driver} {w w1 : PipelineData}
    (hp : w1.m_pipelines = w.m_pipelines) (hd : w1.driverCalls = w.driverCalls)
    (hb : w1.m_basePipelines = w.m_basePipelines) (hown : OwnsHandles drv w) :
    OwnsHandles drv w1 := by
  unfold OwnsHandles at hown ⊢
  rw [hp, hd, hb]
  exact hown

theorem getPipelineHandle_owns (this : DxvkGraphicsPipeline) (drv : Driver)
    (w : PipelineData) (state : DxvkGraphicsPipelineStateInfo)
    (hown : OwnsHandles drv w) : OwnsHandles drv (getPipelineHandle this drv w state).2 := by
  cases hfind : findInstance w state with
  | some ptr =>
    rw [getPipelineHandle_hit this drv w state ptr hfind]
    exact hown
  | none =>
    by_cases hval : validatePipelineState this state true = true
    · rw [getPipelineHandle_miss this drv w state hfind hval]
      obtain ⟨hp, hd, hb⟩ := getPipelineHandleLocked_fields this drv w state hfind
      exact ownsHandles_congr hp hd hb (createInstance_owns this drv w state _ hown)
    · rw [getPipelineHandle_invalid this drv w state hfind (by simpa using hval)]
      exact hown

theorem compilePipeline_owns (this : DxvkGraphicsPipeline) (drv : Driver)
    (hctor : ∀ st b f, f ≠ VK_NULL_HANDLE → this.hdr.instanceIsCompiling st b f = true)
    (w : PipelineData) (state : DxvkGraphicsPipelineStateInfo)
    (hown : OwnsHandles drv w) (hfic : FastImpliesCompiling w) :
    OwnsHandles drv (compilePipeline this drv w state) := by
  by_cases hcfg : this.m_device.enableGraphicsPipelineLibrary = Tristate.True
  · rw [compilePipeline_disabled this drv w state hcfg]
    exact hown
  · cases hfind : findInstance w state with
    | some ptr =>
      rw [compilePipeline_hit this drv w state ptr hcfg hfind]
      exact compileInstance_owns drv w state ptr hown hfic (findInstance_some_lt hfind)
    | none =>
      by_cases hval : validatePipelineState this state false = true
      · by_cases hcan : canCreateBasePipeline this state = true
        · rw [compilePipeline_abort this drv w state hfind (Or.inr hcan)]
          exact hown
        · rw [compilePipeline_miss this drv w state hcfg hfind hval (by simpa using hcan)]
          apply compileInstance_owns
          · exact createInstance_owns this drv w state false hown
          · exact (createInstance_keeps this drv hctor w state false hfic).1
          · rw [(createInstance_spec this drv w state false).2.1, List.length_append]
            simp
      · rw [compilePipeline_abort this drv w state hfind (Or.inl (by simpa using hval))]
        exact hown

theorem runCalls_owns (this : DxvkGraphicsPipeline) (drv : Driver)
    (hctor : ∀ st b f, f ≠ VK_NULL_HANDLE → this.hdr.instanceIsCompiling st b f = true)
    (calls : List Call) (w : PipelineData)
    (hown : OwnsHandles drv w) (hfic : FastImpliesCompiling w) :
    OwnsHandles drv (runCalls this drv calls w) := by
  induction calls generalizing w with
  | nil => exact hown
  | cons call rest ih =>
    unfold runCalls
    rw [List.foldl_cons]
    cases call with
    | getHandle state =>
      exact ih _ (getPipelineHandle_owns this drv w state hown)
        (getPipelineHandle_keeps this drv hctor w state hfic).1
    | compile state =>
      exact ih _ (compilePipeline_owns this drv hctor w state hown hfic)
        (compilePipeline_keeps this drv hctor w state hfic).1

theorem ownsHandles_empty (drv : Driver) : OwnsHandles drv {} := by
  unfold OwnsHandles
  refine ⟨?_, ?_, ?_⟩ <;> intro h hm <;> cases hm

/-- C31. No pipeline handle that the graphics pipeline creates is lost before
destruction. For an instance constructor that marks an instance with a fast handle as
compiling, after every sequence of `getPipelineHandle` and `compilePipeline` calls on a
fresh pipeline: every handle that a base link returned is the handle of a base instance,
every non-null base handle of an instance is such a handle, and every non-null handle
that a successful optimized compile returned is the fast handle of an instance; so the
destructor, which destroys the fast handle of each instance and the handle of each base
instance, destroys every one of these handles. -/
theorem handles_never_lost (this : DxvkGraphicsPipeline) (drv : Driver)
    (hctor : ∀ st b f, f ≠ VK_NULL_HANDLE → this.hdr.instanceIsCompiling st b f = true)
    (calls : List Call) :
    (∀ h ∈ linkedHandles drv (runCalls this drv calls {}).driverCalls,
      h ∈ (runCalls this drv calls {}).m_basePipelines.map (fun inst => inst.handle))
    ∧ (∀ inst ∈ (runCalls this drv calls {}).m_pipelines,
        inst.baseHandle ≠ VK_NULL_HANDLE →
        inst.baseHandle
          ∈ (runCalls this drv calls {}).m_basePipelines.map (fun inst => inst.handle))
    ∧ (∀ h ∈ compiledHandles drv (runCalls this drv calls {}).driverCalls,
        h ≠ VK_NULL_HANDLE →
        h ∈ (runCalls this drv calls {}).m_pipelines.map (fun inst => inst.fastHandle))
    ∧ (∀ h, h ≠ VK_NULL_HANDLE →
        (h ∈ compiledHandles drv (runCalls this drv calls {}).driverCalls
          ∨ h ∈ linkedHandles drv (runCalls this drv calls {}).driverCalls) →
        h ∈ destructor (runCalls this drv calls {})) := by
  obtain ⟨h1, h2, h3⟩ := runCalls_owns this drv hctor calls {} (ownsHandles_empty drv)
    FastImpliesCompiling_empty
  refine ⟨h2, ?_, h1, ?_⟩
  · intro inst hinst hne
    exact h3 inst.baseHandle (List.mem_map.mpr ⟨inst, hinst, rfl⟩) hne
  · intro h hne hmem
    unfold destructor
    rw [List.mem_append]
    rcases hmem with hc | hl
    · exact Or.inl (h1 h hc hne)
    · exact Or.inr (h2 h hl)

theorem handles_never_lost_witness :
    (∀ st b f, f ≠ VK_NULL_HANDLE →
      exampleLibraryPipeline.hdr.instanceIsCompiling st b f = true)
    ∧ compiledHandles exampleDriver
        (runCalls exampleLibraryPipeline exampleDriver exampleLookupThenCompile
          {}).driverCalls = [100]
    ∧ (100 : VkPipeline)
        ∈ destructor (runCalls exampleLibraryPipeline exampleDriver exampleLookupThenCompile {}) :=
  ⟨fun _ _ f hf => by simpa [exampleLibraryPipeline, exampleHeaderDecls] using hf, by decide,
    (handles_never_lost exampleLibraryPipeline exampleDriver
      (fun _ _ f hf => by simpa [exampleLibraryPipeline, exampleHeaderDecls] using hf)
      exampleLookupThenCompile).2.2.2 100 (by decide) (Or.inl (by decide))⟩

/-- The hypothesis of `handles_never_lost` on the instance constructor cannot be dropped:
with a constructor that always clears `isCompiling`, the lookup obtains the handle 100
from the cached compile, the following `compilePipeline` compiles again and stores the
handle 101 over it, and the destructor no longer destroys the handle 100. -/
theorem handle_lost_when_constructor_clears_flag :
    compiledHandles exampleDriver
        (runCalls exampleLibraryPipelineClearFlag exampleDriver exampleLookupThenCompile
          {}).driverCalls = [100, 101]
    ∧ destructor (runCalls exampleLibraryPipelineClearFlag exampleDriver
        exampleLookupThenCompile {}) = [101] := by
  decide

end dxvk
